import Mathlib

/-!
The Device Link protocol engine of hackerpet: `HubInterface`

A shallow embedding of `src/src/hackerpet.cpp` / `src/src/hackerpet.h`.

* A `char` is a natural number (a byte, 0..255); a `char` buffer is the list of
  bytes stored in it from index 0 on.  A C string is the part of such a list
  before its first NUL byte.
* `unsigned long` time stamps are natural numbers below `2 ^ 32`; every function
  that reads `millis()` takes the value read as the argument `now`, and sums and
  differences of time stamps are reduced modulo `2 ^ 32` as in the C++ code.
* The engine object is the record `Hub`; a member function is a function from
  `Hub` (and its arguments) to its return value and the new `Hub`.
* `Serial1` is part of the record: `serial_rx` are the bytes waiting to be read,
  `serial_tx` the frames handed to `Serial1.write` so far.
-/

namespace HackerPet

/-! ## C strings and `sprintf` -/

/-- Macro `MAX_LEN_REPLY_BUFFER`: the size of a message buffer. -/
def MAX_LEN_REPLY_BUFFER : Nat := 64

/-- Macro `STR_CARRIAGE_RETURN`, defined as 0 in hackerpet.h. -/
def STR_CARRIAGE_RETURN : Nat := 0

/-- The C string stored at the start of a buffer: the bytes before the first NUL. -/
def cstr (buf : List Nat) : List Nat := buf.takeWhile (fun b => b != 0)

/-- C `strlen(buf)`. -/
def strlen (buf : List Nat) : Nat := (cstr buf).length

/-- Read `buf[i]`. -/
def byteAt (buf : List Nat) (i : Nat) : Nat := buf.getD i 0

/-- Decimal digits of `n` (ASCII), most significant first, prepended to `acc`. -/
def decDigitsAux : Nat → Nat → List Nat → List Nat
  | 0, _, acc => acc
  | fuel + 1, n, acc =>
    if n < 10 then (48 + n) :: acc
    else decDigitsAux fuel (n / 10) ((48 + n % 10) :: acc)

/-- What `%d` prints for a non-negative value. -/
def fmt_d (n : Nat) : List Nat := decDigitsAux (n + 1) n []

/-- What `%0wd` prints for a non-negative value: `%d`, zero-padded on the left to
at least `w` characters. -/
def fmt_0d (w : Nat) (n : Nat) : List Nat :=
  List.replicate (w - (fmt_d n).length) 48 ++ fmt_d n

/-- Arduino / Particle `map(value, fromStart, fromEnd, toStart, toEnd)` on
non-negative arguments with `fromStart = toStart = 0` (the only way the engine
calls it): `value * toEnd / fromEnd`, or `value` when `fromEnd` is 0. -/
def map0 (value fromEnd toEnd : Nat) : Nat :=
  if fromEnd = 0 then value else value * toEnd / fromEnd

/-! ## Constants of `class HubInterface` -/

def DLINIT_WAIT_BOOT : Nat := 1
def DLINIT_SEND : Nat := 2
def DLINIT_PROCESS : Nat := 3

def ARS_BEFORE_REPLAY : Nat := 1
def ARS_DURING_REPLAY : Nat := 2

def CONFIG_INIT_BOOTUP : Nat := 0
def CONFIG_INIT_GET : Nat := 1
def CONFIG_INIT_WAIT_GET : Nat := 2
def CONFIG_INIT_SET : Nat := 3
def CONFIG_INIT_DONE : Nat := 4

def PACT_BEFORE_PRESENT : Nat := 10
def PACT_PLATTER_OUT : Nat := 11
def PACT_WAIT_TIL_BACK : Nat := 12
def PACT_WAIT_DIAG : Nat := 13
def PACT_RESPONSE_FOODTREAT_NOT_TAKEN : Nat := 0
def PACT_RESPONSE_FOODTREAT_TAKEN : Nat := 1

def FOODMACHINE_LID_OPEN : Nat := 0
def FOODMACHINE_MOVING_HOME : Nat := 1
def FOODMACHINE_CHECK : Nat := 2
def FOODMACHINE_DISPENSING : Nat := 3
def FOODMACHINE_IDLE : Nat := 4
def FOODMACHINE_MOVING_PRESENT : Nat := 5
def FOODMACHINE_WAIT : Nat := 6
def FOODMACHINE_MOVING_REMOVE : Nat := 7
def FOODMACHINE_PLATTER_ERROR_CODE : Nat := 8
def FOODMACHINE_SINGULATOR_ERROR_CODE : Nat := 9
def FOODMACHINE_FOODTREAT_ERROR_CODE : Nat := 17

def LIGHT_LEFT : Nat := 1
def LIGHT_MIDDLE : Nat := 2
def LIGHT_RIGHT : Nat := 4
def LIGHT_CUE : Nat := 8
def LIGHT_BTNS : Nat := 7
def LIGHT_ALL : Nat := 15
def BUTTON_LEFT : Nat := LIGHT_LEFT
def BUTTON_MIDDLE : Nat := LIGHT_MIDDLE
def BUTTON_RIGHT : Nat := LIGHT_RIGHT

def LEFT_THRESHOLD : Int := 29
def MIDDLE_THRESHOLD : Int := 30
def RIGHT_THRESHOLD : Int := 30
def TRAY_SPEED : Int := 14
def TRAY_CURRENT_THRESHOLD : Int := 200
def FOODTREAT_TX_POWER_LEVEL : Int := 0
def FOODTREAT_DETECT_THRESHOLD : Int := 60
def PLATTER_MOTOR_MAX_DUTY_CYCLE : Int := 100
def PLATTER_MOTOR_MAX_PWM_COUNTER : Int := 16

def IL_DLI_NULL : Nat := 0
def IL_DLI_JAM : Nat := 1
def IL_DLI_OOF : Nat := 2
def IL_DLI_JAM_ERROR : Nat := 3

def STATE_BEFORE_SEND : Nat := 1
def STATE_AFTER_SEND_BEFORE_RCV : Nat := 2
def STATE_AFTER_RCV_BEFORE_PROCESS : Nat := 3

def MAX_CMD_SEND_RETRIES : Nat := 3
def ERROR_CMD_QUEUE_FULL : Nat := 1
def ERROR_CMD_RECEIVED_BAD_START : Nat := 2
def ERROR_CMD_RECEIVED_TOO_SHORT : Nat := 3
def ERROR_CMD_RECEIVED_BAD_NUM_ARGS : Nat := 4
def ERROR_CMD_RECEIVED_TOO_LONG : Nat := 5

def AUDIO_ENTICE : Nat := 1
def AUDIO_POSITIVE : Nat := 2
def AUDIO_DO : Nat := 3
def AUDIO_CLICK : Nat := 4
def AUDIO_SQUEAK : Nat := 5
def AUDIO_NEGATIVE : Nat := 6
def AUDIO_L : Nat := 7
def AUDIO_M : Nat := 8
def AUDIO_R : Nat := 9

/-- Time stamps are `unsigned long`: 32 bits. -/
def ULONG : Nat := 4294967296

/-- A `dlimsg_t`: the bytes of its `buf`, from index 0 up to and including the
NUL that ends the string written into it.  `buf` has `MAX_LEN_REPLY_BUFFER`
(64) bytes, so the list has at most that many; a `buf` that holds no NUL is the
list of all its 64 bytes. -/
abbrev dlimsg_t := List Nat

/-! ## The engine state -/

/-- The data members of `class HubInterface` (hackerpet.h), with `Serial1`. -/
structure Hub where
  _bootup_time : Nat
  _config_init_delay : Nat
  _config_init_state : Nat
  _time_left_button_pressed : Nat
  _time_middle_button_pressed : Nat
  _time_right_button_pressed : Nat
  _get_config_done : Bool
  _num_config_values_recvd : Int
  _left_from_dl : Int
  _middle_from_dl : Int
  _right_from_dl : Int
  _tray_speed_pwm_from_dl : Int
  _tray_current_threshold_from_dl : Int
  _foodtreat_tx_power_level_from_dl : Int
  _foodtreat_detect_threshold_from_dl : Int
  _platter_stuck : Bool
  _platter_error_count : Int
  _current_ilstate : Nat
  _max_platter_error_count : Int
  _cmd_queue : List dlimsg_t
  _dl_reply_queue : List dlimsg_t
  _error_code : Nat
  _reply_buffer : List Nat
  _len_reply_buffer : Nat
  _packet_number : Nat
  _run_loop_state : Nat
  _num_send_retries : Nat
  _max_num_send_retries : Nat
  _start_listen : Nat
  _max_listen_time : Nat
  _dl_is_ready : Bool
  _init_dl_state : Nat
  _wait_dl_boot_ms : Nat
  _init_dl_start : Nat
  _init_dl_process_ms : Nat
  _do_poll_diag : Bool
  _last_diag_request_ms : Nat
  _last_diag_update_ms : Nat
  _diag_check_rest_ms : Nat
  _do_poll_buttons : Bool
  _last_btn_poll_ms : Nat
  _diag_btn_poll_rest_ms : Nat
  _do_poll_indlight : Bool
  _last_indlight_poll_ms : Nat
  _diag_indlight_rest_ms : Nat
  _dome_open_int : Int
  _dome_open : Bool
  _foodmachine_state : Nat
  _previous_foodtreat_taken : Bool
  _hub_out_of_food : Bool
  _platter_error : Bool
  _singulator_error : Bool
  _need_foodtreat_reset : Bool
  _pact_foodtreat_state : Nat
  _foodtreat_presented_time : Nat
  _foodtreat_retracted_time : Nat
  _pact_platter_return_time : Nat
  _indefinite_tray_presentation : Bool
  _platter_error_start_ms : Nat
  _platter_error_reset_wait : Nat
  _want_tray_closed : Bool
  _audio_enabled : Bool
  _button_audio_mute : Bool
  _audio_amplitude_max : Nat
  _ars_state : Nat
  _audio_replay_window_start : Nat
  _audio_replay_window : Nat
  _light_enabled : Bool
  _light_amplitude_max : Nat
  _button_liftoff_ms : Nat
  _left_baseline : Nat
  _midd_baseline : Nat
  _right_baseline : Nat
  _left_read : Nat
  _midd_read : Nat
  _right_read : Nat
  _l_button_state : Bool
  _m_button_state : Bool
  _r_button_state : Bool
  _l_button_timeout : Nat
  _m_button_timeout : Nat
  _r_button_timeout : Nat
  _button_audio_enabled : Bool
  _button_audio_amplitude : Nat
  _csf_detect_integration_left : Nat
  _csf_timer_max_left : Nat
  _csf_detect_integration_middle : Nat
  _csf_timer_max_middle : Nat
  _csf_detect_integration_right : Nat
  _csf_timer_max_right : Nat
  _csf_integration_thresh : Nat
  _csf_max_on_duration : Nat
  /-- The `float _csf_hysteresis = 0.5`, held exactly as numerator and denominator. -/
  _csf_hysteresis : Nat × Nat
  _csf_DI_reset_locked : Bool
  _csf_needs_DI_reset : Bool
  _csf_DI_reset_sent : Bool
  _csf_last_DI_reset_millis : Nat
  _csf_DI_reset_interval : Nat
  LightsNum2Token : List Nat
  IndicatorState : Nat
  /-- Bytes `Serial1` has received from the device and that were not read yet. -/
  serial_rx : List Nat
  /-- The strings handed to `Serial1.write`, oldest first. -/
  serial_tx : List (List Nat)

/-- The constructor `HubInterface::HubInterface()`, run at `millis() = bootup`,
together with the default member initialisers of hackerpet.h.  Members that
neither initialise (the engine is a global object, so they start zeroed) are 0. -/
def HubInterface (bootup : Nat) : Hub where
  _bootup_time := bootup
  _config_init_delay := 20000
  _config_init_state := CONFIG_INIT_BOOTUP
  _time_left_button_pressed := 0
  _time_middle_button_pressed := 0
  _time_right_button_pressed := 0
  _get_config_done := false
  _num_config_values_recvd := 0
  _left_from_dl := 0
  _middle_from_dl := 0
  _right_from_dl := 0
  _tray_speed_pwm_from_dl := 0
  _tray_current_threshold_from_dl := 0
  _foodtreat_tx_power_level_from_dl := 0
  _foodtreat_detect_threshold_from_dl := 0
  _platter_stuck := false
  _platter_error_count := 0
  _current_ilstate := IL_DLI_NULL
  _max_platter_error_count := 5
  _cmd_queue := []
  _dl_reply_queue := []
  _error_code := 0
  _reply_buffer := List.replicate MAX_LEN_REPLY_BUFFER 0
  _len_reply_buffer := 0
  _packet_number := 0
  _run_loop_state := STATE_BEFORE_SEND
  _num_send_retries := 0
  _max_num_send_retries := 3
  _start_listen := 0
  _max_listen_time := 20
  _dl_is_ready := false
  _init_dl_state := DLINIT_WAIT_BOOT
  _wait_dl_boot_ms := 3050
  _init_dl_start := 0
  _init_dl_process_ms := 300
  _do_poll_diag := false
  _last_diag_request_ms := 0
  _last_diag_update_ms := 0
  _diag_check_rest_ms := 500
  _do_poll_buttons := false
  _last_btn_poll_ms := 0
  _diag_btn_poll_rest_ms := 50
  _do_poll_indlight := false
  _last_indlight_poll_ms := 0
  _diag_indlight_rest_ms := 1000
  _dome_open_int := -1
  _dome_open := false
  _foodmachine_state := 0
  _previous_foodtreat_taken := false
  _hub_out_of_food := false
  _platter_error := false
  _singulator_error := false
  _need_foodtreat_reset := false
  _pact_foodtreat_state := PACT_BEFORE_PRESENT
  _foodtreat_presented_time := 0
  _foodtreat_retracted_time := 0
  _pact_platter_return_time := 0
  _indefinite_tray_presentation := false
  _platter_error_start_ms := 0
  _platter_error_reset_wait := 10000
  _want_tray_closed := false
  _audio_enabled := true
  _button_audio_mute := false
  _audio_amplitude_max := 99
  _ars_state := ARS_BEFORE_REPLAY
  _audio_replay_window_start := 0
  _audio_replay_window := 280
  _light_enabled := true
  _light_amplitude_max := 99
  _button_liftoff_ms := 100
  _left_baseline := 0
  _midd_baseline := 0
  _right_baseline := 0
  _left_read := 0
  _midd_read := 0
  _right_read := 0
  _l_button_state := true
  _m_button_state := true
  _r_button_state := true
  _l_button_timeout := 100
  _m_button_timeout := 100
  _r_button_timeout := 100
  _button_audio_enabled := true
  _button_audio_amplitude := 50
  _csf_detect_integration_left := 0
  _csf_timer_max_left := 0
  _csf_detect_integration_middle := 0
  _csf_timer_max_middle := 0
  _csf_detect_integration_right := 0
  _csf_timer_max_right := 0
  _csf_integration_thresh := 3
  _csf_max_on_duration := 10000
  _csf_hysteresis := (1, 2)
  _csf_DI_reset_locked := false
  _csf_needs_DI_reset := false
  _csf_DI_reset_sent := false
  _csf_last_DI_reset_millis := 0
  _csf_DI_reset_interval := 500000
  LightsNum2Token := [65, 66, 67, 68, 69, 70, 71, 72, 73, 74, 75, 76, 77, 78, 79]
  IndicatorState := IL_DLI_NULL
  serial_rx := []
  serial_tx := []

/-! ## Command framing -/

/-- Member `HubInterface::_create_dl_cmd_with(token, payload, cmd)`.  `payload` is
the memory the pointer refers to; `strlen` and `%s` use the C string in it.
The result is `none` for `return false` (then `cmd` is not written and the
callers drop it) and `some buf` for `return true`, `buf` being the bytes of
`cmd.buf` after `sprintf(buf, "$%03d%d%c1%s.", ...)`.  `sprintf` writes
`strlen(payload) + 9` bytes, its closing NUL included, and `cmd.buf` has
`MAX_LEN_REPLY_BUFFER` (64): for a payload of at most 55 bytes `buf` holds all
of them; for a longer one it holds the first 64, and `sprintf` writes the others
past the end of the array, outside the `dlimsg_t` that `_cmd_queue.push(cmd)`
copies (C++ leaves that write undefined; the model keeps what the array
holds).  (The earlier store `buf[7 + strlen(payload)] = STR_CARRIAGE_RETURN`
lands on the index where `sprintf` then puts the `.`.) -/
def _create_dl_cmd_with (s : Hub) (token : Nat) (payload : List Nat) :
    Option dlimsg_t × Hub :=
  if strlen payload ≥ 999 then (none, s)
  else
    (some (([36] ++ fmt_0d 3 (strlen payload) ++ fmt_d s._packet_number ++ [token] ++ [49]
            ++ cstr payload ++ [46] ++ [0]).take MAX_LEN_REPLY_BUFFER),
     { s with _packet_number := (s._packet_number + 1) % 9 })

/-- The pattern every enqueuing operation ends with:
`if (_create_dl_cmd_with(token, payload, &cmd)) { _cmd_queue.push(cmd); return true; } return false;` -/
def enqueue_cmd (s : Hub) (token : Nat) (payload : List Nat) : Bool × Hub :=
  match _create_dl_cmd_with s token payload with
  | (some cmd, s1) => (true, { s1 with _cmd_queue := s1._cmd_queue ++ [cmd] })
  | (none, s1) => (false, s1)

/-- Member `SetLights(whichLights, yellow, blue, slew)`.  The index
`whichLights - 1` is taken in the naturals (C++ reads before the table when
`whichLights` is 0). -/
def SetLights (s : Hub) (whichLights yellow blue slew : Nat) : Bool × Hub :=
  if !s._light_enabled then (false, s)
  else
    enqueue_cmd s 77
      ([byteAt s.LightsNum2Token (whichLights - 1)]
        ++ fmt_0d 2 (map0 yellow 99 s._light_amplitude_max)
        ++ fmt_0d 2 (map0 blue 99 s._light_amplitude_max)
        ++ fmt_0d 2 slew ++ [0])

/-- Member `SetLightsRGB(whichLights, red, green, blue, slew)`. -/
def SetLightsRGB (s : Hub) (whichLights red green blue slew : Nat) : Bool × Hub :=
  if !s._light_enabled then (false, s)
  else
    enqueue_cmd s 73
      ([byteAt s.LightsNum2Token (whichLights - 1)]
        ++ fmt_0d 2 (map0 red 99 s._light_amplitude_max)
        ++ fmt_0d 2 (map0 green 99 s._light_amplitude_max)
        ++ fmt_0d 2 (map0 blue 99 s._light_amplitude_max)
        ++ fmt_0d 2 slew ++ [0])

/-- Member `SetLights(whichLights, yellow, blue, period, on)`, the flashing overload
(`on` is written `on_`). -/
def SetLights_flash (s : Hub) (whichLights yellow blue period on_ : Nat) : Bool × Hub :=
  if !s._light_enabled then (false, s)
  else
    enqueue_cmd s 76
      ([byteAt s.LightsNum2Token (whichLights - 1)]
        ++ fmt_0d 2 (map0 yellow 99 s._light_amplitude_max)
        ++ fmt_0d 2 (map0 blue 99 s._light_amplitude_max)
        ++ fmt_0d 2 period ++ fmt_0d 2 on_ ++ [0])

/-- Member `SetLightsRGB(whichLights, red, green, blue, period, on)`, the flashing overload. -/
def SetLightsRGB_flash (s : Hub) (whichLights red green blue period on_ : Nat) : Bool × Hub :=
  if !s._light_enabled then (false, s)
  else
    enqueue_cmd s 72
      ([byteAt s.LightsNum2Token (whichLights - 1)]
        ++ fmt_0d 2 (map0 red 99 s._light_amplitude_max)
        ++ fmt_0d 2 (map0 green 99 s._light_amplitude_max)
        ++ fmt_0d 2 (map0 blue 99 s._light_amplitude_max)
        ++ fmt_0d 2 period ++ fmt_0d 2 on_ ++ [0])

/-- Member `PlayAudio(whichAudio, volume)`. -/
def PlayAudio (s : Hub) (whichAudio volume : Nat) : Bool × Hub :=
  if !s._audio_enabled then (false, s)
  else
    enqueue_cmd s 80
      (fmt_d whichAudio ++ fmt_0d 2 (map0 volume 99 s._audio_amplitude_max) ++ [0])

/-- Member `PlayTone(frequency, volume, slew)`. -/
def PlayTone (s : Hub) (frequency volume slew : Nat) : Bool × Hub :=
  if !s._audio_enabled then (false, s)
  else
    enqueue_cmd s 81
      (fmt_0d 2 (map0 volume 99 s._audio_amplitude_max) ++ fmt_0d 5 frequency
        ++ fmt_0d 1 slew ++ [0])

/-- Member `PresentFoodtreat(duration_decisec)`. -/
def PresentFoodtreat (s : Hub) (duration_decisec : Nat) : Bool × Hub :=
  enqueue_cmd s 84 (fmt_0d 2 duration_decisec ++ [0])

/-- Member `RetractTray()`. -/
def RetractTray (s : Hub) : Bool × Hub :=
  enqueue_cmd s 88 [48, 48, 0]

/-- Member `_poll_buttons()`. -/
def _poll_buttons (s : Hub) : Bool × Hub :=
  enqueue_cmd s 66 [0]

/-- Member `_poll_diag()`. -/
def _poll_diag (s : Hub) : Bool × Hub :=
  enqueue_cmd s 90 [48, 48, 0]

/-- Member `GetConfigValue(configID)`. -/
def GetConfigValue (s : Hub) (configID : Nat) : Bool × Hub :=
  enqueue_cmd s 85 (fmt_0d 2 configID ++ [0])

/-- Member `ResetDI()`. -/
def ResetDI (s : Hub) : Bool × Hub :=
  if s._csf_DI_reset_locked == false then
    match _create_dl_cmd_with s 75 [0] with
    | (some cmd, s1) =>
      (true, { s1 with _cmd_queue := s1._cmd_queue ++ [cmd], _dl_is_ready := false })
    | (none, s1) => (false, s1)
  else (false, s)

/-- Member `ResetFoodMachine()`. -/
def ResetFoodMachine (s : Hub) : Bool × Hub :=
  match _create_dl_cmd_with s 70 [0] with
  | (some cmd, s1) =>
    (true, { s1 with _cmd_queue := s1._cmd_queue ++ [cmd], _need_foodtreat_reset := false })
  | (none, s1) => (false, s1)

/-- Member `_milliseconds_to_deciseconds_for_DL_T(desiredMilliseconds)`. -/
def _milliseconds_to_deciseconds_for_DL_T (desiredMilliseconds : Nat) : Nat :=
  let desiredDeciseconds := desiredMilliseconds / 100
  if desiredDeciseconds ≤ 99 then desiredDeciseconds else 255

/-! ## Touchpads -/

/-- Member `GetButtonVal(whichButton)` (no `return` is reached for another
argument; the model gives 0 there). -/
def GetButtonVal (s : Hub) (whichButton : Nat) : Int :=
  if whichButton = BUTTON_LEFT then (s._left_baseline : Int) - (s._left_read : Int)
  else if whichButton = BUTTON_MIDDLE then (s._midd_baseline : Int) - (s._midd_read : Int)
  else if whichButton = BUTTON_RIGHT then (s._right_baseline : Int) - (s._right_read : Int)
  else 0

/-- First block of `_update_button_pressed_state`: `if (left) { ... } else { ... }`. -/
def update_left_button (s : Hub) (now : Nat) (left : Nat) : Hub :=
  if left ≠ 0 then
    let s := { s with _l_button_timeout := (now + s._button_liftoff_ms) % ULONG }
    if s._l_button_state == false then
      let s := { s with _l_button_state := true }
      if s._button_audio_enabled == true then
        (PlayAudio s AUDIO_L s._button_audio_amplitude).2
      else s
    else s
  else
    if now > s._l_button_timeout then { s with _l_button_state := false } else s

/-- Second block of `_update_button_pressed_state`: `if (middle) { ... } else { ... }`. -/
def update_middle_button (s : Hub) (now : Nat) (middle : Nat) : Hub :=
  if middle ≠ 0 then
    let s := { s with _m_button_timeout := (now + s._button_liftoff_ms) % ULONG }
    if s._m_button_state == false then
      let s := { s with _m_button_state := true }
      if s._button_audio_enabled == true then
        (PlayAudio s AUDIO_M s._button_audio_amplitude).2
      else s
    else s
  else
    if now > s._m_button_timeout then { s with _m_button_state := false } else s

/-- Third block of `_update_button_pressed_state`: `if (right) { ... } else { ... }`. -/
def update_right_button (s : Hub) (now : Nat) (right : Nat) : Hub :=
  if right ≠ 0 then
    let s := { s with _r_button_timeout := (now + s._button_liftoff_ms) % ULONG }
    if s._r_button_state == false then
      let s := { s with _r_button_state := true }
      if s._button_audio_enabled == true then
        (PlayAudio s AUDIO_R s._button_audio_amplitude).2
      else s
    else s
  else
    if now > s._r_button_timeout then { s with _r_button_state := false } else s

/-- Member `_update_button_pressed_state(left, middle, right)`: its three blocks
one after the other.  It always returns `true`, so only the new state is given. -/
def _update_button_pressed_state (s : Hub) (now : Nat) (left middle right : Nat) : Hub :=
  let s := update_left_button s now left
  let s := update_middle_button s now middle
  let s := update_right_button s now right
  s

/-- Member `AnyButtonPressed()`. -/
def AnyButtonPressed (s : Hub) : Nat :=
  let pressed := 0
  let pressed := if s._l_button_state then pressed ||| BUTTON_LEFT else pressed
  let pressed := if s._m_button_state then pressed ||| BUTTON_MIDDLE else pressed
  let pressed := if s._r_button_state then pressed ||| BUTTON_RIGHT else pressed
  pressed

/-- Member `IsButtonPressed(whichButton)`. -/
def IsButtonPressed (s : Hub) (whichButton : Nat) : Bool :=
  let pressed := false
  let pressed := if whichButton &&& BUTTON_LEFT = BUTTON_LEFT then pressed || s._l_button_state else pressed
  let pressed := if whichButton &&& BUTTON_MIDDLE = BUTTON_MIDDLE then pressed || s._m_button_state else pressed
  let pressed := if whichButton &&& BUTTON_RIGHT = BUTTON_RIGHT then pressed || s._r_button_state else pressed
  pressed

/-- The cast `(int)(T * _csf_hysteresis)`: the product truncated towards zero. -/
def hysteresis_threshold (s : Hub) (T : Int) : Int :=
  Int.tdiv (T * (s._csf_hysteresis.1 : Int)) (s._csf_hysteresis.2 : Int)

/-- Block `DO LEFT` of `_update_cap_reset`; the flag is set when the block ends in
`return`. -/
def cap_reset_left (s : Hub) (now : Nat) (left : Int) : Hub × Bool :=
  if s._csf_detect_integration_left ≥ s._csf_integration_thresh then
    if left > hysteresis_threshold s LEFT_THRESHOLD then
      if (now + ULONG - s._csf_timer_max_left) % ULONG > s._csf_max_on_duration then
        ({ s with _csf_needs_DI_reset := true, _csf_detect_integration_left := 0,
                  _csf_timer_max_left := now }, true)
      else (s, false)
    else ({ s with _csf_detect_integration_left := 0, _csf_timer_max_left := now }, false)
  else if left > LEFT_THRESHOLD then
    ({ s with _csf_detect_integration_left := (s._csf_detect_integration_left + 1) % 256 }, false)
  else ({ s with _csf_detect_integration_left := 0, _csf_timer_max_left := now }, false)

/-- Block `DO MIDDLE` of `_update_cap_reset`. -/
def cap_reset_middle (s : Hub) (now : Nat) (middle : Int) : Hub × Bool :=
  if s._csf_detect_integration_middle ≥ s._csf_integration_thresh then
    if middle > hysteresis_threshold s MIDDLE_THRESHOLD then
      if (now + ULONG - s._csf_timer_max_middle) % ULONG > s._csf_max_on_duration then
        ({ s with _csf_needs_DI_reset := true, _csf_detect_integration_middle := 0,
                  _csf_timer_max_middle := now }, true)
      else (s, false)
    else ({ s with _csf_detect_integration_middle := 0, _csf_timer_max_middle := now }, false)
  else if middle > MIDDLE_THRESHOLD then
    ({ s with _csf_detect_integration_middle := (s._csf_detect_integration_middle + 1) % 256 }, false)
  else ({ s with _csf_detect_integration_middle := 0, _csf_timer_max_middle := now }, false)

/-- Block `DO RIGHT` of `_update_cap_reset`. -/
def cap_reset_right (s : Hub) (now : Nat) (right : Int) : Hub × Bool :=
  if s._csf_detect_integration_right ≥ s._csf_integration_thresh then
    if right > hysteresis_threshold s RIGHT_THRESHOLD then
      if (now + ULONG - s._csf_timer_max_right) % ULONG > s._csf_max_on_duration then
        ({ s with _csf_needs_DI_reset := true, _csf_detect_integration_right := 0,
                  _csf_timer_max_right := now }, true)
      else (s, false)
    else ({ s with _csf_detect_integration_right := 0, _csf_timer_max_right := now }, false)
  else if right > RIGHT_THRESHOLD then
    ({ s with _csf_detect_integration_right := (s._csf_detect_integration_right + 1) % 256 }, false)
  else ({ s with _csf_detect_integration_right := 0, _csf_timer_max_right := now }, false)

/-- Member `_update_cap_reset(left, middle, right)`: nothing while a reset is
pending, else the three blocks in turn, stopping at the first `return`. -/
def _update_cap_reset (s : Hub) (now : Nat) (left middle right : Int) : Hub :=
  if s._csf_needs_DI_reset == true then s
  else
    let r := cap_reset_left s now left
    if r.2 then r.1
    else
      let r := cap_reset_middle r.1 now middle
      if r.2 then r.1
      else (cap_reset_right r.1 now right).1

/-- Member `UpdateButtonAudioEnabled()`. -/
def UpdateButtonAudioEnabled (s : Hub) : Hub :=
  if !s._button_audio_mute && !s._hub_out_of_food && !s._singulator_error && !s._platter_stuck then
    { s with _button_audio_enabled := true }
  else
    { s with _button_audio_enabled := false }

/-! ## Parsing replies (`sscanf`) -/

/-- C `isspace`. -/
def isspace (c : Nat) : Bool := c == 32 || (decide (9 ≤ c) && decide (c ≤ 13))

/-- C `isdigit`. -/
def isdigit (c : Nat) : Bool := decide (48 ≤ c) && decide (c ≤ 57)

/-- The number a string of decimal digits denotes. -/
def digitsVal (ds : List Nat) : Nat := ds.foldl (fun a d => 10 * a + (d - 48)) 0

/-- The conversion `%1c` of `sscanf`: the next character, `none` at the end of
the string (the input is a C string, without NUL). -/
def scan_c (inp : List Nat) : Option (Nat × List Nat) :=
  match inp with
  | [] => none
  | c :: rest => some (c, rest)

/-- A decimal conversion of `sscanf` with field width `w` (`%wd`, `%whu`): white
space is skipped, then an optional sign and decimal digits are read, at most `w`
characters in all.  Gives whether a minus sign was read, the magnitude and the
rest of the input; `none` when no digit is read (the conversion fails). -/
def scan_int (w : Nat) (inp : List Nat) : Option (Bool × Nat × List Nat) :=
  let inp := inp.dropWhile isspace
  let hasSign := decide (0 < w) && (inp.head? == some 43 || inp.head? == some 45)
  let neg := hasSign && inp.head? == some 45
  let w1 := if hasSign then w - 1 else w
  let inp1 := if hasSign then inp.drop 1 else inp
  let ds := (inp1.take w1).takeWhile isdigit
  if ds.isEmpty then none else some (neg, digitsVal ds, inp1.drop ds.length)

/-- The value stored through an `unsigned short *`. -/
def to_ushort (neg : Bool) (v : Nat) : Nat :=
  if neg then (65536 - v % 65536) % 65536 else v % 65536

/-- The value stored in an `unsigned char`. -/
def to_uchar (neg : Bool) (v : Nat) : Nat :=
  if neg then (256 - v % 256) % 256 else v % 256

/-- The value of a signed conversion. -/
def to_int (neg : Bool) (v : Nat) : Int :=
  if neg then - (v : Int) else (v : Int)

/-- The statement `c -= 48` on an `unsigned char`. -/
def sub48 (c : Nat) : Nat := (c + 208) % 256

/-- One `%3hu` conversion of the button reply, stored at once through `set`;
the flag tells whether every conversion so far has succeeded. -/
def scan_hu_into (st : Hub × List Nat × Bool) (set : Hub → Nat → Hub) :
    Hub × List Nat × Bool :=
  if st.2.2 then
    match scan_int 3 st.2.1 with
    | some (neg, v, rest) => (set st.1 (to_ushort neg v), rest, true)
    | none => (st.1, st.2.1, false)
  else st

/-- The call `front()` of a `std::queue`; on an empty queue it is not defined in
C++ and is the empty buffer here. -/
def front (q : List dlimsg_t) : dlimsg_t := q.headD []

/-- The call `sscanf(_cmd_queue.front().buf, "%*c%*c%*c%*c%*c%*c%*c%1d%2d.", ...)` of the
audio replay: seven characters are skipped, then the audio id (one digit) and
the volume (two digits) are read.  A value that is not read stays what it was in
C++ (not initialised); it is 0 here.  The two targets are `unsigned char`. -/
def scan_replay (buf : dlimsg_t) : Nat × Nat :=
  let inp := cstr buf
  if inp.length < 7 then (0, 0)
  else
    match scan_int 1 (inp.drop 7) with
    | none => (0, 0)
    | some (neg, v, rest) =>
      match scan_int 2 rest with
      | none => (to_uchar neg v, 0)
      | some (neg2, v2, _) => (to_uchar neg v, to_uchar neg2 v2)

/-- The early exit `_error_code = ERROR_CMD_RECEIVED_BAD_NUM_ARGS; return false;`
of `_parse_msg`, as a pair of the state and the flag "the `switch` was left by
`break`" (here `false`). -/
def bad_num_args (s : Hub) : Hub × Bool :=
  ({ s with _error_code := ERROR_CMD_RECEIVED_BAD_NUM_ARGS }, false)

/-- The three statements `_time_left_button_pressed = left ? millis() : _time_left_button_pressed;`
(and middle, right) of the button replies. -/
def store_button_times (s : Hub) (now : Nat) (left middle right : Nat) : Hub :=
  { s with
    _time_left_button_pressed := if left ≠ 0 then now else s._time_left_button_pressed,
    _time_middle_button_pressed := if middle ≠ 0 then now else s._time_middle_button_pressed,
    _time_right_button_pressed := if right ≠ 0 then now else s._time_right_button_pressed }

/-- Branch `case 'B'` of `_parse_msg`: three `%1c` and six `%3hu` conversions (the
six are stored in the members as they are read), then the touchpad update. -/
def _parse_msg_B (s : Hub) (now : Nat) (payload : List Nat) : Hub × Bool :=
  match scan_c (cstr payload) with
  | none => bad_num_args s
  | some (left, p1) =>
  match scan_c p1 with
  | none => bad_num_args s
  | some (middle, p2) =>
  match scan_c p2 with
  | none => bad_num_args s
  | some (right, p3) =>
    let st : Hub × List Nat × Bool := (s, p3, true)
    let st := scan_hu_into st (fun h v => { h with _left_baseline := v })
    let st := scan_hu_into st (fun h v => { h with _midd_baseline := v })
    let st := scan_hu_into st (fun h v => { h with _right_baseline := v })
    let st := scan_hu_into st (fun h v => { h with _left_read := v })
    let st := scan_hu_into st (fun h v => { h with _midd_read := v })
    let st := scan_hu_into st (fun h v => { h with _right_read := v })
    if !st.2.2 then bad_num_args st.1
    else
      let s := st.1
      let left := sub48 left
      let right := sub48 right
      let middle := sub48 middle
      let s := store_button_times s now left middle right
      let s := _update_button_pressed_state s now left middle right
      let s := _update_cap_reset s now (GetButtonVal s BUTTON_LEFT) (GetButtonVal s BUTTON_MIDDLE)
                 (GetButtonVal s BUTTON_RIGHT)
      (s, true)

/-- Branch `case 'G'` of `_parse_msg`. -/
def _parse_msg_G (s : Hub) (now : Nat) (payload : List Nat) : Hub × Bool :=
  match scan_c (cstr payload) with
  | none => bad_num_args s
  | some (left, p1) =>
  match scan_c p1 with
  | none => bad_num_args s
  | some (middle, p2) =>
  match scan_c p2 with
  | none => bad_num_args s
  | some (right, _) =>
    let left := sub48 left
    let right := sub48 right
    let middle := sub48 middle
    let s := store_button_times s now left middle right
    let s := _update_button_pressed_state s now left middle right
    (s, true)

/-- Block `TRACK FOOD ERRORS` of the diagnostic reply. -/
def track_food_errors (s : Hub) : Hub :=
  if s._foodmachine_state = FOODMACHINE_FOODTREAT_ERROR_CODE then
    if s._hub_out_of_food == false then
      let s := { s with _hub_out_of_food := true }
      let s := UpdateButtonAudioEnabled s
      { s with IndicatorState := IL_DLI_OOF }
    else s
  else
    if s._hub_out_of_food == true then
      if s._foodmachine_state = FOODMACHINE_IDLE then
        let s := { s with _hub_out_of_food := false }
        let s := UpdateButtonAudioEnabled s
        { s with IndicatorState := IL_DLI_NULL }
      else s
    else s

/-- Block `TRACK PLATTER ERRORS` of the diagnostic reply. -/
def track_platter_errors (s : Hub) (now : Nat) : Hub :=
  if s._foodmachine_state = FOODMACHINE_PLATTER_ERROR_CODE then
    if s._platter_error == false then
      { s with _platter_error := true, _platter_error_start_ms := now,
               IndicatorState := IL_DLI_JAM }
    else
      if !s._platter_stuck
          && decide (now > (s._platter_error_start_ms + s._platter_error_reset_wait) % ULONG) then
        let s : Hub := { s with _platter_error_count := s._platter_error_count + 1 }
        if s._platter_error_count > s._max_platter_error_count - 1 then
          let s := { s with _platter_stuck := true }
          let s := UpdateButtonAudioEnabled s
          { s with IndicatorState := IL_DLI_JAM_ERROR }
        else (ResetFoodMachine s).2
      else s
  else
    if s._platter_error == true then
      { s with _platter_error := false, IndicatorState := IL_DLI_NULL }
    else
      if s._foodmachine_state ≠ FOODMACHINE_MOVING_HOME then
        let s := { s with _platter_error_count := 0, _platter_stuck := false }
        UpdateButtonAudioEnabled s
      else s

/-- Block `TRACK SINGULATOR ERRORS` of the diagnostic reply. -/
def track_singulator_errors (s : Hub) : Hub :=
  if s._foodmachine_state = FOODMACHINE_SINGULATOR_ERROR_CODE then
    if s._singulator_error == false then
      let s := { s with _singulator_error := true }
      let s := UpdateButtonAudioEnabled s
      { s with IndicatorState := IL_DLI_JAM_ERROR }
    else s
  else
    if s._singulator_error == true then
      let s := { s with _singulator_error := false }
      let s := UpdateButtonAudioEnabled s
      { s with IndicatorState := IL_DLI_NULL }
    else s

/-- The stores of the diagnostic reply that follow its `sscanf`:
`_last_diag_update_ms`, the dome, `_previous_foodtreat_taken` and
`_foodmachine_state`, from the three characters (each reduced by 48). -/
def store_diag (s : Hub) (now : Nat) (foodtreat_still_in_bowl foodtreat_statemachine_state
    cap_open : Nat) : Hub :=
  { s with
    _last_diag_update_ms := now,
    _dome_open := cap_open == 1,
    _dome_open_int := if cap_open == 1 then 1 else 0,
    _previous_foodtreat_taken := foodtreat_still_in_bowl == 0,
    _foodmachine_state := foodtreat_statemachine_state }

/-- Branch `case 'Z'` of `_parse_msg`: the diagnostic reply.  The `sscanf` reads
eleven single characters, so it succeeds when the payload string has at least
eleven; the ninth, tenth and eleventh are the ones used. -/
def _parse_msg_Z (s : Hub) (now : Nat) (payload : List Nat) : Hub × Bool :=
  let p := cstr payload
  if p.length < 11 then bad_num_args s
  else
    let foodtreat_still_in_bowl := sub48 (byteAt p 8)
    let foodtreat_statemachine_state := sub48 (byteAt p 9)
    let cap_open := sub48 (byteAt p 10)
    let s := store_diag s now foodtreat_still_in_bowl foodtreat_statemachine_state cap_open
    let s := track_food_errors s
    let s := track_platter_errors s now
    let s := track_singulator_errors s
    (s, true)

/-- Branch `case 'P'` of `_parse_msg`: the audio replay (`rplystatus` has been
reduced by 48 already). -/
def _parse_msg_P (s : Hub) (now : Nat) (rplystatus : Nat) : Hub × Bool :=
  if rplystatus = 0 then
    if s._ars_state = ARS_BEFORE_REPLAY then
      let s := { s with _audio_replay_window_start := now }
      let s :=
        if (now + ULONG - s._audio_replay_window_start) % ULONG ≤ s._audio_replay_window then
          let again := scan_replay (front s._cmd_queue)
          (PlayAudio s again.1 again.2).2
        else { s with _ars_state := ARS_BEFORE_REPLAY }
      ({ s with _ars_state := ARS_DURING_REPLAY }, true)
    else if s._ars_state = ARS_DURING_REPLAY then
      if (now + ULONG - s._audio_replay_window_start) % ULONG ≤ s._audio_replay_window then
        let again := scan_replay (front s._cmd_queue)
        ((PlayAudio s again.1 again.2).2, true)
      else ({ s with _ars_state := ARS_BEFORE_REPLAY }, true)
    else (s, true)
  else ({ s with _ars_state := ARS_BEFORE_REPLAY }, true)

/-- Branch `case 'K'` of `_parse_msg`. -/
def _parse_msg_K (s : Hub) (now : Nat) : Hub × Bool :=
  ({ s with _csf_needs_DI_reset := false, _csf_DI_reset_sent := false,
            _csf_last_DI_reset_millis := now }, true)

/-- The inner `switch (config_id)` of `case 'U'`: the store of a fetched
configuration value. -/
def store_config_value (s : Hub) (config_id config_value : Int) : Hub :=
  if config_id = 21 then { s with _left_from_dl := config_value }
  else if config_id = 22 then { s with _middle_from_dl := config_value }
  else if config_id = 23 then { s with _right_from_dl := config_value }
  else if config_id = 11 then { s with _tray_speed_pwm_from_dl := config_value }
  else if config_id = 8 then { s with _tray_current_threshold_from_dl := config_value }
  else if config_id = 18 then { s with _foodtreat_tx_power_level_from_dl := config_value }
  else if config_id = 20 then { s with _foodtreat_detect_threshold_from_dl := config_value }
  else s

/-- Branch `case 'U'` of `_parse_msg`: `sscanf(payload, "%02d%05d", ...)` and the
store of the configuration value. -/
def _parse_msg_U (s : Hub) (payload : List Nat) : Hub × Bool :=
  match scan_int 2 (cstr payload) with
  | none => bad_num_args s
  | some (neg, v, rest) =>
  match scan_int 5 rest with
  | none => bad_num_args s
  | some (neg2, v2, _) =>
    let config_id := to_int neg v
    let config_value := to_int neg2 v2
    let s := store_config_value s config_id config_value
    let s := { s with _num_config_values_recvd := s._num_config_values_recvd + 1 }
    let s := if s._num_config_values_recvd ≥ 7 then { s with _get_config_done := true } else s
    (s, true)

/-- The `switch (token)` of `_parse_msg` (`rplystatus` already reduced by 48): the
state it leaves and whether it was left by `break` (`true`) or by the early
`return false` (`false`). -/
def _parse_msg_switch (s : Hub) (now : Nat) (token rplystatus : Nat) (payload : List Nat) :
    Hub × Bool :=
  if token = 77 then (s, true)
  else if token = 73 then (s, true)
  else if token = 66 then _parse_msg_B s now payload
  else if token = 71 then _parse_msg_G s now payload
  else if token = 90 then _parse_msg_Z s now payload
  else if token = 76 then (s, true)
  else if token = 72 then (s, true)
  else if token = 81 then (s, true)
  else if token = 80 then _parse_msg_P s now rplystatus
  else if token = 84 then (s, true)
  else if token = 88 then (s, true)
  else if token = 78 then (s, true)
  else if token = 75 then _parse_msg_K s now
  else if token = 85 then _parse_msg_U s payload
  else (s, true)

/-- Member `_parse_msg(token, rplystatus, payload, lenPayload)`.  `payload` is the
memory from the payload pointer on.  After the `switch` the result is
`cmd.buf[5] == token` for the front `cmd` of the command queue. -/
def _parse_msg (s : Hub) (now : Nat) (token rplystatus : Nat) (payload : List Nat)
    (_lenPayload : Nat) : Bool × Hub :=
  let rplystatus := sub48 rplystatus
  let r := _parse_msg_switch s now token rplystatus payload
  if !r.2 then (false, r.1)
  else
    let cmd := front r.1._cmd_queue
    (byteAt cmd 5 == token, r.1)

/-! ## The link session -/

/-- The locals `token`, `rplystatus`, `payload` (the memory from `&buf[7]` on)
and `len_payload` that `_process_reply_from_dl` takes out of a reply and hands
to `_parse_msg`; `none` when the reply is shorter than 7 characters.
`len_payload` is an `unsigned short`. -/
def reply_header (cmd : dlimsg_t) : Option (Nat × Nat × List Nat × Nat) :=
  if strlen cmd < 7 then none
  else
    some (byteAt cmd 5, byteAt cmd 6, cmd.drop 7,
      ((100 * ((byteAt cmd 1 : Int) - 48) + 10 * ((byteAt cmd 2 : Int) - 48)
          + ((byteAt cmd 3 : Int) - 48)) % 65536).toNat)

/-- Member `_process_reply_from_dl(cmd)`. -/
def _process_reply_from_dl (s : Hub) (now : Nat) (cmd : dlimsg_t) : Bool × Hub :=
  match reply_header cmd with
  | none => (false, { s with _error_code := ERROR_CMD_RECEIVED_TOO_SHORT })
  | some (token, rplystatus, payload, len_payload) =>
    _parse_msg s now token rplystatus payload len_payload

/-- Member `_process_next_msg()`. -/
def _process_next_msg (s : Hub) (now : Nat) : Bool × Hub :=
  if s._dl_reply_queue.length > 0 then
    let cmd := front s._dl_reply_queue
    let r := _process_reply_from_dl s now cmd
    let r : Bool × Hub :=
      if r.1 then (true, r.2)
      else (false, { r.2 with _num_send_retries := (r.2._num_send_retries + 1) % 256 })
    (r.1, { r.2 with _dl_reply_queue := r.2._dl_reply_queue.tail })
  else (false, s)

/-- Member `_transmit_cmd(cmd)`.  `written` is the value `Serial1.write` returns,
the number of bytes it has written; `len_sent` is an `unsigned short`. -/
def _transmit_cmd (s : Hub) (cmd : dlimsg_t) (written : Nat) : Bool × Hub :=
  let len_sent := written % 65536
  (decide (strlen cmd = len_sent),
   { s with serial_tx := s.serial_tx ++ [(cstr cmd).take written] })

/-- The `while (Serial1.available() > 0)` loop of `_receive_cmd`, on the bytes
waiting in `Serial1`.  The flag is set when the loop ends in `return false`
(reply too long). -/
def _receive_cmd_loop : List Nat → Hub → Hub × Bool
  | [], s => ({ s with serial_rx := [] }, false)
  | b :: rest, s =>
    if s._len_reply_buffer ≥ MAX_LEN_REPLY_BUFFER - 1 then
      ({ s with _error_code := ERROR_CMD_RECEIVED_TOO_LONG, serial_rx := b :: rest }, true)
    else
      let s : Hub := { s with
        _reply_buffer := s._reply_buffer.set s._len_reply_buffer b,
        _len_reply_buffer := s._len_reply_buffer + 1,
        serial_rx := rest }
      if byteAt s._reply_buffer (s._len_reply_buffer - 1) = 46 then (s, false)
      else _receive_cmd_loop rest s

/-- Member `_receive_cmd(cmd)`: `some reply` for `return true`, the reply being
what `strcpy` copies out of `_reply_buffer`, its NUL included. -/
def _receive_cmd (s : Hub) : Option dlimsg_t × Hub :=
  let r := _receive_cmd_loop s.serial_rx s
  if r.2 then (none, r.1)
  else
    let s := r.1
    if s._len_reply_buffer > 0 ∧ byteAt s._reply_buffer (s._len_reply_buffer - 1) = 46 then
      let s : Hub := { s with
        _reply_buffer := s._reply_buffer.set s._len_reply_buffer STR_CARRIAGE_RETURN,
        _len_reply_buffer := s._len_reply_buffer + 1 }
      let cmd := cstr s._reply_buffer ++ [0]
      (some cmd, { s with _len_reply_buffer := 0 })
    else (none, s)

/-- Member `_send_top_cmd()`; `written` is what `Serial1.write` returns if it is
called. -/
def _send_top_cmd (s : Hub) (written : Nat) : Bool × Hub :=
  if s._cmd_queue.length > 0 then
    let cmd := front s._cmd_queue
    let r := _transmit_cmd s cmd written
    if r.1 then (true, r.2)
    else (false, { r.2 with _num_send_retries := (r.2._num_send_retries + 1) % 256 })
  else (false, s)

/-- Member `_process_DL()`.  A `pop()` is `List.tail` (on an empty queue it is not
defined in C++ and does nothing here). -/
def _process_DL (s : Hub) (now : Nat) (written : Nat) : Hub :=
  let s : Hub :=
    if s._run_loop_state = STATE_BEFORE_SEND then
      let r := _send_top_cmd s written
      if r.1 then
        { r.2 with _run_loop_state := STATE_AFTER_SEND_BEFORE_RCV, _start_listen := now,
                   _len_reply_buffer := 0 }
      else r.2
    else if s._run_loop_state = STATE_AFTER_SEND_BEFORE_RCV then
      match _receive_cmd s with
      | (some reply, s1) =>
        { s1 with _dl_reply_queue := s1._dl_reply_queue ++ [reply],
                  _run_loop_state := STATE_AFTER_RCV_BEFORE_PROCESS }
      | (none, s1) =>
        if (now + ULONG - s1._start_listen) % ULONG > s1._max_listen_time then
          { s1 with _num_send_retries := (s1._num_send_retries + 1) % 256,
                    _run_loop_state := STATE_BEFORE_SEND, _len_reply_buffer := 0 }
        else s1
    else if s._run_loop_state = STATE_AFTER_RCV_BEFORE_PROCESS then
      let s1 := (_process_next_msg s now).2
      { s1 with _cmd_queue := s1._cmd_queue.tail, _num_send_retries := 0,
                _run_loop_state := STATE_BEFORE_SEND }
    else s
  if s._num_send_retries ≥ s._max_num_send_retries then
    { s with _cmd_queue := s._cmd_queue.tail, _num_send_retries := 0 }
  else s

/-! ## Tray presentation -/

/-- Member `PresentAndCheckFoodtreat(duration_ms)`: the value returned and the new
state. -/
def PresentAndCheckFoodtreat (s : Hub) (now : Nat) (duration_ms : Nat) : Nat × Hub :=
  if s._foodmachine_state = FOODMACHINE_LID_OPEN ∨ s._foodmachine_state > FOODMACHINE_WAIT then
    let s : Hub :=
      if s._need_foodtreat_reset == true then
        let s := (ResetFoodMachine s).2
        { s with _need_foodtreat_reset := false }
      else s
    (99, s)
  else if s._pact_foodtreat_state = PACT_BEFORE_PRESENT then
    let s : Hub :=
      if s._foodmachine_state = FOODMACHINE_IDLE then
        let duration_decisec := _milliseconds_to_deciseconds_for_DL_T duration_ms
        if duration_decisec ≥ 99 then
          let r := PresentFoodtreat s 0
          if r.1 then
            { r.2 with _indefinite_tray_presentation := true, _foodtreat_presented_time := now,
                       _pact_foodtreat_state := PACT_PLATTER_OUT }
          else r.2
        else
          let r := PresentFoodtreat s duration_decisec
          if r.1 then
            { r.2 with _foodtreat_presented_time := now,
                       _pact_foodtreat_state := PACT_PLATTER_OUT }
          else r.2
      else s
    (s._pact_foodtreat_state, s)
  else if s._pact_foodtreat_state = PACT_PLATTER_OUT then
    if s._foodmachine_state = FOODMACHINE_MOVING_HOME ∨ s._foodmachine_state = FOODMACHINE_CHECK
        ∨ s._foodmachine_state = FOODMACHINE_MOVING_PRESENT
        ∨ s._foodmachine_state = FOODMACHINE_WAIT then
      let s : Hub := { s with _pact_foodtreat_state := PACT_WAIT_TIL_BACK }
      (s._pact_foodtreat_state, s)
    else (s._pact_foodtreat_state, s)
  else if s._pact_foodtreat_state = PACT_WAIT_TIL_BACK then
    if s._foodmachine_state = FOODMACHINE_DISPENSING ∨ s._foodmachine_state = FOODMACHINE_IDLE then
      let s : Hub := { s with _foodtreat_retracted_time := 0, _want_tray_closed := false,
                              _pact_platter_return_time := now,
                              _pact_foodtreat_state := PACT_WAIT_DIAG }
      (s._pact_foodtreat_state, s)
    else if s._indefinite_tray_presentation == true then
      let s : Hub :=
        if s._want_tray_closed
            ∨ (now + ULONG - s._foodtreat_presented_time) % ULONG > duration_ms then
          let r := RetractTray s
          if r.1 then
            { r.2 with _foodtreat_retracted_time := now, _indefinite_tray_presentation := false }
          else r.2
        else s
      (s._pact_foodtreat_state, s)
    else
      -- both branches (tray on its way back, or the error log) return the phase
      (s._pact_foodtreat_state, s)
  else if s._pact_foodtreat_state = PACT_WAIT_DIAG then
    if s._pact_platter_return_time < s._last_diag_update_ms then
      let s : Hub := { s with _pact_foodtreat_state := PACT_BEFORE_PRESENT }
      if s._previous_foodtreat_taken then (PACT_RESPONSE_FOODTREAT_TAKEN, s)
      else (PACT_RESPONSE_FOODTREAT_NOT_TAKEN, s)
    else (s._pact_foodtreat_state, s)
  else (s._pact_foodtreat_state, s)

/-! ## Settings, configuration values and the device reset -/

/-- What `%0wd` prints for an `int`: for a negative value the minus sign comes
first and the zeros fill what is left of the width. -/
def fmt_0d_int (w : Nat) (v : Int) : List Nat :=
  if v < 0 then
    [45] ++ List.replicate (w - 1 - (fmt_d v.natAbs).length) 48 ++ fmt_d v.natAbs
  else fmt_0d w v.toNat

/-- Member `SetAudioEnabled(audioEnabled)`. -/
def SetAudioEnabled (s : Hub) (audioEnabled : Bool) : Bool × Hub :=
  (true, { s with _audio_enabled := audioEnabled })

/-- Member `SetButtonAudioEnabled(buttonAudioEnabled)`. -/
def SetButtonAudioEnabled (s : Hub) (buttonAudioEnabled : Bool) : Bool × Hub :=
  (true, { s with _button_audio_mute := !buttonAudioEnabled })

/-- Member `SetMaxAudioAmplitude(max_audio_amplitude)`. -/
def SetMaxAudioAmplitude (s : Hub) (max_audio_amplitude : Nat) : Bool × Hub :=
  (true, { s with _audio_amplitude_max := max_audio_amplitude })

/-- Member `SetLightEnabled(lightEnabled)`. -/
def SetLightEnabled (s : Hub) (lightEnabled : Bool) : Bool × Hub :=
  (true, { s with _light_enabled := lightEnabled })

/-- Member `SetMaxLightAmplitude(max_light_amplitude)`. -/
def SetMaxLightAmplitude (s : Hub) (max_light_amplitude : Nat) : Bool × Hub :=
  (true, { s with _light_amplitude_max := max_light_amplitude })

/-- Member `SetDoPollIndLight(indLightPollingEnable)`. -/
def SetDoPollIndLight (s : Hub) (indLightPollingEnable : Bool) : Bool × Hub :=
  (true, { s with _do_poll_indlight := indLightPollingEnable })

/-- Member `SetDoPollButtons(buttonPollingEnable)`. -/
def SetDoPollButtons (s : Hub) (buttonPollingEnable : Bool) : Bool × Hub :=
  (true, { s with _do_poll_buttons := buttonPollingEnable })

/-- Member `SetDoPollDiagnostics(diagPollingEnable)`. -/
def SetDoPollDiagnostics (s : Hub) (diagPollingEnable : Bool) : Bool × Hub :=
  (true, { s with _do_poll_diag := diagPollingEnable })

/-- Member `SetConfigValue(configID, value)`: the payload is what
`sprintf(config_payload, "%02d%05d", configID, value)` prints. -/
def SetConfigValue (s : Hub) (configID : Nat) (value : Int) : Bool × Hub :=
  enqueue_cmd s 78 (fmt_0d 2 configID ++ fmt_0d_int 5 value ++ [0])

/-- Member `GetNeedsDIReset()`. -/
def GetNeedsDIReset (s : Hub) : Bool := s._csf_needs_DI_reset

/-- Member `SetDIResetLock(desired_lock_state)`. -/
def SetDIResetLock (s : Hub) (desired_lock_state : Bool) : Bool × Hub :=
  (true, { s with _csf_DI_reset_locked := desired_lock_state })

/-- Member `IsReady()`. -/
def IsReady (s : Hub) : Bool := s._dl_is_ready

/-- Member `SetDLInitValues(left, middle, right, tray_speed, ...)`.  The quotient
`tray_speed * PLATTER_MOTOR_MAX_DUTY_CYCLE / PLATTER_MOTOR_MAX_PWM_COUNTER` is
the `int` division, rounding towards zero. -/
def SetDLInitValues (s : Hub) (left middle right tray_speed tray_current_threshold
    foodtreat_tx_power_level foodtreat_detect_threshold : Int) : Bool × Hub :=
  if left > 255 ∨ middle > 255 ∨ right > 255 then (false, s)
  else if tray_speed > 16 then (false, s)
  else
    let s := (SetConfigValue s 21 left).2
    let s := (SetConfigValue s 22 middle).2
    let s := (SetConfigValue s 23 right).2
    let s := (SetConfigValue s 11
      (Int.tdiv (tray_speed * PLATTER_MOTOR_MAX_DUTY_CYCLE) PLATTER_MOTOR_MAX_PWM_COUNTER)).2
    let s := (SetConfigValue s 8 tray_current_threshold).2
    let s := (SetConfigValue s 18 foodtreat_tx_power_level).2
    let s := (SetConfigValue s 20 foodtreat_detect_threshold).2
    let s := (ResetDI s).2
    (true, s)

/-- Member `GetDLInitValues()` (it has no `return`; only the new state is given). -/
def GetDLInitValues (s : Hub) : Hub :=
  let s := (GetConfigValue s 21).2
  let s := (GetConfigValue s 22).2
  let s := (GetConfigValue s 23).2
  let s := (GetConfigValue s 11).2
  let s := (GetConfigValue s 8).2
  let s := (GetConfigValue s 18).2
  let s := (GetConfigValue s 20).2
  s

/-! ## The indicator light -/

/-- Member `_apply_desired_indicator_light(ilstate)`.  The call with five
arguments is the slew overload of `SetLightsRGB`, those with six the flashing
one. -/
def _apply_desired_indicator_light (s : Hub) (ilstate : Nat) : Bool × Hub :=
  if ilstate = s._current_ilstate then (true, s)
  else
    let s : Hub :=
      if ilstate = IL_DLI_NULL then (SetLights s LIGHT_CUE 0 0 99).2
      else if ilstate = IL_DLI_OOF then (SetLightsRGB_flash s LIGHT_CUE 10 0 0 99 5).2
      else if ilstate = IL_DLI_JAM then (SetLightsRGB_flash s LIGHT_CUE 80 35 0 50 30).2
      else if ilstate = IL_DLI_JAM_ERROR then (SetLightsRGB s LIGHT_CUE 80 0 0 99).2
      else s
    (true, { s with _current_ilstate := ilstate })

/-- Member `_poll_indlight()` (it has no `return`; only the new state is given). -/
def _poll_indlight (s : Hub) : Hub :=
  ( _apply_desired_indicator_light s s.IndicatorState).2

/-! ## Bring-up, configuration sync and the scheduler -/

/-- Member `_initialize()`; `now` is what `millis()` returns, `written` what
`Serial1.write` returns if `_process_DL` calls it. -/
def _initialize (s : Hub) (now written : Nat) : Bool × Hub :=
  let s : Hub :=
    if s._init_dl_state = DLINIT_WAIT_BOOT then
      let s : Hub := { s with _dl_is_ready := false }
      if now > s._wait_dl_boot_ms then { s with _init_dl_state := DLINIT_SEND } else s
    else if s._init_dl_state = DLINIT_SEND then
      let s := (SetLights s LIGHT_ALL 0 0 0).2
      let s := (PlayTone s 1000 0 2).2
      let s := (RetractTray s).2
      { s with _init_dl_start := now, _init_dl_state := DLINIT_PROCESS }
    else if s._init_dl_state = DLINIT_PROCESS then
      let s : Hub :=
        if now > (s._init_dl_start + s._init_dl_process_ms) % ULONG then
          { s with _init_dl_state := DLINIT_WAIT_BOOT, _dl_is_ready := true }
        else s
      _process_DL s now written
    else s
  (s._dl_is_ready, s)

/-- The test `match` of state `CONFIG_INIT_WAIT_GET`: the seven fetched values
against the compiled-in ones. -/
def config_values_match (s : Hub) : Bool :=
  let match_ := decide (s._left_from_dl = LEFT_THRESHOLD)
  let match_ := match_ && decide (s._right_from_dl = RIGHT_THRESHOLD)
  let match_ := match_ && decide (s._middle_from_dl = MIDDLE_THRESHOLD)
  let match_ := match_ && decide (s._tray_speed_pwm_from_dl
      = Int.tdiv (TRAY_SPEED * PLATTER_MOTOR_MAX_DUTY_CYCLE) PLATTER_MOTOR_MAX_PWM_COUNTER)
  let match_ := match_ && decide (s._tray_current_threshold_from_dl = TRAY_CURRENT_THRESHOLD)
  let match_ := match_ && decide (s._foodtreat_tx_power_level_from_dl = FOODTREAT_TX_POWER_LEVEL)
  let match_ := match_ && decide (s._foodtreat_detect_threshold_from_dl = FOODTREAT_DETECT_THRESHOLD)
  match_

/-- Member `_process_config_init()` (it has no `return`; only the new state is
given). -/
def _process_config_init (s : Hub) (now : Nat) : Hub :=
  if s._config_init_state = CONFIG_INIT_BOOTUP then
    if now > (s._bootup_time + s._config_init_delay) % ULONG then
      { s with _config_init_state := CONFIG_INIT_GET }
    else s
  else if s._config_init_state = CONFIG_INIT_GET then
    let s := GetDLInitValues s
    { s with _config_init_state := CONFIG_INIT_WAIT_GET }
  else if s._config_init_state = CONFIG_INIT_WAIT_GET then
    if s._get_config_done then
      if config_values_match s then { s with _config_init_state := CONFIG_INIT_DONE }
      else { s with _config_init_state := CONFIG_INIT_SET }
    else s
  else if s._config_init_state = CONFIG_INIT_SET then
    let s := (SetDLInitValues s LEFT_THRESHOLD MIDDLE_THRESHOLD RIGHT_THRESHOLD TRAY_SPEED
      TRAY_CURRENT_THRESHOLD FOODTREAT_TX_POWER_LEVEL FOODTREAT_DETECT_THRESHOLD).2
    { s with _config_init_state := CONFIG_INIT_DONE }
  else s

/-- Member `_handle_dl_errors()`. -/
def _handle_dl_errors (s : Hub) : Bool × Hub :=
  (true, { s with _error_code := 0 })

/-- What one pass of the loop of `Run` takes from outside the engine: the values
`millis()` returns in its parts (bring-up, reset check, configuration sync,
link session, the three polls), and the value `Serial1.write` returns if the
pass calls it. -/
structure Pass where
  t_init : Nat
  t_reset : Nat
  t_config : Nat
  t_link : Nat
  t_diag : Nat
  t_btn : Nat
  t_ind : Nat
  written : Nat
  deriving DecidableEq

/-- The block `if (_csf_needs_DI_reset) { ... } else if (...) { ... }` of `Run`. -/
def run_reset_check (s : Hub) (now : Nat) : Hub :=
  if s._csf_needs_DI_reset then
    if s._csf_DI_reset_sent == false then
      let r := ResetDI s
      if r.1 then { r.2 with _csf_DI_reset_sent := true } else r.2
    else s
  else if (now + ULONG - s._csf_last_DI_reset_millis) % ULONG > s._csf_DI_reset_interval then
    { s with _csf_needs_DI_reset := true }
  else s

/-- The block `if (_config_init_state < CONFIG_INIT_DONE) { _process_config_init(); }`
of `Run`. -/
def run_config_init (s : Hub) (now : Nat) : Hub :=
  if s._config_init_state < CONFIG_INIT_DONE then _process_config_init s now else s

/-- The diagnostics poll of `Run`. -/
def run_poll_diag (s : Hub) (now : Nat) : Hub :=
  if (now + ULONG - s._last_diag_request_ms) % ULONG > s._diag_check_rest_ms then
    if s._do_poll_diag == true then
      let s := (_poll_diag s).2
      { s with _last_diag_request_ms := now }
    else s
  else s

/-- The touchpad poll of `Run`. -/
def run_poll_buttons (s : Hub) (now : Nat) : Hub :=
  if (now + ULONG - s._last_btn_poll_ms) % ULONG > s._diag_btn_poll_rest_ms then
    if s._do_poll_buttons == true then
      let s := (_poll_buttons s).2
      { s with _last_btn_poll_ms := now }
    else s
  else s

/-- The indicator-light update of `Run`. -/
def run_poll_indlight (s : Hub) (now : Nat) : Hub :=
  if (now + ULONG - s._last_indlight_poll_ms) % ULONG > s._diag_indlight_rest_ms then
    if s._do_poll_indlight == true then
      let s := _poll_indlight s
      { s with _last_indlight_poll_ms := now }
    else s
  else s

/-- The body of the `while` loop of `Run`: one pass. -/
def Run_pass (s : Hub) (e : Pass) : Hub :=
  if !s._dl_is_ready then
    ( _initialize s e.t_init e.written).2
  else
    let s := run_reset_check s e.t_reset
    let s := run_config_init s e.t_config
    let s := _process_DL s e.t_link e.written
    let s := run_poll_diag s e.t_diag
    let s := run_poll_buttons s e.t_btn
    let s := run_poll_indlight s e.t_ind
    ( _handle_dl_errors s).2

/-- Member `Run(forHowLong)`: the passes its loop makes while
`millis() - start < forHowLong`, one for each element of `passes`. -/
def Run (s : Hub) (passes : List Pass) : Bool × Hub :=
  (true, passes.foldl Run_pass s)

/-- Member `Initialize(longFileName)`, as far as the members of the engine go
(`Serial1.begin` and the string `challenge_id` of the reports are not among
them). -/
def Initialize (s : Hub) : Bool × Hub :=
  let s := (ResetDI s).2
  let s := (SetDoPollDiagnostics s true).2
  let s := (SetDoPollButtons s true).2
  let s := (SetDoPollIndLight s true).2
  let s := (PlayTone s 0 5 10).2
  let s := (SetLights s LIGHT_BTNS 0 0 0).2
  (true, s)

/-- Member `SetRandomButtonLights(numLights, yellow, blue, period, on)`;
`shuffled` is the vector `{1, 2, 4}` as `random_shuffle` has left it.  (An index
past its end reads outside the vector in C++ and gives 0 here.) -/
def SetRandomButtonLights (s : Hub) (shuffled : List Nat)
    (numLights yellow blue period on_ : Nat) : Nat × Hub :=
  let tgt_light := (List.range numLights).foldl (fun t cntr => t ||| shuffled.getD cntr 0) 0
  let r := SetLights_flash s tgt_light yellow blue period on_
  if r.1 then (tgt_light, r.2) else (0, r.2)

/-! ## Resumable functions: the yield macros of hackerpet.h -/

/-- The statics of a function written with the yield macros: `_yield_state`, which
`yield_begin()` declares (`none` is `nullptr`; a label is the index of the
statement it stands before), and `locals`, what the body declares static or uses
of the globals. -/
structure Resumable (σ : Type) where
  _yield_state : Option Nat
  locals : σ

/-- A statement of the body of such a function, the body being the list of the
statements between `yield_begin()` and the end of the function.  The control
flow of `if`, `while` and `do` is given by `branch` and `jump`; `yield` and
`yield_finish` are the macros. -/
inductive Stmt (σ ρ : Type) where
  /-- A statement that neither yields nor returns. -/
  | plain (f : σ → σ)
  /-- Go on with the next statement if `condition` holds, with `else_` if not. -/
  | branch (condition : σ → Bool) (else_ : Nat)
  /-- Go on with the statement `target`. -/
  | jump (target : Nat)
  /-- Macro `yield(ret)`: `_yield_state = &&label; return ret; label: ;`. -/
  | yield (ret : σ → ρ)
  /-- Macro `yield_finish()`: `_yield_state = nullptr`. -/
  | yield_finish
  /-- The statement `return value;`. -/
  | ret (value : σ → ρ)

/-- What an invocation gives: the value returned and the statics it leaves,
with a record of the statement it stopped at and of whether it has run
`yield_finish()`. -/
structure Outcome (σ ρ : Type) where
  value : ρ
  statics : Resumable σ
  stopped_at : Nat
  finished : Bool

/-- The body run from the statement `pc` on, for at most `fuel` statements (`none`
when they do not reach a `yield` or a `return`, or run off the end of the body). -/
def run {σ ρ : Type} (body : List (Stmt σ ρ)) :
    Nat → Nat → Bool → Resumable σ → Option (Outcome σ ρ)
  | 0, _, _, _ => none
  | fuel + 1, pc, fin, st =>
    match body[pc]? with
    | none => none
    | some (Stmt.plain f) => run body fuel (pc + 1) fin { st with locals := f st.locals }
    | some (Stmt.branch c e) =>
      if c st.locals then run body fuel (pc + 1) fin st else run body fuel e fin st
    | some (Stmt.jump t) => run body fuel t fin st
    | some (Stmt.yield r) =>
      some ⟨r st.locals, { st with _yield_state := some (pc + 1) }, pc, fin⟩
    | some Stmt.yield_finish => run body fuel (pc + 1) true { st with _yield_state := none }
    | some (Stmt.ret r) => some ⟨r st.locals, st, pc, fin⟩

/-- Macro `yield_begin()`: `if (_yield_state != nullptr) goto *_yield_state`; the
statement the invocation starts with. -/
def yield_begin {σ : Type} (st : Resumable σ) : Nat :=
  match st._yield_state with
  | none => 0
  | some label => label

/-- One invocation of the function. -/
def invoke {σ ρ : Type} (body : List (Stmt σ ρ)) (fuel : Nat) (st : Resumable σ) :
    Option (Outcome σ ρ) :=
  run body fuel (yield_begin st) false st

/-- Macro `yield_wait_for(condition, ret)`, expanded at the index `at_`:
`while (!(condition)) { yield(ret); }`. -/
def yield_wait_for {σ ρ : Type} (at_ : Nat) (condition : σ → Bool) (ret : σ → ρ) :
    List (Stmt σ ρ) :=
  [Stmt.branch (fun x => !condition x) (at_ + 3), Stmt.yield ret, Stmt.jump at_]

/-- Macro `yield_sleep_ms(wait_time_in_milliseconds, ret)`, expanded at the index
`at_`: `t1 = millis(); while ((millis() - t1) < wait) { yield(ret); }`.  The
static `t1` of the expansion is read by `t1` and written by `set_t1`; `millis`
reads the clock. -/
def yield_sleep_ms {σ ρ : Type} (at_ : Nat) (millis : σ → Nat) (t1 : σ → Nat)
    (set_t1 : Nat → σ → σ) (wait_time_in_milliseconds : Nat) (ret : σ → ρ) : List (Stmt σ ρ) :=
  [Stmt.plain (fun x => set_t1 (millis x) x),
   Stmt.branch (fun x => decide ((millis x + ULONG - t1 x) % ULONG < wait_time_in_milliseconds))
     (at_ + 4),
   Stmt.yield ret, Stmt.jump (at_ + 1)]

/-- Macro `yield_if(condition, ret)`, expanded at the index `at_`:
`if (condition) { yield(ret); }`. -/
def yield_if {σ ρ : Type} (at_ : Nat) (condition : σ → Bool) (ret : σ → ρ) : List (Stmt σ ρ) :=
  [Stmt.branch condition (at_ + 2), Stmt.yield ret]

/-- The explicit state machine the claim compares the macros with: its control
state `last` is the index of the yield that returned last (`none` at the start
and after `yield_finish()`), and it runs the body from the statement `pc` on.
It gives the value, the new control state and the locals. -/
def spec_run {σ ρ : Type} (body : List (Stmt σ ρ)) :
    Nat → Nat → Option Nat → σ → Option (ρ × Option Nat × σ)
  | 0, _, _, _ => none
  | fuel + 1, pc, last, x =>
    match body[pc]? with
    | none => none
    | some (Stmt.plain f) => spec_run body fuel (pc + 1) last (f x)
    | some (Stmt.branch c e) =>
      if c x then spec_run body fuel (pc + 1) last x else spec_run body fuel e last x
    | some (Stmt.jump t) => spec_run body fuel t last x
    | some (Stmt.yield r) => some (r x, some pc, x)
    | some Stmt.yield_finish => spec_run body fuel (pc + 1) none x
    | some (Stmt.ret r) => some (r x, last, x)

/-- A step of the explicit state machine: from the top when no yield point is
recorded, else from the statement after the recorded yield point. -/
def spec_step {σ ρ : Type} (body : List (Stmt σ ρ)) (fuel : Nat) (last : Option Nat) (x : σ) :
    Option (ρ × Option Nat × σ) :=
  spec_run body fuel (match last with | none => 0 | some p => p + 1) last x

/-- The statics that stand for the control state `last` of the explicit state
machine: the label stored by the yield at `p` is `p + 1`. -/
def statics_of {σ : Type} (last : Option Nat) (x : σ) : Resumable σ :=
  ⟨last.map (fun p => p + 1), x⟩

/-- What the function `HelloAnimal` of examples/100_HelloAnimal reads and writes:
the engine `hub`, the clock (`millis()`), its statics `timer_ms` and the `t1` of
its two `yield_sleep_ms`.  (`playstart`, `Time.now()` and the report go to the
cloud only.) -/
structure HelloAnimalVars where
  hub : Hub
  millis : Nat
  timer_ms : Nat
  t1_first : Nat
  t1_second : Nat

/-- The body of `HelloAnimal` (examples/100_HelloAnimal/100_HelloAnimal.cpp)
between `yield_begin()` and the end, the macros expanded. -/
def HelloAnimal : List (Stmt HelloAnimalVars Bool) :=
  yield_wait_for 0
      (fun x => IsReady x.hub && x.hub._foodmachine_state == FOODMACHINE_IDLE
        && !(AnyButtonPressed x.hub != 0))
      (fun _ => false)
  ++ [Stmt.plain (fun x => { x with
        timer_ms := x.millis,
        hub := (SetLights (SetDIResetLock x.hub true).2 LIGHT_BTNS 60 60 0).2 })]
  ++ yield_wait_for 4 (fun x => AnyButtonPressed x.hub != 0) (fun _ => false)
  ++ [Stmt.plain (fun x => { x with timer_ms := (x.millis + ULONG - x.timer_ms) % ULONG })]
  ++ yield_sleep_ms 8 (fun x => x.millis) (fun x => x.t1_first)
      (fun t x => { x with t1_first := t }) 400 (fun _ => false)
  ++ [Stmt.plain (fun x => { x with hub := (SetLights x.hub LIGHT_BTNS 0 0 0).2 })]
  ++ yield_sleep_ms 13 (fun x => x.millis) (fun x => x.t1_second)
      (fun t x => { x with t1_second := t }) 1000 (fun _ => false)
  ++ [Stmt.plain (fun x => { x with hub := (SetDIResetLock x.hub false).2 }),
      Stmt.yield_finish, Stmt.ret (fun _ => true)]

/-! ## Touchpad window queries -/

/-- Member `AnyButtonSupraThresholdInWindow(sinceWhen)`; `now` is what `millis()`
returns. -/
def AnyButtonSupraThresholdInWindow (s : Hub) (now sinceWhen : Nat) : Nat :=
  let pressed := 0
  let window_start := if now > sinceWhen then now - sinceWhen else 0
  if window_start > 0 then
    let pressed := if window_start ≤ s._time_left_button_pressed then pressed ||| BUTTON_LEFT
      else pressed
    let pressed := if window_start ≤ s._time_middle_button_pressed then pressed ||| BUTTON_MIDDLE
      else pressed
    let pressed := if window_start ≤ s._time_right_button_pressed then pressed ||| BUTTON_RIGHT
      else pressed
    pressed
  else pressed

/-- Member `WasButtonSupraThresholdInWindow(whichButton, sinceWhen)`; `now` is what
`millis()` returns. -/
def WasButtonSupraThresholdInWindow (s : Hub) (now whichButton sinceWhen : Nat) : Bool :=
  let pressed := false
  let window_start := if now > sinceWhen then now - sinceWhen else 0
  let pressed := if whichButton &&& BUTTON_LEFT = BUTTON_LEFT then
      pressed || decide (window_start ≤ s._time_left_button_pressed) else pressed
  let pressed := if whichButton &&& BUTTON_MIDDLE = BUTTON_MIDDLE then
      pressed || decide (window_start ≤ s._time_middle_button_pressed) else pressed
  let pressed := if whichButton &&& BUTTON_RIGHT = BUTTON_RIGHT then
      pressed || decide (window_start ≤ s._time_right_button_pressed) else pressed
  pressed

/-! ## Food state queries -/

/-- Member `IsHubOutOfFood()`. -/
def IsHubOutOfFood (s : Hub) : Bool := s._hub_out_of_food

/-! ## The performance history of the challenges -/

/-- The globals `performance`, `perfPos` and `perfDepth` of a challenge
(`005_MasteringTheLights.cpp`, `006_RespondingQuickly.cpp`).  The array has
`HISTORY_LENGTH` entries; the two indices are `unsigned char` in the first file
and `int` in the second.  Their increments are written with the wrap of the
`unsigned char`; the values stay at most `HISTORY_LENGTH`, so with the lengths
of the two files (50 and 20) neither type wraps. -/
structure History where
  performance : List Bool
  perfPos : Nat
  perfDepth : Nat
  deriving DecidableEq

/-- The loop `for (unsigned char i = 0; i <= perfDepth - 1; i++) if (performance[i] == want) total++;`
of `countSuccesses` and `countMisses`, from the values `i` and `total` on.  The
test is made in `int` (so it fails at once when `perfDepth` is 0) and `i++`
wraps at 256.  `none` when the fuel runs out before the loop ends. -/
def count_loop (h : History) (want : Bool) : Nat → Nat → Nat → Option Nat
  | 0, _, _ => none
  | fuel + 1, i, total =>
    if (i : Int) ≤ (h.perfDepth : Int) - 1 then
      count_loop h want fuel ((i + 1) % 256)
        (if h.performance.getD i false == want then total + 1 else total)
    else some total

/-- Function `countSuccesses()`. -/
def countSuccesses (h : History) (fuel : Nat) : Option Nat := count_loop h true fuel 0 0

/-- Function `countMisses()`. -/
def countMisses (h : History) (fuel : Nat) : Option Nat := count_loop h false fuel 0 0

/-- Function `resetPerformanceHistory()`, for a `HISTORY_LENGTH` below 256 (50
and 20 in the two challenges), where the loop over `unsigned char i` ends. -/
def resetPerformanceHistory (HISTORY_LENGTH : Nat) (h : History) : History :=
  { performance := (List.range HISTORY_LENGTH).foldl (fun p i => p.set i false) h.performance,
    perfPos := 0,
    perfDepth := 0 }

/-- Function `addResultToPerformanceHistory(entry)` (the log line at its end
changes nothing). -/
def addResultToPerformanceHistory (HISTORY_LENGTH : Nat) (h : History) (entry : Bool) :
    History :=
  let performance := h.performance.set h.perfPos entry
  let perfPos := (h.perfPos + 1) % 256
  let perfDepth := if h.perfDepth < HISTORY_LENGTH then (h.perfDepth + 1) % 256 else h.perfDepth
  let perfPos := if (perfPos : Int) > (HISTORY_LENGTH : Int) - 1 then 0 else perfPos
  { performance := performance, perfPos := perfPos, perfDepth := perfDepth }

/-! ## Drivers used to state the properties -/

/-- The characters of a string literal as bytes. -/
def ascii (str : String) : List Nat := str.toList.map Char.toNat

/-- What a reply decodes to, in the words of the wire format: the token is byte
5, the status is ok when byte 6 is the digit `1` (the test `rplystatus != 1` of
`_parse_msg` after `rplystatus -= 48`), and the payload is the `len_payload`
bytes from offset 7 on.  `none` when `_process_reply_from_dl` rejects the
reply as too short. -/
def decode_reply (cmd : dlimsg_t) : Option (Nat × Bool × List Nat) :=
  match reply_header cmd with
  | none => none
  | some (token, rplystatus, payload, len_payload) =>
    some (token, sub48 rplystatus == 1, payload.take len_payload)

/-- Successive calls of `_create_dl_cmd_with`, one per (token, payload) request;
the frames of the calls that return `true`, in order. -/
def encode_all (s : Hub) : List (Nat × List Nat) → List dlimsg_t
  | [] => []
  | (token, payload) :: rest =>
    match _create_dl_cmd_with s token payload with
    | (some cmd, s1) => cmd :: encode_all s1 rest
    | (none, s1) => encode_all s1 rest

/-- One touchpad poll reply folded into the debounce state: the call
`_update_button_pressed_state(left, middle, right)` made at time `p.1` with the
raw readings `p.2`. -/
def poll_reply (h : Hub) (p : Nat × Nat × Nat × Nat) : Hub :=
  _update_button_pressed_state h p.1 p.2.1 p.2.2.1 p.2.2.2

/-- A run of touchpad poll replies, oldest first. -/
def poll_replies (h : Hub) (ps : List (Nat × Nat × Nat × Nat)) : Hub :=
  ps.foldl poll_reply h

/-- The raw reading of the pad `which` (`BUTTON_LEFT`, `BUTTON_MIDDLE`, else the
right one) in a poll reply. -/
def pad_reading (which : Nat) (p : Nat × Nat × Nat × Nat) : Nat :=
  if which = BUTTON_LEFT then p.2.1 else if which = BUTTON_MIDDLE then p.2.2.1 else p.2.2.2

/-- The sound `_update_button_pressed_state` plays on a touch of the pad `which`. -/
def touch_sound (which : Nat) : Nat :=
  if which = BUTTON_LEFT then AUDIO_L else if which = BUTTON_MIDDLE then AUDIO_M else AUDIO_R

/-- Whether a frame is the command `PlayAudio(whichAudio, ...)` builds for a
one-digit audio id: token `P` at byte 5 and the id's digit first in the payload. -/
def is_audio_cmd (whichAudio : Nat) (f : dlimsg_t) : Bool :=
  byteAt f 5 == 80 && byteAt f 7 == 48 + whichAudio

/-- The number of touch events for the sound `whichAudio` a command queue holds. -/
def touch_events (whichAudio : Nat) (q : List dlimsg_t) : Nat :=
  q.countP (is_audio_cmd whichAudio)

/-- The local `foodtreat_statemachine_state` of `case 'Z'`: the tenth character
of the diagnostic payload, reduced by 48. -/
def diag_state (payload : List Nat) : Nat := sub48 (byteAt (cstr payload) 9)

/-- The local `foodtreat_still_in_bowl` of `case 'Z'`: the ninth character of the
diagnostic payload, reduced by 48. -/
def diag_still_in_bowl (payload : List Nat) : Nat := sub48 (byteAt (cstr payload) 8)

/-- A diagnostic reply folded into the state: `_parse_msg` on token `Z` with
status `1`, at time `now`, `payload` being the memory from the payload on. -/
def diag_update (h : Hub) (now : Nat) (payload : List Nat) : Hub :=
  (_parse_msg h now 90 49 payload (strlen payload)).2

/-- Successive calls `PresentAndCheckFoodtreat(duration_ms)`, one at each of the
given times: the values returned, in order, and the final state. -/
def pact_polls (h : Hub) (duration_ms : Nat) : List Nat → List Nat × Hub
  | [] => ([], h)
  | t :: ts =>
    let r := PresentAndCheckFoodtreat h t duration_ms
    let rs := pact_polls r.2 duration_ms ts
    (r.1 :: rs.1, rs.2)

/-- A tray session driven by diagnostics: each segment is one diagnostic reply
(its time and payload) followed by polls of `PresentAndCheckFoodtreat` at the
given times.  Gives all the values the polls return and the final state. -/
def tray_session (h : Hub) (duration_ms : Nat) :
    List (Nat × List Nat × List Nat) → List Nat × Hub
  | [] => ([], h)
  | (td, payload, polls) :: rest =>
    let r := pact_polls (diag_update h td payload) duration_ms polls
    let rr := tray_session r.2 duration_ms rest
    (r.1 ++ rr.1, rr.2)

/-- Bytes arriving from the device: they join those waiting in `Serial1`. -/
def serial_arrive (h : Hub) (bytes : List Nat) : Hub :=
  { h with serial_rx := h.serial_rx ++ bytes }

/-- One command's exchange with the device, as three `_process_DL` steps at the
times `t`: the step that transmits the head of the queue (`Serial1.write`
writes the whole string), then, the reply having arrived, the step that
receives it, then the step that processes it.  Gives the state after each. -/
def link_cycle (h : Hub) (reply : List Nat) (t : Nat × Nat × Nat) : Hub × Hub × Hub :=
  let a := _process_DL h t.1 (strlen (front h._cmd_queue))
  let b := _process_DL (serial_arrive a reply) t.2.1 0
  let c := _process_DL b t.2.2 0
  (a, b, c)

/-- The exchanges for a list of replies fed one at a time, each with the times
of its three steps: the three states of every exchange, in order. -/
def link_run (h : Hub) : List (List Nat × Nat × Nat × Nat) → List (Hub × Hub × Hub)
  | [] => []
  | (reply, t) :: rest =>
    let r := link_cycle h reply t
    r :: link_run r.2.2 rest

/-- A complete reply as the device sends it: at most 63 bytes, ending in the
terminator `.` and with no `.` before. -/
def complete_reply (reply : List Nat) : Prop :=
  ∃ body, reply = body ++ [46] ∧ 46 ∉ body ∧ body.length ≤ 62

/-- An engine that meets a jammed platter (code 8) in phase WaitTilBack, with a
food-machine reset pending. -/
def jammed_hub : Hub :=
  { HubInterface 0 with _foodmachine_state := 8, _pact_foodtreat_state := PACT_WAIT_TIL_BACK,
                        _need_foodtreat_reset := true }

/-- The operations that change the engine: a pass of the loop of `Run`, bytes
arriving on `Serial1`, and the member functions a script calls (those that only
read, and `Report`, which publishes to the cloud, change nothing). -/
inductive Call where
  | Run_pass (e : Pass)
  | serial_arrive (bytes : List Nat)
  | Initialize_
  | SetLights (whichLights yellow blue slew : Nat)
  | SetLightsRGB (whichLights red green blue slew : Nat)
  | SetLights_flash (whichLights yellow blue period on_ : Nat)
  | SetLightsRGB_flash (whichLights red green blue period on_ : Nat)
  | SetRandomButtonLights (shuffled : List Nat) (numLights yellow blue period on_ : Nat)
  | PlayAudio (whichAudio volume : Nat)
  | PlayTone (frequency volume slew : Nat)
  | PresentFoodtreat (duration_decisec : Nat)
  | PresentAndCheckFoodtreat (now duration_ms : Nat)
  | RetractTray
  | SetConfigValue (configID : Nat) (value : Int)
  | GetConfigValue (configID : Nat)
  | GetDLInitValues
  | SetDLInitValues (left middle right tray_speed tray_current_threshold
      foodtreat_tx_power_level foodtreat_detect_threshold : Int)
  | SetDIResetLock (desired_lock_state : Bool)
  | ResetDI
  | ResetFoodMachine
  | UpdateButtonAudioEnabled
  | SetAudioEnabled (audioEnabled : Bool)
  | SetButtonAudioEnabled (buttonAudioEnabled : Bool)
  | SetMaxAudioAmplitude (max_audio_amplitude : Nat)
  | SetLightEnabled (lightEnabled : Bool)
  | SetMaxLightAmplitude (max_light_amplitude : Nat)
  | SetDoPollButtons (buttonPollingEnable : Bool)
  | SetDoPollDiagnostics (diagPollingEnable : Bool)
  | SetDoPollIndLight (indLightPollingEnable : Bool)
  deriving DecidableEq

/-- The state an operation leaves. -/
def call (s : Hub) : Call → Hub
  | .Run_pass e => Run_pass s e
  | .serial_arrive bytes => serial_arrive s bytes
  | .Initialize_ => (Initialize s).2
  | .SetLights a b c d => (SetLights s a b c d).2
  | .SetLightsRGB a b c d e => (SetLightsRGB s a b c d e).2
  | .SetLights_flash a b c d e => (SetLights_flash s a b c d e).2
  | .SetLightsRGB_flash a b c d e f => (SetLightsRGB_flash s a b c d e f).2
  | .SetRandomButtonLights v a b c d e => (SetRandomButtonLights s v a b c d e).2
  | .PlayAudio a b => (PlayAudio s a b).2
  | .PlayTone a b c => (PlayTone s a b c).2
  | .PresentFoodtreat d => (PresentFoodtreat s d).2
  | .PresentAndCheckFoodtreat now d => (PresentAndCheckFoodtreat s now d).2
  | .RetractTray => (RetractTray s).2
  | .SetConfigValue a v => (SetConfigValue s a v).2
  | .GetConfigValue a => (GetConfigValue s a).2
  | .GetDLInitValues => GetDLInitValues s
  | .SetDLInitValues a b c d e f g => (SetDLInitValues s a b c d e f g).2
  | .SetDIResetLock b => (SetDIResetLock s b).2
  | .ResetDI => (ResetDI s).2
  | .ResetFoodMachine => (ResetFoodMachine s).2
  | .UpdateButtonAudioEnabled => UpdateButtonAudioEnabled s
  | .SetAudioEnabled b => (SetAudioEnabled s b).2
  | .SetButtonAudioEnabled b => (SetButtonAudioEnabled s b).2
  | .SetMaxAudioAmplitude a => (SetMaxAudioAmplitude s a).2
  | .SetLightEnabled b => (SetLightEnabled s b).2
  | .SetMaxLightAmplitude a => (SetMaxLightAmplitude s a).2
  | .SetDoPollButtons b => (SetDoPollButtons s b).2
  | .SetDoPollDiagnostics b => (SetDoPollDiagnostics s b).2
  | .SetDoPollIndLight b => (SetDoPollIndLight s b).2

/-- A script: operations one after the other. -/
def calls (s : Hub) (cs : List Call) : Hub := cs.foldl call s

/-- Successive calls of `_receive_cmd`, one after each piece of bytes has
arrived in `Serial1`: what every call returns, in order, and the final state. -/
def receive_chunks (h : Hub) : List (List Nat) → List (Option dlimsg_t) × Hub
  | [] => ([], h)
  | c :: cs =>
    let r := _receive_cmd (serial_arrive h c)
    let rr := receive_chunks r.2 cs
    (r.1 :: rr.1, rr.2)

/-- A pass of `Run` in which `millis()` returns `t` throughout and
`Serial1.write`, if called, writes `written` bytes. -/
def pass_at (t written : Nat) : Pass :=
  { t_init := t, t_reset := t, t_config := t, t_link := t, t_diag := t, t_btn := t, t_ind := t,
    written := written }

/-- Results added to the performance history one after the other, oldest
first. -/
def addResults (HISTORY_LENGTH : Nat) (h : History) (results : List Bool) : History :=
  results.foldl (addResultToPerformanceHistory HISTORY_LENGTH) h

/-- The indices of `_reply_buffer` the loop of `_receive_cmd` stores a byte at,
in order: `_receive_cmd_loop` with every store
`_reply_buffer[_len_reply_buffer] = Serial1.read()` recorded. -/
def receive_loop_stores : List Nat → Hub → List Nat
  | [], _ => []
  | b :: rest, s =>
    if s._len_reply_buffer ≥ MAX_LEN_REPLY_BUFFER - 1 then []
    else
      let s1 : Hub := { s with
        _reply_buffer := s._reply_buffer.set s._len_reply_buffer b,
        _len_reply_buffer := s._len_reply_buffer + 1,
        serial_rx := rest }
      s._len_reply_buffer ::
        (if byteAt s1._reply_buffer (s1._len_reply_buffer - 1) = 46 then []
         else receive_loop_stores rest s1)

/-- The indices of `_reply_buffer` a call of `_receive_cmd` stores at: those of
its loop, then that of the store `_reply_buffer[_len_reply_buffer++] = STR_CARRIAGE_RETURN`
when the call returns `true`. -/
def receive_cmd_stores (s : Hub) : List Nat :=
  let r := _receive_cmd_loop s.serial_rx s
  receive_loop_stores s.serial_rx s ++
    (if r.2 then []
     else if r.1._len_reply_buffer > 0
        ∧ byteAt r.1._reply_buffer (r.1._len_reply_buffer - 1) = 46 then [r.1._len_reply_buffer]
     else [])

/-- The update a get-config reply (token `U`, status ok) with the given payload
makes to the engine: `_parse_msg` on that reply. -/
def config_update (h : Hub) (payload : List Nat) : Hub :=
  (_parse_msg h 0 85 49 payload (strlen payload)).2

/-- Get-config replies processed one after the other. -/
def config_updates (h : Hub) (payloads : List (List Nat)) : Hub :=
  payloads.foldl config_update h

/-- A step of an interleaving of the script and the link session: an operation
the script issues (among them bytes arriving and a pass of `Run`), or a call of
`_process_DL` with the value `millis()` returns and the value `Serial1.write`
returns if it is called. -/
inductive LinkStep where
  | op (c : Call)
  | process_DL (now written : Nat)
  deriving DecidableEq

/-- The state a step of an interleaving leaves. -/
def link_step (s : Hub) : LinkStep → Hub
  | .op c => call s c
  | .process_DL now written => _process_DL s now written

/-- An interleaving: steps one after the other. -/
def link_steps (s : Hub) (l : List LinkStep) : Hub := l.foldl link_step s

/-- The state `_initialize` calls `_process_DL` on, in its state
`DLINIT_PROCESS`: the one left by the statement
`if (millis() > (_init_dl_start + _init_dl_process_ms)) { ... }` before it. -/
def initialize_before_process_DL (s : Hub) (now : Nat) : Hub :=
  if now > (s._init_dl_start + s._init_dl_process_ms) % ULONG then
    { s with _init_dl_state := DLINIT_WAIT_BOOT, _dl_is_ready := true }
  else s

/-- The state a pass of `Run` calls `_process_DL` on when the engine is ready:
the one left by the reset check and the configuration sync before it. -/
def pass_before_process_DL (s : Hub) (e : Pass) : Hub :=
  run_config_init (run_reset_check s e.t_reset) e.t_config

/-! ## Observations used in the proofs -/

/-- The members that handling a reply (`_parse_msg` and what it calls) never
writes: the link session's own, the tray session's, and the liftoff window. -/
def untouched (s : Hub) :=
  ((s._run_loop_state, s._dl_reply_queue, s._num_send_retries, s._max_num_send_retries,
    s.serial_tx, s.serial_rx, s._reply_buffer, s._len_reply_buffer, s._start_listen,
    s._max_listen_time),
   (s._pact_foodtreat_state, s._foodtreat_presented_time, s._foodtreat_retracted_time,
    s._pact_platter_return_time, s._indefinite_tray_presentation, s._want_tray_closed),
   s._button_liftoff_ms)

/-- The effect every step of reply handling stays within: the `untouched`
members keep their values, the command queue only grows at its back, and the
error slot keeps its value or takes `ERROR_CMD_RECEIVED_BAD_NUM_ARGS`. -/
def ReplyFrame (s t : Hub) : Prop :=
  untouched t = untouched s
  ∧ (∃ extra, t._cmd_queue = s._cmd_queue ++ extra)
  ∧ (t._error_code = s._error_code ∨ t._error_code = ERROR_CMD_RECEIVED_BAD_NUM_ARGS)

/-- The debounce members of the three pads, and the settings the debounce reads. -/
def button_view (s : Hub) :=
  (s._l_button_state, s._l_button_timeout, s._m_button_state, s._m_button_timeout,
   s._r_button_state, s._r_button_timeout, s._button_liftoff_ms, s._button_audio_enabled,
   s._button_audio_amplitude)

/-- What a diagnostic reply stores for `PresentAndCheckFoodtreat` to read. -/
def diag_view (s : Hub) :=
  (s._foodmachine_state, s._previous_foodtreat_taken, s._last_diag_update_ms)

/-- The food machine reports neither lid-open nor an error code. -/
def fm_ok (s : Hub) : Prop :=
  ¬ (s._foodmachine_state = FOODMACHINE_LID_OPEN ∨ s._foodmachine_state > FOODMACHINE_WAIT)

/-- The members of a state a tray session goes by. -/
def session_facts (s : Hub) :=
  (s._pact_foodtreat_state, s._pact_platter_return_time, s._foodmachine_state,
   s._previous_foodtreat_taken, s._last_diag_update_ms)

/-- The link session at rest: nothing in flight. -/
def link_idle (s : Hub) : Prop :=
  s._run_loop_state = STATE_BEFORE_SEND ∧ s._num_send_retries = 0 ∧ 0 < s._max_num_send_retries
  ∧ s._dl_reply_queue = [] ∧ s.serial_rx = [] ∧ s._reply_buffer.length = MAX_LEN_REPLY_BUFFER

/-- What an enqueuing operation with result `r` has done to the queue of `s`:
it has returned `true` and pushed one frame, with `tok` at byte 5, or it has
returned `false` and pushed nothing. -/
def Enqueues (tok : Nat) (s : Hub) (r : Bool × Hub) : Prop :=
  (r.1 = true ∧ ∃ f, r.2._cmd_queue = s._cmd_queue ++ [f] ∧ byteAt f 5 = tok)
  ∨ (r.1 = false ∧ r.2._cmd_queue = s._cmd_queue)

/-- The settings of the stuck-pad monitor. -/
def csf_settings (s : Hub) :=
  (s._csf_integration_thresh, s._csf_max_on_duration, s._csf_hysteresis)

/-- The monitor's counters and timers of the three pads. -/
def csf_left (s : Hub) := (s._csf_detect_integration_left, s._csf_timer_max_left)

def csf_middle (s : Hub) := (s._csf_detect_integration_middle, s._csf_timer_max_middle)

def csf_right (s : Hub) := (s._csf_detect_integration_right, s._csf_timer_max_right)

/-- The error flags and the indicator state the diagnostic reply keeps. -/
def gate_view (s : Hub) :=
  (s._hub_out_of_food, s._singulator_error, s._platter_stuck, s._platter_error, s.IndicatorState)

/-- The bookkeeping of the diagnostic reply that the touch sounds depend on:
touch audio is off while the hub is out of food, the singulator is in error or
the platter is stuck; indicator state OutOfFood is only shown while the hub is
out of food, and JamStuck only while the singulator is in error or the platter
is stuck in its error. -/
def audio_gate (s : Hub) : Prop :=
  ((s._hub_out_of_food = true ∨ s._singulator_error = true ∨ s._platter_stuck = true) →
      s._button_audio_enabled = false)
  ∧ (s.IndicatorState = IL_DLI_OOF → s._hub_out_of_food = true)
  ∧ (s.IndicatorState = IL_DLI_JAM_ERROR →
      s._singulator_error = true ∨ (s._platter_stuck = true ∧ s._platter_error = true))

/-- A run of diagnostic replies (the time each is processed at, and its payload),
oldest first. -/
def diag_updates (h : Hub) (ds : List (Nat × List Nat)) : Hub :=
  ds.foldl (fun h d => diag_update h d.1 d.2) h

/-- The effect every operation of the engine stays within, `P` telling which
tokens it may enqueue.  From `s` to `t`: the DI-reset lock is kept; a
configuration sync that is done stays done; a sequence number that is a digit
stays one; the command queue loses frames at its front only and gains them at
its back only, and the frames it gains have a token (byte 5) that satisfies
`P`; and what is handed to `Serial1.write` is (a prefix of) the string of a
frame that was in the queue of `s` or has such a token. -/
def Flow (P : Nat → Prop) (s t : Hub) : Prop :=
  t._csf_DI_reset_locked = s._csf_DI_reset_locked
  ∧ (s._config_init_state = CONFIG_INIT_DONE → t._config_init_state = CONFIG_INIT_DONE)
  ∧ (s._packet_number < 10 → t._packet_number < 10)
  ∧ (∃ k added, t._cmd_queue = s._cmd_queue.drop k ++ added
      ∧ (s._packet_number < 10 → ∀ f ∈ added, P (byteAt f 5)))
  ∧ (∃ sent, t.serial_tx = s.serial_tx ++ sent
      ∧ ∀ x ∈ sent, ∃ f w, x = (cstr f).take w
          ∧ (f ∈ s._cmd_queue ∨ (s._packet_number < 10 → P (byteAt f 5))))

/-- The first statement of `_process_DL`: the `switch` over the three states of
the link session, before the closing test of the retry counter. -/
def process_DL_switch (s : Hub) (now : Nat) (written : Nat) : Hub :=
  if s._run_loop_state = STATE_BEFORE_SEND then
    let r := _send_top_cmd s written
    if r.1 then
      { r.2 with _run_loop_state := STATE_AFTER_SEND_BEFORE_RCV, _start_listen := now,
                 _len_reply_buffer := 0 }
    else r.2
  else if s._run_loop_state = STATE_AFTER_SEND_BEFORE_RCV then
    match _receive_cmd s with
    | (some reply, s1) =>
      { s1 with _dl_reply_queue := s1._dl_reply_queue ++ [reply],
                _run_loop_state := STATE_AFTER_RCV_BEFORE_PROCESS }
    | (none, s1) =>
      if (now + ULONG - s1._start_listen) % ULONG > s1._max_listen_time then
        { s1 with _num_send_retries := (s1._num_send_retries + 1) % 256,
                  _run_loop_state := STATE_BEFORE_SEND, _len_reply_buffer := 0 }
      else s1
  else if s._run_loop_state = STATE_AFTER_RCV_BEFORE_PROCESS then
    let s1 := ( _process_next_msg s now).2
    { s1 with _cmd_queue := s1._cmd_queue.tail, _num_send_retries := 0,
              _run_loop_state := STATE_BEFORE_SEND }
  else s

/-- The tokens a pass of `Run` may enqueue from the state `s`: the device reset
`K` only while the DI-reset lock is not held, and the commands `N` and `U` of
the configuration sync only while the sync is not done. -/
def pass_tokens (s : Hub) (tok : Nat) : Prop :=
  (tok = 75 → s._csf_DI_reset_locked = false)
  ∧ (tok = 78 ∨ tok = 85 → s._config_init_state ≠ CONFIG_INIT_DONE)

/-- The tokens an operation may enqueue while the DI-reset lock is held: any but
`K`. -/
abbrev not_reset (tok : Nat) : Prop := tok ≠ 75

/-- The tokens a pass of `Run` may enqueue once the configuration sync is done:
any but `N` (set a value) and `U` (get a value). -/
abbrev not_config (tok : Nat) : Prop := tok ≠ 78 ∧ tok ≠ 85

/-- An engine whose configuration sync has asked for the seven values (after the
settle delay) and has received, in seven `U` replies, the compiled-in ones. -/
def synced_hub : Hub :=
  [ascii "2100029", ascii "2200030", ascii "2300030", ascii "1100087", ascii "0800200",
    ascii "1800000", ascii "2000060"].foldl
    (fun h payload => ( _parse_msg h 21000 85 49 (payload ++ [0]) 7).2)
    ( _process_config_init ( _process_config_init (HubInterface 0) 20001) 20002)

/-- An engine that is ready, with the food machine idle and no pad pressed. -/
def ready_hub : Hub :=
  { HubInterface 0 with
    _dl_is_ready := true, _foodmachine_state := FOODMACHINE_IDLE, _l_button_state := false,
    _m_button_state := false, _r_button_state := false }

/-- What a call that returns `r` from the state `s` has done when it has pushed
one command: it has returned `true`, one frame has been appended to the back of
the command queue, the sequence number has moved on, nothing else has changed. -/
def Pushes (s : Hub) (r : Bool × Hub) : Prop :=
  ∃ f, r = (true, { s with _packet_number := (s._packet_number + 1) % 9,
                           _cmd_queue := s._cmd_queue ++ [f] })

/-- An engine that has transmitted a retract command at time 100 and listens
for the reply. -/
def listening_hub : Hub := _process_DL (RetractTray (HubInterface 0)).2 100 10

/-- The state after `bytes` have been read from `Serial1` into the inbound
buffer, behind the bytes already there, with `rest` still waiting. -/
def buffered (s : Hub) (bytes rest : List Nat) : Hub :=
  { s with
    _reply_buffer := s._reply_buffer.take s._len_reply_buffer ++ bytes
      ++ s._reply_buffer.drop (s._len_reply_buffer + bytes.length),
    _len_reply_buffer := s._len_reply_buffer + bytes.length,
    serial_rx := rest }

/-- The settings the touch sounds depend on. -/
def touch_env (s : Hub) :=
  (s._audio_enabled, s._button_audio_enabled, s._button_audio_amplitude, s._audio_amplitude_max,
   s._button_liftoff_ms)

/-- The liftoff deadline of the pad `which`. -/
def pad_deadline (s : Hub) (which : Nat) : Nat :=
  if which = BUTTON_LEFT then s._l_button_timeout
  else if which = BUTTON_MIDDLE then s._m_button_timeout
  else s._r_button_timeout

/-- The state of a jam episode that started at `t0` from a queue `q0`, after `c`
jam replies processed later than the recovery wait. -/
def JamRun (q0 : List dlimsg_t) (t0 c : Nat) (s : Hub) : Prop :=
  s._platter_error = true ∧ s._platter_error_start_ms = t0
  ∧ s._platter_error_count = ((min c 5 : Nat) : Int)
  ∧ s._platter_stuck = decide (5 ≤ c)
  ∧ (∃ fs : List dlimsg_t, s._cmd_queue = q0 ++ fs ∧ fs.length = min c 4
      ∧ ∀ f ∈ fs, byteAt f 5 = 70)
  ∧ s.IndicatorState = (if 5 ≤ c then IL_DLI_JAM_ERROR else IL_DLI_JAM)
  ∧ s._singulator_error = false ∧ s._max_platter_error_count = 5
  ∧ s._platter_error_reset_wait = 10000 ∧ s._packet_number < 10

/-- The history after the results `all` have been added, oldest first, to a
history that had been reset: either the array is not full yet, and holds the
results at its front, or it is full, and the `HISTORY_LENGTH` most recent
results are the part from `perfPos` on followed by the part before it. -/
def HistInv (H : Nat) (all : List Bool) (h : History) : Prop :=
  (all.length < H ∧ h.perfPos = all.length ∧ h.perfDepth = all.length
    ∧ ∃ junk, h.performance = all ++ junk ∧ (all ++ junk).length = H)
  ∨ (h.perfDepth = H
    ∧ ∃ old A B, all = old ++ (B ++ A) ∧ h.performance = A ++ B ∧ A.length = h.perfPos
        ∧ (A ++ B).length = H ∧ h.perfPos < H)

/-- What every operation other than `_process_DL` does to the link session:
from `s` to `t` the state of the session, the retry counter, its maximum, the
reply queue and the inbound buffer with its length keep their values, and the
command queue only grows at its back. -/
def Push (s t : Hub) : Prop :=
  t._run_loop_state = s._run_loop_state
  ∧ t._num_send_retries = s._num_send_retries
  ∧ t._max_num_send_retries = s._max_num_send_retries
  ∧ t._dl_reply_queue = s._dl_reply_queue
  ∧ t._reply_buffer = s._reply_buffer
  ∧ t._len_reply_buffer = s._len_reply_buffer
  ∧ ∃ extra, t._cmd_queue = s._cmd_queue ++ extra

/-- The invariant of the link session between steps: the retry counter is below
its maximum, and the command queue is not empty unless the session is in state
BeforeSend. -/
def LinkInv (s : Hub) : Prop :=
  s._num_send_retries < s._max_num_send_retries
  ∧ (s._run_loop_state ≠ STATE_BEFORE_SEND → s._cmd_queue ≠ [])

/-- The three `pop()` calls a step `_process_DL` from `s` can reach find their
queue not empty: the `_cmd_queue.pop()` of state AfterRcvBeforeProcess, which
follows `_process_next_msg`; the `_cmd_queue.pop()` under
`_num_send_retries >= _max_num_send_retries`, which follows the `switch`; and
the `_dl_reply_queue.pop()` of `_process_next_msg`, which follows
`_process_reply_from_dl` under `_dl_reply_queue.size() > 0`. -/
def PopsSafe (s : Hub) : Prop :=
  ∀ now written : Nat,
    (s._run_loop_state = STATE_AFTER_RCV_BEFORE_PROCESS →
      (_process_next_msg s now).2._cmd_queue ≠ [])
    ∧ ((process_DL_switch s now written)._num_send_retries
          ≥ (process_DL_switch s now written)._max_num_send_retries →
        (process_DL_switch s now written)._cmd_queue ≠ [])
    ∧ (s._run_loop_state = STATE_AFTER_RCV_BEFORE_PROCESS → s._dl_reply_queue.length > 0 →
        (_process_reply_from_dl s now (front s._dl_reply_queue)).2._dl_reply_queue ≠ [])

/-- The inbound buffer between the steps of the link session: the array has its
64 elements, the length is at most 63, and the bytes held do not end in a
`.`. -/
def BufInv (s : Hub) : Prop :=
  s._reply_buffer.length = MAX_LEN_REPLY_BUFFER
  ∧ s._len_reply_buffer ≤ MAX_LEN_REPLY_BUFFER - 1
  ∧ (s._len_reply_buffer = 0 ∨ byteAt s._reply_buffer (s._len_reply_buffer - 1) ≠ 46)

/-- The members of the bring-up: the readiness flag, the state of `_initialize`,
the time its commands were enqueued, and the two waits. -/
def boot_view (s : Hub) :=
  (s._dl_is_ready, s._init_dl_state, s._init_dl_start, s._init_dl_process_ms, s._wait_dl_boot_ms)

/-- From `s` to `t` the members of the bring-up keep their values. -/
def Boot (s t : Hub) : Prop := boot_view t = boot_view s

/-- From `s` to `t` the state of `_initialize` and the two waits keep their
values, and the readiness flag keeps its value or is cleared. -/
def Resets (s t : Hub) : Prop :=
  t._init_dl_state = s._init_dl_state
  ∧ t._init_dl_process_ms = s._init_dl_process_ms
  ∧ t._wait_dl_boot_ms = s._wait_dl_boot_ms
  ∧ (t._dl_is_ready = s._dl_is_ready ∨ t._dl_is_ready = false)

/-- The invariant of the bring-up: the two waits have their values of the
constructor, and a ready engine is in state `DLINIT_WAIT_BOOT`. -/
def BootInv (s : Hub) : Prop :=
  s._wait_dl_boot_ms = 3050 ∧ s._init_dl_process_ms = 300
  ∧ (s._dl_is_ready = true → s._init_dl_state = DLINIT_WAIT_BOOT)

/-- The engine waits in state `DLINIT_WAIT_BOOT`, not ready. -/
def Waiting (s : Hub) : Prop :=
  s._dl_is_ready = false ∧ s._init_dl_state = DLINIT_WAIT_BOOT
  ∧ s._wait_dl_boot_ms = 3050 ∧ s._init_dl_process_ms = 300

/-- What an operation with result `r` has done when it has enqueued a command
with the token `tok`: it has returned `true`, and the command queue is the
queue of `s` with one frame appended at its back, a frame that starts with `$`
and has `tok` at byte 5. -/
def Queued (tok : Nat) (s : Hub) (r : Bool × Hub) : Prop :=
  r.1 = true ∧ ∃ f, r.2._cmd_queue = s._cmd_queue ++ [f] ∧ byteAt f 0 = 36 ∧ byteAt f 5 = tok

/-! ## Facts about `sprintf` and C strings -/

theorem fmt_d_digit (n : Nat) (h : n < 10) : fmt_d n = [48 + n] := by
  simp [fmt_d, decDigitsAux, h]

theorem fmt_d_two (n : Nat) (h1 : 10 ≤ n) (h2 : n < 100) :
    fmt_d n = [48 + n / 10, 48 + n % 10] := by
  obtain ⟨m, rfl⟩ : ∃ m, n = m + 1 := ⟨n - 1, by omega⟩
  have h3 : ¬ (m + 1 < 10) := by omega
  have h4 : (m + 1) / 10 < 10 := by omega
  simp [fmt_d, decDigitsAux, h3, h4]

theorem fmt_d_three (n : Nat) (h1 : 100 ≤ n) (h2 : n < 1000) :
    fmt_d n = [48 + n / 100, 48 + n / 10 % 10, 48 + n % 10] := by
  obtain ⟨m, rfl⟩ : ∃ m, n = m + 2 := ⟨n - 2, by omega⟩
  have h3 : ¬ (m + 2 < 10) := by omega
  have h4 : ¬ ((m + 2) / 10 < 10) := by omega
  have h5 : (m + 2) / 10 / 10 < 10 := by omega
  have h6 : (m + 2) / 10 / 10 = (m + 2) / 100 := by omega
  have h7 : (m + 2) / 100 < 10 := by omega
  simp [fmt_d, decDigitsAux, h3, h4, h6, h7]

theorem fmt_0d_3 (n : Nat) (h : n < 1000) :
    fmt_0d 3 n = [48 + n / 100, 48 + n / 10 % 10, 48 + n % 10] := by
  rcases Nat.lt_or_ge n 10 with h1 | h1
  · have e1 : n / 100 = 0 := by omega
    have e2 : n / 10 % 10 = 0 := by omega
    have e3 : n % 10 = n := by omega
    simp [fmt_0d, fmt_d_digit n h1, e1, e2, e3, List.replicate]
  · rcases Nat.lt_or_ge n 100 with h2 | h2
    · have e1 : n / 100 = 0 := by omega
      have e2 : n / 10 % 10 = n / 10 := by omega
      simp [fmt_0d, fmt_d_two n h1 h2, e1, e2, List.replicate]
    · simp [fmt_0d, fmt_d_three n h2 h]

theorem fmt_0d_2 (n : Nat) (h : n < 100) : fmt_0d 2 n = [48 + n / 10, 48 + n % 10] := by
  rcases Nat.lt_or_ge n 10 with h1 | h1
  · have e1 : n / 10 = 0 := by omega
    have e3 : n % 10 = n := by omega
    simp [fmt_0d, fmt_d_digit n h1, e1, e3, List.replicate]
  · simp [fmt_0d, fmt_d_two n h1 h]

theorem cstr_no_nul (l : List Nat) : ∀ b ∈ cstr l, b ≠ 0 := by
  intro b hb
  have := List.mem_takeWhile_imp hb
  simpa using this

theorem cstr_append_nul (l rest : List Nat) (h : ∀ b ∈ l, b ≠ 0) :
    cstr (l ++ 0 :: rest) = l := by
  induction l with
  | nil => simp [cstr]
  | cons a t ih =>
    have ha : a ≠ 0 := h a (by simp)
    have hb : (a != 0) = true := by simpa using ha
    have := ih (fun b hb => h b (by simp [hb]))
    simp only [cstr] at this
    simp [cstr, List.takeWhile_cons, hb, this]

theorem cstr_of_no_nul (l : List Nat) (h : ∀ b ∈ l, b ≠ 0) : cstr l = l := by
  induction l with
  | nil => simp [cstr]
  | cons a t ih =>
    have ha : a ≠ 0 := h a (by simp)
    have hb : (a != 0) = true := by simpa using ha
    have := ih (fun b hb => h b (by simp [hb]))
    simp only [cstr] at this
    simp [cstr, List.takeWhile_cons, hb, this]

theorem cstr_append_of_no_nul (l rest : List Nat) (h : ∀ b ∈ l, b ≠ 0) :
    cstr (l ++ rest) = l ++ cstr rest := by
  induction l with
  | nil => simp
  | cons a t ih =>
    have ha : a ≠ 0 := h a (by simp)
    have hb : (a != 0) = true := by simpa using ha
    have := ih (fun b hb => h b (by simp [hb]))
    simp only [cstr] at this
    simp [cstr, List.takeWhile_cons, hb, this]

/-! ## Command framing: C1 to C4 -/

/-- What `_create_dl_cmd_with` gives for a payload it does not reject: the seven
bytes of the header, then as much of the payload, the `.` and the closing NUL as
the 57 bytes left in `buf` hold. -/
theorem create_dl_cmd_take (s : Hub) (token : Nat) (payload : List Nat)
    (hlen : strlen payload < 999) (hseq : s._packet_number < 10) :
    _create_dl_cmd_with s token payload =
      (some ([36, 48 + strlen payload / 100, 48 + strlen payload / 10 % 10,
              48 + strlen payload % 10, 48 + s._packet_number, token, 49]
              ++ (cstr payload ++ [46, 0]).take 57),
       { s with _packet_number := (s._packet_number + 1) % 9 }) := by
  have h1 : ¬ (strlen payload ≥ 999) := by omega
  have e : ([36] ++ fmt_0d 3 (strlen payload) ++ fmt_d s._packet_number ++ [token] ++ [49]
        ++ cstr payload ++ [46] ++ [0])
      = 36 :: (48 + strlen payload / 100) :: (48 + strlen payload / 10 % 10)
          :: (48 + strlen payload % 10) :: (48 + s._packet_number) :: token :: 49
          :: (cstr payload ++ [46, 0]) := by
    simp [fmt_0d_3 _ (Nat.lt_trans hlen (by decide)), fmt_d_digit _ hseq]
  unfold _create_dl_cmd_with
  rw [if_neg h1, e]
  rfl

/-- For a payload of at most 55 bytes the frame fits in `buf` and is there
whole. -/
theorem create_dl_cmd_eq (s : Hub) (token : Nat) (payload : List Nat)
    (hlen : strlen payload ≤ 55) (hseq : s._packet_number < 10) :
    _create_dl_cmd_with s token payload =
      (some ([36, 48 + strlen payload / 100, 48 + strlen payload / 10 % 10,
              48 + strlen payload % 10, 48 + s._packet_number, token, 49]
              ++ cstr payload ++ [46, 0]),
       { s with _packet_number := (s._packet_number + 1) % 9 }) := by
  rw [create_dl_cmd_take s token payload (by omega) hseq,
    List.take_of_length_le (by
      rw [List.length_append]
      unfold strlen at hlen
      simp only [List.length_cons, List.length_nil]
      omega),
    List.append_assoc]

theorem strlen_frame (pre payload : List Nat) (hpre : ∀ b ∈ pre, b ≠ 0) :
    strlen (pre ++ cstr payload ++ [46, 0]) = pre.length + strlen payload + 1 := by
  have h : ∀ b ∈ pre ++ cstr payload ++ [46], b ≠ 0 := by
    intro b hb
    simp only [List.mem_append, List.mem_singleton] at hb
    rcases hb with (hb | hb) | hb
    · exact hpre b hb
    · exact cstr_no_nul payload b hb
    · omega
  have e : pre ++ cstr payload ++ [46, 0] = (pre ++ cstr payload ++ [46]) ++ 0 :: [] := by simp
  rw [strlen, e, cstr_append_nul _ _ h]
  simp [strlen]
  omega

/-- C1, amended. Framing round trip: for a state whose sequence number is a digit, a
token that is a character (not NUL) and a payload string of at most 55 bytes,
`_create_dl_cmd_with` succeeds, the frame it builds fits the 64 bytes of a
`dlimsg_t`, and it decodes (token at byte 5, status at byte 6, payload of the
length given at bytes 1 to 3 from offset 7) to exactly the token, status ok and
the payload. -/
theorem framing_round_trip (s : Hub) (token : Nat) (payload : List Nat)
    (htok : token ≠ 0) (hlen : strlen payload ≤ 55) (hseq : s._packet_number < 10) :
    ∃ frame, (_create_dl_cmd_with s token payload).1 = some frame ∧
      frame.length ≤ MAX_LEN_REPLY_BUFFER ∧
      decode_reply frame = some (token, true, cstr payload) := by
  refine ⟨_, by rw [create_dl_cmd_eq s token payload hlen hseq], ?_, ?_⟩
  · show _ ≤ 64
    unfold strlen at hlen
    simp only [List.length_append, List.length_cons, List.length_nil]
    omega
  have hs := strlen_frame [36, 48 + strlen payload / 100, 48 + strlen payload / 10 % 10,
      48 + strlen payload % 10, 48 + s._packet_number, token, 49] payload
      (by intro b hb; simp at hb; omega)
  have h7 : ¬ (strlen ([36, 48 + strlen payload / 100, 48 + strlen payload / 10 % 10,
      48 + strlen payload % 10, 48 + s._packet_number, token, 49] ++ cstr payload ++ [46, 0]) < 7) := by
    rw [hs]; simp; omega
  have hl : ((100 * (((48 + strlen payload / 100 : Nat) : Int) - 48)
      + 10 * (((48 + strlen payload / 10 % 10 : Nat) : Int) - 48)
      + (((48 + strlen payload % 10 : Nat) : Int) - 48)) % 65536).toNat = strlen payload := by
    clear hs h7
    generalize strlen payload = n at hlen ⊢
    have key : 100 * (n / 100) + 10 * (n / 10 % 10) + n % 10 = n := by omega
    generalize n / 100 = a, n / 10 % 10 = b, n % 10 = c at key ⊢
    omega
  simp only [decode_reply, reply_header, h7, if_false]
  simp only [byteAt, List.cons_append, List.getD_cons_succ, List.getD_cons_zero, List.drop_succ_cons,
    List.drop_zero, List.nil_append, hl]
  simp [sub48, strlen]

theorem framing_round_trip_witness :
    (77 : Nat) ≠ 0 ∧ strlen (ascii "A502000") ≤ 55 ∧ (HubInterface 0)._packet_number < 10 ∧
    ∃ frame, (_create_dl_cmd_with (HubInterface 0) 77 (ascii "A502000")).1 = some frame ∧
      frame.length ≤ MAX_LEN_REPLY_BUFFER ∧
      decode_reply frame = some (77, true, cstr (ascii "A502000")) :=
  ⟨by decide, by decide, by decide,
   framing_round_trip (HubInterface 0) 77 (ascii "A502000") (by decide) (by decide) (by decide)⟩

/-- C1 fails as stated. A payload of 60 bytes is within the size limit of
`_create_dl_cmd_with` (it is not rejected), but its frame would need 69 bytes
and the `dlimsg_t` holds the first 64 of them: decoding it gives the first 57
bytes of the payload, not the payload. -/
theorem long_payload_does_not_round_trip :
    strlen (List.replicate 60 65) = 60
    ∧ ((_create_dl_cmd_with (HubInterface 0) 77 (List.replicate 60 65)).1.map List.length)
        = some 64
    ∧ ((_create_dl_cmd_with (HubInterface 0) 77 (List.replicate 60 65)).1.bind decode_reply)
        = some (77, true, List.replicate 57 65)
    ∧ ((_create_dl_cmd_with (HubInterface 0) 77 (List.replicate 60 65)).1.bind decode_reply)
        ≠ some (77, true, cstr (List.replicate 60 65)) := by
  decide

/-- C2, amended. Wire format: in a state whose sequence number `s` is a digit, the frame
`_create_dl_cmd_with` builds for a payload string of at most 55 bytes is `$`,
the payload length as three decimal digits, the digit `s`, the token, `1`, the
payload, `.` and a last byte `STR_CARRIAGE_RETURN` (the macro is 0, the NUL
that ends the C string); and `SetLights(LIGHT_LEFT, 50, 20, 0)` on a fresh
engine enqueues `$0070M1A502000.` followed by that byte. -/
theorem wire_format (s : Hub) (token : Nat) (payload : List Nat) (bootup : Nat)
    (hlen : strlen payload ≤ 55) (hseq : s._packet_number < 10) :
    (_create_dl_cmd_with s token payload).1 =
        some (ascii "$"
          ++ [48 + strlen payload / 100, 48 + strlen payload / 10 % 10, 48 + strlen payload % 10]
          ++ [48 + s._packet_number] ++ [token] ++ ascii "1" ++ cstr payload ++ ascii "."
          ++ [STR_CARRIAGE_RETURN])
    ∧ (SetLights (HubInterface bootup) LIGHT_LEFT 50 20 0).2._cmd_queue
        = [ascii "$0070M1A502000." ++ [STR_CARRIAGE_RETURN]] := by
  constructor
  · rw [create_dl_cmd_eq s token payload hlen hseq]
    have e1 : ascii "$" = [36] := by decide
    have e2 : ascii "1" = [49] := by decide
    have e3 : ascii "." = [46] := by decide
    simp [e1, e2, e3, STR_CARRIAGE_RETURN]
  · have hq : strlen ([65] ++ fmt_0d 2 (map0 50 99 99) ++ fmt_0d 2 (map0 20 99 99) ++ fmt_0d 2 0 ++ [0])
        = 7 := by decide
    have hc := create_dl_cmd_eq (HubInterface bootup) 77
      ([65] ++ fmt_0d 2 (map0 50 99 99) ++ fmt_0d 2 (map0 20 99 99) ++ fmt_0d 2 0 ++ [0])
      (by rw [hq]; decide) (by simp [HubInterface])
    have hp : cstr ([65] ++ fmt_0d 2 (map0 50 99 99) ++ fmt_0d 2 (map0 20 99 99) ++ fmt_0d 2 0 ++ [0])
        = [65, 53, 48, 50, 48, 48, 48] := by decide
    have ha : ascii "$0070M1A502000." ++ [STR_CARRIAGE_RETURN]
        = [36, 48, 48, 55, 48, 77, 49, 65, 53, 48, 50, 48, 48, 48, 46, 0] := by decide
    have hs : SetLights (HubInterface bootup) LIGHT_LEFT 50 20 0
        = enqueue_cmd (HubInterface bootup) 77
            ([65] ++ fmt_0d 2 (map0 50 99 99) ++ fmt_0d 2 (map0 20 99 99) ++ fmt_0d 2 0 ++ [0]) := by
      simp [SetLights, HubInterface, byteAt, LIGHT_LEFT]
    rw [hs, ha]
    simp only [enqueue_cmd, hc, hq, hp]
    simp [HubInterface]

theorem wire_format_witness :
    strlen (ascii "00") ≤ 55 ∧ (HubInterface 0)._packet_number < 10 ∧
    (_create_dl_cmd_with (HubInterface 0) 90 (ascii "00")).1 =
        some (ascii "$" ++ [48 + strlen (ascii "00") / 100, 48 + strlen (ascii "00") / 10 % 10,
          48 + strlen (ascii "00") % 10]
          ++ [48 + (HubInterface 0)._packet_number] ++ [90] ++ ascii "1" ++ cstr (ascii "00")
          ++ ascii "." ++ [STR_CARRIAGE_RETURN]) :=
  ⟨by decide, by decide,
   (wire_format (HubInterface 0) 90 (ascii "00") 0 (by decide) (by decide)).1⟩

/-- C2 fails as stated. For a payload of 56 bytes, which `_create_dl_cmd_with` does not
reject, the frame of the wire format has 65 bytes and the `dlimsg_t` holds 64:
what is built ends in the `.` and lacks the trailing carriage-return byte. -/
theorem long_payload_frame_is_cut :
    strlen (List.replicate 56 65) = 56
    ∧ (_create_dl_cmd_with (HubInterface 0) 77 (List.replicate 56 65)).1
        = some (ascii "$056" ++ [48] ++ [77] ++ ascii "1" ++ List.replicate 56 65 ++ ascii ".")
    ∧ (_create_dl_cmd_with (HubInterface 0) 77 (List.replicate 56 65)).1
        ≠ some (ascii "$"
            ++ [48 + strlen (List.replicate 56 65) / 100,
                48 + strlen (List.replicate 56 65) / 10 % 10,
                48 + strlen (List.replicate 56 65) % 10]
            ++ [48 + (HubInterface 0)._packet_number] ++ [77] ++ ascii "1"
            ++ cstr (List.replicate 56 65) ++ ascii "." ++ [STR_CARRIAGE_RETURN]) := by
  decide

theorem encode_all_seq (reqs : List (Nat × List Nat)) :
    ∀ (s : Hub) (k : Nat), s._packet_number < 9 → k < (encode_all s reqs).length →
      byteAt ((encode_all s reqs).getD k []) 4 = 48 + (s._packet_number + k) % 9 := by
  induction reqs with
  | nil => intro s k _ hk; simp [encode_all] at hk
  | cons r rest ih =>
    intro s k hs hk
    obtain ⟨token, payload⟩ := r
    rcases Nat.lt_or_ge (strlen payload) 999 with hl | hl
    · have e := create_dl_cmd_take s token payload hl (by omega)
      simp only [encode_all, e] at hk ⊢
      cases k with
      | zero =>
        have : s._packet_number % 9 = s._packet_number := Nat.mod_eq_of_lt hs
        simp [byteAt, this]
      | succ j =>
        have hj := ih { s with _packet_number := (s._packet_number + 1) % 9 } j
          (Nat.mod_lt _ (by decide)) (by simpa using hk)
        simp only [List.getD_cons_succ]
        rw [hj]
        simp only
        omega
    · have e : _create_dl_cmd_with s token payload = (none, s) := by
        simp [_create_dl_cmd_with, hl]
      simp only [encode_all, e] at hk ⊢
      exact ih s k hs hk

/-- C4. Sequence cycling: on a freshly constructed engine, whatever the tokens
and payloads of the requests are, the `k`-th frame that is built (counting from
0 the calls of `_create_dl_cmd_with` that succeed) carries at byte 4 the digit
`k mod 9`, a digit from `0` to `8` and never `9`. -/
theorem sequence_cycling (bootup : Nat) (reqs : List (Nat × List Nat)) (k : Nat)
    (hk : k < (encode_all (HubInterface bootup) reqs).length) :
    byteAt ((encode_all (HubInterface bootup) reqs).getD k []) 4 = 48 + k % 9
    ∧ k % 9 ≤ 8 := by
  have h := encode_all_seq reqs (HubInterface bootup) k (by simp [HubInterface]) hk
  have e : (HubInterface bootup)._packet_number = 0 := rfl
  rw [e, Nat.zero_add] at h
  exact ⟨h, by omega⟩

theorem sequence_cycling_witness :
    9 < (encode_all (HubInterface 0) (List.replicate 10 (90, ascii "00"))).length
    ∧ byteAt ((encode_all (HubInterface 0) (List.replicate 10 (90, ascii "00"))).getD 9 []) 4
        = 48 + 9 % 9
    ∧ 9 % 9 ≤ 8 :=
  ⟨by decide, sequence_cycling 0 (List.replicate 10 (90, ascii "00")) 9 (by decide)⟩

/-! ## What handling a reply leaves alone -/

theorem ReplyFrame.refl (s : Hub) : ReplyFrame s s :=
  ⟨rfl, ⟨[], by simp⟩, Or.inl rfl⟩

theorem ReplyFrame.trans {s t u : Hub} (h1 : ReplyFrame s t) (h2 : ReplyFrame t u) :
    ReplyFrame s u := by
  obtain ⟨a1, ⟨e1, b1⟩, c1⟩ := h1
  obtain ⟨a2, ⟨e2, b2⟩, c2⟩ := h2
  refine ⟨a2.trans a1, ⟨e1 ++ e2, by rw [b2, b1, List.append_assoc]⟩, ?_⟩
  rcases c2 with c2 | c2
  · rw [c2]; exact c1
  · exact Or.inr c2

/-- A store into members outside `untouched`, the queue and the error slot. -/
theorem ReplyFrame.of_eq {s t : Hub} (h1 : untouched t = untouched s)
    (h2 : t._cmd_queue = s._cmd_queue) (h3 : t._error_code = s._error_code) : ReplyFrame s t :=
  ⟨h1, ⟨[], by simp [h2]⟩, Or.inl h3⟩

/-- A framed state followed by a store outside the frame. -/
theorem ReplyFrame.update {s t : Hub} (h : ReplyFrame s t) (u : Hub)
    (h1 : untouched u = untouched t) (h2 : u._cmd_queue = t._cmd_queue)
    (h3 : u._error_code = t._error_code) : ReplyFrame s u :=
  h.trans (ReplyFrame.of_eq h1 h2 h3)

theorem enqueue_cmd_frame (s : Hub) (token : Nat) (payload : List Nat) :
    ReplyFrame s (enqueue_cmd s token payload).2 := by
  unfold enqueue_cmd _create_dl_cmd_with
  split_ifs
  · exact ReplyFrame.refl s
  · exact ⟨rfl, ⟨_, rfl⟩, Or.inl rfl⟩

theorem PlayAudio_frame (s : Hub) (a v : Nat) : ReplyFrame s (PlayAudio s a v).2 := by
  unfold PlayAudio
  split_ifs
  · exact ReplyFrame.refl s
  · exact enqueue_cmd_frame _ _ _

theorem ResetFoodMachine_frame (s : Hub) : ReplyFrame s (ResetFoodMachine s).2 := by
  unfold ResetFoodMachine _create_dl_cmd_with
  split_ifs
  · exact ReplyFrame.refl s
  · exact ⟨rfl, ⟨_, rfl⟩, Or.inl rfl⟩

theorem UpdateButtonAudioEnabled_frame (s : Hub) : ReplyFrame s (UpdateButtonAudioEnabled s) := by
  unfold UpdateButtonAudioEnabled
  split_ifs <;> exact ReplyFrame.of_eq rfl rfl rfl

theorem update_left_button_frame (s : Hub) (now l : Nat) :
    ReplyFrame s (update_left_button s now l) := by
  unfold update_left_button
  dsimp only
  split_ifs
  · refine ReplyFrame.trans ?_ (PlayAudio_frame _ _ _)
    exact ReplyFrame.of_eq rfl rfl rfl
  · exact ReplyFrame.of_eq rfl rfl rfl
  · exact ReplyFrame.of_eq rfl rfl rfl
  · exact ReplyFrame.of_eq rfl rfl rfl
  · exact ReplyFrame.refl s

theorem update_middle_button_frame (s : Hub) (now m : Nat) :
    ReplyFrame s (update_middle_button s now m) := by
  unfold update_middle_button
  dsimp only
  split_ifs
  · refine ReplyFrame.trans ?_ (PlayAudio_frame _ _ _)
    exact ReplyFrame.of_eq rfl rfl rfl
  · exact ReplyFrame.of_eq rfl rfl rfl
  · exact ReplyFrame.of_eq rfl rfl rfl
  · exact ReplyFrame.of_eq rfl rfl rfl
  · exact ReplyFrame.refl s

theorem update_right_button_frame (s : Hub) (now r : Nat) :
    ReplyFrame s (update_right_button s now r) := by
  unfold update_right_button
  dsimp only
  split_ifs
  · refine ReplyFrame.trans ?_ (PlayAudio_frame _ _ _)
    exact ReplyFrame.of_eq rfl rfl rfl
  · exact ReplyFrame.of_eq rfl rfl rfl
  · exact ReplyFrame.of_eq rfl rfl rfl
  · exact ReplyFrame.of_eq rfl rfl rfl
  · exact ReplyFrame.refl s

theorem update_button_frame (s : Hub) (now l m r : Nat) :
    ReplyFrame s (_update_button_pressed_state s now l m r) :=
  ((update_left_button_frame s now l).trans (update_middle_button_frame _ now m)).trans
    (update_right_button_frame _ now r)

theorem cap_reset_left_frame (s : Hub) (now : Nat) (v : Int) :
    ReplyFrame s (cap_reset_left s now v).1 := by
  unfold cap_reset_left
  split_ifs <;> first | exact ReplyFrame.refl s | exact ReplyFrame.of_eq rfl rfl rfl

theorem cap_reset_middle_frame (s : Hub) (now : Nat) (v : Int) :
    ReplyFrame s (cap_reset_middle s now v).1 := by
  unfold cap_reset_middle
  split_ifs <;> first | exact ReplyFrame.refl s | exact ReplyFrame.of_eq rfl rfl rfl

theorem cap_reset_right_frame (s : Hub) (now : Nat) (v : Int) :
    ReplyFrame s (cap_reset_right s now v).1 := by
  unfold cap_reset_right
  split_ifs <;> first | exact ReplyFrame.refl s | exact ReplyFrame.of_eq rfl rfl rfl

theorem update_cap_reset_frame (s : Hub) (now : Nat) (l m r : Int) :
    ReplyFrame s (_update_cap_reset s now l m r) := by
  unfold _update_cap_reset
  dsimp only
  split_ifs
  · exact ReplyFrame.refl s
  · exact cap_reset_left_frame s now l
  · exact (cap_reset_left_frame s now l).trans (cap_reset_middle_frame _ now m)
  · exact ((cap_reset_left_frame s now l).trans (cap_reset_middle_frame _ now m)).trans
      (cap_reset_right_frame _ now r)

theorem bad_num_args_frame (s : Hub) : ReplyFrame s (bad_num_args s).1 :=
  ⟨rfl, ⟨[], by simp [bad_num_args]⟩, Or.inr rfl⟩

theorem scan_hu_into_frame (s0 : Hub) (st : Hub × List Nat × Bool) (set : Hub → Nat → Hub)
    (h0 : ReplyFrame s0 st.1) (hset : ∀ h v, ReplyFrame h (set h v)) :
    ReplyFrame s0 (scan_hu_into st set).1 := by
  unfold scan_hu_into
  split_ifs
  · split
    · exact h0.trans (hset _ _)
    · exact h0
  · exact h0

theorem parse_msg_B_frame (s : Hub) (now : Nat) (payload : List Nat) :
    ReplyFrame s (_parse_msg_B s now payload).1 := by
  unfold _parse_msg_B
  split
  · exact bad_num_args_frame s
  · split
    · exact bad_num_args_frame s
    · split
      · exact bad_num_args_frame s
      · rename_i p3 _
        dsimp only
        have h6 : ReplyFrame s
            (scan_hu_into (scan_hu_into (scan_hu_into (scan_hu_into (scan_hu_into (scan_hu_into
              (s, p3, true) (fun h v => { h with _left_baseline := v }))
              (fun h v => { h with _midd_baseline := v }))
              (fun h v => { h with _right_baseline := v }))
              (fun h v => { h with _left_read := v }))
              (fun h v => { h with _midd_read := v }))
              (fun h v => { h with _right_read := v })).1 := by
          iterate 6
            refine scan_hu_into_frame _ _ _ ?_ ?_
            swap
            · intro h v; exact ReplyFrame.of_eq rfl rfl rfl
          exact ReplyFrame.refl s
        split_ifs
        · exact h6.trans (bad_num_args_frame _)
        · refine h6.trans ?_
          refine ReplyFrame.trans ?_ (update_cap_reset_frame _ _ _ _ _)
          refine ReplyFrame.trans ?_ (update_button_frame _ _ _ _ _)
          exact ReplyFrame.of_eq rfl rfl rfl

theorem parse_msg_G_frame (s : Hub) (now : Nat) (payload : List Nat) :
    ReplyFrame s (_parse_msg_G s now payload).1 := by
  unfold _parse_msg_G
  split
  · exact bad_num_args_frame s
  · split
    · exact bad_num_args_frame s
    · split
      · exact bad_num_args_frame s
      · dsimp only
        refine ReplyFrame.trans ?_ (update_button_frame _ _ _ _ _)
        exact ReplyFrame.of_eq rfl rfl rfl

theorem track_food_errors_frame (s : Hub) : ReplyFrame s (track_food_errors s) := by
  unfold track_food_errors
  dsimp only
  split_ifs
  · refine ReplyFrame.trans ?_ (ReplyFrame.of_eq rfl rfl rfl)
    refine ReplyFrame.trans ?_ (UpdateButtonAudioEnabled_frame _)
    exact ReplyFrame.of_eq rfl rfl rfl
  · exact ReplyFrame.refl s
  · refine ReplyFrame.trans ?_ (ReplyFrame.of_eq rfl rfl rfl)
    refine ReplyFrame.trans ?_ (UpdateButtonAudioEnabled_frame _)
    exact ReplyFrame.of_eq rfl rfl rfl
  · exact ReplyFrame.refl s
  · exact ReplyFrame.refl s

theorem track_platter_errors_frame (s : Hub) (now : Nat) :
    ReplyFrame s (track_platter_errors s now) := by
  unfold track_platter_errors
  dsimp only
  split_ifs
  · exact ReplyFrame.of_eq rfl rfl rfl
  · refine ReplyFrame.trans ?_ (ReplyFrame.of_eq rfl rfl rfl)
    refine ReplyFrame.trans ?_ (UpdateButtonAudioEnabled_frame _)
    exact ReplyFrame.of_eq rfl rfl rfl
  · refine ReplyFrame.trans ?_ (ResetFoodMachine_frame _)
    exact ReplyFrame.of_eq rfl rfl rfl
  · exact ReplyFrame.refl s
  · exact ReplyFrame.of_eq rfl rfl rfl
  · refine ReplyFrame.trans ?_ (UpdateButtonAudioEnabled_frame _)
    exact ReplyFrame.of_eq rfl rfl rfl
  · exact ReplyFrame.refl s

theorem track_singulator_errors_frame (s : Hub) : ReplyFrame s (track_singulator_errors s) := by
  unfold track_singulator_errors
  dsimp only
  split_ifs
  · refine ReplyFrame.trans ?_ (ReplyFrame.of_eq rfl rfl rfl)
    refine ReplyFrame.trans ?_ (UpdateButtonAudioEnabled_frame _)
    exact ReplyFrame.of_eq rfl rfl rfl
  · exact ReplyFrame.refl s
  · refine ReplyFrame.trans ?_ (ReplyFrame.of_eq rfl rfl rfl)
    refine ReplyFrame.trans ?_ (UpdateButtonAudioEnabled_frame _)
    exact ReplyFrame.of_eq rfl rfl rfl
  · exact ReplyFrame.refl s

theorem parse_msg_Z_frame (s : Hub) (now : Nat) (payload : List Nat) :
    ReplyFrame s (_parse_msg_Z s now payload).1 := by
  unfold _parse_msg_Z
  dsimp only
  split_ifs
  · exact bad_num_args_frame s
  · dsimp only
    refine ReplyFrame.trans ?_ (track_singulator_errors_frame _)
    refine ReplyFrame.trans ?_ (track_platter_errors_frame _ _)
    refine ReplyFrame.trans ?_ (track_food_errors_frame _)
    exact ReplyFrame.of_eq rfl rfl rfl

theorem parse_msg_P_frame (s : Hub) (now rplystatus : Nat) :
    ReplyFrame s (_parse_msg_P s now rplystatus).1 := by
  unfold _parse_msg_P
  dsimp only
  split_ifs
  · dsimp only
    refine ReplyFrame.trans ?_ (ReplyFrame.of_eq rfl rfl rfl)
    refine ReplyFrame.trans ?_ (PlayAudio_frame _ _ _)
    exact ReplyFrame.of_eq rfl rfl rfl
  · exact ReplyFrame.of_eq rfl rfl rfl
  · dsimp only
    exact PlayAudio_frame _ _ _
  · exact ReplyFrame.of_eq rfl rfl rfl
  · exact ReplyFrame.refl s
  · exact ReplyFrame.of_eq rfl rfl rfl

theorem store_config_value_frame (s : Hub) (config_id config_value : Int) :
    ReplyFrame s (store_config_value s config_id config_value) := by
  unfold store_config_value
  split_ifs <;> exact ReplyFrame.of_eq rfl rfl rfl

theorem parse_msg_U_frame (s : Hub) (payload : List Nat) :
    ReplyFrame s (_parse_msg_U s payload).1 := by
  unfold _parse_msg_U
  split
  · exact bad_num_args_frame s
  · split
    · exact bad_num_args_frame s
    · dsimp only
      split_ifs
      · exact (store_config_value_frame s _ _).update _ rfl rfl rfl
      · exact (store_config_value_frame s _ _).update _ rfl rfl rfl

theorem parse_msg_K_frame (s : Hub) (now : Nat) : ReplyFrame s (_parse_msg_K s now).1 :=
  ReplyFrame.of_eq rfl rfl rfl

theorem ReplyFrame.ite (s : Hub) (c : Prop) [Decidable c] (a b : Hub × Bool)
    (ha : ReplyFrame s a.1) (hb : ReplyFrame s b.1) : ReplyFrame s (if c then a else b).1 := by
  by_cases h : c
  · rw [if_pos h]; exact ha
  · rw [if_neg h]; exact hb

theorem parse_msg_switch_frame (s : Hub) (now token rplystatus : Nat) (payload : List Nat) :
    ReplyFrame s (_parse_msg_switch s now token rplystatus payload).1 := by
  unfold _parse_msg_switch
  refine ReplyFrame.ite s _ _ _ (ReplyFrame.refl s) ?_
  refine ReplyFrame.ite s _ _ _ (ReplyFrame.refl s) ?_
  refine ReplyFrame.ite s _ _ _ (parse_msg_B_frame _ _ _) ?_
  refine ReplyFrame.ite s _ _ _ (parse_msg_G_frame _ _ _) ?_
  refine ReplyFrame.ite s _ _ _ (parse_msg_Z_frame _ _ _) ?_
  refine ReplyFrame.ite s _ _ _ (ReplyFrame.refl s) ?_
  refine ReplyFrame.ite s _ _ _ (ReplyFrame.refl s) ?_
  refine ReplyFrame.ite s _ _ _ (ReplyFrame.refl s) ?_
  refine ReplyFrame.ite s _ _ _ (parse_msg_P_frame _ _ _) ?_
  refine ReplyFrame.ite s _ _ _ (ReplyFrame.refl s) ?_
  refine ReplyFrame.ite s _ _ _ (ReplyFrame.refl s) ?_
  refine ReplyFrame.ite s _ _ _ (ReplyFrame.refl s) ?_
  refine ReplyFrame.ite s _ _ _ (parse_msg_K_frame _ _) ?_
  refine ReplyFrame.ite s _ _ _ (parse_msg_U_frame _ _) ?_
  exact ReplyFrame.refl s

theorem parse_msg_frame (s : Hub) (now token rplystatus : Nat) (payload : List Nat)
    (len : Nat) : ReplyFrame s (_parse_msg s now token rplystatus payload len).2 := by
  have h := parse_msg_switch_frame s now token (sub48 rplystatus) payload
  have e : _parse_msg s now token rplystatus payload len
      = if (!(_parse_msg_switch s now token (sub48 rplystatus) payload).2) = true then
          (false, (_parse_msg_switch s now token (sub48 rplystatus) payload).1)
        else (byteAt (front (_parse_msg_switch s now token (sub48 rplystatus) payload).1._cmd_queue) 5
                == token, (_parse_msg_switch s now token (sub48 rplystatus) payload).1) := rfl
  rw [e]
  generalize _parse_msg_switch s now token (sub48 rplystatus) payload = r at h ⊢
  by_cases hc : (!r.2) = true
  · rw [if_pos hc]; exact h
  · rw [if_neg hc]; exact h

theorem process_reply_frame (s : Hub) (now : Nat) (cmd : dlimsg_t) (h7 : 7 ≤ strlen cmd) :
    ReplyFrame s (_process_reply_from_dl s now cmd).2 := by
  have hlt : ¬ (strlen cmd < 7) := by omega
  simp only [_process_reply_from_dl, reply_header, hlt, if_false]
  exact parse_msg_frame _ _ _ _ _ _

/-! ## C5: short replies -/

/-- C5. Decode rejects short replies: with the error slot not already holding
`ERROR_CMD_RECEIVED_TOO_SHORT`, `_process_reply_from_dl` fails and leaves that
code in the slot if and only if the reply is shorter than 7 characters; and
then nothing but the error slot is changed. -/
theorem decode_rejects_short (s : Hub) (now : Nat) (cmd : dlimsg_t)
    (h0 : s._error_code ≠ ERROR_CMD_RECEIVED_TOO_SHORT) :
    (((_process_reply_from_dl s now cmd).1 = false
        ∧ (_process_reply_from_dl s now cmd).2._error_code = ERROR_CMD_RECEIVED_TOO_SHORT)
      ↔ strlen cmd < 7)
    ∧ (strlen cmd < 7 →
        (_process_reply_from_dl s now cmd).2 = { s with _error_code := ERROR_CMD_RECEIVED_TOO_SHORT }) := by
  have hshort : strlen cmd < 7 →
      _process_reply_from_dl s now cmd
        = (false, { s with _error_code := ERROR_CMD_RECEIVED_TOO_SHORT }) := by
    intro h
    simp only [_process_reply_from_dl, reply_header, h, if_true]
  refine ⟨⟨?_, ?_⟩, ?_⟩
  · rintro ⟨_, h2⟩
    by_contra hlen
    obtain ⟨_, _, he⟩ := process_reply_frame s now cmd (by omega)
    rcases he with he | he
    · exact h0 (he ▸ h2)
    · rw [he] at h2
      exact absurd h2 (by decide)
  · intro h
    rw [hshort h]
    exact ⟨rfl, rfl⟩
  · intro h
    rw [hshort h]

theorem decode_rejects_short_witness :
    (HubInterface 0)._error_code ≠ ERROR_CMD_RECEIVED_TOO_SHORT
    ∧ (((_process_reply_from_dl (HubInterface 0) 5 (ascii "$000" ++ [0])).1 = false
        ∧ (_process_reply_from_dl (HubInterface 0) 5 (ascii "$000" ++ [0])).2._error_code
            = ERROR_CMD_RECEIVED_TOO_SHORT)
      ↔ strlen (ascii "$000" ++ [0]) < 7)
    ∧ (strlen (ascii "$000" ++ [0]) < 7 →
        (_process_reply_from_dl (HubInterface 0) 5 (ascii "$000" ++ [0])).2
          = { HubInterface 0 with _error_code := ERROR_CMD_RECEIVED_TOO_SHORT }) :=
  ⟨by decide, decode_rejects_short (HubInterface 0) 5 (ascii "$000" ++ [0]) (by decide)⟩

/-! ## C7: retry exhaustion -/

/-- A `_process_DL` step in state BeforeSend whose transmit fails: the bytes go
out, the retry counter is incremented, and the head command is dropped when the
counter has reached the maximum. -/
theorem process_DL_send_fail (s : Hub) (c : dlimsg_t) (rest : List dlimsg_t) (now written : Nat)
    (hstate : s._run_loop_state = STATE_BEFORE_SEND) (hq : s._cmd_queue = c :: rest)
    (hfail : written % 65536 ≠ strlen c) :
    _process_DL s now written =
      if (s._num_send_retries + 1) % 256 ≥ s._max_num_send_retries then
        { s with serial_tx := s.serial_tx ++ [(cstr c).take written],
                 _cmd_queue := rest, _num_send_retries := 0 }
      else
        { s with serial_tx := s.serial_tx ++ [(cstr c).take written],
                 _num_send_retries := (s._num_send_retries + 1) % 256 } := by
  have hne : ¬ (strlen c = written % 65536) := fun h => hfail h.symm
  simp only [_process_DL, hstate, if_true, _send_top_cmd, hq, List.length_cons,
    Nat.zero_lt_succ, gt_iff_lt, _transmit_cmd, front, List.headD_cons, hne, decide_False,
    Bool.false_eq_true, if_false, List.tail_cons]

theorem send_fail_keep (s : Hub) (c : dlimsg_t) (rest : List dlimsg_t) (now written : Nat)
    (hstate : s._run_loop_state = STATE_BEFORE_SEND) (hq : s._cmd_queue = c :: rest)
    (hfail : written % 65536 ≠ strlen c)
    (hlt : (s._num_send_retries + 1) % 256 < s._max_num_send_retries) :
    (_process_DL s now written)._cmd_queue = c :: rest
    ∧ (_process_DL s now written)._num_send_retries = (s._num_send_retries + 1) % 256
    ∧ (_process_DL s now written)._run_loop_state = STATE_BEFORE_SEND
    ∧ (_process_DL s now written)._max_num_send_retries = s._max_num_send_retries := by
  rw [process_DL_send_fail s c rest now written hstate hq hfail,
    if_neg (by omega)]
  exact ⟨hq, rfl, hstate, rfl⟩

theorem send_fail_drop (s : Hub) (c : dlimsg_t) (rest : List dlimsg_t) (now written : Nat)
    (hstate : s._run_loop_state = STATE_BEFORE_SEND) (hq : s._cmd_queue = c :: rest)
    (hfail : written % 65536 ≠ strlen c)
    (hge : (s._num_send_retries + 1) % 256 ≥ s._max_num_send_retries) :
    (_process_DL s now written)._cmd_queue = rest
    ∧ (_process_DL s now written)._num_send_retries = 0
    ∧ (_process_DL s now written)._run_loop_state = STATE_BEFORE_SEND
    ∧ (_process_DL s now written)._max_num_send_retries = s._max_num_send_retries := by
  rw [process_DL_send_fail s c rest now written hstate hq hfail, if_pos hge]
  exact ⟨rfl, rfl, hstate, rfl⟩

/-- A `_process_DL` step in state BeforeSend hands the head of the queue, if there
is one, to `Serial1.write`. -/
theorem process_DL_tries_head (s : Hub) (now written : Nat)
    (hstate : s._run_loop_state = STATE_BEFORE_SEND) :
    (_process_DL s now written).serial_tx =
      s.serial_tx ++ (match s._cmd_queue with
        | [] => []
        | c :: _ => [(cstr c).take written]) := by
  cases hq : s._cmd_queue with
  | nil =>
    simp only [_process_DL, hstate, if_true, _send_top_cmd, hq, List.length_nil, gt_iff_lt,
      Nat.lt_irrefl, if_false, Bool.false_eq_true]
    split_ifs <;> simp
  | cons c rest =>
    simp only [_process_DL, hstate, if_true, _send_top_cmd, hq, List.length_cons,
      Nat.zero_lt_succ, gt_iff_lt, _transmit_cmd, front, List.headD_cons]
    split_ifs <;> rfl

/-- C7. Retry exhaustion: from state BeforeSend with retry counter 0, the maximum
at `MAX_CMD_SEND_RETRIES` (3) and queue `c1 :: rest`, when every transmit fails:
after one and after two `_process_DL` steps `c1` is still the head (counter 1,
then 2), after exactly three it has been removed, the counter is 0 again, the
state is still BeforeSend, and the next step hands the new head (`c2`, the head
of `rest`) to `Serial1.write`. -/
theorem retry_exhaustion (s : Hub) (c1 : dlimsg_t) (rest : List dlimsg_t)
    (t1 t2 t3 t4 w1 w2 w3 w4 : Nat)
    (hstate : s._run_loop_state = STATE_BEFORE_SEND) (hretry : s._num_send_retries = 0)
    (hmax : s._max_num_send_retries = MAX_CMD_SEND_RETRIES) (hq : s._cmd_queue = c1 :: rest)
    (hf1 : w1 % 65536 ≠ strlen c1) (hf2 : w2 % 65536 ≠ strlen c1)
    (hf3 : w3 % 65536 ≠ strlen c1) :
    ((_process_DL s t1 w1)._cmd_queue = c1 :: rest
      ∧ (_process_DL s t1 w1)._num_send_retries = 1
      ∧ (_process_DL s t1 w1)._run_loop_state = STATE_BEFORE_SEND)
    ∧ ((_process_DL (_process_DL s t1 w1) t2 w2)._cmd_queue = c1 :: rest
      ∧ (_process_DL (_process_DL s t1 w1) t2 w2)._num_send_retries = 2
      ∧ (_process_DL (_process_DL s t1 w1) t2 w2)._run_loop_state = STATE_BEFORE_SEND)
    ∧ ((_process_DL (_process_DL (_process_DL s t1 w1) t2 w2) t3 w3)._cmd_queue = rest
      ∧ (_process_DL (_process_DL (_process_DL s t1 w1) t2 w2) t3 w3)._num_send_retries = 0
      ∧ (_process_DL (_process_DL (_process_DL s t1 w1) t2 w2) t3 w3)._run_loop_state
          = STATE_BEFORE_SEND)
    ∧ (_process_DL (_process_DL (_process_DL (_process_DL s t1 w1) t2 w2) t3 w3) t4 w4).serial_tx
        = (_process_DL (_process_DL (_process_DL s t1 w1) t2 w2) t3 w3).serial_tx
          ++ (match rest with
              | [] => []
              | c2 :: _ => [(cstr c2).take w4]) := by
  have hm : s._max_num_send_retries = 3 := hmax
  obtain ⟨q1, r1, st1, m1⟩ := send_fail_keep s c1 rest t1 w1 hstate hq hf1
    (by rw [hretry, hm]; decide)
  obtain ⟨q2, r2, st2, m2⟩ := send_fail_keep (_process_DL s t1 w1) c1 rest t2 w2 st1 q1 hf2
    (by rw [r1, m1, hretry, hm]; decide)
  obtain ⟨q3, r3, st3, _⟩ := send_fail_drop (_process_DL (_process_DL s t1 w1) t2 w2) c1 rest
    t3 w3 st2 q2 hf3 (by rw [r2, m2, r1, m1, hretry, hm])
  have h4 := process_DL_tries_head (_process_DL (_process_DL (_process_DL s t1 w1) t2 w2) t3 w3)
    t4 w4 st3
  rw [q3] at h4
  refine ⟨⟨q1, ?_, st1⟩, ⟨q2, ?_, st2⟩, ⟨q3, r3, st3⟩, h4⟩
  · rw [r1, hretry]
  · rw [r2, r1, hretry]

theorem retry_exhaustion_witness :
    ((_process_DL (_process_DL (_process_DL
          (RetractTray (_poll_diag (HubInterface 0)).2).2 5 0) 6 0) 7 0)._cmd_queue
        = [ascii "$0021X100." ++ [0]]
      ∧ (_process_DL (_process_DL (_process_DL
          (RetractTray (_poll_diag (HubInterface 0)).2).2 5 0) 6 0) 7 0)._num_send_retries = 0
      ∧ (_process_DL (_process_DL (_process_DL
          (RetractTray (_poll_diag (HubInterface 0)).2).2 5 0) 6 0) 7 0)._run_loop_state
          = STATE_BEFORE_SEND) :=
  (retry_exhaustion (RetractTray (_poll_diag (HubInterface 0)).2).2 (ascii "$0020Z100." ++ [0])
    [ascii "$0021X100." ++ [0]] 5 6 7 8 0 0 0 0 (by decide) (by decide) (by decide) (by decide)
    (by decide) (by decide) (by decide)).2.2.1

/-! ## C10: the tray error sentinel -/

theorem ResetFoodMachine_eq (s : Hub) (hseq : s._packet_number < 10) :
    ResetFoodMachine s =
      (true, { s with
        _packet_number := (s._packet_number + 1) % 9,
        _cmd_queue := s._cmd_queue ++ [[36, 48, 48, 48, 48 + s._packet_number, 70, 49, 46, 0]],
        _need_foodtreat_reset := false }) := by
  have h := create_dl_cmd_eq s 70 [0] (by decide) hseq
  have e : strlen [0] = 0 := by decide
  have e2 : cstr [0] = [] := by decide
  simp only [e, e2, Nat.zero_div, Nat.zero_mod, Nat.add_zero, List.append_nil, List.cons_append,
    List.nil_append] at h
  simp only [ResetFoodMachine, h]

/-- C10. Tray error sentinel: in every tray-session phase and for every duration,
when the food-machine state on entry is lid-open (0) or above `FOODMACHINE_WAIT`
(6), `PresentAndCheckFoodtreat` returns 99, leaves the phase unchanged, and
appends to the command queue nothing, or one frame whose token is `F` (the
food-machine reset), so no present (`T`) and no retract (`X`) command. -/
theorem tray_error_sentinel (s : Hub) (now duration_ms : Nat)
    (herr : s._foodmachine_state = FOODMACHINE_LID_OPEN ∨ s._foodmachine_state > FOODMACHINE_WAIT)
    (hseq : s._packet_number < 10) :
    (PresentAndCheckFoodtreat s now duration_ms).1 = 99
    ∧ (PresentAndCheckFoodtreat s now duration_ms).2._pact_foodtreat_state = s._pact_foodtreat_state
    ∧ ∃ added, (PresentAndCheckFoodtreat s now duration_ms).2._cmd_queue = s._cmd_queue ++ added
        ∧ added.length ≤ 1
        ∧ ∀ f ∈ added, byteAt f 5 = 70 ∧ byteAt f 5 ≠ 84 ∧ byteAt f 5 ≠ 88 := by
  have e : PresentAndCheckFoodtreat s now duration_ms
      = (99, if (s._need_foodtreat_reset == true) = true then
               { (ResetFoodMachine s).2 with _need_foodtreat_reset := false }
             else s) := by
    simp only [PresentAndCheckFoodtreat, herr, if_true]
  rw [e]
  by_cases hr : (s._need_foodtreat_reset == true) = true
  · rw [if_pos hr, ResetFoodMachine_eq s hseq]
    exact ⟨rfl, rfl, [_], rfl, by simp, by simp [byteAt]⟩
  · rw [if_neg hr]
    exact ⟨rfl, rfl, [], by simp, by simp, by simp⟩

theorem tray_error_sentinel_witness :
    (PresentAndCheckFoodtreat jammed_hub 50 1000).1 = 99
    ∧ (PresentAndCheckFoodtreat jammed_hub 50 1000).2._pact_foodtreat_state = PACT_WAIT_TIL_BACK :=
  ⟨(tray_error_sentinel jammed_hub 50 1000 (by decide) (by decide)).1,
   (tray_error_sentinel jammed_hub 50 1000 (by decide) (by decide)).2.1⟩

/-! ## C8: debounce absorption -/

theorem PlayAudio_spec (s : Hub) (a v : Nat) (ha : a < 10) (hseq : s._packet_number < 9) :
    (PlayAudio s a v).2._packet_number < 9
    ∧ button_view (PlayAudio s a v).2 = button_view s
    ∧ ∃ added, (PlayAudio s a v).2._cmd_queue = s._cmd_queue ++ added
        ∧ ∀ f ∈ added, byteAt f 5 = 80 ∧ byteAt f 7 = 48 + a := by
  unfold PlayAudio
  split_ifs
  · exact ⟨hseq, rfl, [], by simp, by simp⟩
  · unfold enqueue_cmd
    rcases Nat.lt_or_ge (strlen (fmt_d a ++ fmt_0d 2 (map0 v 99 s._audio_amplitude_max) ++ [0])) 999
      with hl | hl
    · rw [create_dl_cmd_take s 80 _ hl (by omega)]
      refine ⟨Nat.mod_lt _ (by decide), rfl, [_], rfl, ?_⟩
      intro f hf
      rw [List.mem_singleton] at hf
      subst hf
      have hc : cstr (fmt_d a ++ fmt_0d 2 (map0 v 99 s._audio_amplitude_max) ++ [0])
          = (48 + a) :: cstr (fmt_0d 2 (map0 v 99 s._audio_amplitude_max) ++ [0]) := by
        rw [fmt_d_digit a ha]
        have h48 : ((48 + a) != 0) = true := by simp
        simp [cstr, List.takeWhile_cons, h48]
      rw [hc]
      exact ⟨rfl, rfl⟩
    · have e : _create_dl_cmd_with s 80
          (fmt_d a ++ fmt_0d 2 (map0 v 99 s._audio_amplitude_max) ++ [0]) = (none, s) := by
        have hl2 : ¬ (strlen (fmt_d a ++ fmt_0d 2 (map0 v 99 s._audio_amplitude_max) ++ [0])
            < 999) := by omega
        unfold _create_dl_cmd_with
        rw [if_pos hl]
      rw [e]
      exact ⟨hseq, rfl, [], by simp, by simp⟩

theorem touch_events_append (a b : Nat) (q added : List dlimsg_t) (hab : a ≠ b)
    (h : ∀ f ∈ added, byteAt f 5 = 80 ∧ byteAt f 7 = 48 + b) :
    touch_events a (q ++ added) = touch_events a q := by
  unfold touch_events
  rw [List.countP_append]
  have : List.countP (is_audio_cmd a) added = 0 := by
    rw [List.countP_eq_zero]
    intro f hf
    have := (h f hf).2
    simp [is_audio_cmd, this]
    omega
  omega

/-- What the first block of `_update_button_pressed_state` does. -/
theorem update_left_button_spec (s : Hub) (now l : Nat) (hseq : s._packet_number < 9) :
    (update_left_button s now l)._packet_number < 9
    ∧ ((update_left_button s now l)._m_button_state, (update_left_button s now l)._m_button_timeout,
        (update_left_button s now l)._r_button_state, (update_left_button s now l)._r_button_timeout,
        (update_left_button s now l)._button_liftoff_ms)
        = (s._m_button_state, s._m_button_timeout, s._r_button_state, s._r_button_timeout,
            s._button_liftoff_ms)
    ∧ (∃ added, (update_left_button s now l)._cmd_queue = s._cmd_queue ++ added
        ∧ (∀ f ∈ added, byteAt f 5 = 80 ∧ byteAt f 7 = 48 + AUDIO_L)
        ∧ (s._l_button_state = true → added = []))
    ∧ (l ≠ 0 → (update_left_button s now l)._l_button_state = true
        ∧ (update_left_button s now l)._l_button_timeout = (now + s._button_liftoff_ms) % ULONG)
    ∧ (l = 0 → now ≤ s._l_button_timeout → update_left_button s now l = s) := by
  unfold update_left_button
  dsimp only
  split_ifs with h1 h2 h3 h4
  · obtain ⟨p1, p2, added, p3, p4⟩ := PlayAudio_spec
      { s with _l_button_timeout := (now + s._button_liftoff_ms) % ULONG, _l_button_state := true }
      AUDIO_L s._button_audio_amplitude (by decide) hseq
    simp only [button_view, Prod.mk.injEq] at p2
    obtain ⟨e1, e2, e3, e4, e5, e6, e7, _, _⟩ := p2
    refine ⟨p1, by rw [e3, e4, e5, e6, e7], ⟨added, p3, p4, ?_⟩, fun _ => ⟨e1, e2⟩,
      fun h => absurd h h1⟩
    intro hs
    rw [hs] at h2
    exact absurd h2 (by decide)
  · refine ⟨hseq, rfl, ⟨[], by simp, by simp, fun _ => rfl⟩, fun _ => ⟨rfl, rfl⟩,
      fun h => absurd h h1⟩
  · refine ⟨hseq, rfl, ⟨[], by simp, by simp, fun _ => rfl⟩, fun _ => ⟨?_, rfl⟩,
      fun h => absurd h h1⟩
    simpa using h2
  · exact ⟨hseq, rfl, ⟨[], by simp, by simp, fun _ => rfl⟩, fun h => absurd (not_not.mp h1) h,
      fun _ hle => absurd h4 (by omega)⟩
  · exact ⟨hseq, rfl, ⟨[], by simp, by simp, fun _ => rfl⟩, fun h => absurd (not_not.mp h1) h,
      fun _ _ => rfl⟩

/-- What the second block of `_update_button_pressed_state` does. -/
theorem update_middle_button_spec (s : Hub) (now l : Nat) (hseq : s._packet_number < 9) :
    (update_middle_button s now l)._packet_number < 9
    ∧ ((update_middle_button s now l)._l_button_state, (update_middle_button s now l)._l_button_timeout,
        (update_middle_button s now l)._r_button_state, (update_middle_button s now l)._r_button_timeout,
        (update_middle_button s now l)._button_liftoff_ms)
        = (s._l_button_state, s._l_button_timeout, s._r_button_state, s._r_button_timeout,
            s._button_liftoff_ms)
    ∧ (∃ added, (update_middle_button s now l)._cmd_queue = s._cmd_queue ++ added
        ∧ (∀ f ∈ added, byteAt f 5 = 80 ∧ byteAt f 7 = 48 + AUDIO_M)
        ∧ (s._m_button_state = true → added = []))
    ∧ (l ≠ 0 → (update_middle_button s now l)._m_button_state = true
        ∧ (update_middle_button s now l)._m_button_timeout = (now + s._button_liftoff_ms) % ULONG)
    ∧ (l = 0 → now ≤ s._m_button_timeout → update_middle_button s now l = s) := by
  unfold update_middle_button
  dsimp only
  split_ifs with h1 h2 h3 h4
  · obtain ⟨p1, p2, added, p3, p4⟩ := PlayAudio_spec
      { s with _m_button_timeout := (now + s._button_liftoff_ms) % ULONG, _m_button_state := true }
      AUDIO_M s._button_audio_amplitude (by decide) hseq
    simp only [button_view, Prod.mk.injEq] at p2
    obtain ⟨e1, e2, e3, e4, e5, e6, e7, _, _⟩ := p2
    refine ⟨p1, by rw [e1, e2, e5, e6, e7], ⟨added, p3, p4, ?_⟩, fun _ => ⟨e3, e4⟩,
      fun h => absurd h h1⟩
    intro hs
    rw [hs] at h2
    exact absurd h2 (by decide)
  · refine ⟨hseq, rfl, ⟨[], by simp, by simp, fun _ => rfl⟩, fun _ => ⟨rfl, rfl⟩,
      fun h => absurd h h1⟩
  · refine ⟨hseq, rfl, ⟨[], by simp, by simp, fun _ => rfl⟩, fun _ => ⟨?_, rfl⟩,
      fun h => absurd h h1⟩
    simpa using h2
  · exact ⟨hseq, rfl, ⟨[], by simp, by simp, fun _ => rfl⟩, fun h => absurd (not_not.mp h1) h,
      fun _ hle => absurd h4 (by omega)⟩
  · exact ⟨hseq, rfl, ⟨[], by simp, by simp, fun _ => rfl⟩, fun h => absurd (not_not.mp h1) h,
      fun _ _ => rfl⟩

/-- What the third block of `_update_button_pressed_state` does. -/
theorem update_right_button_spec (s : Hub) (now l : Nat) (hseq : s._packet_number < 9) :
    (update_right_button s now l)._packet_number < 9
    ∧ ((update_right_button s now l)._l_button_state, (update_right_button s now l)._l_button_timeout,
        (update_right_button s now l)._m_button_state, (update_right_button s now l)._m_button_timeout,
        (update_right_button s now l)._button_liftoff_ms)
        = (s._l_button_state, s._l_button_timeout, s._m_button_state, s._m_button_timeout,
            s._button_liftoff_ms)
    ∧ (∃ added, (update_right_button s now l)._cmd_queue = s._cmd_queue ++ added
        ∧ (∀ f ∈ added, byteAt f 5 = 80 ∧ byteAt f 7 = 48 + AUDIO_R)
        ∧ (s._r_button_state = true → added = []))
    ∧ (l ≠ 0 → (update_right_button s now l)._r_button_state = true
        ∧ (update_right_button s now l)._r_button_timeout = (now + s._button_liftoff_ms) % ULONG)
    ∧ (l = 0 → now ≤ s._r_button_timeout → update_right_button s now l = s) := by
  unfold update_right_button
  dsimp only
  split_ifs with h1 h2 h3 h4
  · obtain ⟨p1, p2, added, p3, p4⟩ := PlayAudio_spec
      { s with _r_button_timeout := (now + s._button_liftoff_ms) % ULONG, _r_button_state := true }
      AUDIO_R s._button_audio_amplitude (by decide) hseq
    simp only [button_view, Prod.mk.injEq] at p2
    obtain ⟨e1, e2, e3, e4, e5, e6, e7, _, _⟩ := p2
    refine ⟨p1, by rw [e1, e2, e3, e4, e7], ⟨added, p3, p4, ?_⟩, fun _ => ⟨e5, e6⟩,
      fun h => absurd h h1⟩
    intro hs
    rw [hs] at h2
    exact absurd h2 (by decide)
  · refine ⟨hseq, rfl, ⟨[], by simp, by simp, fun _ => rfl⟩, fun _ => ⟨rfl, rfl⟩,
      fun h => absurd h h1⟩
  · refine ⟨hseq, rfl, ⟨[], by simp, by simp, fun _ => rfl⟩, fun _ => ⟨?_, rfl⟩,
      fun h => absurd h h1⟩
    simpa using h2
  · exact ⟨hseq, rfl, ⟨[], by simp, by simp, fun _ => rfl⟩, fun h => absurd (not_not.mp h1) h,
      fun _ hle => absurd h4 (by omega)⟩
  · exact ⟨hseq, rfl, ⟨[], by simp, by simp, fun _ => rfl⟩, fun h => absurd (not_not.mp h1) h,
      fun _ _ => rfl⟩

/-- One poll reply, seen from the left pad. -/
theorem poll_reply_left (h : Hub) (p : Nat × Nat × Nat × Nat) (hseq : h._packet_number < 9) :
    (poll_reply h p)._packet_number < 9
    ∧ (poll_reply h p)._button_liftoff_ms = h._button_liftoff_ms
    ∧ (p.2.1 ≠ 0 → (poll_reply h p)._l_button_state = true
        ∧ (poll_reply h p)._l_button_timeout = (p.1 + h._button_liftoff_ms) % ULONG)
    ∧ (p.2.1 = 0 → p.1 ≤ h._l_button_timeout →
        (poll_reply h p)._l_button_state = h._l_button_state
        ∧ (poll_reply h p)._l_button_timeout = h._l_button_timeout)
    ∧ (h._l_button_state = true →
        touch_events AUDIO_L (poll_reply h p)._cmd_queue = touch_events AUDIO_L h._cmd_queue) := by
  obtain ⟨a1, a2, ⟨ad1, a3, a4, a5⟩, a6, a7⟩ := update_left_button_spec h p.1 p.2.1 hseq
  obtain ⟨b1, b2, ⟨ad2, b3, b4, _⟩, _, _⟩ :=
    update_middle_button_spec (update_left_button h p.1 p.2.1) p.1 p.2.2.1 a1
  obtain ⟨c1, c2, ⟨ad3, c3, c4, _⟩, _, _⟩ :=
    update_right_button_spec (update_middle_button (update_left_button h p.1 p.2.1) p.1 p.2.2.1)
      p.1 p.2.2.2 b1
  simp only [Prod.mk.injEq] at a2 b2 c2
  have e : poll_reply h p = update_right_button (update_middle_button
      (update_left_button h p.1 p.2.1) p.1 p.2.2.1) p.1 p.2.2.2 := rfl
  rw [e]
  refine ⟨c1, by rw [c2.2.2.2.2, b2.2.2.2.2, a2.2.2.2.2], ?_, ?_, ?_⟩
  · intro hp
    rw [c2.1, c2.2.1, b2.1, b2.2.1]
    exact a6 hp
  · intro hp hle
    rw [c2.1, c2.2.1, b2.1, b2.2.1, a7 hp hle]
    exact ⟨rfl, rfl⟩
  · intro hs
    rw [c3, b3, a3, a5 hs, List.append_nil,
      touch_events_append AUDIO_L AUDIO_R _ _ (by decide) c4,
      touch_events_append AUDIO_L AUDIO_M _ _ (by decide) b4]

/-- One poll reply, seen from the middle pad. -/
theorem poll_reply_middle (h : Hub) (p : Nat × Nat × Nat × Nat) (hseq : h._packet_number < 9) :
    (poll_reply h p)._packet_number < 9
    ∧ (poll_reply h p)._button_liftoff_ms = h._button_liftoff_ms
    ∧ (p.2.2.1 ≠ 0 → (poll_reply h p)._m_button_state = true
        ∧ (poll_reply h p)._m_button_timeout = (p.1 + h._button_liftoff_ms) % ULONG)
    ∧ (p.2.2.1 = 0 → p.1 ≤ h._m_button_timeout →
        (poll_reply h p)._m_button_state = h._m_button_state
        ∧ (poll_reply h p)._m_button_timeout = h._m_button_timeout)
    ∧ (h._m_button_state = true →
        touch_events AUDIO_M (poll_reply h p)._cmd_queue = touch_events AUDIO_M h._cmd_queue) := by
  obtain ⟨a1, a2, ⟨ad1, a3, a4, _⟩, _, _⟩ := update_left_button_spec h p.1 p.2.1 hseq
  obtain ⟨b1, b2, ⟨ad2, b3, b4, b5⟩, b6, b7⟩ :=
    update_middle_button_spec (update_left_button h p.1 p.2.1) p.1 p.2.2.1 a1
  obtain ⟨c1, c2, ⟨ad3, c3, c4, _⟩, _, _⟩ :=
    update_right_button_spec (update_middle_button (update_left_button h p.1 p.2.1) p.1 p.2.2.1)
      p.1 p.2.2.2 b1
  simp only [Prod.mk.injEq] at a2 b2 c2
  have e : poll_reply h p = update_right_button (update_middle_button
      (update_left_button h p.1 p.2.1) p.1 p.2.2.1) p.1 p.2.2.2 := rfl
  rw [e]
  refine ⟨c1, by rw [c2.2.2.2.2, b2.2.2.2.2, a2.2.2.2.2], ?_, ?_, ?_⟩
  · intro hp
    rw [c2.2.2.1, c2.2.2.2.1, ← a2.2.2.2.2]
    exact b6 hp
  · intro hp hle
    rw [c2.2.2.1, c2.2.2.2.1, b7 hp (by rw [a2.2.1]; exact hle)]
    exact ⟨a2.1, a2.2.1⟩
  · intro hs
    rw [c3, b3, a3, b5 (by rw [a2.1]; exact hs), List.append_nil,
      touch_events_append AUDIO_M AUDIO_R _ _ (by decide) c4,
      touch_events_append AUDIO_M AUDIO_L _ _ (by decide) a4]

/-- One poll reply, seen from the right pad. -/
theorem poll_reply_right (h : Hub) (p : Nat × Nat × Nat × Nat) (hseq : h._packet_number < 9) :
    (poll_reply h p)._packet_number < 9
    ∧ (poll_reply h p)._button_liftoff_ms = h._button_liftoff_ms
    ∧ (p.2.2.2 ≠ 0 → (poll_reply h p)._r_button_state = true
        ∧ (poll_reply h p)._r_button_timeout = (p.1 + h._button_liftoff_ms) % ULONG)
    ∧ (p.2.2.2 = 0 → p.1 ≤ h._r_button_timeout →
        (poll_reply h p)._r_button_state = h._r_button_state
        ∧ (poll_reply h p)._r_button_timeout = h._r_button_timeout)
    ∧ (h._r_button_state = true →
        touch_events AUDIO_R (poll_reply h p)._cmd_queue = touch_events AUDIO_R h._cmd_queue) := by
  obtain ⟨a1, a2, ⟨ad1, a3, a4, _⟩, _, _⟩ := update_left_button_spec h p.1 p.2.1 hseq
  obtain ⟨b1, b2, ⟨ad2, b3, b4, _⟩, _, _⟩ :=
    update_middle_button_spec (update_left_button h p.1 p.2.1) p.1 p.2.2.1 a1
  obtain ⟨c1, c2, ⟨ad3, c3, c4, c5⟩, c6, c7⟩ :=
    update_right_button_spec (update_middle_button (update_left_button h p.1 p.2.1) p.1 p.2.2.1)
      p.1 p.2.2.2 b1
  simp only [Prod.mk.injEq] at a2 b2 c2
  have e : poll_reply h p = update_right_button (update_middle_button
      (update_left_button h p.1 p.2.1) p.1 p.2.2.1) p.1 p.2.2.2 := rfl
  rw [e]
  refine ⟨c1, by rw [c2.2.2.2.2, b2.2.2.2.2, a2.2.2.2.2], ?_, ?_, ?_⟩
  · intro hp
    rw [← a2.2.2.2.2, ← b2.2.2.2.2]
    exact c6 hp
  · intro hp hle
    rw [c7 hp (by rw [b2.2.2.2.1, a2.2.2.2.1]; exact hle)]
    exact ⟨by rw [b2.2.2.1, a2.2.2.1], by rw [b2.2.2.2.1, a2.2.2.2.1]⟩
  · intro hs
    rw [c3, b3, a3, c5 (by rw [b2.2.2.1, a2.2.2.1]; exact hs), List.append_nil,
      touch_events_append AUDIO_R AUDIO_M _ _ (by decide) b4,
      touch_events_append AUDIO_R AUDIO_L _ _ (by decide) a4]

theorem pressed_left (h : Hub) (hs : h._l_button_state = true) :
    IsButtonPressed h BUTTON_LEFT = true ∧ AnyButtonPressed h &&& BUTTON_LEFT = BUTTON_LEFT := by
  unfold IsButtonPressed AnyButtonPressed
  rw [hs]
  cases h._m_button_state <;> cases h._r_button_state <;> decide

theorem pressed_middle (h : Hub) (hs : h._m_button_state = true) :
    IsButtonPressed h BUTTON_MIDDLE = true
    ∧ AnyButtonPressed h &&& BUTTON_MIDDLE = BUTTON_MIDDLE := by
  unfold IsButtonPressed AnyButtonPressed
  rw [hs]
  cases h._l_button_state <;> cases h._r_button_state <;> decide

theorem pressed_right (h : Hub) (hs : h._r_button_state = true) :
    IsButtonPressed h BUTTON_RIGHT = true ∧ AnyButtonPressed h &&& BUTTON_RIGHT = BUTTON_RIGHT := by
  unfold IsButtonPressed AnyButtonPressed
  rw [hs]
  cases h._l_button_state <;> cases h._m_button_state <;> decide

/-- A run of poll replies in which one pad reads unpressed, each processed no
later than that pad's liftoff deadline `T`: the pad stays pressed, its deadline
stays `T`, and no touch event of its sound is enqueued.  The pad is given by its
debounced state `st`, its deadline `dl`, its reading `rd` and its sound `a`. -/
theorem blip_run (st : Hub → Bool) (dl : Hub → Nat) (rd : Nat × Nat × Nat × Nat → Nat) (a : Nat)
    (hstep : ∀ (h : Hub) (p : Nat × Nat × Nat × Nat), h._packet_number < 9 →
      (poll_reply h p)._packet_number < 9
      ∧ (poll_reply h p)._button_liftoff_ms = h._button_liftoff_ms
      ∧ (rd p ≠ 0 → st (poll_reply h p) = true
          ∧ dl (poll_reply h p) = (p.1 + h._button_liftoff_ms) % ULONG)
      ∧ (rd p = 0 → p.1 ≤ dl h → st (poll_reply h p) = st h ∧ dl (poll_reply h p) = dl h)
      ∧ (st h = true → touch_events a (poll_reply h p)._cmd_queue = touch_events a h._cmd_queue))
    (blip : List (Nat × Nat × Nat × Nat)) :
    ∀ (h : Hub) (T : Nat), h._packet_number < 9 → st h = true → dl h = T →
      (∀ p ∈ blip, rd p = 0 ∧ p.1 ≤ T) →
      st (poll_replies h blip) = true ∧ dl (poll_replies h blip) = T
      ∧ (poll_replies h blip)._packet_number < 9
      ∧ (poll_replies h blip)._button_liftoff_ms = h._button_liftoff_ms
      ∧ touch_events a (poll_replies h blip)._cmd_queue = touch_events a h._cmd_queue := by
  induction blip with
  | nil => intro h T hseq hs hd _; exact ⟨hs, hd, hseq, rfl, rfl⟩
  | cons p rest ih =>
    intro h T hseq hs hd hb
    obtain ⟨s1, s2, _, s4, s5⟩ := hstep h p hseq
    obtain ⟨hp0, hpT⟩ := hb p (by simp)
    obtain ⟨k1, k2⟩ := s4 hp0 (by rw [hd]; exact hpT)
    obtain ⟨r1, r2, r3, r4, r5⟩ := ih (poll_reply h p) T s1 (by rw [k1]; exact hs)
      (by rw [k2]; exact hd) (fun q hq => hb q (by simp [hq]))
    have e : poll_replies h (p :: rest) = poll_replies (poll_reply h p) rest := rfl
    rw [e]
    exact ⟨r1, r2, r3, by rw [r4, s2], by rw [r5, s5 hs]⟩

/-- The whole scenario for one pad: pressed, a blip, pressed again. -/
theorem press_blip_press (st : Hub → Bool) (dl : Hub → Nat) (rd : Nat × Nat × Nat × Nat → Nat)
    (a : Nat)
    (hstep : ∀ (h : Hub) (p : Nat × Nat × Nat × Nat), h._packet_number < 9 →
      (poll_reply h p)._packet_number < 9
      ∧ (poll_reply h p)._button_liftoff_ms = h._button_liftoff_ms
      ∧ (rd p ≠ 0 → st (poll_reply h p) = true
          ∧ dl (poll_reply h p) = (p.1 + h._button_liftoff_ms) % ULONG)
      ∧ (rd p = 0 → p.1 ≤ dl h → st (poll_reply h p) = st h ∧ dl (poll_reply h p) = dl h)
      ∧ (st h = true → touch_events a (poll_reply h p)._cmd_queue = touch_events a h._cmd_queue))
    (s : Hub) (p0 : Nat × Nat × Nat × Nat) (blip : List (Nat × Nat × Nat × Nat))
    (p2 : Nat × Nat × Nat × Nat) (hseq : s._packet_number < 9) (h0 : rd p0 ≠ 0)
    (hb : ∀ p ∈ blip, rd p = 0 ∧ p.1 ≤ (p0.1 + s._button_liftoff_ms) % ULONG)
    (h2 : rd p2 ≠ 0) :
    (∀ pre, pre <+: blip → st (poll_replies (poll_reply s p0) pre) = true)
    ∧ st (poll_reply (poll_replies (poll_reply s p0) blip) p2) = true
    ∧ touch_events a (poll_reply (poll_replies (poll_reply s p0) blip) p2)._cmd_queue
        = touch_events a (poll_reply s p0)._cmd_queue := by
  obtain ⟨s1, _, s3, _, _⟩ := hstep s p0 hseq
  obtain ⟨k1, k2⟩ := s3 h0
  refine ⟨?_, ?_, ?_⟩
  · rintro pre ⟨suf, rfl⟩
    exact (blip_run st dl rd a hstep pre (poll_reply s p0) _ s1 k1 k2
      (fun q hq => hb q (by simp [hq]))).1
  · obtain ⟨_, _, r3, _, _⟩ := blip_run st dl rd a hstep blip (poll_reply s p0) _ s1 k1 k2 hb
    exact ((hstep _ p2 r3).2.2.1 h2).1
  · obtain ⟨r1, _, r3, _, r5⟩ := blip_run st dl rd a hstep blip (poll_reply s p0) _ s1 k1 k2 hb
    rw [(hstep _ p2 r3).2.2.2.2 r1, r5]

/-- Debounce absorption up to the recorded deadline, for each pad `which`: after
a poll reply `p0` that reads the pad pressed at time `p0.1`, every run of later
poll replies that read it unpressed, each processed no later than the liftoff
deadline `(p0.1 + _button_liftoff_ms) mod 2^32` the code has recorded, leaves
the pad's debounced state pressed (`IsButtonPressed`, and its bit in
`AnyButtonPressed`); a following poll reply that reads it pressed again leaves
it pressed too, and from the first press on no further touch event (the pad's
sound) is enqueued. The times are `millis()` values, the sequence number is
below 9. -/
theorem debounce_absorption (s : Hub) (which : Nat) (p0 : Nat × Nat × Nat × Nat)
    (blip : List (Nat × Nat × Nat × Nat)) (p2 : Nat × Nat × Nat × Nat)
    (hw : which = BUTTON_LEFT ∨ which = BUTTON_MIDDLE ∨ which = BUTTON_RIGHT)
    (hseq : s._packet_number < 9) (h0 : pad_reading which p0 ≠ 0)
    (hb : ∀ p ∈ blip, pad_reading which p = 0 ∧ p.1 ≤ (p0.1 + s._button_liftoff_ms) % ULONG)
    (h2 : pad_reading which p2 ≠ 0) :
    (∀ pre, pre <+: blip →
        IsButtonPressed (poll_replies (poll_reply s p0) pre) which = true
        ∧ AnyButtonPressed (poll_replies (poll_reply s p0) pre) &&& which = which)
    ∧ IsButtonPressed (poll_reply (poll_replies (poll_reply s p0) blip) p2) which = true
    ∧ AnyButtonPressed (poll_reply (poll_replies (poll_reply s p0) blip) p2) &&& which = which
    ∧ touch_events (touch_sound which)
          (poll_reply (poll_replies (poll_reply s p0) blip) p2)._cmd_queue
        = touch_events (touch_sound which) (poll_reply s p0)._cmd_queue := by
  rcases hw with rfl | rfl | rfl
  · have hr : ∀ p, pad_reading BUTTON_LEFT p = p.2.1 := fun p => rfl
    simp only [hr] at h0 hb h2
    obtain ⟨a, b, c⟩ := press_blip_press (fun h => h._l_button_state)
      (fun h => h._l_button_timeout) (fun p => p.2.1) AUDIO_L poll_reply_left s p0 blip p2
      hseq h0 hb h2
    exact ⟨fun pre hpre => pressed_left _ (a pre hpre), (pressed_left _ b).1,
      (pressed_left _ b).2, c⟩
  · have hr : ∀ p, pad_reading BUTTON_MIDDLE p = p.2.2.1 := fun p => rfl
    simp only [hr] at h0 hb h2
    obtain ⟨a, b, c⟩ := press_blip_press (fun h => h._m_button_state)
      (fun h => h._m_button_timeout) (fun p => p.2.2.1) AUDIO_M poll_reply_middle s p0 blip p2
      hseq h0 hb h2
    exact ⟨fun pre hpre => pressed_middle _ (a pre hpre), (pressed_middle _ b).1,
      (pressed_middle _ b).2, c⟩
  · have hr : ∀ p, pad_reading BUTTON_RIGHT p = p.2.2.2 := fun p => rfl
    simp only [hr] at h0 hb h2
    obtain ⟨a, b, c⟩ := press_blip_press (fun h => h._r_button_state)
      (fun h => h._r_button_timeout) (fun p => p.2.2.2) AUDIO_R poll_reply_right s p0 blip p2
      hseq h0 hb h2
    exact ⟨fun pre hpre => pressed_right _ (a pre hpre), (pressed_right _ b).1,
      (pressed_right _ b).2, c⟩

theorem debounce_absorption_witness :
    IsButtonPressed (poll_reply (poll_replies (poll_reply (HubInterface 0) (1000, 1, 0, 0))
        [(1050, 0, 0, 1), (1100, 0, 1, 0)]) (1150, 1, 0, 0)) BUTTON_LEFT = true
    ∧ AnyButtonPressed (poll_reply (poll_replies (poll_reply (HubInterface 0) (1000, 1, 0, 0))
        [(1050, 0, 0, 1), (1100, 0, 1, 0)]) (1150, 1, 0, 0)) &&& BUTTON_LEFT = BUTTON_LEFT
    ∧ touch_events (touch_sound BUTTON_LEFT)
          (poll_reply (poll_replies (poll_reply (HubInterface 0) (1000, 1, 0, 0))
            [(1050, 0, 0, 1), (1100, 0, 1, 0)]) (1150, 1, 0, 0))._cmd_queue
        = touch_events (touch_sound BUTTON_LEFT)
            (poll_reply (HubInterface 0) (1000, 1, 0, 0))._cmd_queue :=
  (debounce_absorption (HubInterface 0) BUTTON_LEFT (1000, 1, 0, 0)
    [(1050, 0, 0, 1), (1100, 0, 1, 0)] (1150, 1, 0, 0) (by decide) (by decide) (by decide)
    (by decide) (by decide)).2

/-- C8, the code at the failing input.  The left pad is released, then read
pressed in a poll reply processed at `millis()` = 4294967290: the touch sound
is enqueued and the deadline stored is (4294967290 + 100) mod 2^32 = 94.  A
poll reply that reads the pad unpressed 5 ms later, at 4294967295, well inside
the liftoff window of 100 ms, finds `millis()` above the stored deadline and
releases the pad; the next reply, 9 ms after the press (`millis()` has wrapped to
3), reads it pressed again and enqueues a second touch sound. -/
theorem debounce_fails_at_clock_wrap :
    IsButtonPressed (poll_reply (HubInterface 0) (1000, 0, 0, 0)) BUTTON_LEFT = false
    ∧ IsButtonPressed (poll_replies (HubInterface 0)
        [(1000, 0, 0, 0), (4294967290, 1, 0, 0)]) BUTTON_LEFT = true
    ∧ (poll_replies (HubInterface 0)
        [(1000, 0, 0, 0), (4294967290, 1, 0, 0)])._l_button_timeout = 94
    ∧ touch_events (touch_sound BUTTON_LEFT) (poll_replies (HubInterface 0)
        [(1000, 0, 0, 0), (4294967290, 1, 0, 0)])._cmd_queue = 1
    ∧ 4294967295 ≤ 4294967290 + (HubInterface 0)._button_liftoff_ms
    ∧ IsButtonPressed (poll_replies (HubInterface 0)
        [(1000, 0, 0, 0), (4294967290, 1, 0, 0), (4294967295, 0, 0, 0)]) BUTTON_LEFT = false
    ∧ AnyButtonPressed (poll_replies (HubInterface 0)
        [(1000, 0, 0, 0), (4294967290, 1, 0, 0), (4294967295, 0, 0, 0)]) = 0
    ∧ touch_events (touch_sound BUTTON_LEFT) (poll_replies (HubInterface 0)
        [(1000, 0, 0, 0), (4294967290, 1, 0, 0), (4294967295, 0, 0, 0),
          (3, 1, 0, 0)])._cmd_queue = 2 := by
  decide

/-! ## C9: a tray session -/

theorem UpdateButtonAudioEnabled_diag (s : Hub) :
    diag_view (UpdateButtonAudioEnabled s) = diag_view s := by
  unfold UpdateButtonAudioEnabled
  split_ifs <;> rfl

theorem ResetFoodMachine_diag (s : Hub) : diag_view (ResetFoodMachine s).2 = diag_view s := by
  unfold ResetFoodMachine _create_dl_cmd_with
  split_ifs <;> rfl

theorem track_food_errors_diag (s : Hub) : diag_view (track_food_errors s) = diag_view s := by
  unfold track_food_errors
  dsimp only
  split_ifs
  · exact (UpdateButtonAudioEnabled_diag _).trans rfl
  · rfl
  · exact (UpdateButtonAudioEnabled_diag _).trans rfl
  · rfl
  · rfl

theorem track_platter_errors_diag (s : Hub) (now : Nat) :
    diag_view (track_platter_errors s now) = diag_view s := by
  unfold track_platter_errors
  dsimp only
  split_ifs
  · rfl
  · exact (UpdateButtonAudioEnabled_diag _).trans rfl
  · exact (ResetFoodMachine_diag _).trans rfl
  · rfl
  · rfl
  · exact (UpdateButtonAudioEnabled_diag _).trans rfl
  · rfl

theorem track_singulator_errors_diag (s : Hub) :
    diag_view (track_singulator_errors s) = diag_view s := by
  unfold track_singulator_errors
  dsimp only
  split_ifs
  · exact (UpdateButtonAudioEnabled_diag _).trans rfl
  · rfl
  · exact (UpdateButtonAudioEnabled_diag _).trans rfl
  · rfl

theorem parse_msg_switch_Z (s : Hub) (now rplystatus : Nat) (payload : List Nat) :
    _parse_msg_switch s now 90 rplystatus payload = _parse_msg_Z s now payload := by
  unfold _parse_msg_switch
  rw [if_neg (by decide), if_neg (by decide), if_neg (by decide), if_neg (by decide),
    if_pos rfl]

/-- What a well-formed diagnostic reply does: it stores the food-machine state,
the food-taken flag and the time of the update, and leaves the tray session's
members alone. -/
theorem diag_update_spec (h : Hub) (now : Nat) (payload : List Nat) (hlen : 11 ≤ strlen payload) :
    untouched (diag_update h now payload) = untouched h
    ∧ (diag_update h now payload)._foodmachine_state = sub48 (byteAt (cstr payload) 9)
    ∧ (diag_update h now payload)._previous_foodtreat_taken
        = (sub48 (byteAt (cstr payload) 8) == 0)
    ∧ (diag_update h now payload)._last_diag_update_ms = now := by
  have hf := (parse_msg_frame h now 90 49 payload (strlen payload)).1
  refine ⟨hf, ?_⟩
  have e : diag_update h now payload = (_parse_msg_Z h now payload).1 := by
    unfold diag_update _parse_msg
    dsimp only
    rw [parse_msg_switch_Z]
    split_ifs <;> rfl
  have hl : ¬ ((cstr payload).length < 11) := by unfold strlen at hlen; omega
  have e2 : (_parse_msg_Z h now payload).1
      = track_singulator_errors (track_platter_errors (track_food_errors
          (store_diag h now (sub48 (byteAt (cstr payload) 8)) (sub48 (byteAt (cstr payload) 9))
            (sub48 (byteAt (cstr payload) 10)))) now) := by
    unfold _parse_msg_Z
    dsimp only
    rw [if_neg hl]
  have hd := ((track_singulator_errors_diag _).trans (track_platter_errors_diag _ now)).trans
    (track_food_errors_diag (store_diag h now (sub48 (byteAt (cstr payload) 8))
      (sub48 (byteAt (cstr payload) 9)) (sub48 (byteAt (cstr payload) 10))))
  rw [← e2, ← e] at hd
  simp only [diag_view, store_diag, Prod.mk.injEq] at hd
  exact hd

theorem enqueue_cmd_ok (s : Hub) (token : Nat) (payload : List Nat)
    (hlen : strlen payload < 999) :
    (enqueue_cmd s token payload).1 = true
    ∧ diag_view (enqueue_cmd s token payload).2 = diag_view s
    ∧ untouched (enqueue_cmd s token payload).2 = untouched s := by
  unfold enqueue_cmd _create_dl_cmd_with
  rw [if_neg (by omega)]
  exact ⟨rfl, rfl, rfl⟩

theorem strlen_fmt_0d_2 (n : Nat) (h : n < 100) : strlen (fmt_0d 2 n ++ [0]) = 2 := by
  rw [fmt_0d_2 n h]
  have h1 : ((48 + n / 10) != 0) = true := by simp
  have h2 : ((48 + n % 10) != 0) = true := by simp
  simp [strlen, cstr, List.takeWhile_cons, h1, h2]

theorem PresentFoodtreat_ok (s : Hub) (d : Nat) (hd : d < 100) :
    (PresentFoodtreat s d).1 = true
    ∧ diag_view (PresentFoodtreat s d).2 = diag_view s
    ∧ untouched (PresentFoodtreat s d).2 = untouched s :=
  enqueue_cmd_ok s 84 _ (by rw [strlen_fmt_0d_2 d hd]; decide)

theorem RetractTray_ok (s : Hub) :
    (RetractTray s).1 = true
    ∧ diag_view (RetractTray s).2 = diag_view s
    ∧ untouched (RetractTray s).2 = untouched s :=
  enqueue_cmd_ok s 88 _ (by decide)

/-- Phase BeforePresent with the food machine idle: the tray is presented and the
phase becomes PlatterOut. -/
theorem pact_before_present (s : Hub) (now d : Nat)
    (hphase : s._pact_foodtreat_state = PACT_BEFORE_PRESENT)
    (hfm : s._foodmachine_state = FOODMACHINE_IDLE) :
    (PresentAndCheckFoodtreat s now d).1 = PACT_PLATTER_OUT
    ∧ (PresentAndCheckFoodtreat s now d).2._pact_foodtreat_state = PACT_PLATTER_OUT
    ∧ diag_view (PresentAndCheckFoodtreat s now d).2 = diag_view s := by
  have hok : fm_ok s := by unfold fm_ok; rw [hfm]; decide
  unfold PresentAndCheckFoodtreat
  rw [if_neg hok, if_pos hphase]
  dsimp only
  rw [if_pos hfm]
  generalize _milliseconds_to_deciseconds_for_DL_T d = dd
  by_cases hd : dd ≥ 99
  · rw [if_pos hd]
    obtain ⟨a, b, _⟩ := PresentFoodtreat_ok s 0 (by decide)
    rw [if_pos a]
    refine ⟨rfl, rfl, ?_⟩
    simp only [diag_view] at b ⊢
    exact b
  · rw [if_neg hd]
    obtain ⟨a, b, _⟩ := PresentFoodtreat_ok s dd (by omega)
    rw [if_pos a]
    refine ⟨rfl, rfl, ?_⟩
    simp only [diag_view] at b ⊢
    exact b

/-- Phase PlatterOut while the food machine still reports idle: nothing changes. -/
theorem pact_platter_out_stay (s : Hub) (now d : Nat)
    (hphase : s._pact_foodtreat_state = PACT_PLATTER_OUT)
    (hfm : s._foodmachine_state = FOODMACHINE_IDLE) :
    PresentAndCheckFoodtreat s now d = (PACT_PLATTER_OUT, s) := by
  have hok : fm_ok s := by unfold fm_ok; rw [hfm]; decide
  unfold PresentAndCheckFoodtreat
  rw [if_neg hok, if_neg (by rw [hphase]; decide), if_pos hphase,
    if_neg (by rw [hfm]; decide), hphase]

/-- Phase PlatterOut once the tray is seen away from home: on to WaitTilBack. -/
theorem pact_platter_out_go (s : Hub) (now d : Nat)
    (hphase : s._pact_foodtreat_state = PACT_PLATTER_OUT)
    (hfm : s._foodmachine_state = FOODMACHINE_MOVING_HOME ∨ s._foodmachine_state = FOODMACHINE_CHECK
      ∨ s._foodmachine_state = FOODMACHINE_MOVING_PRESENT
      ∨ s._foodmachine_state = FOODMACHINE_WAIT) :
    (PresentAndCheckFoodtreat s now d).1 = PACT_WAIT_TIL_BACK
    ∧ (PresentAndCheckFoodtreat s now d).2._pact_foodtreat_state = PACT_WAIT_TIL_BACK
    ∧ diag_view (PresentAndCheckFoodtreat s now d).2 = diag_view s := by
  have hok : fm_ok s := by
    unfold fm_ok
    rcases hfm with h | h | h | h <;> rw [h] <;> decide
  unfold PresentAndCheckFoodtreat
  rw [if_neg hok, if_neg (by rw [hphase]; decide), if_pos hphase, if_pos hfm]
  exact ⟨rfl, rfl, rfl⟩

/-- Phase WaitTilBack while the tray is not back: the phase stays (a retract may
be issued). -/
theorem pact_wait_stay (s : Hub) (now d : Nat)
    (hphase : s._pact_foodtreat_state = PACT_WAIT_TIL_BACK) (hok : fm_ok s)
    (hfm : ¬ (s._foodmachine_state = FOODMACHINE_DISPENSING
      ∨ s._foodmachine_state = FOODMACHINE_IDLE)) :
    (PresentAndCheckFoodtreat s now d).1 = PACT_WAIT_TIL_BACK
    ∧ (PresentAndCheckFoodtreat s now d).2._pact_foodtreat_state = PACT_WAIT_TIL_BACK
    ∧ diag_view (PresentAndCheckFoodtreat s now d).2 = diag_view s := by
  unfold PresentAndCheckFoodtreat
  rw [if_neg hok, if_neg (by rw [hphase]; decide), if_neg (by rw [hphase]; decide),
    if_pos hphase, if_neg hfm]
  by_cases hi : (s._indefinite_tray_presentation == true) = true
  · rw [if_pos hi]
    dsimp only
    by_cases hc : s._want_tray_closed = true
        ∨ (now + ULONG - s._foodtreat_presented_time) % ULONG > d
    · rw [if_pos hc]
      obtain ⟨a, b, c⟩ := RetractTray_ok s
      rw [if_pos a]
      have c2 : (RetractTray s).2._pact_foodtreat_state = s._pact_foodtreat_state := by
        have := congrArg (fun v => v.2.1.1) c
        exact this
      refine ⟨c2.trans hphase, c2.trans hphase, ?_⟩
      simp only [diag_view] at b ⊢
      exact b
    · rw [if_neg hc]
      exact ⟨hphase, hphase, rfl⟩
  · rw [if_neg hi]
    exact ⟨hphase, hphase, rfl⟩

/-- Phase WaitTilBack once the tray is back: the return time is recorded and the
phase becomes WaitDiag. -/
theorem pact_wait_go (s : Hub) (now d : Nat)
    (hphase : s._pact_foodtreat_state = PACT_WAIT_TIL_BACK)
    (hfm : s._foodmachine_state = FOODMACHINE_DISPENSING ∨ s._foodmachine_state = FOODMACHINE_IDLE) :
    (PresentAndCheckFoodtreat s now d).1 = PACT_WAIT_DIAG
    ∧ (PresentAndCheckFoodtreat s now d).2._pact_foodtreat_state = PACT_WAIT_DIAG
    ∧ (PresentAndCheckFoodtreat s now d).2._pact_platter_return_time = now
    ∧ diag_view (PresentAndCheckFoodtreat s now d).2 = diag_view s := by
  have hok : fm_ok s := by
    unfold fm_ok
    rcases hfm with h | h <;> rw [h] <;> decide
  unfold PresentAndCheckFoodtreat
  rw [if_neg hok, if_neg (by rw [hphase]; decide), if_neg (by rw [hphase]; decide),
    if_pos hphase, if_pos hfm]
  exact ⟨rfl, rfl, rfl, rfl⟩

/-- Phase WaitDiag with no diagnostic update after the return time: nothing
changes. -/
theorem pact_diag_stay (s : Hub) (now d : Nat)
    (hphase : s._pact_foodtreat_state = PACT_WAIT_DIAG) (hok : fm_ok s)
    (hnot : ¬ (s._pact_platter_return_time < s._last_diag_update_ms)) :
    PresentAndCheckFoodtreat s now d = (PACT_WAIT_DIAG, s) := by
  unfold PresentAndCheckFoodtreat
  rw [if_neg hok, if_neg (by rw [hphase]; decide), if_neg (by rw [hphase]; decide),
    if_neg (by rw [hphase]; decide), if_pos hphase, if_neg hnot, hphase]

/-- Phase WaitDiag with a diagnostic update after the return time: the terminal
code, and back to BeforePresent. -/
theorem pact_diag_go (s : Hub) (now d : Nat)
    (hphase : s._pact_foodtreat_state = PACT_WAIT_DIAG) (hok : fm_ok s)
    (hlt : s._pact_platter_return_time < s._last_diag_update_ms) :
    (PresentAndCheckFoodtreat s now d).1
        = (if s._previous_foodtreat_taken then PACT_RESPONSE_FOODTREAT_TAKEN
            else PACT_RESPONSE_FOODTREAT_NOT_TAKEN)
    ∧ (PresentAndCheckFoodtreat s now d).2._pact_foodtreat_state = PACT_BEFORE_PRESENT := by
  unfold PresentAndCheckFoodtreat
  rw [if_neg hok, if_neg (by rw [hphase]; decide), if_neg (by rw [hphase]; decide),
    if_neg (by rw [hphase]; decide), if_pos hphase, if_pos hlt]
  dsimp only
  split_ifs <;> exact ⟨rfl, rfl⟩

theorem polls_platter_out_stay (d : Nat) (ts : List Nat) (s : Hub)
    (hphase : s._pact_foodtreat_state = PACT_PLATTER_OUT)
    (hfm : s._foodmachine_state = FOODMACHINE_IDLE) :
    pact_polls s d ts = (List.replicate ts.length PACT_PLATTER_OUT, s) := by
  induction ts with
  | nil => rfl
  | cons t ts ih =>
    simp only [pact_polls, pact_platter_out_stay s t d hphase hfm, ih, List.length_cons,
      List.replicate_succ]

theorem polls_wait_stay (d : Nat) (ts : List Nat) :
    ∀ s : Hub, s._pact_foodtreat_state = PACT_WAIT_TIL_BACK → fm_ok s →
      ¬ (s._foodmachine_state = FOODMACHINE_DISPENSING ∨ s._foodmachine_state = FOODMACHINE_IDLE) →
      (pact_polls s d ts).1 = List.replicate ts.length PACT_WAIT_TIL_BACK
      ∧ (pact_polls s d ts).2._pact_foodtreat_state = PACT_WAIT_TIL_BACK
      ∧ diag_view (pact_polls s d ts).2 = diag_view s := by
  induction ts with
  | nil => intro s hphase _ _; exact ⟨rfl, hphase, rfl⟩
  | cons t ts ih =>
    intro s hphase hok hfm
    obtain ⟨a, b, c⟩ := pact_wait_stay s t d hphase hok hfm
    have cf : (PresentAndCheckFoodtreat s t d).2._foodmachine_state = s._foodmachine_state :=
      congrArg (fun v => v.1) c
    obtain ⟨i1, i2, i3⟩ := ih (PresentAndCheckFoodtreat s t d).2 b
      (by unfold fm_ok at hok ⊢; rw [cf]; exact hok) (by rw [cf]; exact hfm)
    simp only [pact_polls, List.length_cons, List.replicate_succ]
    exact ⟨by rw [a, i1], i2, i3.trans c⟩

theorem polls_diag_stay (d : Nat) (ts : List Nat) (s : Hub)
    (hphase : s._pact_foodtreat_state = PACT_WAIT_DIAG) (hok : fm_ok s)
    (hnot : ¬ (s._pact_platter_return_time < s._last_diag_update_ms)) :
    pact_polls s d ts = (List.replicate ts.length PACT_WAIT_DIAG, s) := by
  induction ts with
  | nil => rfl
  | cons t ts ih =>
    simp only [pact_polls, pact_diag_stay s t d hphase hok hnot, ih, List.length_cons,
      List.replicate_succ]

theorem diag_update_facts (h : Hub) (now : Nat) (payload : List Nat) (hlen : 11 ≤ strlen payload) :
    session_facts (diag_update h now payload)
      = (h._pact_foodtreat_state, h._pact_platter_return_time, diag_state payload,
          diag_still_in_bowl payload == 0, now) := by
  obtain ⟨a, b, c, e⟩ := diag_update_spec h now payload hlen
  have a1 : (diag_update h now payload)._pact_foodtreat_state = h._pact_foodtreat_state :=
    congrArg (fun v => v.2.1.1) a
  have a2 : (diag_update h now payload)._pact_platter_return_time = h._pact_platter_return_time :=
    congrArg (fun v => v.2.1.2.2.2.1) a
  simp only [session_facts, a1, a2, b, c, e, diag_state, diag_still_in_bowl]

theorem seg_present (s : Hub) (d t : Nat) (P : List Nat)
    (hphase : s._pact_foodtreat_state = PACT_BEFORE_PRESENT)
    (hfm : s._foodmachine_state = FOODMACHINE_IDLE) :
    ∃ h, pact_polls s d (t :: P) = (List.replicate (P.length + 1) PACT_PLATTER_OUT, h)
      ∧ h._pact_foodtreat_state = PACT_PLATTER_OUT := by
  obtain ⟨a, b, c⟩ := pact_before_present s t d hphase hfm
  have cf : (PresentAndCheckFoodtreat s t d).2._foodmachine_state = s._foodmachine_state :=
    congrArg (fun v => v.1) c
  refine ⟨(PresentAndCheckFoodtreat s t d).2, ?_, b⟩
  simp only [pact_polls, polls_platter_out_stay d P _ b (cf.trans hfm), a, List.replicate_succ]

theorem seg_moving (s : Hub) (d t : Nat) (P : List Nat)
    (hphase : s._pact_foodtreat_state = PACT_PLATTER_OUT)
    (hfm : s._foodmachine_state = FOODMACHINE_MOVING_PRESENT) :
    ∃ h, pact_polls s d (t :: P) = (List.replicate (P.length + 1) PACT_WAIT_TIL_BACK, h)
      ∧ h._pact_foodtreat_state = PACT_WAIT_TIL_BACK := by
  obtain ⟨a, b, c⟩ := pact_platter_out_go s t d hphase (Or.inr (Or.inr (Or.inl hfm)))
  have cf : (PresentAndCheckFoodtreat s t d).2._foodmachine_state = s._foodmachine_state :=
    congrArg (fun v => v.1) c
  obtain ⟨i1, i2, _⟩ := polls_wait_stay d P (PresentAndCheckFoodtreat s t d).2 b
    (by unfold fm_ok; rw [cf, hfm]; decide) (by rw [cf, hfm]; decide)
  refine ⟨(pact_polls (PresentAndCheckFoodtreat s t d).2 d P).2, ?_, i2⟩
  simp only [pact_polls, a, List.replicate_succ]
  rw [← i1]

theorem seg_checking (s : Hub) (d t : Nat) (P : List Nat)
    (hphase : s._pact_foodtreat_state = PACT_WAIT_TIL_BACK)
    (hfm : s._foodmachine_state = FOODMACHINE_CHECK) :
    ∃ h, pact_polls s d (t :: P) = (List.replicate (P.length + 1) PACT_WAIT_TIL_BACK, h)
      ∧ h._pact_foodtreat_state = PACT_WAIT_TIL_BACK := by
  obtain ⟨i1, i2, _⟩ := polls_wait_stay d (t :: P) s hphase
    (by unfold fm_ok; rw [hfm]; decide) (by rw [hfm]; decide)
  rw [List.length_cons] at i1
  exact ⟨(pact_polls s d (t :: P)).2, by rw [← i1], i2⟩

theorem seg_back (s : Hub) (d t : Nat) (P : List Nat)
    (hphase : s._pact_foodtreat_state = PACT_WAIT_TIL_BACK)
    (hfm : s._foodmachine_state = FOODMACHINE_IDLE) (hle : s._last_diag_update_ms ≤ t) :
    ∃ h, pact_polls s d (t :: P) = (List.replicate (P.length + 1) PACT_WAIT_DIAG, h)
      ∧ h._pact_foodtreat_state = PACT_WAIT_DIAG ∧ h._pact_platter_return_time = t := by
  obtain ⟨a, b, r, c⟩ := pact_wait_go s t d hphase (Or.inr hfm)
  have cf : (PresentAndCheckFoodtreat s t d).2._foodmachine_state = s._foodmachine_state :=
    congrArg (fun v => v.1) c
  have cl : (PresentAndCheckFoodtreat s t d).2._last_diag_update_ms = s._last_diag_update_ms :=
    congrArg (fun v => v.2.2) c
  refine ⟨(PresentAndCheckFoodtreat s t d).2, ?_, b, r⟩
  simp only [pact_polls, a, List.replicate_succ,
    polls_diag_stay d P _ b (by unfold fm_ok; rw [cf, hfm]; decide) (by rw [r, cl]; omega)]

theorem seg_resolve (s : Hub) (d t : Nat)
    (hphase : s._pact_foodtreat_state = PACT_WAIT_DIAG) (hok : fm_ok s)
    (hlt : s._pact_platter_return_time < s._last_diag_update_ms) :
    ∃ h, pact_polls s d [t]
        = ([if s._previous_foodtreat_taken then PACT_RESPONSE_FOODTREAT_TAKEN
            else PACT_RESPONSE_FOODTREAT_NOT_TAKEN], h)
      ∧ h._pact_foodtreat_state = PACT_BEFORE_PRESENT := by
  obtain ⟨a, b⟩ := pact_diag_go s t d hphase hok hlt
  refine ⟨(PresentAndCheckFoodtreat s t d).2, ?_, b⟩
  simp only [pact_polls, a]

/-- C9. Tray session terminal correctness: starting in phase BeforePresent, let
`PresentAndCheckFoodtreat` be polled (at least once after each diagnostic
reply) against the diagnostic sequence Idle, Moving-to-present, Checking, Idle
and one further diagnostic reply that arrives after the poll that saw the tray
back and reports no error.  Then every poll after the first Idle returns
PlatterOut, every poll during Moving and Checking returns WaitTilBack, every
poll after the second Idle returns WaitDiag, and the poll after the last
diagnostic returns `PACT_RESPONSE_FOODTREAT_TAKEN` (1) if that diagnostic
reports no foodtreat in the bowl and `PACT_RESPONSE_FOODTREAT_NOT_TAKEN` (0) if
it reports one; the phase is BeforePresent again. -/
theorem tray_session_terminal (s : Hub) (duration_ms : Nat)
    (td1 td2 td3 td4 td5 t1 t2 t3 t4 t5 : Nat) (d1 d2 d3 d4 d5 P1 P2 P3 P4 : List Nat)
    (hphase : s._pact_foodtreat_state = PACT_BEFORE_PRESENT)
    (hd1 : 11 ≤ strlen d1 ∧ diag_state d1 = FOODMACHINE_IDLE)
    (hd2 : 11 ≤ strlen d2 ∧ diag_state d2 = FOODMACHINE_MOVING_PRESENT)
    (hd3 : 11 ≤ strlen d3 ∧ diag_state d3 = FOODMACHINE_CHECK)
    (hd4 : 11 ≤ strlen d4 ∧ diag_state d4 = FOODMACHINE_IDLE)
    (hd5 : 11 ≤ strlen d5 ∧ diag_state d5 ≠ FOODMACHINE_LID_OPEN
      ∧ diag_state d5 ≤ FOODMACHINE_WAIT)
    (h4 : td4 ≤ t4) (h5 : t4 < td5) :
    (tray_session s duration_ms
        [(td1, d1, t1 :: P1), (td2, d2, t2 :: P2), (td3, d3, t3 :: P3), (td4, d4, t4 :: P4),
         (td5, d5, [t5])]).1
      = List.replicate (P1.length + 1) PACT_PLATTER_OUT
        ++ List.replicate (P2.length + 1) PACT_WAIT_TIL_BACK
        ++ List.replicate (P3.length + 1) PACT_WAIT_TIL_BACK
        ++ List.replicate (P4.length + 1) PACT_WAIT_DIAG
        ++ [if diag_still_in_bowl d5 = 0 then PACT_RESPONSE_FOODTREAT_TAKEN
            else PACT_RESPONSE_FOODTREAT_NOT_TAKEN]
    ∧ (tray_session s duration_ms
        [(td1, d1, t1 :: P1), (td2, d2, t2 :: P2), (td3, d3, t3 :: P3), (td4, d4, t4 :: P4),
         (td5, d5, [t5])]).2._pact_foodtreat_state = PACT_BEFORE_PRESENT := by
  have f1 := diag_update_facts s td1 d1 hd1.1
  simp only [session_facts, Prod.mk.injEq] at f1
  obtain ⟨h1, e1, p1⟩ := seg_present (diag_update s td1 d1) duration_ms t1 P1
    (f1.1.trans hphase) (f1.2.2.1.trans hd1.2)
  have f2 := diag_update_facts h1 td2 d2 hd2.1
  simp only [session_facts, Prod.mk.injEq] at f2
  obtain ⟨h2, e2, p2⟩ := seg_moving (diag_update h1 td2 d2) duration_ms t2 P2
    (f2.1.trans p1) (f2.2.2.1.trans hd2.2)
  have f3 := diag_update_facts h2 td3 d3 hd3.1
  simp only [session_facts, Prod.mk.injEq] at f3
  obtain ⟨h3, e3, p3⟩ := seg_checking (diag_update h2 td3 d3) duration_ms t3 P3
    (f3.1.trans p2) (f3.2.2.1.trans hd3.2)
  have f4 := diag_update_facts h3 td4 d4 hd4.1
  simp only [session_facts, Prod.mk.injEq] at f4
  obtain ⟨h4', e4, p4, r4⟩ := seg_back (diag_update h3 td4 d4) duration_ms t4 P4
    (f4.1.trans p3) (f4.2.2.1.trans hd4.2) (by rw [f4.2.2.2.2]; exact h4)
  have f5 := diag_update_facts h4' td5 d5 hd5.1
  simp only [session_facts, Prod.mk.injEq] at f5
  obtain ⟨h5', e5, p5⟩ := seg_resolve (diag_update h4' td5 d5) duration_ms t5
    (f5.1.trans p4)
    (by
      unfold fm_ok
      rw [f5.2.2.1]
      have := hd5.2.1
      have := hd5.2.2
      unfold FOODMACHINE_WAIT at *
      omega)
    (by rw [f5.2.1, f5.2.2.2.2, r4]; exact h5)
  rw [f5.2.2.2.1] at e5
  simp only [tray_session, e1, e2, e3, e4, e5, List.append_nil, List.append_assoc]
  refine ⟨?_, p5⟩
  by_cases hb : diag_still_in_bowl d5 = 0
  · simp [hb]
  · simp [hb]

theorem tray_session_terminal_witness :
    (tray_session (HubInterface 0) 1000
        [(100, ascii "00000000140.", [110, 120]), (600, ascii "00000000150.", [610]),
         (1100, ascii "00000000120.", [1110, 1120]), (1600, ascii "00000000140.", [1610, 1620]),
         (2100, ascii "00000000040.", [2110])]).1
      = [11, 11, 12, 12, 12, 13, 13, 1] :=
  (tray_session_terminal (HubInterface 0) 1000 100 600 1100 1600 2100 110 610 1110 1610 2110
    (ascii "00000000140.") (ascii "00000000150.") (ascii "00000000120.") (ascii "00000000140.")
    (ascii "00000000040.") [120] [] [1120] [1620]
    (by decide) (by decide) (by decide) (by decide) (by decide) (by decide) (by decide)
    (by decide)).1

/-! ## C6: one command in flight, in order -/

theorem cstr_append_nul_any (x r : List Nat) : cstr (x ++ 0 :: r) = cstr x := by
  induction x with
  | nil => simp [cstr]
  | cons a t ih =>
    simp only [cstr] at ih ⊢
    by_cases ha : a = 0
    · subst ha
      simp [List.takeWhile_cons]
    · have hb : (a != 0) = true := by simpa using ha
      simp [List.takeWhile_cons, hb, ih]

theorem getD_set_self (l : List Nat) (i b : Nat) (h : i < l.length) :
    (l.set i b).getD i 0 = b := by
  rw [List.getD_eq_getElem?_getD, List.getElem?_set_self h]
  rfl

/-- The receive loop on a reply body that holds no `.`, followed by the `.`: all
the bytes are stored one after the other and the loop ends at the `.`. -/
theorem receive_loop_spec (body : List Nat) :
    ∀ s : Hub, s._len_reply_buffer + body.length + 1 ≤ 63 → s._reply_buffer.length = 64 →
      46 ∉ body →
      _receive_cmd_loop (body ++ [46]) s =
        ({ s with
            _reply_buffer := s._reply_buffer.take s._len_reply_buffer ++ (body ++ [46])
              ++ s._reply_buffer.drop (s._len_reply_buffer + body.length + 1),
            _len_reply_buffer := s._len_reply_buffer + body.length + 1,
            serial_rx := [] }, false) := by
  induction body with
  | nil =>
    intro s hlen hbuf _
    have h1 : ¬ (s._len_reply_buffer ≥ MAX_LEN_REPLY_BUFFER - 1) := by
      unfold MAX_LEN_REPLY_BUFFER; simp at hlen ⊢; omega
    have h2 : s._len_reply_buffer < s._reply_buffer.length := by rw [hbuf]; simp at hlen; omega
    simp only [List.nil_append, _receive_cmd_loop, h1, if_false, Nat.add_sub_cancel, byteAt,
      getD_set_self _ _ _ h2, if_true, List.length_nil, Nat.add_zero]
    rw [List.set_eq_take_append_cons_drop, if_pos h2]
    simp
  | cons b rest ih =>
    intro s hlen hbuf hno
    have h1 : ¬ (s._len_reply_buffer ≥ MAX_LEN_REPLY_BUFFER - 1) := by
      unfold MAX_LEN_REPLY_BUFFER; simp at hlen ⊢; omega
    have h2 : s._len_reply_buffer < s._reply_buffer.length := by rw [hbuf]; simp at hlen; omega
    have hb : ¬ (b = 46) := fun h => hno (by simp [h])
    have hrest : 46 ∉ rest := fun h => hno (by simp [h])
    simp only [List.cons_append, _receive_cmd_loop, h1, if_false, Nat.add_sub_cancel, byteAt,
      getD_set_self _ _ _ h2, hb, List.append_eq]
    rw [ih _ (by simp at hlen ⊢; omega) (by simp [hbuf]) hrest]
    simp only [List.length_cons, Prod.mk.injEq, and_true]
    have e1 : s._len_reply_buffer + 1 + rest.length + 1 = s._len_reply_buffer + (rest.length + 1) + 1 := by
      omega
    have e2 : List.take (s._len_reply_buffer + 1) (s._reply_buffer.set s._len_reply_buffer b)
        = List.take s._len_reply_buffer s._reply_buffer ++ [b] := by
      rw [List.set_eq_take_append_cons_drop, if_pos h2, List.take_append_eq_append_take]
      simp [List.take_take, Nat.min_eq_left (Nat.le_of_lt h2)]
    have e3 : List.drop (s._len_reply_buffer + (rest.length + 1) + 1)
          (s._reply_buffer.set s._len_reply_buffer b)
        = List.drop (s._len_reply_buffer + (rest.length + 1) + 1) s._reply_buffer := by
      rw [List.drop_set_of_lt _ _ (by omega)]
    simp only [e1, e2, e3, List.append_assoc, List.singleton_append]

theorem reply_buffer_facts (body buf : List Nat) (hbuf : buf.length = 64)
    (hn : body.length ≤ 62) :
    (body ++ [46] ++ buf.drop (body.length + 1)).getD body.length 0 = 46
    ∧ (body ++ [46] ++ buf.drop (body.length + 1)).set (body.length + 1) 0
        = (body ++ [46]) ++ 0 :: buf.drop (body.length + 2)
    ∧ ((body ++ [46]) ++ 0 :: buf.drop (body.length + 2)).length = 64 := by
  refine ⟨?_, ?_, ?_⟩
  · rw [List.append_assoc, List.getD_eq_getElem?_getD, List.getElem?_append_right (Nat.le_refl _)]
    simp
  · have hl : (body ++ [46]).length = body.length + 1 := by simp
    rw [List.set_append_right _ _ (by rw [hl]), hl, Nat.sub_self]
    have hd : buf.drop (body.length + 1) = buf.getD (body.length + 1) 0 :: buf.drop (body.length + 2) := by
      have hlt : body.length + 1 < buf.length := by omega
      rw [List.getD_eq_getElem?_getD, List.getElem?_eq_getElem hlt]
      exact List.drop_eq_getElem_cons hlt
    rw [hd]
    rfl
  · simp [hbuf]
    omega

/-- A complete reply waiting in `Serial1`, with the reply buffer empty:
`_receive_cmd` returns it (up to a NUL inside it), NUL-terminated, and has read
all the bytes. -/
theorem receive_cmd_spec (s : Hub) (body : List Nat) (hrx : s.serial_rx = body ++ [46])
    (hlen : s._len_reply_buffer = 0) (hbuf : s._reply_buffer.length = 64) (hno : 46 ∉ body)
    (hn : body.length ≤ 62) :
    ∃ B, B.length = 64 ∧
      _receive_cmd s = (some (cstr (body ++ [46]) ++ [0]),
        { s with _reply_buffer := B, _len_reply_buffer := 0, serial_rx := [] }) := by
  obtain ⟨f1, f2, f3⟩ := reply_buffer_facts body s._reply_buffer hbuf hn
  refine ⟨(body ++ [46]) ++ 0 :: s._reply_buffer.drop (body.length + 2), f3, ?_⟩
  unfold _receive_cmd
  rw [hrx, receive_loop_spec body s (by rw [hlen]; omega) hbuf hno]
  simp only [hlen, Nat.zero_add, List.take_zero, List.nil_append, Bool.false_eq_true, if_false,
    Nat.add_sub_cancel, byteAt, f1, gt_iff_lt, Nat.zero_lt_succ, and_self, if_true,
    STR_CARRIAGE_RETURN, f2, cstr_append_nul_any]

/-- The step that transmits the head command with success. -/
theorem step_send (s : Hub) (c : dlimsg_t) (rest : List dlimsg_t) (now : Nat)
    (hidle : link_idle s) (hq : s._cmd_queue = c :: rest) (hc : strlen c < 65536) :
    _process_DL s now (strlen (front s._cmd_queue)) =
      { s with serial_tx := s.serial_tx ++ [cstr c],
               _run_loop_state := STATE_AFTER_SEND_BEFORE_RCV, _start_listen := now,
               _len_reply_buffer := 0 } := by
  obtain ⟨h1, h2, h3, _, _, _⟩ := hidle
  have hm : strlen c % 65536 = strlen c := Nat.mod_eq_of_lt hc
  have ht : List.take (strlen c) (cstr c) = cstr c := by
    unfold strlen; exact List.take_length _
  have hn : ¬ (s._num_send_retries ≥ s._max_num_send_retries) := by omega
  simp only [_process_DL, h1, if_true, _send_top_cmd, hq, List.length_cons, Nat.zero_lt_succ,
    gt_iff_lt, _transmit_cmd, front, List.headD_cons, hm, decide_True, ht, hn, if_false]

/-- The step that receives a complete reply. -/
theorem step_receive (s : Hub) (body : List Nat) (now written : Nat)
    (hstate : s._run_loop_state = STATE_AFTER_SEND_BEFORE_RCV)
    (hretry : s._num_send_retries < s._max_num_send_retries)
    (hrx : s.serial_rx = body ++ [46]) (hlen : s._len_reply_buffer = 0)
    (hbuf : s._reply_buffer.length = 64) (hno : 46 ∉ body) (hn : body.length ≤ 62) :
    ∃ B, B.length = 64 ∧
      _process_DL s now written =
        { s with _reply_buffer := B, _len_reply_buffer := 0, serial_rx := [],
                 _dl_reply_queue := s._dl_reply_queue ++ [cstr (body ++ [46]) ++ [0]],
                 _run_loop_state := STATE_AFTER_RCV_BEFORE_PROCESS } := by
  obtain ⟨B, hB, e⟩ := receive_cmd_spec s body hrx hlen hbuf hno hn
  refine ⟨B, hB, ?_⟩
  have h1 : ¬ (STATE_AFTER_SEND_BEFORE_RCV = STATE_BEFORE_SEND) := by decide
  have hn : ¬ (s._num_send_retries ≥ s._max_num_send_retries) := by omega
  simp only [_process_DL, hstate, h1, if_false, if_true, e, hn]

theorem process_reply_link (s : Hub) (now : Nat) (cmd : dlimsg_t) :
    untouched (_process_reply_from_dl s now cmd).2 = untouched s
    ∧ ∃ extra, (_process_reply_from_dl s now cmd).2._cmd_queue = s._cmd_queue ++ extra := by
  rcases Nat.lt_or_ge (strlen cmd) 7 with h | h
  · have e : _process_reply_from_dl s now cmd
        = (false, { s with _error_code := ERROR_CMD_RECEIVED_TOO_SHORT }) := by
      simp only [_process_reply_from_dl, reply_header, h, if_true]
    rw [e]
    exact ⟨rfl, [], by simp⟩
  · obtain ⟨a, b, _⟩ := process_reply_frame s now cmd h
    exact ⟨a, b⟩

/-- The step that processes the reply: the reply is taken off its queue, the
head command is removed, the session is at rest again. -/
theorem step_process (s : Hub) (r : dlimsg_t) (now written : Nat)
    (hstate : s._run_loop_state = STATE_AFTER_RCV_BEFORE_PROCESS)
    (hmax : 0 < s._max_num_send_retries) (hrq : s._dl_reply_queue = [r]) :
    (_process_DL s now written)._run_loop_state = STATE_BEFORE_SEND
    ∧ (_process_DL s now written)._num_send_retries = 0
    ∧ (_process_DL s now written)._max_num_send_retries = s._max_num_send_retries
    ∧ (_process_DL s now written)._dl_reply_queue = []
    ∧ (_process_DL s now written).serial_rx = s.serial_rx
    ∧ (_process_DL s now written)._reply_buffer = s._reply_buffer
    ∧ (_process_DL s now written).serial_tx = s.serial_tx
    ∧ ∃ extra, (_process_DL s now written)._cmd_queue = (s._cmd_queue ++ extra).tail := by
  obtain ⟨hu, extra, hq⟩ := process_reply_link s now r
  simp only [untouched, Prod.mk.injEq] at hu
  obtain ⟨⟨u1, u2, u3, u4, u5, u6, u7, u8, u9, u10⟩, _, _⟩ := hu
  have h1 : ¬ (STATE_AFTER_RCV_BEFORE_PROCESS = STATE_BEFORE_SEND) := by decide
  have h2 : ¬ (STATE_AFTER_RCV_BEFORE_PROCESS = STATE_AFTER_SEND_BEFORE_RCV) := by decide
  have hn : ¬ (0 ≥ s._max_num_send_retries) := by omega
  have e : _process_DL s now written =
      { (_process_next_msg s now).2 with
          _cmd_queue := (_process_next_msg s now).2._cmd_queue.tail, _num_send_retries := 0,
          _run_loop_state := STATE_BEFORE_SEND } := by
    have hm : (_process_next_msg s now).2._max_num_send_retries = s._max_num_send_retries := by
      simp only [_process_next_msg, hrq, List.length_singleton, gt_iff_lt, Nat.lt_one_iff,
        Nat.zero_lt_one, if_true, front, List.headD_cons]
      split_ifs <;> exact u4
    have hn2 : ¬ (0 ≥ (_process_next_msg s now).2._max_num_send_retries) := by rw [hm]; exact hn
    simp only [_process_DL, hstate, h1, h2, if_false, if_true, hn2]
  have en : (_process_next_msg s now).2 =
      { (if (_process_reply_from_dl s now r).1 = true then (_process_reply_from_dl s now r).2
         else { (_process_reply_from_dl s now r).2 with
                 _num_send_retries := ((_process_reply_from_dl s now r).2._num_send_retries + 1) % 256 })
        with _dl_reply_queue := (if (_process_reply_from_dl s now r).1 = true then
              (_process_reply_from_dl s now r).2
            else { (_process_reply_from_dl s now r).2 with
                    _num_send_retries :=
                      ((_process_reply_from_dl s now r).2._num_send_retries + 1) % 256 })._dl_reply_queue.tail } := by
    simp only [_process_next_msg, hrq, List.length_singleton, gt_iff_lt, Nat.zero_lt_one, if_true,
      front, List.headD_cons]
    split_ifs <;> rfl
  rw [e, en]
  by_cases hb : (_process_reply_from_dl s now r).1 = true
  · simp only [hb, if_true]
    refine ⟨trivial, trivial, u4, ?_, u6, u7, u5, extra, ?_⟩
    · rw [u2, hrq]; rfl
    · rw [hq]
  · simp only [hb, if_false, Bool.false_eq_true]
    refine ⟨trivial, trivial, u4, ?_, u6, u7, u5, extra, ?_⟩
    · rw [u2, hrq]; rfl
    · rw [hq]

/-- One exchange from rest: the head command goes out, its reply is received and
processed, the command is removed, and the session is at rest again. -/
theorem link_cycle_spec (s : Hub) (c : dlimsg_t) (rest : List dlimsg_t) (reply : List Nat)
    (t : Nat × Nat × Nat) (hidle : link_idle s) (hq : s._cmd_queue = c :: rest)
    (hc : strlen c < 65536) (hr : complete_reply reply) :
    ((link_cycle s reply t).1.serial_tx = s.serial_tx ++ [cstr c]
      ∧ (link_cycle s reply t).1._dl_reply_queue = []
      ∧ (link_cycle s reply t).1._cmd_queue = c :: rest)
    ∧ ((link_cycle s reply t).2.1.serial_tx = s.serial_tx ++ [cstr c]
      ∧ (link_cycle s reply t).2.1._dl_reply_queue = [cstr reply ++ [0]]
      ∧ (link_cycle s reply t).2.1._cmd_queue = c :: rest)
    ∧ ((link_cycle s reply t).2.2.serial_tx = s.serial_tx ++ [cstr c]
      ∧ (∃ extra, (link_cycle s reply t).2.2._cmd_queue = rest ++ extra)
      ∧ link_idle (link_cycle s reply t).2.2) := by
  obtain ⟨body, rfl, hno, hn⟩ := hr
  have hidle' := hidle
  obtain ⟨i1, i2, i3, i4, i5, i6⟩ := hidle'
  have ea := step_send s c rest t.1 hidle hq hc
  obtain ⟨B, hB, eb⟩ := step_receive
    (serial_arrive (_process_DL s t.1 (strlen (front s._cmd_queue))) (body ++ [46])) body t.2.1 0
    (by rw [ea]; rfl) (by rw [ea]; show s._num_send_retries < s._max_num_send_retries; omega)
    (by rw [ea]; show s.serial_rx ++ (body ++ [46]) = body ++ [46]; rw [i5]; rfl)
    (by rw [ea]; rfl) (by rw [ea]; exact i6) hno hn
  have ec := step_process
    (_process_DL (serial_arrive (_process_DL s t.1 (strlen (front s._cmd_queue))) (body ++ [46]))
      t.2.1 0) (cstr (body ++ [46]) ++ [0]) t.2.2 0
    (by rw [eb]) (by rw [eb, ea]; exact i3)
    (by rw [eb, ea]; show s._dl_reply_queue ++ [cstr (body ++ [46]) ++ [0]] = _; rw [i4]; rfl)
  have el : link_cycle s (body ++ [46]) t =
      (_process_DL s t.1 (strlen (front s._cmd_queue)),
       _process_DL (serial_arrive (_process_DL s t.1 (strlen (front s._cmd_queue))) (body ++ [46]))
         t.2.1 0,
       _process_DL (_process_DL (serial_arrive (_process_DL s t.1 (strlen (front s._cmd_queue)))
         (body ++ [46])) t.2.1 0) t.2.2 0) := rfl
  rw [el]
  obtain ⟨c1, c2, c3, c4, c5, c6, c7, extra, c8⟩ := ec
  refine ⟨⟨?_, ?_, ?_⟩, ⟨?_, ?_, ?_⟩, ?_, ⟨extra, ?_⟩, ⟨c1, c2, ?_, c4, ?_, ?_⟩⟩
  · rw [ea]
  · rw [ea]; exact i4
  · rw [ea]; exact hq
  · rw [eb, ea]; rfl
  · rw [eb, ea]; show s._dl_reply_queue ++ _ = _; rw [i4]; rfl
  · rw [eb, ea]; exact hq
  · rw [c7, eb, ea]; rfl
  · rw [c8, eb, ea]
    show (s._cmd_queue ++ extra).tail = _
    rw [hq]; rfl
  · rw [c3, eb, ea]; exact i3
  · rw [c5, eb]
  · rw [c6, eb]; exact hB

theorem link_run_spec (cmds : List dlimsg_t) :
    ∀ (s : Hub) (later : List dlimsg_t) (feeds : List (List Nat × Nat × Nat × Nat)),
      link_idle s → s._cmd_queue = cmds ++ later → feeds.length = cmds.length →
      (∀ c ∈ cmds, strlen c < 65536) → (∀ f ∈ feeds, complete_reply f.1) →
      ∀ k, k < cmds.length →
        ∃ a b c, (link_run s feeds)[k]? = some (a, b, c)
          ∧ (a.serial_tx = s.serial_tx ++ (cmds.take (k + 1)).map cstr
              ∧ a._dl_reply_queue = [] ∧ front a._cmd_queue = cmds.getD k [])
          ∧ (b.serial_tx = a.serial_tx
              ∧ b._dl_reply_queue = [cstr (feeds.getD k ([], 0, 0, 0)).1 ++ [0]]
              ∧ front b._cmd_queue = cmds.getD k [])
          ∧ (c.serial_tx = a.serial_tx ∧ c._dl_reply_queue = []
              ∧ ∃ extra, c._cmd_queue = cmds.drop (k + 1) ++ later ++ extra) := by
  induction cmds with
  | nil => intro s later feeds _ _ _ _ _ k hk; simp at hk
  | cons c0 cs ih =>
    intro s later feeds hidle hq hlen hcmd hfeed k hk
    cases feeds with
    | nil => simp at hlen
    | cons f fs =>
      obtain ⟨reply, t⟩ := f
      obtain ⟨⟨a1, a2, a3⟩, ⟨b1, b2, b3⟩, c1, ⟨extra, c2⟩, c3⟩ :=
        link_cycle_spec s c0 (cs ++ later) reply t hidle (by rw [hq]; rfl)
          (hcmd c0 (by simp)) (hfeed (reply, t) (by simp))
      cases k with
      | zero =>
        obtain ⟨_, _, _, c33, _, _⟩ := c3
        refine ⟨(link_cycle s reply t).1, (link_cycle s reply t).2.1, (link_cycle s reply t).2.2,
          by simp [link_run], ⟨?_, a2, ?_⟩, ⟨?_, ?_, ?_⟩, ?_, c33, ⟨extra, ?_⟩⟩
        · rw [a1]; rfl
        · rw [a3]; rfl
        · rw [b1, a1]
        · rw [b2]; rfl
        · rw [b3]; rfl
        · rw [c1, a1]
        · rw [c2]; simp
      | succ j =>
        obtain ⟨a, b, c, e, ⟨p1, p2, p3⟩, ⟨q1, q2, q3⟩, r1, r2, ⟨ex, r3⟩⟩ :=
          ih (link_cycle s reply t).2.2 (later ++ extra) fs c3
            (by rw [c2, List.append_assoc]) (by simpa using hlen)
            (fun c hc => hcmd c (by simp [hc])) (fun f hf => hfeed f (by simp [hf])) j
            (by simpa using hk)
        refine ⟨a, b, c, ?_, ⟨?_, p2, ?_⟩, ⟨q1, ?_, ?_⟩, r1, r2, ⟨extra ++ ex, ?_⟩⟩
        · simpa [link_run] using e
        · rw [p1, c1]; simp
        · rw [p3]; rfl
        · rw [q2]; rfl
        · rw [q3]; rfl
        · rw [r3]; simp

/-- C6. FIFO with a single command in flight: let the link session be at rest
(state BeforeSend, no retry counted, nothing received) with the commands `cmds`
at the front of the queue, and let a complete reply be fed for each, one at a
time (`link_run`: transmit step, receive step, process step).  Then for the
`k`-th exchange: after its transmit step exactly the first `k + 1` commands have
gone out, in their queue order, and command `k` stays at the head of the queue;
the receive step and the process step transmit nothing; the reply queue holds
no reply, then the one reply `k`, then none again; and after the process step
the first `k + 1` commands are gone from the queue, the others follow in order
(with whatever handling the replies has enqueued behind them). -/
theorem fifo_single_in_flight (s : Hub) (cmds later : List dlimsg_t)
    (feeds : List (List Nat × Nat × Nat × Nat)) (k : Nat)
    (hidle : link_idle s) (hq : s._cmd_queue = cmds ++ later)
    (hlen : feeds.length = cmds.length) (hcmd : ∀ c ∈ cmds, strlen c < 65536)
    (hfeed : ∀ f ∈ feeds, complete_reply f.1) (hk : k < cmds.length) :
    ∃ a b c, (link_run s feeds)[k]? = some (a, b, c)
      ∧ (a.serial_tx = s.serial_tx ++ (cmds.take (k + 1)).map cstr
          ∧ a._dl_reply_queue = [] ∧ front a._cmd_queue = cmds.getD k [])
      ∧ (b.serial_tx = a.serial_tx
          ∧ b._dl_reply_queue = [cstr (feeds.getD k ([], 0, 0, 0)).1 ++ [0]]
          ∧ front b._cmd_queue = cmds.getD k [])
      ∧ (c.serial_tx = a.serial_tx ∧ c._dl_reply_queue = []
          ∧ ∃ extra, c._cmd_queue = cmds.drop (k + 1) ++ later ++ extra) :=
  link_run_spec cmds s later feeds hidle hq hlen hcmd hfeed k hk

theorem fifo_single_in_flight_witness :
    ∃ a b c, (link_run (RetractTray (_poll_diag (HubInterface 0)).2).2
        [(ascii "$0110Z100000000140.", 1, 2, 3), (ascii "$0001X1.", 4, 5, 6)])[1]? = some (a, b, c)
      ∧ (a.serial_tx = (RetractTray (_poll_diag (HubInterface 0)).2).2.serial_tx
            ++ (List.take (1 + 1) [ascii "$0020Z100." ++ [0], ascii "$0021X100." ++ [0]]).map cstr
          ∧ a._dl_reply_queue = []
          ∧ front a._cmd_queue
              = [ascii "$0020Z100." ++ [0], ascii "$0021X100." ++ [0]].getD 1 [])
      ∧ (b.serial_tx = a.serial_tx
          ∧ b._dl_reply_queue
              = [cstr (([(ascii "$0110Z100000000140.", 1, 2, 3),
                  (ascii "$0001X1.", 4, 5, 6)] : List (List Nat × Nat × Nat × Nat)).getD 1
                    ([], 0, 0, 0)).1 ++ [0]]
          ∧ front b._cmd_queue
              = [ascii "$0020Z100." ++ [0], ascii "$0021X100." ++ [0]].getD 1 [])
      ∧ (c.serial_tx = a.serial_tx ∧ c._dl_reply_queue = []
          ∧ ∃ extra, c._cmd_queue
              = List.drop (1 + 1) [ascii "$0020Z100." ++ [0], ascii "$0021X100." ++ [0]]
                ++ [] ++ extra) :=
  fifo_single_in_flight (RetractTray (_poll_diag (HubInterface 0)).2).2
    [ascii "$0020Z100." ++ [0], ascii "$0021X100." ++ [0]] []
    [(ascii "$0110Z100000000140.", 1, 2, 3), (ascii "$0001X1.", 4, 5, 6)] 1
    (by unfold link_idle; decide) (by decide) (by decide) (by decide)
    (by
      intro f hf
      simp only [List.mem_cons, List.mem_singleton, List.not_mem_nil, or_false] at hf
      rcases hf with rfl | rfl
      · exact ⟨ascii "$0110Z100000000140", by decide, by decide, by decide⟩
      · exact ⟨ascii "$0001X1", by decide, by decide, by decide⟩)
    (by decide)

/-! ## C11: the duration of a presentation -/

theorem PresentFoodtreat_eq (s : Hub) (d : Nat) (hd : d < 100) (hseq : s._packet_number < 10) :
    PresentFoodtreat s d =
      (true, { s with
        _packet_number := (s._packet_number + 1) % 9,
        _cmd_queue := s._cmd_queue
          ++ [[36, 48, 48, 50, 48 + s._packet_number, 84, 49, 48 + d / 10, 48 + d % 10, 46, 0]] }) := by
  have hl : strlen (fmt_0d 2 d ++ [0]) = 2 := strlen_fmt_0d_2 d hd
  have h := create_dl_cmd_eq s 84 (fmt_0d 2 d ++ [0]) (by rw [hl]; decide) hseq
  have hc : cstr (fmt_0d 2 d ++ [0]) = [48 + d / 10, 48 + d % 10] := by
    rw [fmt_0d_2 d hd]
    exact cstr_append_nul _ [] (by intro b hb; simp at hb; omega)
  rw [hl, hc] at h
  simp only [PresentFoodtreat, enqueue_cmd, h]
  rfl

/-- C11, as the code has it: in phase BeforePresent with the food machine idle,
`PresentAndCheckFoodtreat(duration_ms)` enqueues one present command `T`,
records the presented-at time, moves to PlatterOut and returns that phase.  The
command carries `duration_ms / 100` deciseconds, and the indefinite flag is left
as it was, when that value is at most 98; when it is 99 or more the command is
`T` with `00` (present indefinitely) and the session is recorded as
indefinite. -/
theorem present_duration (s : Hub) (now duration_ms : Nat)
    (hphase : s._pact_foodtreat_state = PACT_BEFORE_PRESENT)
    (hidle : s._foodmachine_state = FOODMACHINE_IDLE)
    (hseq : s._packet_number < 10) :
    (PresentAndCheckFoodtreat s now duration_ms).1 = PACT_PLATTER_OUT
    ∧ (PresentAndCheckFoodtreat s now duration_ms).2._pact_foodtreat_state = PACT_PLATTER_OUT
    ∧ (PresentAndCheckFoodtreat s now duration_ms).2._foodtreat_presented_time = now
    ∧ (duration_ms / 100 ≤ 98 →
        (PresentAndCheckFoodtreat s now duration_ms).2._cmd_queue
          = s._cmd_queue ++ [[36, 48, 48, 50, 48 + s._packet_number, 84, 49,
              48 + duration_ms / 100 / 10, 48 + duration_ms / 100 % 10, 46, 0]]
        ∧ (PresentAndCheckFoodtreat s now duration_ms).2._indefinite_tray_presentation
            = s._indefinite_tray_presentation)
    ∧ (99 ≤ duration_ms / 100 →
        (PresentAndCheckFoodtreat s now duration_ms).2._cmd_queue
          = s._cmd_queue ++ [[36, 48, 48, 50, 48 + s._packet_number, 84, 49, 48, 48, 46, 0]]
        ∧ (PresentAndCheckFoodtreat s now duration_ms).2._indefinite_tray_presentation = true) := by
  have hok : ¬ (s._foodmachine_state = FOODMACHINE_LID_OPEN ∨ s._foodmachine_state > FOODMACHINE_WAIT) := by
    rw [hidle]; decide
  unfold PresentAndCheckFoodtreat
  rw [if_neg hok, if_pos hphase]
  dsimp only
  rw [if_pos hidle]
  by_cases hd : duration_ms / 100 ≤ 98
  · have e : _milliseconds_to_deciseconds_for_DL_T duration_ms = duration_ms / 100 := by
      unfold _milliseconds_to_deciseconds_for_DL_T
      dsimp only
      rw [if_pos (by omega)]
    rw [e, if_neg (by omega), PresentFoodtreat_eq s _ (by omega) hseq]
    dsimp only
    rw [if_pos rfl]
    exact ⟨rfl, rfl, rfl, fun _ => ⟨rfl, rfl⟩, fun h => by omega⟩
  · have e : _milliseconds_to_deciseconds_for_DL_T duration_ms ≥ 99 := by
      unfold _milliseconds_to_deciseconds_for_DL_T
      dsimp only
      split_ifs <;> omega
    rw [if_pos e, PresentFoodtreat_eq s 0 (by decide) hseq]
    dsimp only
    rw [if_pos rfl]
    exact ⟨rfl, rfl, rfl, fun h => absurd h hd, fun _ => ⟨rfl, rfl⟩⟩

theorem present_duration_witness :
    (PresentAndCheckFoodtreat (diag_update (HubInterface 0) 7 (ascii "00000000040")) 9 2500).1
        = PACT_PLATTER_OUT
    ∧ (PresentAndCheckFoodtreat (diag_update (HubInterface 0) 7 (ascii "00000000040")) 9
          2500).2._foodtreat_presented_time = 9 :=
  ⟨(present_duration (diag_update (HubInterface 0) 7 (ascii "00000000040")) 9 2500
      (by decide) (by decide) (by decide)).1,
   (present_duration (diag_update (HubInterface 0) 7 (ascii "00000000040")) 9 2500
      (by decide) (by decide) (by decide)).2.2.1⟩

/-- C11, counterexample to the claim as stated: 9900 ms is 99 deciseconds, a
value the command can carry (`_milliseconds_to_deciseconds_for_DL_T` returns
99, not 255), yet the command enqueued is `T` with `00`, not with `99`, and the
session is recorded as indefinite. -/
theorem present_99_deciseconds_indefinite :
    _milliseconds_to_deciseconds_for_DL_T 9900 = 99
    ∧ (PresentAndCheckFoodtreat (diag_update (HubInterface 0) 7 (ascii "00000000040")) 9
          9900).2._cmd_queue = [ascii "$0020T100." ++ [0]]
    ∧ (PresentAndCheckFoodtreat (diag_update (HubInterface 0) 7 (ascii "00000000040")) 9
          9900).2._cmd_queue ≠ [ascii "$0020T199." ++ [0]]
    ∧ (PresentAndCheckFoodtreat (diag_update (HubInterface 0) 7 (ascii "00000000040")) 9
          9900).2._indefinite_tray_presentation = true := by
  decide

/-! ## C16: the indicator light is applied once -/

theorem apply_indicator_current (s : Hub) (ilstate : Nat) :
    ( _apply_desired_indicator_light s ilstate).2._current_ilstate = ilstate := by
  unfold _apply_desired_indicator_light
  by_cases h : ilstate = s._current_ilstate
  · rw [if_pos h]
    exact h.symm
  · rw [if_neg h]

/-- C16. Indicator idempotence: applying the indicator state that is the
currently applied one returns `true` and leaves the engine as it is (so no
light command is enqueued); hence applying any state a second time right after
the first changes nothing more, and the queue holds the same commands as after
applying it once.  The same holds for `_poll_indlight`, which applies
`IndicatorState`. -/
theorem indicator_idempotence (s : Hub) (ilstate : Nat) :
    _apply_desired_indicator_light s s._current_ilstate = (true, s)
    ∧ _apply_desired_indicator_light ( _apply_desired_indicator_light s ilstate).2 ilstate
        = (true, ( _apply_desired_indicator_light s ilstate).2)
    ∧ ( _apply_desired_indicator_light ( _apply_desired_indicator_light s ilstate).2
          ilstate).2._cmd_queue
        = ( _apply_desired_indicator_light s ilstate).2._cmd_queue
    ∧ (s.IndicatorState = s._current_ilstate → _poll_indlight s = s) := by
  have h1 : ∀ t : Hub, _apply_desired_indicator_light t t._current_ilstate = (true, t) := by
    intro t
    unfold _apply_desired_indicator_light
    rw [if_pos rfl]
  have h2 : _apply_desired_indicator_light ( _apply_desired_indicator_light s ilstate).2 ilstate
      = (true, ( _apply_desired_indicator_light s ilstate).2) := by
    have e := h1 ( _apply_desired_indicator_light s ilstate).2
    rw [apply_indicator_current] at e
    exact e
  refine ⟨h1 s, h2, by rw [h2], ?_⟩
  intro h
  unfold _poll_indlight
  rw [h, h1 s]

/-! ## The token of every command -/

theorem enqueue_cmd_token (s : Hub) (tok : Nat) (payload : List Nat)
    (hseq : s._packet_number < 10) : Enqueues tok s (enqueue_cmd s tok payload) := by
  unfold Enqueues enqueue_cmd
  rcases Nat.lt_or_ge (strlen payload) 999 with hl | hl
  · rw [create_dl_cmd_take s tok payload hl hseq]
    exact Or.inl ⟨rfl, _, rfl, by simp [byteAt]⟩
  · have e : _create_dl_cmd_with s tok payload = (none, s) := by
      unfold _create_dl_cmd_with
      rw [if_pos hl]
    rw [e]
    exact Or.inr ⟨rfl, rfl⟩

theorem Enqueues.of_guard {tok : Nat} {s : Hub} {r : Bool × Hub} (c : Bool)
    (h : Enqueues tok s r) : Enqueues tok s (if c then (false, s) else r) := by
  cases c
  · exact h
  · exact Or.inr ⟨rfl, rfl⟩

theorem ResetDI_token (s : Hub) (hseq : s._packet_number < 10) : Enqueues 75 s (ResetDI s) := by
  unfold Enqueues ResetDI
  split_ifs
  · rw [create_dl_cmd_eq s 75 [0] (by decide) hseq]
    exact Or.inl ⟨rfl, _, rfl, by simp [byteAt]⟩
  · exact Or.inr ⟨rfl, rfl⟩

theorem ResetFoodMachine_token (s : Hub) (hseq : s._packet_number < 10) :
    Enqueues 70 s (ResetFoodMachine s) := by
  unfold Enqueues
  rw [ResetFoodMachine_eq s hseq]
  exact Or.inl ⟨rfl, _, rfl, rfl⟩

/-! ## C19: reading the touchpads -/

theorem and_seven (x b : Nat) : x &&& b &&& 7 = x &&& (b % 8) := by
  rw [Nat.and_assoc]
  congr 1
  exact Nat.and_pow_two_sub_one_eq_mod b 3

theorem and_bit (b k : Nat) (hk : k &&& 7 = k) : b &&& k = (b % 8) &&& k := by
  have e : b % 8 = b &&& 7 := (Nat.and_pow_two_sub_one_eq_mod b 3).symm
  rw [e, Nat.and_assoc, Nat.and_comm 7 k, hk]

/-- C19. `AnyButtonPressed` is a read of the three debounced pad states (it has
the engine state as its only input and gives a value, not a new state): it
returns the OR of `BUTTON_LEFT` (1), `BUTTON_MIDDLE` (2) and `BUTTON_RIGHT` (4)
for exactly the pads whose state is pressed, and for every mask `b`,
`IsButtonPressed(b)` is true iff `AnyButtonPressed() & b & 7` is not zero. -/
theorem any_button_pressed_read (s : Hub) :
    AnyButtonPressed s
      = (if s._l_button_state then 1 else 0) ||| (if s._m_button_state then 2 else 0)
          ||| (if s._r_button_state then 4 else 0)
    ∧ (AnyButtonPressed s &&& 1 ≠ 0 ↔ s._l_button_state = true)
    ∧ (AnyButtonPressed s &&& 2 ≠ 0 ↔ s._m_button_state = true)
    ∧ (AnyButtonPressed s &&& 4 ≠ 0 ↔ s._r_button_state = true)
    ∧ AnyButtonPressed s < 8
    ∧ ∀ b : Nat, IsButtonPressed s b = true ↔ AnyButtonPressed s &&& b &&& 7 ≠ 0 := by
  refine ⟨?_, ?_, ?_, ?_, ?_, ?_⟩
  · unfold AnyButtonPressed
    cases s._l_button_state <;> cases s._m_button_state <;> cases s._r_button_state <;> decide
  · unfold AnyButtonPressed
    cases s._l_button_state <;> cases s._m_button_state <;> cases s._r_button_state <;> decide
  · unfold AnyButtonPressed
    cases s._l_button_state <;> cases s._m_button_state <;> cases s._r_button_state <;> decide
  · unfold AnyButtonPressed
    cases s._l_button_state <;> cases s._m_button_state <;> cases s._r_button_state <;> decide
  · unfold AnyButtonPressed
    cases s._l_button_state <;> cases s._m_button_state <;> cases s._r_button_state <;> decide
  · intro b
    unfold IsButtonPressed AnyButtonPressed
    rw [and_seven, and_bit b BUTTON_LEFT (by decide), and_bit b BUTTON_MIDDLE (by decide),
      and_bit b BUTTON_RIGHT (by decide)]
    have hb : b % 8 < 8 := Nat.mod_lt _ (by decide)
    generalize b % 8 = c at hb
    cases s._l_button_state <;> cases s._m_button_state <;> cases s._r_button_state <;>
      interval_cases c <;> decide

/-! ## C14: a touchpad that stays on -/

theorem hysteresis_threshold_settings {s t : Hub} (h : csf_settings t = csf_settings s) (T : Int) :
    hysteresis_threshold t T = hysteresis_threshold s T := by
  simp only [csf_settings, Prod.mk.injEq] at h
  unfold hysteresis_threshold
  rw [h.2.2]

theorem cap_reset_left_spec (s : Hub) (now : Nat) (v : Int) :
    csf_settings (cap_reset_left s now v).1 = csf_settings s
    ∧ csf_middle (cap_reset_left s now v).1 = csf_middle s
    ∧ csf_right (cap_reset_left s now v).1 = csf_right s
    ∧ ((cap_reset_left s now v).2 = true → (cap_reset_left s now v).1._csf_needs_DI_reset = true)
    ∧ ((cap_reset_left s now v).2 = false →
        (cap_reset_left s now v).1._csf_needs_DI_reset = s._csf_needs_DI_reset)
    ∧ (s._csf_detect_integration_left ≥ s._csf_integration_thresh →
        v > hysteresis_threshold s LEFT_THRESHOLD →
        ((now + ULONG - s._csf_timer_max_left) % ULONG > s._csf_max_on_duration →
          (cap_reset_left s now v).2 = true)
        ∧ ((cap_reset_left s now v).2 = false → csf_left (cap_reset_left s now v).1 = csf_left s)) := by
  unfold cap_reset_left
  split_ifs with h1 h2 h3 h4
  · exact ⟨rfl, rfl, rfl, fun _ => rfl, fun h => by simp at h, fun _ _ => ⟨fun _ => rfl, fun h => by simp at h⟩⟩
  · exact ⟨rfl, rfl, rfl, fun h => by simp at h, fun _ => rfl,
      fun _ _ => ⟨fun h => absurd h h3, fun _ => rfl⟩⟩
  · exact ⟨rfl, rfl, rfl, fun h => by simp at h, fun _ => rfl, fun _ h => absurd h h2⟩
  · exact ⟨rfl, rfl, rfl, fun h => by simp at h, fun _ => rfl, fun h => absurd h h1⟩
  · exact ⟨rfl, rfl, rfl, fun h => by simp at h, fun _ => rfl, fun h => absurd h h1⟩

theorem cap_reset_middle_spec (s : Hub) (now : Nat) (v : Int) :
    csf_settings (cap_reset_middle s now v).1 = csf_settings s
    ∧ csf_left (cap_reset_middle s now v).1 = csf_left s
    ∧ csf_right (cap_reset_middle s now v).1 = csf_right s
    ∧ ((cap_reset_middle s now v).2 = true → (cap_reset_middle s now v).1._csf_needs_DI_reset = true)
    ∧ ((cap_reset_middle s now v).2 = false →
        (cap_reset_middle s now v).1._csf_needs_DI_reset = s._csf_needs_DI_reset)
    ∧ (s._csf_detect_integration_middle ≥ s._csf_integration_thresh →
        v > hysteresis_threshold s MIDDLE_THRESHOLD →
        ((now + ULONG - s._csf_timer_max_middle) % ULONG > s._csf_max_on_duration →
          (cap_reset_middle s now v).2 = true)
        ∧ ((cap_reset_middle s now v).2 = false →
            csf_middle (cap_reset_middle s now v).1 = csf_middle s)) := by
  unfold cap_reset_middle
  split_ifs with h1 h2 h3 h4
  · exact ⟨rfl, rfl, rfl, fun _ => rfl, fun h => by simp at h, fun _ _ => ⟨fun _ => rfl, fun h => by simp at h⟩⟩
  · exact ⟨rfl, rfl, rfl, fun h => by simp at h, fun _ => rfl,
      fun _ _ => ⟨fun h => absurd h h3, fun _ => rfl⟩⟩
  · exact ⟨rfl, rfl, rfl, fun h => by simp at h, fun _ => rfl, fun _ h => absurd h h2⟩
  · exact ⟨rfl, rfl, rfl, fun h => by simp at h, fun _ => rfl, fun h => absurd h h1⟩
  · exact ⟨rfl, rfl, rfl, fun h => by simp at h, fun _ => rfl, fun h => absurd h h1⟩

theorem cap_reset_right_spec (s : Hub) (now : Nat) (v : Int) :
    csf_settings (cap_reset_right s now v).1 = csf_settings s
    ∧ csf_left (cap_reset_right s now v).1 = csf_left s
    ∧ csf_middle (cap_reset_right s now v).1 = csf_middle s
    ∧ ((cap_reset_right s now v).2 = true → (cap_reset_right s now v).1._csf_needs_DI_reset = true)
    ∧ ((cap_reset_right s now v).2 = false →
        (cap_reset_right s now v).1._csf_needs_DI_reset = s._csf_needs_DI_reset)
    ∧ (s._csf_detect_integration_right ≥ s._csf_integration_thresh →
        v > hysteresis_threshold s RIGHT_THRESHOLD →
        ((now + ULONG - s._csf_timer_max_right) % ULONG > s._csf_max_on_duration →
          (cap_reset_right s now v).2 = true)
        ∧ ((cap_reset_right s now v).2 = false →
            csf_right (cap_reset_right s now v).1 = csf_right s)) := by
  unfold cap_reset_right
  split_ifs with h1 h2 h3 h4
  · exact ⟨rfl, rfl, rfl, fun _ => rfl, fun h => by simp at h, fun _ _ => ⟨fun _ => rfl, fun h => by simp at h⟩⟩
  · exact ⟨rfl, rfl, rfl, fun h => by simp at h, fun _ => rfl,
      fun _ _ => ⟨fun h => absurd h h3, fun _ => rfl⟩⟩
  · exact ⟨rfl, rfl, rfl, fun h => by simp at h, fun _ => rfl, fun _ h => absurd h h2⟩
  · exact ⟨rfl, rfl, rfl, fun h => by simp at h, fun _ => rfl, fun h => absurd h h1⟩
  · exact ⟨rfl, rfl, rfl, fun h => by simp at h, fun _ => rfl, fun h => absurd h h1⟩

theorem UpdateButtonAudioEnabled_gate (s : Hub) :
    gate_view (UpdateButtonAudioEnabled s) = gate_view s
    ∧ ((s._hub_out_of_food = true ∨ s._singulator_error = true ∨ s._platter_stuck = true) →
        (UpdateButtonAudioEnabled s)._button_audio_enabled = false) := by
  unfold UpdateButtonAudioEnabled
  split_ifs with h
  · refine ⟨rfl, fun h' => ?_⟩
    simp only [Bool.and_eq_true, Bool.not_eq_true'] at h
    rcases h' with h' | h' | h'
    · rw [h.1.1.2] at h'; exact absurd h' (by decide)
    · rw [h.1.2] at h'; exact absurd h' (by decide)
    · rw [h.2] at h'; exact absurd h' (by decide)
  · exact ⟨rfl, fun _ => rfl⟩

theorem track_food_errors_gate (s : Hub) (h : audio_gate s) : audio_gate (track_food_errors s) := by
  unfold track_food_errors
  dsimp only
  split_ifs with h1 h2 h3 h4
  · obtain ⟨g1, g2⟩ := UpdateButtonAudioEnabled_gate { s with _hub_out_of_food := true }
    generalize UpdateButtonAudioEnabled { s with _hub_out_of_food := true } = t at g1 g2 ⊢
    simp only [gate_view, Prod.mk.injEq] at g1
    simp only [audio_gate]
    exact ⟨fun _ => g2 (Or.inl rfl), fun _ => g1.1, fun h' => absurd h' (by decide)⟩
  · exact h
  · obtain ⟨g1, g2⟩ := UpdateButtonAudioEnabled_gate { s with _hub_out_of_food := false }
    generalize UpdateButtonAudioEnabled { s with _hub_out_of_food := false } = t at g1 g2 ⊢
    simp only [gate_view, Prod.mk.injEq] at g1
    simp only [audio_gate] at h ⊢
    refine ⟨fun h' => g2 ?_, fun h' => absurd h' (by decide), fun h' => absurd h' (by decide)⟩
    rw [g1.1, g1.2.1, g1.2.2.1] at h'
    exact h'
  · exact h
  · exact h

theorem ResetFoodMachine_gate (s : Hub) :
    gate_view (ResetFoodMachine s).2 = gate_view s
    ∧ (ResetFoodMachine s).2._button_audio_enabled = s._button_audio_enabled := by
  unfold ResetFoodMachine _create_dl_cmd_with
  split_ifs <;> exact ⟨rfl, rfl⟩

theorem track_platter_errors_gate (s : Hub) (now : Nat) (h : audio_gate s) :
    audio_gate (track_platter_errors s now) := by
  unfold track_platter_errors
  dsimp only
  split_ifs with h1 h2 h3 h4 h5 h6
  · simp only [audio_gate] at h ⊢
    exact ⟨h.1, fun h' => absurd h' (by decide), fun h' => absurd h' (by decide)⟩
  · obtain ⟨g1, g2⟩ := UpdateButtonAudioEnabled_gate
      { s with _platter_error_count := s._platter_error_count + 1, _platter_stuck := true }
    generalize UpdateButtonAudioEnabled
      { s with _platter_error_count := s._platter_error_count + 1, _platter_stuck := true } = t
      at g1 g2 ⊢
    simp only [gate_view, Prod.mk.injEq] at g1
    simp only [audio_gate]
    refine ⟨fun _ => g2 (Or.inr (Or.inr rfl)), fun h' => absurd h' (by decide),
      fun _ => Or.inr ⟨g1.2.2.1, ?_⟩⟩
    rw [g1.2.2.2.1]
    cases hp : s._platter_error
    · rw [hp] at h2; exact absurd rfl h2
    · rfl
  · obtain ⟨g1, g2⟩ := ResetFoodMachine_gate
      { s with _platter_error_count := s._platter_error_count + 1 }
    generalize (ResetFoodMachine { s with _platter_error_count := s._platter_error_count + 1 }).2 = t
      at g1 g2 ⊢
    simp only [gate_view, Prod.mk.injEq] at g1
    simp only [audio_gate] at h ⊢
    rw [g1.1, g1.2.1, g1.2.2.1, g1.2.2.2.1, g1.2.2.2.2, g2]
    exact h
  · exact h
  · simp only [audio_gate] at h ⊢
    exact ⟨h.1, fun h' => absurd h' (by decide), fun h' => absurd h' (by decide)⟩
  · obtain ⟨g1, g2⟩ := UpdateButtonAudioEnabled_gate
      { s with _platter_error_count := 0, _platter_stuck := false }
    generalize UpdateButtonAudioEnabled
      { s with _platter_error_count := 0, _platter_stuck := false } = t at g1 g2 ⊢
    simp only [gate_view, Prod.mk.injEq] at g1
    simp only [audio_gate] at h ⊢
    have hp : s._platter_error = false := by
      cases hp : s._platter_error
      · rfl
      · rw [hp] at h5; exact absurd rfl h5
    refine ⟨fun h' => g2 ?_, fun h' => ?_, fun h' => ?_⟩
    · rw [g1.1, g1.2.1, g1.2.2.1] at h'
      exact h'
    · rw [g1.2.2.2.2] at h'
      rw [g1.1]
      exact h.2.1 h'
    · rw [g1.2.2.2.2] at h'
      rcases h.2.2 h' with h'' | h''
      · rw [g1.2.1]; exact Or.inl h''
      · rw [hp] at h''; exact absurd h''.2 (by decide)
  · exact h

theorem track_singulator_errors_gate (s : Hub) (h : audio_gate s) :
    audio_gate (track_singulator_errors s) := by
  unfold track_singulator_errors
  dsimp only
  split_ifs with h1 h2 h3
  · obtain ⟨g1, g2⟩ := UpdateButtonAudioEnabled_gate { s with _singulator_error := true }
    generalize UpdateButtonAudioEnabled { s with _singulator_error := true } = t at g1 g2 ⊢
    simp only [gate_view, Prod.mk.injEq] at g1
    simp only [audio_gate]
    exact ⟨fun _ => g2 (Or.inr (Or.inl rfl)), fun h' => absurd h' (by decide),
      fun _ => Or.inl g1.2.1⟩
  · exact h
  · obtain ⟨g1, g2⟩ := UpdateButtonAudioEnabled_gate { s with _singulator_error := false }
    generalize UpdateButtonAudioEnabled { s with _singulator_error := false } = t at g1 g2 ⊢
    simp only [gate_view, Prod.mk.injEq] at g1
    simp only [audio_gate] at h ⊢
    refine ⟨fun h' => g2 ?_, fun h' => absurd h' (by decide), fun h' => absurd h' (by decide)⟩
    rw [g1.1, g1.2.1, g1.2.2.1] at h'
    exact h'
  · exact h

theorem store_diag_gate (s : Hub) (now a b c : Nat) (h : audio_gate s) :
    audio_gate (store_diag s now a b c) := by
  unfold store_diag
  simp only [audio_gate] at h ⊢
  exact h

theorem parse_msg_Z_gate (s : Hub) (now : Nat) (payload : List Nat) (h : audio_gate s) :
    audio_gate ( _parse_msg_Z s now payload).1 := by
  unfold _parse_msg_Z
  dsimp only
  by_cases hl : (cstr payload).length < 11
  · rw [if_pos hl]
    unfold bad_num_args
    simp only [audio_gate] at h ⊢
    exact h
  · rw [if_neg hl]
    dsimp only
    refine track_singulator_errors_gate _ ?_
    refine track_platter_errors_gate _ now ?_
    refine track_food_errors_gate _ ?_
    exact store_diag_gate s now _ _ _ h

theorem diag_update_gate (s : Hub) (now : Nat) (payload : List Nat) (h : audio_gate s) :
    audio_gate (diag_update s now payload) := by
  have e : diag_update s now payload = ( _parse_msg_Z s now payload).1 := by
    unfold diag_update _parse_msg
    dsimp only
    rw [parse_msg_switch_Z]
    split_ifs <;> rfl
  rw [e]
  exact parse_msg_Z_gate s now payload h

theorem diag_updates_gate (ds : List (Nat × List Nat)) :
    ∀ s : Hub, audio_gate s → audio_gate (diag_updates s ds) := by
  induction ds with
  | nil => intro s h; exact h
  | cons d rest ih =>
    intro s h
    exact ih _ (diag_update_gate s d.1 d.2 h)

theorem update_left_button_muted (s : Hub) (now l : Nat) (h : s._button_audio_enabled = false) :
    (update_left_button s now l)._cmd_queue = s._cmd_queue
    ∧ (update_left_button s now l)._button_audio_enabled = false := by
  unfold update_left_button
  dsimp only
  have hne : ¬ ((s._button_audio_enabled == true) = true) := by rw [h]; decide
  by_cases hl : l ≠ 0
  · rw [if_pos hl]
    by_cases hs : (s._l_button_state == false) = true
    · rw [if_pos hs, if_neg hne]
      exact ⟨rfl, h⟩
    · rw [if_neg hs]
      exact ⟨rfl, h⟩
  · rw [if_neg hl]
    split_ifs <;> exact ⟨rfl, h⟩

theorem update_middle_button_muted (s : Hub) (now l : Nat) (h : s._button_audio_enabled = false) :
    (update_middle_button s now l)._cmd_queue = s._cmd_queue
    ∧ (update_middle_button s now l)._button_audio_enabled = false := by
  unfold update_middle_button
  dsimp only
  have hne : ¬ ((s._button_audio_enabled == true) = true) := by rw [h]; decide
  by_cases hl : l ≠ 0
  · rw [if_pos hl]
    by_cases hs : (s._m_button_state == false) = true
    · rw [if_pos hs, if_neg hne]
      exact ⟨rfl, h⟩
    · rw [if_neg hs]
      exact ⟨rfl, h⟩
  · rw [if_neg hl]
    split_ifs <;> exact ⟨rfl, h⟩

theorem update_right_button_muted (s : Hub) (now l : Nat) (h : s._button_audio_enabled = false) :
    (update_right_button s now l)._cmd_queue = s._cmd_queue
    ∧ (update_right_button s now l)._button_audio_enabled = false := by
  unfold update_right_button
  dsimp only
  have hne : ¬ ((s._button_audio_enabled == true) = true) := by rw [h]; decide
  by_cases hl : l ≠ 0
  · rw [if_pos hl]
    by_cases hs : (s._r_button_state == false) = true
    · rw [if_pos hs, if_neg hne]
      exact ⟨rfl, h⟩
    · rw [if_neg hs]
      exact ⟨rfl, h⟩
  · rw [if_neg hl]
    split_ifs <;> exact ⟨rfl, h⟩

theorem poll_reply_muted (s : Hub) (p : Nat × Nat × Nat × Nat)
    (h : s._button_audio_enabled = false) :
    (poll_reply s p)._cmd_queue = s._cmd_queue := by
  unfold poll_reply _update_button_pressed_state
  dsimp only
  obtain ⟨a1, a2⟩ := update_left_button_muted s p.1 p.2.1 h
  obtain ⟨b1, b2⟩ := update_middle_button_muted _ p.1 p.2.2.1 a2
  obtain ⟨c1, _⟩ := update_right_button_muted _ p.1 p.2.2.2 b2
  rw [c1, b1, a1]

/-- C15, as the code has it: let the engine's bookkeeping `audio_gate` hold (it
does in a freshly constructed engine, and every diagnostic reply keeps it).
After any run of diagnostic replies, whenever the indicator state is OutOfFood
or JamStuck, `_button_audio_enabled` is false and a touchpad reply, a
rising-edge touch included, enqueues no command; so touch audio is enabled only
in indicator state Normal or Jam. -/
theorem touch_audio_gating (s : Hub) (ds : List (Nat × List Nat)) (p : Nat × Nat × Nat × Nat)
    (h : audio_gate s) :
    audio_gate (diag_updates s ds)
    ∧ (((diag_updates s ds).IndicatorState = IL_DLI_OOF
          ∨ (diag_updates s ds).IndicatorState = IL_DLI_JAM_ERROR) →
        (diag_updates s ds)._button_audio_enabled = false
        ∧ (poll_reply (diag_updates s ds) p)._cmd_queue = (diag_updates s ds)._cmd_queue)
    ∧ ((diag_updates s ds)._button_audio_enabled = true →
        (diag_updates s ds).IndicatorState ≠ IL_DLI_OOF
        ∧ (diag_updates s ds).IndicatorState ≠ IL_DLI_JAM_ERROR) := by
  have g := diag_updates_gate ds s h
  have key : ((diag_updates s ds).IndicatorState = IL_DLI_OOF
      ∨ (diag_updates s ds).IndicatorState = IL_DLI_JAM_ERROR) →
      (diag_updates s ds)._button_audio_enabled = false := by
    intro hs
    obtain ⟨g1, g2, g3⟩ := g
    rcases hs with hs | hs
    · exact g1 (Or.inl (g2 hs))
    · rcases g3 hs with h' | h'
      · exact g1 (Or.inr (Or.inl h'))
      · exact g1 (Or.inr (Or.inr h'.1))
  refine ⟨g, fun hs => ⟨key hs, poll_reply_muted _ p (key hs)⟩, fun he => ⟨fun hs => ?_, fun hs => ?_⟩⟩
  · rw [key (Or.inl hs)] at he
    exact absurd he (by decide)
  · rw [key (Or.inr hs)] at he
    exact absurd he (by decide)

theorem touch_audio_gating_witness :
    (diag_updates (HubInterface 0) [(5, ascii "00000000090")]).IndicatorState = IL_DLI_JAM_ERROR
    ∧ (diag_updates (HubInterface 0) [(5, ascii "00000000090")])._button_audio_enabled = false
    ∧ (poll_reply (diag_updates (HubInterface 0) [(5, ascii "00000000090")])
          (300, 1, 0, 0))._cmd_queue
        = (diag_updates (HubInterface 0) [(5, ascii "00000000090")])._cmd_queue :=
  ⟨by decide,
   (touch_audio_gating (HubInterface 0) [(5, ascii "00000000090")] (300, 1, 0, 0)
      (by unfold audio_gate; decide)).2.1 (Or.inr (by decide))⟩

/-- C15, counterexample to the claim as stated: a diagnostic reply with the
platter-error code 8 puts a fresh engine in indicator state Jam, and touch audio
stays enabled; the touch of the left pad that follows enqueues its sound. -/
theorem jam_keeps_touch_audio :
    (diag_update (HubInterface 0) 5 (ascii "00000000080")).IndicatorState = IL_DLI_JAM
    ∧ (diag_update (HubInterface 0) 5 (ascii "00000000080"))._button_audio_enabled = true
    ∧ (poll_replies (diag_update (HubInterface 0) 5 (ascii "00000000080"))
          [(200, 0, 0, 0), (300, 1, 0, 0)])._cmd_queue = [ascii "$0030P1750." ++ [0]] := by
  decide

/-! ## What enters the command queue and what goes out on the wire -/

theorem Flow.stay (P : Nat → Prop) (s : Hub) : Flow P s s :=
  ⟨rfl, fun h => h, fun h => h, ⟨0, [], by simp, fun _ f hf => by simp at hf⟩,
    ⟨[], by simp, fun x hx => by simp at hx⟩⟩

theorem Flow.seq {P : Nat → Prop} {s t u : Hub} (h1 : Flow P s t) (h2 : Flow P t u) :
    Flow P s u := by
  obtain ⟨a1, b1, c1, ⟨k1, e1, q1, p1⟩, ⟨x1, t1, w1⟩⟩ := h1
  obtain ⟨a2, b2, c2, ⟨k2, e2, q2, p2⟩, ⟨x2, t2, w2⟩⟩ := h2
  refine ⟨a2.trans a1, fun h => b2 (b1 h), fun h => c2 (c1 h), ?_, ?_⟩
  · refine ⟨k1 + k2, e1.drop (k2 - (s._cmd_queue.drop k1).length) ++ e2, ?_, ?_⟩
    · rw [q2, q1, List.drop_append_eq_append_drop, List.drop_drop, List.append_assoc]
    · intro hs f hf
      rcases List.mem_append.mp hf with hf | hf
      · exact p1 hs f (List.mem_of_mem_drop hf)
      · exact p2 (c1 hs) f hf
  · refine ⟨x1 ++ x2, by rw [t2, t1, List.append_assoc], ?_⟩
    intro x hx
    rcases List.mem_append.mp hx with hx | hx
    · exact w1 x hx
    · obtain ⟨f, w, ex, hf⟩ := w2 x hx
      refine ⟨f, w, ex, ?_⟩
      rcases hf with hf | hf
      · rw [q1] at hf
        rcases List.mem_append.mp hf with hf | hf
        · exact Or.inl (List.mem_of_mem_drop hf)
        · exact Or.inr (fun hs => p1 hs f hf)
      · exact Or.inr (fun hs => hf (c1 hs))

theorem Flow.mono {P Q : Nat → Prop} {s t : Hub} (hPQ : ∀ tok, P tok → Q tok)
    (h : Flow P s t) : Flow Q s t := by
  obtain ⟨a1, b1, c1, ⟨k1, e1, q1, p1⟩, ⟨x1, t1, w1⟩⟩ := h
  refine ⟨a1, b1, c1, ⟨k1, e1, q1, fun hs f hf => hPQ _ (p1 hs f hf)⟩, ⟨x1, t1, ?_⟩⟩
  intro x hx
  obtain ⟨f, w, ex, hf⟩ := w1 x hx
  exact ⟨f, w, ex, hf.imp id (fun h hs => hPQ _ (h hs))⟩

/-- A store into members other than the lock, the state of the configuration
sync, the sequence number, the command queue and `Serial1`. -/
theorem Flow.store {P : Nat → Prop} {s t : Hub}
    (h1 : t._csf_DI_reset_locked = s._csf_DI_reset_locked)
    (h2 : t._config_init_state = s._config_init_state)
    (h3 : t._packet_number = s._packet_number)
    (h4 : t._cmd_queue = s._cmd_queue) (h5 : t.serial_tx = s.serial_tx) : Flow P s t :=
  ⟨h1, fun h => by rw [h2]; exact h, fun h => by rw [h3]; exact h,
    ⟨0, [], by simp [h4], fun _ f hf => by simp at hf⟩,
    ⟨[], by simp [h5], fun x hx => by simp at hx⟩⟩

theorem Flow.cond {P : Nat → Prop} (s : Hub) (c : Prop) [Decidable c] (a b : Hub × Bool)
    (ha : Flow P s a.1) (hb : Flow P s b.1) : Flow P s (if c then a else b).1 := by
  by_cases h : c
  · rw [if_pos h]; exact ha
  · rw [if_neg h]; exact hb

theorem create_dl_cmd_flow (P : Nat → Prop) (s : Hub) (tok : Nat) (payload : List Nat)
    (hP : P tok) :
    ( _create_dl_cmd_with s tok payload).2._csf_DI_reset_locked = s._csf_DI_reset_locked
    ∧ ( _create_dl_cmd_with s tok payload).2._config_init_state = s._config_init_state
    ∧ ( _create_dl_cmd_with s tok payload).2._cmd_queue = s._cmd_queue
    ∧ ( _create_dl_cmd_with s tok payload).2.serial_tx = s.serial_tx
    ∧ (s._packet_number < 10 → ( _create_dl_cmd_with s tok payload).2._packet_number < 10
        ∧ ∀ f, ( _create_dl_cmd_with s tok payload).1 = some f → P (byteAt f 5)) := by
  rcases Nat.lt_or_ge (strlen payload) 999 with hl | hl
  · refine ⟨?_, ?_, ?_, ?_, ?_⟩
    · unfold _create_dl_cmd_with; rw [if_neg (by omega)]
    · unfold _create_dl_cmd_with; rw [if_neg (by omega)]
    · unfold _create_dl_cmd_with; rw [if_neg (by omega)]
    · unfold _create_dl_cmd_with; rw [if_neg (by omega)]
    · intro hs
      rw [create_dl_cmd_take s tok payload hl hs]
      refine ⟨Nat.lt_trans (Nat.mod_lt _ (by decide)) (by decide), ?_⟩
      intro f hf
      simp only [Option.some.injEq] at hf
      subst hf
      simpa [byteAt] using hP
  · have e : _create_dl_cmd_with s tok payload = (none, s) := by
      unfold _create_dl_cmd_with
      rw [if_pos hl]
    rw [e]
    exact ⟨rfl, rfl, rfl, rfl, fun hs => ⟨hs, fun f hf => by simp at hf⟩⟩

theorem enqueue_cmd_flow (P : Nat → Prop) (s : Hub) (tok : Nat) (payload : List Nat) (hP : P tok) :
    Flow P s (enqueue_cmd s tok payload).2 := by
  obtain ⟨a, b, c, d, e⟩ := create_dl_cmd_flow P s tok payload hP
  unfold enqueue_cmd
  generalize _create_dl_cmd_with s tok payload = r at a b c d e ⊢
  obtain ⟨o, t⟩ := r
  dsimp only at a b c d e
  cases o with
  | none =>
    exact ⟨a, fun h => by rw [b]; exact h, fun h => (e h).1,
      ⟨0, [], by simp [c], fun _ f hf => by simp at hf⟩, ⟨[], by simp [d], fun x hx => by simp at hx⟩⟩
  | some cmd =>
    dsimp only
    refine ⟨a, fun h => ?_, fun h => (e h).1, ⟨0, [cmd], ?_, fun hs f hf => ?_⟩,
      ⟨[], ?_, fun x hx => by simp at hx⟩⟩
    · exact (b.trans h)
    · simp only [List.drop_zero] at c ⊢
      rw [← c]
    · simp only [List.mem_singleton] at hf
      subst hf
      exact (e hs).2 _ rfl
    · simpa using d

/-- The pattern of the enqueuing operations: `_create_dl_cmd_with` gives `o` and
the state `t`; the frame, if there is one, is pushed, and members outside the
flow may be stored. -/
theorem Flow.of_create {P : Nat → Prop} (o : Option dlimsg_t) (s t u : Hub)
    (a : t._csf_DI_reset_locked = s._csf_DI_reset_locked)
    (b : t._config_init_state = s._config_init_state)
    (c : t._cmd_queue = s._cmd_queue) (d : t.serial_tx = s.serial_tx)
    (e : s._packet_number < 10 → t._packet_number < 10 ∧ ∀ f, o = some f → P (byteAt f 5))
    (a2 : u._csf_DI_reset_locked = t._csf_DI_reset_locked)
    (b2 : u._config_init_state = t._config_init_state)
    (c2 : ∀ f, o = some f → u._cmd_queue = t._cmd_queue ++ [f])
    (c3 : o = none → u._cmd_queue = t._cmd_queue)
    (d2 : u.serial_tx = t.serial_tx) (e2 : u._packet_number = t._packet_number) :
    Flow P s u := by
  refine ⟨a2.trans a, fun h => by rw [b2, b]; exact h, fun h => by rw [e2]; exact (e h).1, ?_,
    ⟨[], by simp [d2, d], fun x hx => by simp at hx⟩⟩
  cases o with
  | none =>
    exact ⟨0, [], by simp [c3 rfl, c], fun _ f hf => by simp at hf⟩
  | some cmd =>
    refine ⟨0, [cmd], by simp [c2 cmd rfl, c], fun hs f hf => ?_⟩
    simp only [List.mem_singleton] at hf
    subst hf
    exact (e hs).2 _ rfl

theorem PlayAudio_flow (P : Nat → Prop) (h80 : P 80) (_h70 : P 70) (s : Hub) (a v : Nat) : Flow P s (PlayAudio s a v).2 := by
  unfold PlayAudio
  split_ifs
  · exact Flow.stay P s
  · exact enqueue_cmd_flow P _ _ _ h80

theorem ResetFoodMachine_flow (P : Nat → Prop) (h70 : P 70) (s : Hub) :
    Flow P s (ResetFoodMachine s).2 := by
  obtain ⟨a, b, c, d, e⟩ := create_dl_cmd_flow P s 70 [0] h70
  unfold ResetFoodMachine
  generalize _create_dl_cmd_with s 70 [0] = r at a b c d e ⊢
  obtain ⟨o, t⟩ := r
  dsimp only at a b c d e
  cases o with
  | none =>
    exact Flow.of_create none s t t a b c d e rfl rfl (fun f hf => by simp at hf) (fun _ => rfl)
      rfl rfl
  | some cmd =>
    exact Flow.of_create (some cmd) s t _ a b c d e rfl rfl
      (fun f hf => by simp only [Option.some.injEq] at hf; subst hf; rfl)
      (fun h => by simp at h) rfl rfl

theorem UpdateButtonAudioEnabled_flow (P : Nat → Prop) (_h80 : P 80) (_h70 : P 70) (s : Hub) : Flow P s (UpdateButtonAudioEnabled s) := by
  unfold UpdateButtonAudioEnabled
  split_ifs <;> exact Flow.store rfl rfl rfl rfl rfl

theorem update_left_button_flow (P : Nat → Prop) (h80 : P 80) (h70 : P 70) (s : Hub) (now l : Nat) :
    Flow P s (update_left_button s now l) := by
  unfold update_left_button
  dsimp only
  split_ifs
  · refine Flow.seq ?_ (PlayAudio_flow P h80 h70 _ _ _)
    exact Flow.store rfl rfl rfl rfl rfl
  · exact Flow.store rfl rfl rfl rfl rfl
  · exact Flow.store rfl rfl rfl rfl rfl
  · exact Flow.store rfl rfl rfl rfl rfl
  · exact Flow.stay P s

theorem update_middle_button_flow (P : Nat → Prop) (h80 : P 80) (h70 : P 70) (s : Hub) (now m : Nat) :
    Flow P s (update_middle_button s now m) := by
  unfold update_middle_button
  dsimp only
  split_ifs
  · refine Flow.seq ?_ (PlayAudio_flow P h80 h70 _ _ _)
    exact Flow.store rfl rfl rfl rfl rfl
  · exact Flow.store rfl rfl rfl rfl rfl
  · exact Flow.store rfl rfl rfl rfl rfl
  · exact Flow.store rfl rfl rfl rfl rfl
  · exact Flow.stay P s

theorem update_right_button_flow (P : Nat → Prop) (h80 : P 80) (h70 : P 70) (s : Hub) (now r : Nat) :
    Flow P s (update_right_button s now r) := by
  unfold update_right_button
  dsimp only
  split_ifs
  · refine Flow.seq ?_ (PlayAudio_flow P h80 h70 _ _ _)
    exact Flow.store rfl rfl rfl rfl rfl
  · exact Flow.store rfl rfl rfl rfl rfl
  · exact Flow.store rfl rfl rfl rfl rfl
  · exact Flow.store rfl rfl rfl rfl rfl
  · exact Flow.stay P s

theorem update_button_flow (P : Nat → Prop) (h80 : P 80) (h70 : P 70) (s : Hub) (now l m r : Nat) :
    Flow P s (_update_button_pressed_state s now l m r) :=
  ((update_left_button_flow P h80 h70 s now l).seq (update_middle_button_flow P h80 h70 _ now m)).seq
    (update_right_button_flow P h80 h70 _ now r)

theorem cap_reset_left_flow (P : Nat → Prop) (_h80 : P 80) (_h70 : P 70) (s : Hub) (now : Nat) (v : Int) :
    Flow P s (cap_reset_left s now v).1 := by
  unfold cap_reset_left
  split_ifs <;> first | exact Flow.stay P s | exact Flow.store rfl rfl rfl rfl rfl

theorem cap_reset_middle_flow (P : Nat → Prop) (_h80 : P 80) (_h70 : P 70) (s : Hub) (now : Nat) (v : Int) :
    Flow P s (cap_reset_middle s now v).1 := by
  unfold cap_reset_middle
  split_ifs <;> first | exact Flow.stay P s | exact Flow.store rfl rfl rfl rfl rfl

theorem cap_reset_right_flow (P : Nat → Prop) (_h80 : P 80) (_h70 : P 70) (s : Hub) (now : Nat) (v : Int) :
    Flow P s (cap_reset_right s now v).1 := by
  unfold cap_reset_right
  split_ifs <;> first | exact Flow.stay P s | exact Flow.store rfl rfl rfl rfl rfl

theorem update_cap_reset_flow (P : Nat → Prop) (h80 : P 80) (h70 : P 70) (s : Hub) (now : Nat) (l m r : Int) :
    Flow P s (_update_cap_reset s now l m r) := by
  unfold _update_cap_reset
  dsimp only
  split_ifs
  · exact Flow.stay P s
  · exact cap_reset_left_flow P h80 h70 s now l
  · exact (cap_reset_left_flow P h80 h70 s now l).seq (cap_reset_middle_flow P h80 h70 _ now m)
  · exact ((cap_reset_left_flow P h80 h70 s now l).seq (cap_reset_middle_flow P h80 h70 _ now m)).seq
      (cap_reset_right_flow P h80 h70 _ now r)

theorem bad_num_args_flow (P : Nat → Prop) (_h80 : P 80) (_h70 : P 70) (s : Hub) :
    Flow P s (bad_num_args s).1 :=
  Flow.store rfl rfl rfl rfl rfl

theorem scan_hu_into_flow (P : Nat → Prop) (_h80 : P 80) (_h70 : P 70) (s0 : Hub) (st : Hub × List Nat × Bool) (set : Hub → Nat → Hub)
    (h0 : Flow P s0 st.1) (hset : ∀ h v, Flow P h (set h v)) :
    Flow P s0 (scan_hu_into st set).1 := by
  unfold scan_hu_into
  split_ifs
  · split
    · exact h0.seq (hset _ _)
    · exact h0
  · exact h0

theorem parse_msg_B_flow (P : Nat → Prop) (h80 : P 80) (h70 : P 70) (s : Hub) (now : Nat) (payload : List Nat) :
    Flow P s (_parse_msg_B s now payload).1 := by
  unfold _parse_msg_B
  split
  · exact bad_num_args_flow P h80 h70 s
  · split
    · exact bad_num_args_flow P h80 h70 s
    · split
      · exact bad_num_args_flow P h80 h70 s
      · rename_i p3 _
        dsimp only
        have h6 : Flow P s
            (scan_hu_into (scan_hu_into (scan_hu_into (scan_hu_into (scan_hu_into (scan_hu_into
              (s, p3, true) (fun h v => { h with _left_baseline := v }))
              (fun h v => { h with _midd_baseline := v }))
              (fun h v => { h with _right_baseline := v }))
              (fun h v => { h with _left_read := v }))
              (fun h v => { h with _midd_read := v }))
              (fun h v => { h with _right_read := v })).1 := by
          iterate 6
            refine scan_hu_into_flow P h80 h70 _ _ _ ?_ ?_
            swap
            · intro h v; exact Flow.store rfl rfl rfl rfl rfl
          exact Flow.stay P s
        split_ifs
        · exact h6.seq (bad_num_args_flow P h80 h70 _)
        · refine h6.seq ?_
          refine Flow.seq ?_ (update_cap_reset_flow P h80 h70 _ _ _ _ _)
          refine Flow.seq ?_ (update_button_flow P h80 h70 _ _ _ _ _)
          exact Flow.store rfl rfl rfl rfl rfl

theorem parse_msg_G_flow (P : Nat → Prop) (h80 : P 80) (h70 : P 70) (s : Hub) (now : Nat) (payload : List Nat) :
    Flow P s (_parse_msg_G s now payload).1 := by
  unfold _parse_msg_G
  split
  · exact bad_num_args_flow P h80 h70 s
  · split
    · exact bad_num_args_flow P h80 h70 s
    · split
      · exact bad_num_args_flow P h80 h70 s
      · dsimp only
        refine Flow.seq ?_ (update_button_flow P h80 h70 _ _ _ _ _)
        exact Flow.store rfl rfl rfl rfl rfl

theorem track_food_errors_flow (P : Nat → Prop) (h80 : P 80) (h70 : P 70) (s : Hub) : Flow P s (track_food_errors s) := by
  unfold track_food_errors
  dsimp only
  split_ifs
  · refine Flow.seq ?_ (Flow.store rfl rfl rfl rfl rfl)
    refine Flow.seq ?_ (UpdateButtonAudioEnabled_flow P h80 h70 _)
    exact Flow.store rfl rfl rfl rfl rfl
  · exact Flow.stay P s
  · refine Flow.seq ?_ (Flow.store rfl rfl rfl rfl rfl)
    refine Flow.seq ?_ (UpdateButtonAudioEnabled_flow P h80 h70 _)
    exact Flow.store rfl rfl rfl rfl rfl
  · exact Flow.stay P s
  · exact Flow.stay P s

theorem track_platter_errors_flow (P : Nat → Prop) (h80 : P 80) (h70 : P 70) (s : Hub) (now : Nat) :
    Flow P s (track_platter_errors s now) := by
  unfold track_platter_errors
  dsimp only
  split_ifs
  · exact Flow.store rfl rfl rfl rfl rfl
  · refine Flow.seq ?_ (Flow.store rfl rfl rfl rfl rfl)
    refine Flow.seq ?_ (UpdateButtonAudioEnabled_flow P h80 h70 _)
    exact Flow.store rfl rfl rfl rfl rfl
  · refine Flow.seq ?_ (ResetFoodMachine_flow P h70 _)
    exact Flow.store rfl rfl rfl rfl rfl
  · exact Flow.stay P s
  · exact Flow.store rfl rfl rfl rfl rfl
  · refine Flow.seq ?_ (UpdateButtonAudioEnabled_flow P h80 h70 _)
    exact Flow.store rfl rfl rfl rfl rfl
  · exact Flow.stay P s

theorem track_singulator_errors_flow (P : Nat → Prop) (h80 : P 80) (h70 : P 70) (s : Hub) : Flow P s (track_singulator_errors s) := by
  unfold track_singulator_errors
  dsimp only
  split_ifs
  · refine Flow.seq ?_ (Flow.store rfl rfl rfl rfl rfl)
    refine Flow.seq ?_ (UpdateButtonAudioEnabled_flow P h80 h70 _)
    exact Flow.store rfl rfl rfl rfl rfl
  · exact Flow.stay P s
  · refine Flow.seq ?_ (Flow.store rfl rfl rfl rfl rfl)
    refine Flow.seq ?_ (UpdateButtonAudioEnabled_flow P h80 h70 _)
    exact Flow.store rfl rfl rfl rfl rfl
  · exact Flow.stay P s

theorem parse_msg_Z_flow (P : Nat → Prop) (h80 : P 80) (h70 : P 70) (s : Hub) (now : Nat) (payload : List Nat) :
    Flow P s (_parse_msg_Z s now payload).1 := by
  unfold _parse_msg_Z
  dsimp only
  split_ifs
  · exact bad_num_args_flow P h80 h70 s
  · dsimp only
    refine Flow.seq ?_ (track_singulator_errors_flow P h80 h70 _)
    refine Flow.seq ?_ (track_platter_errors_flow P h80 h70 _ _)
    refine Flow.seq ?_ (track_food_errors_flow P h80 h70 _)
    exact Flow.store rfl rfl rfl rfl rfl

theorem parse_msg_P_flow (P : Nat → Prop) (h80 : P 80) (h70 : P 70) (s : Hub) (now rplystatus : Nat) :
    Flow P s (_parse_msg_P s now rplystatus).1 := by
  unfold _parse_msg_P
  dsimp only
  split_ifs
  · dsimp only
    refine Flow.seq ?_ (Flow.store rfl rfl rfl rfl rfl)
    refine Flow.seq ?_ (PlayAudio_flow P h80 h70 _ _ _)
    exact Flow.store rfl rfl rfl rfl rfl
  · exact Flow.store rfl rfl rfl rfl rfl
  · dsimp only
    exact PlayAudio_flow P h80 h70 _ _ _
  · exact Flow.store rfl rfl rfl rfl rfl
  · exact Flow.stay P s
  · exact Flow.store rfl rfl rfl rfl rfl

theorem store_config_value_flow (P : Nat → Prop) (_h80 : P 80) (_h70 : P 70) (s : Hub) (config_id config_value : Int) :
    Flow P s (store_config_value s config_id config_value) := by
  unfold store_config_value
  split_ifs <;> exact Flow.store rfl rfl rfl rfl rfl

theorem parse_msg_U_flow (P : Nat → Prop) (h80 : P 80) (h70 : P 70) (s : Hub) (payload : List Nat) :
    Flow P s (_parse_msg_U s payload).1 := by
  unfold _parse_msg_U
  split
  · exact bad_num_args_flow P h80 h70 s
  · split
    · exact bad_num_args_flow P h80 h70 s
    · dsimp only
      split_ifs
      · exact (store_config_value_flow P h80 h70 s _ _).seq (Flow.store rfl rfl rfl rfl rfl)
      · exact (store_config_value_flow P h80 h70 s _ _).seq (Flow.store rfl rfl rfl rfl rfl)

theorem parse_msg_K_flow (P : Nat → Prop) (_h80 : P 80) (_h70 : P 70) (s : Hub) (now : Nat) : Flow P s (_parse_msg_K s now).1 :=
  Flow.store rfl rfl rfl rfl rfl

theorem parse_msg_switch_flow (P : Nat → Prop) (h80 : P 80) (h70 : P 70) (s : Hub) (now token rplystatus : Nat) (payload : List Nat) :
    Flow P s (_parse_msg_switch s now token rplystatus payload).1 := by
  unfold _parse_msg_switch
  refine Flow.cond s _ _ _ (Flow.stay P s) ?_
  refine Flow.cond s _ _ _ (Flow.stay P s) ?_
  refine Flow.cond s _ _ _ (parse_msg_B_flow P h80 h70 _ _ _) ?_
  refine Flow.cond s _ _ _ (parse_msg_G_flow P h80 h70 _ _ _) ?_
  refine Flow.cond s _ _ _ (parse_msg_Z_flow P h80 h70 _ _ _) ?_
  refine Flow.cond s _ _ _ (Flow.stay P s) ?_
  refine Flow.cond s _ _ _ (Flow.stay P s) ?_
  refine Flow.cond s _ _ _ (Flow.stay P s) ?_
  refine Flow.cond s _ _ _ (parse_msg_P_flow P h80 h70 _ _ _) ?_
  refine Flow.cond s _ _ _ (Flow.stay P s) ?_
  refine Flow.cond s _ _ _ (Flow.stay P s) ?_
  refine Flow.cond s _ _ _ (Flow.stay P s) ?_
  refine Flow.cond s _ _ _ (parse_msg_K_flow P h80 h70 _ _) ?_
  refine Flow.cond s _ _ _ (parse_msg_U_flow P h80 h70 _ _) ?_
  exact Flow.stay P s

theorem parse_msg_flow (P : Nat → Prop) (h80 : P 80) (h70 : P 70) (s : Hub) (now token rplystatus : Nat) (payload : List Nat)
    (len : Nat) : Flow P s (_parse_msg s now token rplystatus payload len).2 := by
  have h := parse_msg_switch_flow P h80 h70 s now token (sub48 rplystatus) payload
  have e : _parse_msg s now token rplystatus payload len
      = if (!(_parse_msg_switch s now token (sub48 rplystatus) payload).2) = true then
          (false, (_parse_msg_switch s now token (sub48 rplystatus) payload).1)
        else (byteAt (front (_parse_msg_switch s now token (sub48 rplystatus) payload).1._cmd_queue) 5
                == token, (_parse_msg_switch s now token (sub48 rplystatus) payload).1) := rfl
  rw [e]
  generalize _parse_msg_switch s now token (sub48 rplystatus) payload = r at h ⊢
  by_cases hc : (!r.2) = true
  · rw [if_pos hc]; exact h
  · rw [if_neg hc]; exact h

theorem process_reply_flow (P : Nat → Prop) (h80 : P 80) (h70 : P 70) (s : Hub) (now : Nat) (cmd : dlimsg_t) (h7 : 7 ≤ strlen cmd) :
    Flow P s (_process_reply_from_dl s now cmd).2 := by
  have hlt : ¬ (strlen cmd < 7) := by omega
  simp only [_process_reply_from_dl, reply_header, hlt, if_false]
  exact parse_msg_flow P h80 h70 _ _ _ _ _ _

/-! ## The flow of the link session -/

theorem process_reply_from_dl_flow (P : Nat → Prop) (h80 : P 80) (h70 : P 70) (s : Hub)
    (now : Nat) (cmd : dlimsg_t) : Flow P s ( _process_reply_from_dl s now cmd).2 := by
  rcases Nat.lt_or_ge (strlen cmd) 7 with h | h
  · simp only [_process_reply_from_dl, reply_header, h, if_true]
    exact Flow.store rfl rfl rfl rfl rfl
  · exact process_reply_flow P h80 h70 s now cmd h

theorem process_next_msg_flow (P : Nat → Prop) (h80 : P 80) (h70 : P 70) (s : Hub) (now : Nat) :
    Flow P s ( _process_next_msg s now).2 := by
  unfold _process_next_msg
  dsimp only
  by_cases hq : s._dl_reply_queue.length > 0
  · rw [if_pos hq]
    have h := process_reply_from_dl_flow P h80 h70 s now (front s._dl_reply_queue)
    generalize _process_reply_from_dl s now (front s._dl_reply_queue) = r at h ⊢
    dsimp only
    refine h.seq ?_
    cases r.1
    · exact Flow.store rfl rfl rfl rfl rfl
    · exact Flow.store rfl rfl rfl rfl rfl
  · rw [if_neg hq]
    exact Flow.stay P s

theorem front_mem (q : List dlimsg_t) (h : q.length > 0) : front q ∈ q := by
  cases q with
  | nil => simp at h
  | cons a t => simp [front]

theorem send_top_cmd_flow (P : Nat → Prop) (s : Hub) (written : Nat) :
    Flow P s ( _send_top_cmd s written).2 := by
  unfold _send_top_cmd _transmit_cmd
  dsimp only
  by_cases hq : s._cmd_queue.length > 0
  · rw [if_pos hq]
    have hs : ∀ t : Hub, t._csf_DI_reset_locked = s._csf_DI_reset_locked →
        t._config_init_state = s._config_init_state → t._packet_number = s._packet_number →
        t._cmd_queue = s._cmd_queue →
        t.serial_tx = s.serial_tx ++ [(cstr (front s._cmd_queue)).take written] → Flow P s t := by
      intro t a b c d e
      refine ⟨a, fun h => by rw [b]; exact h, fun h => by rw [c]; exact h,
        ⟨0, [], by simp [d], fun _ f hf => by simp at hf⟩, ⟨_, e, ?_⟩⟩
      intro x hx
      simp only [List.mem_singleton] at hx
      exact ⟨front s._cmd_queue, written, hx, Or.inl (front_mem _ hq)⟩
    split_ifs
    · exact hs _ rfl rfl rfl rfl rfl
    · exact hs _ rfl rfl rfl rfl rfl
  · rw [if_neg hq]
    exact Flow.stay P s

theorem receive_cmd_loop_flow (P : Nat → Prop) (bytes : List Nat) :
    ∀ s : Hub, Flow P s ( _receive_cmd_loop bytes s).1 := by
  induction bytes with
  | nil => intro s; exact Flow.store rfl rfl rfl rfl rfl
  | cons b rest ih =>
    intro s
    unfold _receive_cmd_loop
    dsimp only
    split_ifs
    · exact Flow.store rfl rfl rfl rfl rfl
    · exact Flow.store rfl rfl rfl rfl rfl
    · refine Flow.seq ?_ (ih _)
      exact Flow.store rfl rfl rfl rfl rfl

theorem receive_cmd_flow (P : Nat → Prop) (s : Hub) : Flow P s ( _receive_cmd s).2 := by
  unfold _receive_cmd
  dsimp only
  have h := receive_cmd_loop_flow P s.serial_rx s
  generalize _receive_cmd_loop s.serial_rx s = r at h ⊢
  split_ifs
  · exact h
  · exact h.seq (Flow.store rfl rfl rfl rfl rfl)
  · exact h

/-- The head of the queue is popped. -/
theorem Flow.pop {P : Nat → Prop} {s t : Hub}
    (h1 : t._csf_DI_reset_locked = s._csf_DI_reset_locked)
    (h2 : t._config_init_state = s._config_init_state)
    (h3 : t._packet_number = s._packet_number)
    (h4 : t._cmd_queue = s._cmd_queue.tail) (h5 : t.serial_tx = s.serial_tx) : Flow P s t :=
  ⟨h1, fun h => by rw [h2]; exact h, fun h => by rw [h3]; exact h,
    ⟨1, [], by simp [h4], fun _ f hf => by simp at hf⟩,
    ⟨[], by simp [h5], fun x hx => by simp at hx⟩⟩

theorem process_DL_eq (s : Hub) (now written : Nat) :
    _process_DL s now written
      = if (process_DL_switch s now written)._num_send_retries
            ≥ (process_DL_switch s now written)._max_num_send_retries then
          { process_DL_switch s now written with
            _cmd_queue := (process_DL_switch s now written)._cmd_queue.tail,
            _num_send_retries := 0 }
        else process_DL_switch s now written := rfl

theorem process_DL_switch_flow (P : Nat → Prop) (h80 : P 80) (h70 : P 70) (s : Hub)
    (now written : Nat) : Flow P s (process_DL_switch s now written) := by
  unfold process_DL_switch
  by_cases h1 : s._run_loop_state = STATE_BEFORE_SEND
  · rw [if_pos h1]
    have h := send_top_cmd_flow P s written
    generalize _send_top_cmd s written = r at h ⊢
    dsimp only
    split_ifs
    · exact h.seq (Flow.store rfl rfl rfl rfl rfl)
    · exact h
  · rw [if_neg h1]
    by_cases h2 : s._run_loop_state = STATE_AFTER_SEND_BEFORE_RCV
    · rw [if_pos h2]
      have h := receive_cmd_flow P s
      generalize _receive_cmd s = r at h ⊢
      obtain ⟨o, s1⟩ := r
      cases o with
      | none =>
        dsimp only at h ⊢
        split_ifs
        · exact h.seq (Flow.store rfl rfl rfl rfl rfl)
        · exact h
      | some reply =>
        dsimp only at h ⊢
        exact h.seq (Flow.store rfl rfl rfl rfl rfl)
    · rw [if_neg h2]
      by_cases h3 : s._run_loop_state = STATE_AFTER_RCV_BEFORE_PROCESS
      · rw [if_pos h3]
        have h := process_next_msg_flow P h80 h70 s now
        generalize ( _process_next_msg s now).2 = t at h ⊢
        dsimp only
        exact h.seq (Flow.pop rfl rfl rfl rfl rfl)
      · rw [if_neg h3]
        exact Flow.stay P s

theorem process_DL_flow (P : Nat → Prop) (h80 : P 80) (h70 : P 70) (s : Hub) (now written : Nat) :
    Flow P s ( _process_DL s now written) := by
  have h := process_DL_switch_flow P h80 h70 s now written
  rw [process_DL_eq]
  generalize process_DL_switch s now written = t at h ⊢
  split_ifs
  · exact h.seq (Flow.pop rfl rfl rfl rfl rfl)
  · exact h

/-! ## The flow of the operations and of a pass of `Run` -/

theorem Flow.guard {P : Nat → Prop} {s : Hub} (c : Bool) {r : Bool × Hub} (h : Flow P s r.2) :
    Flow P s (if c then (false, s) else r).2 := by
  cases c
  · exact h
  · exact Flow.stay P s

theorem SetLights_flow (P : Nat → Prop) (h77 : P 77) (s : Hub) (a b c d : Nat) :
    Flow P s (SetLights s a b c d).2 :=
  Flow.guard _ (enqueue_cmd_flow P s _ _ h77)

theorem SetLightsRGB_flow (P : Nat → Prop) (h73 : P 73) (s : Hub) (a b c d e : Nat) :
    Flow P s (SetLightsRGB s a b c d e).2 :=
  Flow.guard _ (enqueue_cmd_flow P s _ _ h73)

theorem SetLights_flash_flow (P : Nat → Prop) (h76 : P 76) (s : Hub) (a b c d e : Nat) :
    Flow P s (SetLights_flash s a b c d e).2 :=
  Flow.guard _ (enqueue_cmd_flow P s _ _ h76)

theorem SetLightsRGB_flash_flow (P : Nat → Prop) (h72 : P 72) (s : Hub) (a b c d e f : Nat) :
    Flow P s (SetLightsRGB_flash s a b c d e f).2 :=
  Flow.guard _ (enqueue_cmd_flow P s _ _ h72)

theorem PlayTone_flow (P : Nat → Prop) (h81 : P 81) (s : Hub) (a b c : Nat) :
    Flow P s (PlayTone s a b c).2 :=
  Flow.guard _ (enqueue_cmd_flow P s _ _ h81)

theorem ResetDI_flow (P : Nat → Prop) (s : Hub) (h75 : s._csf_DI_reset_locked = false → P 75) :
    Flow P s (ResetDI s).2 := by
  unfold ResetDI
  by_cases hl : (s._csf_DI_reset_locked == false) = true
  · rw [if_pos hl]
    have hP : P 75 := h75 (by simpa using hl)
    obtain ⟨a, b, c, d, e⟩ := create_dl_cmd_flow P s 75 [0] hP
    generalize _create_dl_cmd_with s 75 [0] = r at a b c d e ⊢
    obtain ⟨o, t⟩ := r
    dsimp only at a b c d e
    cases o with
    | none =>
      exact Flow.of_create none s t t a b c d e rfl rfl (fun f hf => by simp at hf) (fun _ => rfl)
        rfl rfl
    | some cmd =>
      exact Flow.of_create (some cmd) s t _ a b c d e rfl rfl
        (fun f hf => by simp only [Option.some.injEq] at hf; subst hf; rfl)
        (fun h => by simp at h) rfl rfl
  · rw [if_neg hl]
    exact Flow.stay P s

theorem SetDLInitValues_flow (P : Nat → Prop) (h78 : P 78) (s : Hub)
    (h75 : s._csf_DI_reset_locked = false → P 75) (a b c d e f g : Int) :
    Flow P s (SetDLInitValues s a b c d e f g).2 := by
  unfold SetDLInitValues
  split_ifs
  · exact Flow.stay P s
  · exact Flow.stay P s
  · dsimp only
    have h7 : Flow P s
        (SetConfigValue (SetConfigValue (SetConfigValue (SetConfigValue (SetConfigValue
          (SetConfigValue (SetConfigValue s 21 a).2 22 b).2 23 c).2 11
            (Int.tdiv (d * PLATTER_MOTOR_MAX_DUTY_CYCLE) PLATTER_MOTOR_MAX_PWM_COUNTER)).2 8 e).2
              18 f).2 20 g).2 := by
      iterate 6 refine Flow.seq ?_ (enqueue_cmd_flow P _ _ _ h78)
      exact enqueue_cmd_flow P _ _ _ h78
    refine h7.seq (ResetDI_flow P _ ?_)
    intro hl
    rw [h7.1] at hl
    exact h75 hl

theorem GetDLInitValues_flow (P : Nat → Prop) (h85 : P 85) (s : Hub) :
    Flow P s (GetDLInitValues s) := by
  unfold GetDLInitValues
  dsimp only
  iterate 6 refine Flow.seq ?_ (enqueue_cmd_flow P _ _ _ h85)
  exact enqueue_cmd_flow P _ _ _ h85

theorem apply_indicator_flow (P : Nat → Prop) (h77 : P 77) (h72 : P 72) (h73 : P 73) (s : Hub)
    (ilstate : Nat) : Flow P s ( _apply_desired_indicator_light s ilstate).2 := by
  unfold _apply_desired_indicator_light
  by_cases h : ilstate = s._current_ilstate
  · rw [if_pos h]
    exact Flow.stay P s
  · rw [if_neg h]
    dsimp only
    refine Flow.seq ?_ (Flow.store rfl rfl rfl rfl rfl)
    split_ifs
    · exact SetLights_flow P h77 s _ _ _ _
    · exact SetLightsRGB_flash_flow P h72 s _ _ _ _ _ _
    · exact SetLightsRGB_flash_flow P h72 s _ _ _ _ _ _
    · exact SetLightsRGB_flow P h73 s _ _ _ _ _
    · exact Flow.stay P s

theorem poll_indlight_flow (P : Nat → Prop) (h77 : P 77) (h72 : P 72) (h73 : P 73) (s : Hub) :
    Flow P s ( _poll_indlight s) :=
  apply_indicator_flow P h77 h72 h73 s _

theorem initialize_flow (P : Nat → Prop) (h77 : P 77) (h81 : P 81) (h88 : P 88) (h80 : P 80)
    (h70 : P 70) (s : Hub) (now written : Nat) : Flow P s ( _initialize s now written).2 := by
  unfold _initialize
  dsimp only
  by_cases h1 : s._init_dl_state = DLINIT_WAIT_BOOT
  · rw [if_pos h1]
    split_ifs <;> exact Flow.store rfl rfl rfl rfl rfl
  · rw [if_neg h1]
    by_cases h2 : s._init_dl_state = DLINIT_SEND
    · rw [if_pos h2]
      refine Flow.seq ?_ (Flow.store rfl rfl rfl rfl rfl)
      refine Flow.seq ?_ (enqueue_cmd_flow P _ _ _ h88)
      refine Flow.seq ?_ (PlayTone_flow P h81 _ _ _ _)
      exact SetLights_flow P h77 s _ _ _ _
    · rw [if_neg h2]
      by_cases h3 : s._init_dl_state = DLINIT_PROCESS
      · rw [if_pos h3]
        refine Flow.seq ?_ (process_DL_flow P h80 h70 _ _ _)
        split_ifs
        · exact Flow.store rfl rfl rfl rfl rfl
        · exact Flow.stay P s
      · rw [if_neg h3]
        exact Flow.stay P s

/-- A flow from a state whose configuration sync is not done, followed by a
store into the state of the sync. -/
theorem Flow.then_cfg {P : Nat → Prop} {s t u : Hub} (h : Flow P s t)
    (hne : s._config_init_state ≠ CONFIG_INIT_DONE)
    (h1 : u._csf_DI_reset_locked = t._csf_DI_reset_locked)
    (h3 : u._packet_number = t._packet_number)
    (h4 : u._cmd_queue = t._cmd_queue) (h5 : u.serial_tx = t.serial_tx) : Flow P s u := by
  obtain ⟨a, _, c, d, e⟩ := h
  refine ⟨h1.trans a, fun h' => absurd h' hne, fun h' => by rw [h3]; exact c h', ?_, ?_⟩
  · rw [h4]; exact d
  · rw [h5]; exact e

theorem process_config_init_flow (P : Nat → Prop) (s : Hub) (now : Nat)
    (hcfg : s._config_init_state ≠ CONFIG_INIT_DONE → P 85 ∧ P 78)
    (h75 : s._csf_DI_reset_locked = false → P 75) :
    Flow P s ( _process_config_init s now) := by
  unfold _process_config_init
  by_cases h1 : s._config_init_state = CONFIG_INIT_BOOTUP
  · have hne : s._config_init_state ≠ CONFIG_INIT_DONE := by rw [h1]; decide
    rw [if_pos h1]
    split_ifs
    · exact (Flow.stay P s).then_cfg hne rfl rfl rfl rfl
    · exact Flow.stay P s
  · rw [if_neg h1]
    by_cases h2 : s._config_init_state = CONFIG_INIT_GET
    · have hne : s._config_init_state ≠ CONFIG_INIT_DONE := by rw [h2]; decide
      rw [if_pos h2]
      exact (GetDLInitValues_flow P (hcfg hne).1 s).then_cfg hne rfl rfl rfl rfl
    · rw [if_neg h2]
      by_cases h3 : s._config_init_state = CONFIG_INIT_WAIT_GET
      · have hne : s._config_init_state ≠ CONFIG_INIT_DONE := by rw [h3]; decide
        rw [if_pos h3]
        split_ifs
        · exact (Flow.stay P s).then_cfg hne rfl rfl rfl rfl
        · exact (Flow.stay P s).then_cfg hne rfl rfl rfl rfl
        · exact Flow.stay P s
      · rw [if_neg h3]
        by_cases h4 : s._config_init_state = CONFIG_INIT_SET
        · have hne : s._config_init_state ≠ CONFIG_INIT_DONE := by rw [h4]; decide
          rw [if_pos h4]
          exact (SetDLInitValues_flow P (hcfg hne).2 s h75 _ _ _ _ _ _ _).then_cfg hne rfl rfl
            rfl rfl
        · rw [if_neg h4]
          exact Flow.stay P s

theorem run_reset_check_flow (P : Nat → Prop) (s : Hub) (now : Nat)
    (h75 : s._csf_DI_reset_locked = false → P 75) : Flow P s (run_reset_check s now) := by
  unfold run_reset_check
  have h := ResetDI_flow P s h75
  generalize ResetDI s = r at h ⊢
  dsimp only
  split_ifs
  · exact h.seq (Flow.store rfl rfl rfl rfl rfl)
  · exact h
  · exact Flow.stay P s
  · exact Flow.store rfl rfl rfl rfl rfl
  · exact Flow.stay P s

theorem run_config_init_flow (P : Nat → Prop) (s : Hub) (now : Nat)
    (hcfg : s._config_init_state ≠ CONFIG_INIT_DONE → P 85 ∧ P 78)
    (h75 : s._csf_DI_reset_locked = false → P 75) : Flow P s (run_config_init s now) := by
  unfold run_config_init
  split_ifs
  · exact process_config_init_flow P s now hcfg h75
  · exact Flow.stay P s

theorem run_poll_diag_flow (P : Nat → Prop) (h90 : P 90) (s : Hub) (now : Nat) :
    Flow P s (run_poll_diag s now) := by
  unfold run_poll_diag
  have h : Flow P s ( _poll_diag s).2 := enqueue_cmd_flow P s _ _ h90
  generalize ( _poll_diag s).2 = t at h ⊢
  dsimp only
  split_ifs
  · exact h.seq (Flow.store rfl rfl rfl rfl rfl)
  · exact Flow.stay P s
  · exact Flow.stay P s

theorem run_poll_buttons_flow (P : Nat → Prop) (h66 : P 66) (s : Hub) (now : Nat) :
    Flow P s (run_poll_buttons s now) := by
  unfold run_poll_buttons
  have h : Flow P s ( _poll_buttons s).2 := enqueue_cmd_flow P s _ _ h66
  generalize ( _poll_buttons s).2 = t at h ⊢
  dsimp only
  split_ifs
  · exact h.seq (Flow.store rfl rfl rfl rfl rfl)
  · exact Flow.stay P s
  · exact Flow.stay P s

theorem run_poll_indlight_flow (P : Nat → Prop) (h77 : P 77) (h72 : P 72) (h73 : P 73) (s : Hub)
    (now : Nat) : Flow P s (run_poll_indlight s now) := by
  unfold run_poll_indlight
  have h := poll_indlight_flow P h77 h72 h73 s
  generalize _poll_indlight s = t at h ⊢
  dsimp only
  split_ifs
  · exact h.seq (Flow.store rfl rfl rfl rfl rfl)
  · exact Flow.stay P s
  · exact Flow.stay P s

theorem handle_dl_errors_flow (P : Nat → Prop) (s : Hub) : Flow P s ( _handle_dl_errors s).2 :=
  Flow.store rfl rfl rfl rfl rfl

theorem pass_tokens_other (s : Hub) (tok : Nat) (h1 : tok ≠ 75) (h2 : tok ≠ 78) (h3 : tok ≠ 85) :
    pass_tokens s tok :=
  ⟨fun h => absurd h h1, fun h => h.elim (fun h => absurd h h2) (fun h => absurd h h3)⟩

theorem Run_pass_flow (s : Hub) (e : Pass) : Flow (pass_tokens s) s (Run_pass s e) := by
  have h77 : pass_tokens s 77 := pass_tokens_other s 77 (by decide) (by decide) (by decide)
  have h81 : pass_tokens s 81 := pass_tokens_other s 81 (by decide) (by decide) (by decide)
  have h88 : pass_tokens s 88 := pass_tokens_other s 88 (by decide) (by decide) (by decide)
  have h80 : pass_tokens s 80 := pass_tokens_other s 80 (by decide) (by decide) (by decide)
  have h70 : pass_tokens s 70 := pass_tokens_other s 70 (by decide) (by decide) (by decide)
  have h90 : pass_tokens s 90 := pass_tokens_other s 90 (by decide) (by decide) (by decide)
  have h66 : pass_tokens s 66 := pass_tokens_other s 66 (by decide) (by decide) (by decide)
  have h72 : pass_tokens s 72 := pass_tokens_other s 72 (by decide) (by decide) (by decide)
  have h73 : pass_tokens s 73 := pass_tokens_other s 73 (by decide) (by decide) (by decide)
  unfold Run_pass
  by_cases hr : (!s._dl_is_ready) = true
  · rw [if_pos hr]
    exact initialize_flow _ h77 h81 h88 h80 h70 s _ _
  · rw [if_neg hr]
    dsimp only
    have f1 : Flow (pass_tokens s) s (run_reset_check s e.t_reset) :=
      run_reset_check_flow _ s _ (fun hl => ⟨fun _ => hl, fun h => by
        rcases h with h | h <;> exact absurd h (by decide)⟩)
    have f2 : Flow (pass_tokens s) s (run_config_init (run_reset_check s e.t_reset) e.t_config) := by
      refine f1.seq (run_config_init_flow _ _ _ ?_ ?_)
      · intro hne
        have hs : s._config_init_state ≠ CONFIG_INIT_DONE := fun h => hne (f1.2.1 h)
        exact ⟨⟨fun h => absurd h (by decide), fun _ => hs⟩,
          ⟨fun h => absurd h (by decide), fun _ => hs⟩⟩
      · intro hl
        rw [f1.1] at hl
        exact ⟨fun _ => hl, fun h => by rcases h with h | h <;> exact absurd h (by decide)⟩
    refine Flow.seq ?_ (handle_dl_errors_flow _ _)
    refine Flow.seq ?_ (run_poll_indlight_flow _ h77 h72 h73 _ _)
    refine Flow.seq ?_ (run_poll_buttons_flow _ h66 _ _)
    refine Flow.seq ?_ (run_poll_diag_flow _ h90 _ _)
    exact f2.seq (process_DL_flow _ h80 h70 _ _ _)

/-! ## C12, C13: the DI-reset lock -/

theorem PresentFoodtreat_flow (P : Nat → Prop) (h84 : P 84) (s : Hub) (d : Nat) :
    Flow P s (PresentFoodtreat s d).2 :=
  enqueue_cmd_flow P s _ _ h84

theorem RetractTray_flow (P : Nat → Prop) (h88 : P 88) (s : Hub) : Flow P s (RetractTray s).2 :=
  enqueue_cmd_flow P s _ _ h88

theorem PresentAndCheckFoodtreat_flow (P : Nat → Prop) (h70 : P 70) (h84 : P 84) (h88 : P 88)
    (s : Hub) (now d : Nat) : Flow P s (PresentAndCheckFoodtreat s now d).2 := by
  unfold PresentAndCheckFoodtreat
  by_cases h1 : s._foodmachine_state = FOODMACHINE_LID_OPEN ∨ s._foodmachine_state > FOODMACHINE_WAIT
  · rw [if_pos h1]
    dsimp only
    have h := ResetFoodMachine_flow P h70 s
    generalize (ResetFoodMachine s).2 = t at h ⊢
    split_ifs
    · exact h.seq (Flow.store rfl rfl rfl rfl rfl)
    · exact Flow.stay P s
  · rw [if_neg h1]
    by_cases h2 : s._pact_foodtreat_state = PACT_BEFORE_PRESENT
    · rw [if_pos h2]
      dsimp only
      by_cases h3 : s._foodmachine_state = FOODMACHINE_IDLE
      · rw [if_pos h3]
        have ha := PresentFoodtreat_flow P h84 s 0
        have hb := PresentFoodtreat_flow P h84 s ( _milliseconds_to_deciseconds_for_DL_T d)
        generalize PresentFoodtreat s 0 = ra at ha ⊢
        generalize PresentFoodtreat s ( _milliseconds_to_deciseconds_for_DL_T d) = rb at hb ⊢
        split_ifs
        · exact ha.seq (Flow.store rfl rfl rfl rfl rfl)
        · exact ha
        · exact hb.seq (Flow.store rfl rfl rfl rfl rfl)
        · exact hb
      · rw [if_neg h3]
        exact Flow.stay P s
    · rw [if_neg h2]
      by_cases h4 : s._pact_foodtreat_state = PACT_PLATTER_OUT
      · rw [if_pos h4]
        split_ifs
        · exact Flow.store rfl rfl rfl rfl rfl
        · exact Flow.stay P s
      · rw [if_neg h4]
        by_cases h5 : s._pact_foodtreat_state = PACT_WAIT_TIL_BACK
        · rw [if_pos h5]
          have h := RetractTray_flow P h88 s
          generalize RetractTray s = r at h ⊢
          dsimp only
          split_ifs
          · exact Flow.store rfl rfl rfl rfl rfl
          · exact h.seq (Flow.store rfl rfl rfl rfl rfl)
          · exact h
          · exact Flow.stay P s
          · exact Flow.stay P s
        · rw [if_neg h5]
          dsimp only
          split_ifs
          · exact Flow.store rfl rfl rfl rfl rfl
          · exact Flow.store rfl rfl rfl rfl rfl
          · exact Flow.stay P s
          · exact Flow.stay P s

theorem Initialize_flow (P : Nat → Prop) (h81 : P 81) (h77 : P 77) (s : Hub)
    (h75 : s._csf_DI_reset_locked = false → P 75) : Flow P s (Initialize s).2 := by
  unfold Initialize
  dsimp only
  refine Flow.seq ?_ (SetLights_flow P h77 _ _ _ _ _)
  refine Flow.seq ?_ (PlayTone_flow P h81 _ _ _ _)
  refine Flow.seq (ResetDI_flow P s h75) ?_
  generalize (ResetDI s).2 = t
  exact Flow.store rfl rfl rfl rfl rfl

theorem SetRandomButtonLights_flow (P : Nat → Prop) (h76 : P 76) (s : Hub) (v : List Nat)
    (a b c d e : Nat) : Flow P s (SetRandomButtonLights s v a b c d e).2 := by
  unfold SetRandomButtonLights
  dsimp only
  have h := SetLights_flash_flow P h76 s
    ((List.range a).foldl (fun t cntr => t ||| v.getD cntr 0) 0) b c d e
  generalize SetLights_flash s ((List.range a).foldl (fun t cntr => t ||| v.getD cntr 0) 0)
    b c d e = r at h ⊢
  split_ifs <;> exact h

theorem call_flow (s : Hub) (c : Call) (hlock : s._csf_DI_reset_locked = true)
    (hc : c ≠ Call.SetDIResetLock false) : Flow not_reset s (call s c) := by
  have h75 : s._csf_DI_reset_locked = false → not_reset 75 := by
    intro h; rw [hlock] at h; exact absurd h (by decide)
  cases c with
  | Run_pass e =>
    refine Flow.mono ?_ (Run_pass_flow s e)
    intro tok ht h
    have := ht.1 h
    rw [hlock] at this
    exact absurd this (by decide)
  | serial_arrive bytes => exact Flow.store rfl rfl rfl rfl rfl
  | Initialize_ => exact Initialize_flow _ (by decide) (by decide) s h75
  | SetLights a b c d => exact SetLights_flow _ (by decide) s a b c d
  | SetLightsRGB a b c d e => exact SetLightsRGB_flow _ (by decide) s a b c d e
  | SetLights_flash a b c d e => exact SetLights_flash_flow _ (by decide) s a b c d e
  | SetLightsRGB_flash a b c d e f => exact SetLightsRGB_flash_flow _ (by decide) s a b c d e f
  | SetRandomButtonLights v a b c d e =>
    exact SetRandomButtonLights_flow _ (by decide) s v a b c d e
  | PlayAudio a b => exact PlayAudio_flow _ (by decide) (by decide) s a b
  | PlayTone a b c => exact PlayTone_flow _ (by decide) s a b c
  | PresentFoodtreat d => exact PresentFoodtreat_flow _ (by decide) s d
  | PresentAndCheckFoodtreat now d =>
    exact PresentAndCheckFoodtreat_flow _ (by decide) (by decide) (by decide) s now d
  | RetractTray => exact RetractTray_flow _ (by decide) s
  | SetConfigValue a v => exact enqueue_cmd_flow _ s _ _ (by decide)
  | GetConfigValue a => exact enqueue_cmd_flow _ s _ _ (by decide)
  | GetDLInitValues => exact GetDLInitValues_flow _ (by decide) s
  | SetDLInitValues a b c d e f g => exact SetDLInitValues_flow _ (by decide) s h75 a b c d e f g
  | SetDIResetLock b =>
    cases b with
    | false => exact absurd rfl hc
    | true =>
      exact ⟨hlock.symm ▸ rfl, fun h => h, fun h => h, ⟨0, [], by simp [call, SetDIResetLock],
        fun _ f hf => by simp at hf⟩, ⟨[], by simp [call, SetDIResetLock], fun x hx => by simp at hx⟩⟩
  | ResetDI => exact ResetDI_flow _ s h75
  | ResetFoodMachine => exact ResetFoodMachine_flow _ (by decide) s
  | UpdateButtonAudioEnabled => exact UpdateButtonAudioEnabled_flow _ (by decide) (by decide) s
  | SetAudioEnabled b => exact Flow.store rfl rfl rfl rfl rfl
  | SetButtonAudioEnabled b => exact Flow.store rfl rfl rfl rfl rfl
  | SetMaxAudioAmplitude a => exact Flow.store rfl rfl rfl rfl rfl
  | SetLightEnabled b => exact Flow.store rfl rfl rfl rfl rfl
  | SetMaxLightAmplitude a => exact Flow.store rfl rfl rfl rfl rfl
  | SetDoPollButtons b => exact Flow.store rfl rfl rfl rfl rfl
  | SetDoPollDiagnostics b => exact Flow.store rfl rfl rfl rfl rfl
  | SetDoPollIndLight b => exact Flow.store rfl rfl rfl rfl rfl

theorem byteAt_prefix (l f : List Nat) (h : l <+: f) (i : Nat) :
    byteAt l i = 0 ∨ byteAt l i = byteAt f i := by
  obtain ⟨r, rfl⟩ := h
  unfold byteAt
  rcases Nat.lt_or_ge i l.length with hi | hi
  · exact Or.inr (List.getD_append l r 0 i hi).symm
  · exact Or.inl (List.getD_eq_default l 0 hi)

theorem byteAt_sent (f : List Nat) (w : Nat) (h : byteAt f 5 ≠ 75) :
    byteAt ((cstr f).take w) 5 ≠ 75 := by
  have hp : (cstr f).take w <+: f :=
    ( List.take_prefix w (cstr f)).trans ( List.takeWhile_prefix _)
  rcases byteAt_prefix _ f hp 5 with e | e
  · rw [e]; decide
  · rw [e]; exact h

theorem calls_flow (cs : List Call) :
    ∀ s : Hub, s._csf_DI_reset_locked = true → (∀ c ∈ cs, c ≠ Call.SetDIResetLock false) →
      Flow not_reset s (calls s cs) := by
  induction cs with
  | nil => intro s _ _; exact Flow.stay _ s
  | cons c rest ih =>
    intro s hlock hcs
    have h1 := call_flow s c hlock (hcs c (by simp))
    have h2 := ih (call s c) (h1.1.trans hlock) (fun c' hc' => hcs c' (by simp [hc']))
    exact h1.seq h2

/-- C12. The DI-reset lock on `ResetDI`: while the lock is held `ResetDI` returns
`false` and leaves the engine as it is (no command, ready flag and sequence
number unchanged); while it is not held `ResetDI` returns `true`, pushes exactly
one frame, the command `K`, and `IsReady()` is false after it.  Hence while the
lock is held neither `ResetDI`, nor `SetDLInitValues`, nor a pass of `Run`
(whatever reset is pending) adds a `K` frame to the queue: the queue after it is
the old one less some frames at its front, followed by frames that are not `K`. -/
theorem reset_lock_on_ResetDI (s : Hub) (e : Pass) (a b c d f g h : Int)
    (hseq : s._packet_number < 10) :
    (s._csf_DI_reset_locked = true → ResetDI s = (false, s))
    ∧ (s._csf_DI_reset_locked = false →
        (ResetDI s).1 = true ∧ IsReady (ResetDI s).2 = false
        ∧ (ResetDI s).2._cmd_queue
            = s._cmd_queue ++ [[36, 48, 48, 48, 48 + s._packet_number, 75, 49, 46, 0]])
    ∧ (s._csf_DI_reset_locked = true →
        ∀ t, t = (ResetDI s).2 ∨ t = (SetDLInitValues s a b c d f g h).2 ∨ t = Run_pass s e →
          ∃ k added, t._cmd_queue = s._cmd_queue.drop k ++ added
            ∧ ∀ x ∈ added, byteAt x 5 ≠ 75) := by
  refine ⟨fun hl => ?_, fun hl => ?_, fun hl t ht => ?_⟩
  · unfold ResetDI
    rw [if_neg (by rw [hl]; decide)]
  · have hc := create_dl_cmd_eq s 75 [0] (by decide) hseq
    have e1 : strlen [0] = 0 := by decide
    have e2 : cstr [0] = [] := by decide
    simp only [e1, e2, Nat.zero_div, Nat.zero_mod, Nat.add_zero, List.append_nil, List.cons_append,
      List.nil_append] at hc
    unfold ResetDI IsReady
    rw [if_pos (by rw [hl]; rfl), hc]
    exact ⟨rfl, rfl, rfl⟩
  · have key : Flow not_reset s t := by
      rcases ht with rfl | rfl | rfl
      · exact call_flow s Call.ResetDI hl (by decide)
      · exact call_flow s (Call.SetDLInitValues a b c d f g h) hl (by simp)
      · exact call_flow s (Call.Run_pass e) hl (by simp)
    obtain ⟨_, _, _, ⟨k, added, hq, hp⟩, _⟩ := key
    exact ⟨k, added, hq, hp hseq⟩

theorem reset_lock_on_ResetDI_witness :
    (ResetDI (HubInterface 0)).1 = true
    ∧ IsReady (ResetDI (HubInterface 0)).2 = false
    ∧ (ResetDI (HubInterface 0)).2._cmd_queue
        = (HubInterface 0)._cmd_queue
            ++ [[36, 48, 48, 48, 48 + (HubInterface 0)._packet_number, 75, 49, 46, 0]] :=
  (reset_lock_on_ResetDI (HubInterface 0) ⟨0, 0, 0, 0, 0, 0, 0, 0⟩ 0 0 0 0 0 0 0
    (by decide)).2.1 (by decide)

/-- C13, as the code has it: from an engine state in which the DI-reset lock is
held and the command queue holds no `K` frame, whatever operations follow
(passes of `Run`, bytes from the device, calls of the member functions) short of
releasing the lock, the lock stays held and nothing handed to `Serial1.write`
has the token `K`, whatever resets are pending. -/
theorem reset_lock_invariant (s : Hub) (cs : List Call)
    (hlock : s._csf_DI_reset_locked = true) (hseq : s._packet_number < 10)
    (hq : ∀ f ∈ s._cmd_queue, byteAt f 5 ≠ 75)
    (hcs : ∀ c ∈ cs, c ≠ Call.SetDIResetLock false) :
    (calls s cs)._csf_DI_reset_locked = true
    ∧ (∀ f ∈ (calls s cs)._cmd_queue, byteAt f 5 ≠ 75)
    ∧ ∃ sent, (calls s cs).serial_tx = s.serial_tx ++ sent ∧ ∀ x ∈ sent, byteAt x 5 ≠ 75 := by
  obtain ⟨a, _, _, ⟨k, added, hk, hp⟩, ⟨sent, hs, hw⟩⟩ := calls_flow cs s hlock hcs
  refine ⟨a.trans hlock, ?_, sent, hs, ?_⟩
  · intro f hf
    rw [hk] at hf
    rcases List.mem_append.mp hf with hf | hf
    · exact hq f (List.mem_of_mem_drop hf)
    · exact hp hseq f hf
  · intro x hx
    obtain ⟨f, w, rfl, hf⟩ := hw x hx
    rcases hf with hf | hf
    · exact byteAt_sent f w (hq f hf)
    · exact byteAt_sent f w (hf hseq)

theorem reset_lock_invariant_witness :
    (calls (SetDIResetLock (HubInterface 0) true).2
        [Call.Initialize_, Call.Run_pass ⟨4000, 0, 0, 0, 0, 0, 0, 0⟩])._csf_DI_reset_locked = true :=
  (reset_lock_invariant (SetDIResetLock (HubInterface 0) true).2
    [Call.Initialize_, Call.Run_pass ⟨4000, 0, 0, 0, 0, 0, 0, 0⟩]
    (by decide) (by decide) (by decide) (by decide)).1

/-- C13, counterexample to the claim as stated: `Initialize` enqueues the device
reset `K`; the script then takes the lock; the third pass of `Run` after that
hands the `K` frame to `Serial1.write`, the lock being held. -/
theorem queued_reset_sent_under_lock :
    (calls (HubInterface 0)
        [Call.Initialize_, Call.SetDIResetLock true, Call.Run_pass ⟨4000, 0, 0, 0, 0, 0, 0, 8⟩,
          Call.Run_pass ⟨4001, 0, 0, 0, 0, 0, 0, 8⟩])._csf_DI_reset_locked = true
    ∧ (calls (HubInterface 0)
        [Call.Initialize_, Call.SetDIResetLock true, Call.Run_pass ⟨4000, 0, 0, 0, 0, 0, 0, 8⟩,
          Call.Run_pass ⟨4001, 0, 0, 0, 0, 0, 0, 8⟩]).serial_tx = []
    ∧ (calls (HubInterface 0)
        [Call.Initialize_, Call.SetDIResetLock true, Call.Run_pass ⟨4000, 0, 0, 0, 0, 0, 0, 8⟩,
          Call.Run_pass ⟨4001, 0, 0, 0, 0, 0, 0, 8⟩,
          Call.Run_pass ⟨4002, 0, 0, 0, 0, 0, 0, 8⟩]).serial_tx = [ascii "$0000K1."]
    ∧ (calls (HubInterface 0)
        [Call.Initialize_, Call.SetDIResetLock true, Call.Run_pass ⟨4000, 0, 0, 0, 0, 0, 0, 8⟩,
          Call.Run_pass ⟨4001, 0, 0, 0, 0, 0, 0, 8⟩,
          Call.Run_pass ⟨4002, 0, 0, 0, 0, 0, 0, 8⟩])._csf_DI_reset_locked = true := by
  decide

/-! ## C17: the configuration sync when nothing has to be set -/

theorem Run_passes_done (passes : List Pass) :
    ∀ s : Hub, s._config_init_state = CONFIG_INIT_DONE →
      Flow not_config s (passes.foldl Run_pass s) := by
  induction passes with
  | nil => intro s _; exact Flow.stay _ s
  | cons e rest ih =>
    intro s hs
    have h1 : Flow not_config s (Run_pass s e) := by
      refine Flow.mono ?_ (Run_pass_flow s e)
      intro tok ht
      exact ⟨fun h => ht.2 (Or.inl h) hs, fun h => ht.2 (Or.inr h) hs⟩
    exact h1.seq (ih _ (h1.2.1 hs))

/-- C17. Config sync short-circuit: in state WaitGet, the values having arrived
and being 29, 30, 30 (thresholds), 87 (tray speed, 14 * 100 / 16), 200 (current
threshold), 0 (tx power) and 60 (detect threshold), `_process_config_init` only
sets the state to Done (so it enqueues nothing, neither `N` nor the reset `K`);
in state Done `_process_config_init` changes nothing and `Run` does not call it;
and in the passes of `Run` that follow the state stays Done and no `N` (and no
`U`) frame is added to the queue. -/
theorem config_sync_short_circuit (s : Hub) (now : Nat) (passes : List Pass)
    (hstate : s._config_init_state = CONFIG_INIT_WAIT_GET)
    (hdone : s._get_config_done = true)
    (hl : s._left_from_dl = 29) (hm : s._middle_from_dl = 30) (hr : s._right_from_dl = 30)
    (hspeed : s._tray_speed_pwm_from_dl = 87)
    (hcur : s._tray_current_threshold_from_dl = 200)
    (htx : s._foodtreat_tx_power_level_from_dl = 0)
    (hdet : s._foodtreat_detect_threshold_from_dl = 60)
    (hseq : s._packet_number < 10) :
    _process_config_init s now = { s with _config_init_state := CONFIG_INIT_DONE }
    ∧ (∀ t : Hub, ∀ now2 : Nat, t._config_init_state = CONFIG_INIT_DONE →
        _process_config_init t now2 = t ∧ run_config_init t now2 = t)
    ∧ (Run ( _process_config_init s now) passes).2._config_init_state = CONFIG_INIT_DONE
    ∧ ∃ k added, (Run ( _process_config_init s now) passes).2._cmd_queue
          = s._cmd_queue.drop k ++ added
        ∧ ∀ x ∈ added, byteAt x 5 ≠ 78 ∧ byteAt x 5 ≠ 85 := by
  have hmatch : config_values_match s = true := by
    unfold config_values_match
    rw [hl, hm, hr, hspeed, hcur, htx, hdet]
    decide
  have e : _process_config_init s now = { s with _config_init_state := CONFIG_INIT_DONE } := by
    unfold _process_config_init
    rw [if_neg (by rw [hstate]; decide), if_neg (by rw [hstate]; decide), if_pos hstate,
      if_pos hdone, if_pos hmatch]
  refine ⟨e, ?_, ?_⟩
  · intro t now2 ht
    have e2 : _process_config_init t now2 = t := by
      unfold _process_config_init
      rw [if_neg (by rw [ht]; decide), if_neg (by rw [ht]; decide), if_neg (by rw [ht]; decide),
        if_neg (by rw [ht]; decide)]
    refine ⟨e2, ?_⟩
    unfold run_config_init
    rw [if_neg (by rw [ht]; decide)]
  · rw [e]
    obtain ⟨_, b, _, ⟨k, added, hq, hp⟩, _⟩ :=
      Run_passes_done passes { s with _config_init_state := CONFIG_INIT_DONE } rfl
    exact ⟨b rfl, k, added, hq, hp hseq⟩

theorem config_sync_short_circuit_witness :
    _process_config_init synced_hub 21001
        = { synced_hub with _config_init_state := CONFIG_INIT_DONE }
    ∧ (Run ( _process_config_init synced_hub 21001)
          [⟨0, 0, 0, 0, 0, 0, 0, 0⟩]).2._config_init_state = CONFIG_INIT_DONE :=
  ⟨(config_sync_short_circuit synced_hub 21001 [⟨0, 0, 0, 0, 0, 0, 0, 0⟩]
      (by decide) (by decide) (by decide) (by decide) (by decide) (by decide) (by decide)
      (by decide) (by decide) (by decide)).1,
   (config_sync_short_circuit synced_hub 21001 [⟨0, 0, 0, 0, 0, 0, 0, 0⟩]
      (by decide) (by decide) (by decide) (by decide) (by decide) (by decide) (by decide)
      (by decide) (by decide) (by decide)).2.2.1⟩

/-! ## C20: the yield macros -/

theorem run_fuel_mono {σ ρ : Type} (body : List (Stmt σ ρ)) (more : Nat) :
    ∀ (fuel pc : Nat) (fin : Bool) (st : Resumable σ) (o : Outcome σ ρ),
      run body fuel pc fin st = some o → run body (fuel + more) pc fin st = some o := by
  intro fuel
  induction fuel with
  | zero => intro pc fin st o h; simp [run] at h
  | succ n ih =>
    intro pc fin st o h
    rw [Nat.add_right_comm]
    unfold run at h ⊢
    cases hb : body[pc]? with
    | none => rw [hb] at h; simp at h
    | some stmt =>
      rw [hb] at h
      cases stmt <;> dsimp only at h ⊢
      case plain f => exact ih _ _ _ _ h
      case branch c e =>
        by_cases hc : c st.locals = true
        · rw [if_pos hc] at h ⊢; exact ih _ _ _ _ h
        · rw [if_neg hc] at h ⊢; exact ih _ _ _ _ h
      case jump t => exact ih _ _ _ _ h
      case yield r => exact h
      case yield_finish => exact ih _ _ _ _ h
      case ret r => exact h

theorem run_finished {σ ρ : Type} (body : List (Stmt σ ρ)) :
    ∀ (fuel pc : Nat) (st : Resumable σ) (o : Outcome σ ρ),
      run body fuel pc true st = some o → o.finished = true := by
  intro fuel
  induction fuel with
  | zero => intro pc st o h; simp [run] at h
  | succ n ih =>
    intro pc st o h
    unfold run at h
    cases hb : body[pc]? with
    | none => rw [hb] at h; simp at h
    | some stmt =>
      rw [hb] at h
      cases stmt <;> dsimp only at h
      case plain f => exact ih _ _ _ h
      case branch c e =>
        by_cases hc : c st.locals = true
        · rw [if_pos hc] at h; exact ih _ _ _ h
        · rw [if_neg hc] at h; exact ih _ _ _ h
      case jump t => exact ih _ _ _ h
      case yield r =>
        simp only [Option.some.injEq] at h
        subst h
        rfl
      case yield_finish => exact ih _ _ _ h
      case ret r =>
        simp only [Option.some.injEq] at h
        subst h
        rfl

theorem run_outcome {σ ρ : Type} (body : List (Stmt σ ρ)) :
    ∀ (fuel pc : Nat) (fin : Bool) (st : Resumable σ) (o : Outcome σ ρ),
      run body fuel pc fin st = some o → (fin = true → st._yield_state = none) →
      (∃ ret, body[o.stopped_at]? = some (Stmt.yield ret) ∧ o.value = ret o.statics.locals
          ∧ o.statics._yield_state = some (o.stopped_at + 1))
      ∨ (∃ ret, body[o.stopped_at]? = some (Stmt.ret ret) ∧ o.value = ret o.statics.locals
          ∧ (o.finished = true → o.statics._yield_state = none)
          ∧ (o.finished = false → o.statics._yield_state = st._yield_state)) := by
  intro fuel
  induction fuel with
  | zero => intro pc fin st o h; simp [run] at h
  | succ n ih =>
    intro pc fin st o h hfin
    unfold run at h
    cases hb : body[pc]? with
    | none => rw [hb] at h; simp at h
    | some stmt =>
      rw [hb] at h
      cases stmt <;> dsimp only at h
      case plain f => exact ih (pc + 1) fin { st with locals := f st.locals } o h hfin
      case branch c e =>
        by_cases hc : c st.locals = true
        · rw [if_pos hc] at h; exact ih _ _ _ _ h hfin
        · rw [if_neg hc] at h; exact ih _ _ _ _ h hfin
      case jump t => exact ih _ _ _ _ h hfin
      case yield r =>
        simp only [Option.some.injEq] at h
        subst h
        exact Or.inl ⟨r, hb, rfl, rfl⟩
      case yield_finish =>
        rcases ih _ _ _ _ h (fun _ => rfl) with h' | ⟨r, h1, h2, h3, h4⟩
        · exact Or.inl h'
        · refine Or.inr ⟨r, h1, h2, h3, fun hf => ?_⟩
          have := run_finished body n (pc + 1) { st with _yield_state := none } o h
          rw [this] at hf
          exact absurd hf (by decide)
      case ret r =>
        simp only [Option.some.injEq] at h
        subst h
        exact Or.inr ⟨r, hb, rfl, hfin, fun _ => rfl⟩

theorem run_spec_run {σ ρ : Type} (body : List (Stmt σ ρ)) :
    ∀ (fuel pc : Nat) (fin : Bool) (last : Option Nat) (x : σ),
      (run body fuel pc fin (statics_of last x)).map (fun o => (o.value, o.statics))
        = (spec_run body fuel pc last x).map (fun r => (r.1, statics_of r.2.1 r.2.2)) := by
  intro fuel
  induction fuel with
  | zero => intro pc fin last x; rfl
  | succ n ih =>
    intro pc fin last x
    unfold run spec_run
    cases hb : body[pc]? with
    | none => rfl
    | some stmt =>
      cases stmt <;> dsimp only
      case plain f => exact ih (pc + 1) fin last (f x)
      case branch c e =>
        have e0 : (statics_of last x).locals = x := rfl
        rw [e0]
        by_cases hc : c x = true
        · rw [if_pos hc, if_pos hc]; exact ih _ _ _ _
        · rw [if_neg hc, if_neg hc]; exact ih _ _ _ _
      case jump t => exact ih _ _ _ _
      case yield r => rfl
      case yield_finish => exact ih (pc + 1) true none x
      case ret r => rfl

/-- C20. The resumable step function.  Let an invocation of a function written
with `yield_begin` / `yield(r)` / `yield_finish` return (with more fuel it
returns the same).  When no yield point is stored, as at the first invocation,
it has run from the top.  It has stopped either at a `yield(r)`, and then it has
returned `r`, the label behind that yield is stored, and the next invocation
runs from the statement behind that yield on the statics as they were left; or
at a `return`, and then, `yield_finish` having been run, no yield point is
stored and the next invocation runs from the top (without `yield_finish` the
stored point is the old one).  And an invocation is a step of the explicit state
machine whose control state is the yield point that returned last. -/
theorem resumable_step_function {σ ρ : Type} (body : List (Stmt σ ρ)) (fuel : Nat)
    (st : Resumable σ) (o : Outcome σ ρ) (h : invoke body fuel st = some o) :
    (∀ more, invoke body (fuel + more) st = some o)
    ∧ (st._yield_state = none → run body fuel 0 false st = some o)
    ∧ ((∃ ret, body[o.stopped_at]? = some (Stmt.yield ret) ∧ o.value = ret o.statics.locals
          ∧ o.statics._yield_state = some (o.stopped_at + 1)
          ∧ ∀ fuel2, invoke body fuel2 o.statics
              = run body fuel2 (o.stopped_at + 1) false o.statics)
        ∨ (∃ ret, body[o.stopped_at]? = some (Stmt.ret ret) ∧ o.value = ret o.statics.locals
          ∧ (o.finished = true → o.statics._yield_state = none
              ∧ ∀ fuel2, invoke body fuel2 o.statics = run body fuel2 0 false o.statics)
          ∧ (o.finished = false → o.statics._yield_state = st._yield_state)))
    ∧ (∀ (last : Option Nat) (x : σ) (fuel2 : Nat),
        (invoke body fuel2 (statics_of last x)).map (fun o => (o.value, o.statics))
          = (spec_step body fuel2 last x).map (fun r => (r.1, statics_of r.2.1 r.2.2))) := by
  refine ⟨fun more => run_fuel_mono body more _ _ _ _ _ h, fun h0 => ?_, ?_, ?_⟩
  · unfold invoke yield_begin at h
    rw [h0] at h
    exact h
  · rcases run_outcome body _ _ _ _ _ h (fun hf => absurd hf (by decide)) with
      ⟨r, h1, h2, h3⟩ | ⟨r, h1, h2, h3, h4⟩
    · refine Or.inl ⟨r, h1, h2, h3, fun fuel2 => ?_⟩
      unfold invoke yield_begin
      rw [h3]
    · refine Or.inr ⟨r, h1, h2, fun hf => ⟨h3 hf, fun fuel2 => ?_⟩, h4⟩
      unfold invoke yield_begin
      rw [h3 hf]
  · intro last x fuel2
    have e : yield_begin (statics_of last x) = (match last with | none => 0 | some p => p + 1) := by
      cases last <;> rfl
    unfold invoke spec_step
    rw [e]
    exact run_spec_run body fuel2 _ false last x

theorem resumable_step_function_witness :
    (∀ more, invoke HelloAnimal (10 + more) ⟨none, ⟨ready_hub, 5, 0, 0, 0⟩⟩
      = some ⟨false, ⟨some 6,
          ⟨(SetLights (SetDIResetLock ready_hub true).2 LIGHT_BTNS 60 60 0).2, 5, 5, 0, 0⟩⟩, 5,
          false⟩)
    ∧ (∀ fuel2, invoke HelloAnimal fuel2
          ⟨some 6, ⟨(SetLights (SetDIResetLock ready_hub true).2 LIGHT_BTNS 60 60 0).2, 5, 5, 0, 0⟩⟩
        = run HelloAnimal fuel2 6 false
          ⟨some 6, ⟨(SetLights (SetDIResetLock ready_hub true).2 LIGHT_BTNS 60 60 0).2, 5, 5, 0, 0⟩⟩) :=
  ⟨(resumable_step_function HelloAnimal 10 ⟨none, ⟨ready_hub, 5, 0, 0, 0⟩⟩
      ⟨false, ⟨some 6,
        ⟨(SetLights (SetDIResetLock ready_hub true).2 LIGHT_BTNS 60 60 0).2, 5, 5, 0, 0⟩⟩, 5, false⟩
      rfl).1,
   fun _ => rfl⟩

/-! ## C21: outputs that are switched off -/

theorem decDigitsAux_length (fuel : Nat) :
    ∀ (n : Nat) (acc : List Nat) (k : Nat), 0 < k → n < 10 ^ k →
      (decDigitsAux fuel n acc).length ≤ k + acc.length := by
  induction fuel with
  | zero =>
    intro n acc k _ _
    simp [decDigitsAux]
  | succ fuel ih =>
    intro n acc k hk hn
    unfold decDigitsAux
    split_ifs with h
    · simp only [List.length_cons]
      omega
    · obtain ⟨j, rfl⟩ : ∃ j, k = j + 1 := ⟨k - 1, by omega⟩
      have hj : 0 < j := by
        rcases Nat.eq_zero_or_pos j with h0 | h0
        · subst h0
          simp at hn
          omega
        · exact h0
      have hdiv : n / 10 < 10 ^ j := by
        rw [Nat.div_lt_iff_lt_mul (by decide)]
        rw [pow_succ] at hn
        exact hn
      have := ih (n / 10) ((48 + n % 10) :: acc) j hj hdiv
      simp only [List.length_cons] at this
      omega

theorem fmt_d_length (n k : Nat) (hk : 0 < k) (hn : n < 10 ^ k) : (fmt_d n).length ≤ k := by
  have := decDigitsAux_length (n + 1) n [] k hk hn
  simpa [fmt_d] using this

theorem fmt_0d_length (w n k : Nat) (hk : 0 < k) (hn : n < 10 ^ k) :
    (fmt_0d w n).length ≤ max w k := by
  have := fmt_d_length n k hk hn
  unfold fmt_0d
  rw [List.length_append, List.length_replicate]
  omega

theorem strlen_le (l : List Nat) : strlen l ≤ l.length := by
  unfold strlen cstr
  exact ( List.takeWhile_prefix _).length_le

theorem map0_lt (v m : Nat) (hv : v < 256) (hm : m < 256) : map0 v 99 m < 10 ^ 3 := by
  unfold map0
  rw [if_neg (by decide)]
  have h1 : v * m ≤ 255 * 255 := Nat.mul_le_mul (by omega) (by omega)
  have h2 : v * m / 99 ≤ 255 * 255 / 99 := Nat.div_le_div_right h1
  have h3 : 255 * 255 / 99 < 10 ^ 3 := by decide
  omega

theorem enqueue_cmd_pushes (s : Hub) (tok : Nat) (payload : List Nat)
    (hlen : payload.length < 999) : Pushes s (enqueue_cmd s tok payload) := by
  have h1 : ¬ (strlen payload ≥ 999) := by
    have := strlen_le payload
    omega
  unfold Pushes enqueue_cmd _create_dl_cmd_with
  rw [if_neg h1]
  exact ⟨_, rfl⟩

theorem byte_lt_pow (n : Nat) (h : n < 256) : n < 10 ^ 3 := by
  have : (256 : Nat) < 10 ^ 3 := by decide
  omega

theorem lights_push (t : Hub) (which a b c period on_ : Nat)
    (hen : t._light_enabled = true) (hla : t._light_amplitude_max < 256)
    (ha : a < 256) (hb : b < 256) (hc : c < 256) (hp : period < 256) (ho : on_ < 256) :
    Pushes t (SetLights t which a b c)
    ∧ Pushes t (SetLightsRGB t which a b c period)
    ∧ Pushes t (SetLights_flash t which a b period on_)
    ∧ Pushes t (SetLightsRGB_flash t which a b c period on_) := by
  have ma := fmt_0d_length 2 _ 3 (by decide) (map0_lt a _ ha hla)
  have mb := fmt_0d_length 2 _ 3 (by decide) (map0_lt b _ hb hla)
  have mc := fmt_0d_length 2 _ 3 (by decide) (map0_lt c _ hc hla)
  have fc := fmt_0d_length 2 c 3 (by decide) (byte_lt_pow c hc)
  have fp := fmt_0d_length 2 period 3 (by decide) (byte_lt_pow period hp)
  have fo := fmt_0d_length 2 on_ 3 (by decide) (byte_lt_pow on_ ho)
  have m23 : max 2 3 = 3 := rfl
  rw [m23] at ma mb mc fc fp fo
  have hg : (!t._light_enabled) = false := by rw [hen]; rfl
  unfold SetLights SetLightsRGB SetLights_flash SetLightsRGB_flash
  simp only [hg, Bool.false_eq_true, if_false]
  refine ⟨?_, ?_, ?_, ?_⟩
  · exact enqueue_cmd_pushes _ 77 _ (by simp only [List.length_append, List.length_singleton]; omega)
  · exact enqueue_cmd_pushes _ 73 _ (by simp only [List.length_append, List.length_singleton]; omega)
  · exact enqueue_cmd_pushes _ 76 _ (by simp only [List.length_append, List.length_singleton]; omega)
  · exact enqueue_cmd_pushes _ 72 _ (by simp only [List.length_append, List.length_singleton]; omega)

theorem audio_push (t : Hub) (a b freq : Nat)
    (hen : t._audio_enabled = true) (haa : t._audio_amplitude_max < 256)
    (ha : a < 256) (hb : b < 256) (hf : freq < 4294967296) :
    Pushes t (PlayAudio t a b) ∧ Pushes t (PlayTone t freq a b) := by
  have va := fmt_0d_length 2 _ 3 (by decide) (map0_lt a _ ha haa)
  have vb := fmt_0d_length 2 _ 3 (by decide) (map0_lt b _ hb haa)
  have fa := fmt_d_length a 3 (by decide) (byte_lt_pow a ha)
  have fb := fmt_0d_length 1 b 3 (by decide) (byte_lt_pow b hb)
  have ff := fmt_0d_length 5 freq 10 (by decide) (Nat.lt_trans hf (by decide))
  have m23 : max 2 3 = 3 := rfl
  have m13 : max 1 3 = 3 := rfl
  have m510 : max 5 10 = 10 := rfl
  rw [m23] at va vb
  rw [m13] at fb
  rw [m510] at ff
  have hg : (!t._audio_enabled) = false := by rw [hen]; rfl
  unfold PlayAudio PlayTone
  simp only [hg, Bool.false_eq_true, if_false]
  refine ⟨?_, ?_⟩
  · exact enqueue_cmd_pushes _ 80 _ (by simp only [List.length_append, List.length_singleton]; omega)
  · exact enqueue_cmd_pushes _ 81 _ (by simp only [List.length_append, List.length_singleton]; omega)

/-- C21. Disabled outputs: after `SetLightEnabled(false)` each of the four
`SetLights` / `SetLightsRGB` overloads returns `false` and leaves the whole
state as it was (nothing enqueued, no sequence number consumed); after
`SetAudioEnabled(false)` so do `PlayAudio` and `PlayTone`.  After
`SetLightEnabled(true)`, respectively `SetAudioEnabled(true)`, with arguments of
their C++ types (`unsigned char`, and `unsigned int` for the frequency; the
amplitude limits are `unsigned char` members), each of these calls returns
`true` and appends exactly one command to the back of the queue. -/
theorem disabled_outputs (s : Hub) (which a b c period on_ freq : Nat)
    (hla : s._light_amplitude_max < 256) (haa : s._audio_amplitude_max < 256)
    (ha : a < 256) (hb : b < 256) (hc : c < 256) (hp : period < 256) (ho : on_ < 256)
    (hf : freq < 4294967296) :
    (SetLights (SetLightEnabled s false).2 which a b c = (false, (SetLightEnabled s false).2)
      ∧ SetLightsRGB (SetLightEnabled s false).2 which a b c period
          = (false, (SetLightEnabled s false).2)
      ∧ SetLights_flash (SetLightEnabled s false).2 which a b period on_
          = (false, (SetLightEnabled s false).2)
      ∧ SetLightsRGB_flash (SetLightEnabled s false).2 which a b c period on_
          = (false, (SetLightEnabled s false).2))
    ∧ (PlayAudio (SetAudioEnabled s false).2 a b = (false, (SetAudioEnabled s false).2)
      ∧ PlayTone (SetAudioEnabled s false).2 freq a b = (false, (SetAudioEnabled s false).2))
    ∧ (Pushes (SetLightEnabled s true).2 (SetLights (SetLightEnabled s true).2 which a b c)
      ∧ Pushes (SetLightEnabled s true).2
          (SetLightsRGB (SetLightEnabled s true).2 which a b c period)
      ∧ Pushes (SetLightEnabled s true).2
          (SetLights_flash (SetLightEnabled s true).2 which a b period on_)
      ∧ Pushes (SetLightEnabled s true).2
          (SetLightsRGB_flash (SetLightEnabled s true).2 which a b c period on_))
    ∧ (Pushes (SetAudioEnabled s true).2 (PlayAudio (SetAudioEnabled s true).2 a b)
      ∧ Pushes (SetAudioEnabled s true).2 (PlayTone (SetAudioEnabled s true).2 freq a b)) := by
  exact ⟨⟨rfl, rfl, rfl, rfl⟩, ⟨rfl, rfl⟩,
    lights_push (SetLightEnabled s true).2 which a b c period on_ rfl hla ha hb hc hp ho,
    audio_push (SetAudioEnabled s true).2 a b freq rfl haa ha hb hf⟩

theorem disabled_outputs_witness :
    SetLights (SetLightEnabled (HubInterface 0) false).2 LIGHT_LEFT 50 20 0
        = (false, (SetLightEnabled (HubInterface 0) false).2)
    ∧ PlayAudio (SetAudioEnabled (HubInterface 0) false).2 AUDIO_POSITIVE 60
        = (false, (SetAudioEnabled (HubInterface 0) false).2)
    ∧ Pushes (SetLightEnabled (HubInterface 0) true).2
        (SetLights (SetLightEnabled (HubInterface 0) true).2 LIGHT_LEFT 50 20 0)
    ∧ Pushes (SetAudioEnabled (HubInterface 0) true).2
        (PlayAudio (SetAudioEnabled (HubInterface 0) true).2 AUDIO_POSITIVE 60) :=
  have h := disabled_outputs (HubInterface 0) LIGHT_LEFT 50 20 0 0 0 0 (by decide) (by decide)
    (by decide) (by decide) (by decide) (by decide) (by decide) (by decide)
  have k := disabled_outputs (HubInterface 0) LIGHT_LEFT AUDIO_POSITIVE 60 0 0 0 0 (by decide)
    (by decide) (by decide) (by decide) (by decide) (by decide) (by decide) (by decide)
  ⟨h.1.1, k.2.1.1, h.2.2.1.1, k.2.2.2.1⟩

/-! ## C22: random touchpad lights -/

/-- The six outcomes of shuffling the pad ids 1, 2, 4. -/
theorem shuffle_outcomes (shuffled : List Nat) (hperm : shuffled.Perm [1, 2, 4]) :
    shuffled ∈ [[1, 2, 4], [1, 4, 2], [2, 1, 4], [2, 4, 1], [4, 1, 2], [4, 2, 1]] := by
  have hlen := hperm.length_eq
  have hnd : shuffled.Nodup := hperm.nodup_iff.mpr (by decide)
  have hsub : ∀ x ∈ shuffled, x = 1 ∨ x = 2 ∨ x = 4 := by
    intro x hx
    have := hperm.subset hx
    simpa using this
  match shuffled, hlen, hnd, hsub with
  | [x, y, z], _, hnd, hsub =>
    have hx := hsub x (by simp)
    have hy := hsub y (by simp)
    have hz := hsub z (by simp)
    rcases hx with rfl | rfl | rfl <;> rcases hy with rfl | rfl | rfl <;>
      rcases hz with rfl | rfl | rfl <;> simp at hnd ⊢

/-- The pads a target mask selects, for every outcome of the shuffle and every
number of lights from 1 to 3. -/
theorem shuffle_target :
    ∀ p ∈ [[1, 2, 4], [1, 4, 2], [2, 1, 4], [2, 4, 1], [4, 1, 2], [4, 2, 1]],
    ∀ n ∈ [1, 2, 3],
      (List.range n).foldl (fun t cntr => t ||| p.getD cntr 0) 0
          = (p.take n).foldl (fun t b => t ||| b) 0
      ∧ (p.take n).Nodup ∧ (p.take n).length = n ∧ (∀ b ∈ p.take n, b ∈ [1, 2, 4])
      ∧ (∀ b ∈ [1, 2, 4],
          ((List.range n).foldl (fun t cntr => t ||| p.getD cntr 0) 0 &&& b ≠ 0 ↔ b ∈ p.take n))
      ∧ ([1, 2, 4].filter
            (fun b => (List.range n).foldl (fun t cntr => t ||| p.getD cntr 0) 0 &&& b ≠ 0)).length
          = n
      ∧ 1 ≤ (List.range n).foldl (fun t cntr => t ||| p.getD cntr 0) 0
      ∧ (List.range n).foldl (fun t cntr => t ||| p.getD cntr 0) 0 ≤ 7 := by
  decide

/-- The flash command for a mask of pads: one frame, token `L`, whose first
payload byte is the mask's letter in `LightsNum2Token`. -/
theorem flash_frame (s : Hub) (tgt yellow blue period on_ : Nat)
    (hen : s._light_enabled = true) (hla : s._light_amplitude_max < 256)
    (htab : s.LightsNum2Token = (HubInterface 0).LightsNum2Token)
    (hseq : s._packet_number < 10) (h1 : 1 ≤ tgt) (h7 : tgt ≤ 7)
    (hy : yellow < 256) (hb : blue < 256) (hp : period < 256) (ho : on_ < 256) :
    ∃ f, SetLights_flash s tgt yellow blue period on_
        = (true, { s with _packet_number := (s._packet_number + 1) % 9,
                          _cmd_queue := s._cmd_queue ++ [f] })
      ∧ byteAt f 5 = 76 ∧ byteAt f 7 = 64 + tgt := by
  have ma := fmt_0d_length 2 _ 3 (by decide) (map0_lt yellow _ hy hla)
  have mb := fmt_0d_length 2 _ 3 (by decide) (map0_lt blue _ hb hla)
  have fp := fmt_0d_length 2 period 3 (by decide) (byte_lt_pow period hp)
  have fo := fmt_0d_length 2 on_ 3 (by decide) (byte_lt_pow on_ ho)
  have m23 : max 2 3 = 3 := rfl
  rw [m23] at ma mb fp fo
  have hg : (!s._light_enabled) = false := by rw [hen]; rfl
  have ht : byteAt s.LightsNum2Token (tgt - 1) = 64 + tgt := by
    rw [htab]
    interval_cases tgt <;> rfl
  have hlen : strlen ([byteAt s.LightsNum2Token (tgt - 1)]
        ++ fmt_0d 2 (map0 yellow 99 s._light_amplitude_max)
        ++ fmt_0d 2 (map0 blue 99 s._light_amplitude_max)
        ++ fmt_0d 2 period ++ fmt_0d 2 on_ ++ [0]) ≤ 55 := by
    refine Nat.le_trans (strlen_le _) ?_
    simp only [List.length_append, List.length_singleton]
    omega
  have hc : ∃ rest, cstr ([byteAt s.LightsNum2Token (tgt - 1)]
        ++ fmt_0d 2 (map0 yellow 99 s._light_amplitude_max)
        ++ fmt_0d 2 (map0 blue 99 s._light_amplitude_max)
        ++ fmt_0d 2 period ++ fmt_0d 2 on_ ++ [0]) = (64 + tgt) :: rest := by
    rw [ht]
    have h64 : ((64 + tgt) != 0) = true := by simp
    refine ⟨cstr (fmt_0d 2 (map0 yellow 99 s._light_amplitude_max)
        ++ fmt_0d 2 (map0 blue 99 s._light_amplitude_max)
        ++ fmt_0d 2 period ++ fmt_0d 2 on_ ++ [0]), ?_⟩
    simp only [cstr, List.singleton_append, List.cons_append, List.takeWhile_cons, h64, if_true,
      List.append_assoc, List.nil_append]
  obtain ⟨rest, hc⟩ := hc
  unfold SetLights_flash enqueue_cmd
  simp only [hg, Bool.false_eq_true, if_false]
  rw [create_dl_cmd_eq s 76 _ hlen hseq, hc]
  exact ⟨_, rfl, rfl, rfl⟩

/-- C22. `SetRandomButtonLights`: for every outcome of the shuffle (a permutation
of the pad ids 1, 2, 4) and every `numLights` in 1, 2, 3, with the lights enabled
the value returned is the bitwise OR of the first `numLights` ids of the
shuffled vector, which are `numLights` distinct ids out of 1, 2, 4: its bit for a
pad is set exactly when the pad is one of them, it has exactly `numLights` bits
set and is at most 7; one command is enqueued, the flash command `L` whose first
payload byte is the letter of that mask (`A` for 1 up to `G` for 7).  With the
lights disabled the call returns 0.  (The arguments are `unsigned char`, the
sequence number is a digit.) -/
theorem random_button_lights (s : Hub) (shuffled : List Nat)
    (numLights yellow blue period on_ : Nat)
    (hperm : shuffled.Perm [1, 2, 4])
    (hn : numLights = 1 ∨ numLights = 2 ∨ numLights = 3)
    (hla : s._light_amplitude_max < 256)
    (htab : s.LightsNum2Token = (HubInterface 0).LightsNum2Token)
    (hseq : s._packet_number < 10)
    (hy : yellow < 256) (hb : blue < 256) (hp : period < 256) (ho : on_ < 256) :
    (s._light_enabled = true →
      (SetRandomButtonLights s shuffled numLights yellow blue period on_).1
          = (shuffled.take numLights).foldl (fun t b => t ||| b) 0
      ∧ (shuffled.take numLights).Nodup ∧ (shuffled.take numLights).length = numLights
      ∧ (∀ b ∈ shuffled.take numLights, b ∈ [1, 2, 4])
      ∧ (∀ b ∈ [1, 2, 4],
          ((SetRandomButtonLights s shuffled numLights yellow blue period on_).1 &&& b ≠ 0
            ↔ b ∈ shuffled.take numLights))
      ∧ ([1, 2, 4].filter (fun b =>
            (SetRandomButtonLights s shuffled numLights yellow blue period on_).1 &&& b ≠ 0)).length
          = numLights
      ∧ (SetRandomButtonLights s shuffled numLights yellow blue period on_).1 ≤ 7
      ∧ ∃ f, (SetRandomButtonLights s shuffled numLights yellow blue period on_).2._cmd_queue
            = s._cmd_queue ++ [f]
          ∧ byteAt f 5 = 76
          ∧ byteAt f 7
            = 64 + (SetRandomButtonLights s shuffled numLights yellow blue period on_).1)
    ∧ (s._light_enabled = false →
        SetRandomButtonLights s shuffled numLights yellow blue period on_ = (0, s)) := by
  have hn' : numLights ∈ [1, 2, 3] := by simpa using hn
  obtain ⟨t1, t2, t3, t4, t5, t6, t7, t8⟩ :=
    shuffle_target shuffled (shuffle_outcomes shuffled hperm) numLights hn'
  constructor
  · intro hen
    obtain ⟨f, e, f5, f7⟩ := flash_frame s _ yellow blue period on_ hen hla htab hseq t7 t8 hy hb hp ho
    have er : SetRandomButtonLights s shuffled numLights yellow blue period on_
        = ((List.range numLights).foldl (fun t cntr => t ||| shuffled.getD cntr 0) 0,
           { s with _packet_number := (s._packet_number + 1) % 9,
                    _cmd_queue := s._cmd_queue ++ [f] }) := by
      unfold SetRandomButtonLights
      dsimp only
      rw [e]
      rfl
    rw [er]
    exact ⟨t1, t2, t3, t4, t5, t6, t8, f, rfl, f5, f7⟩
  · intro hen
    unfold SetRandomButtonLights SetLights_flash
    have hg : (!s._light_enabled) = true := by rw [hen]; rfl
    simp only [hg, if_true, Bool.false_eq_true, if_false]

theorem random_button_lights_witness :
    (SetRandomButtonLights (HubInterface 0) [4, 1, 2] 2 50 20 10 5).1 = 5
    ∧ ∃ f, (SetRandomButtonLights (HubInterface 0) [4, 1, 2] 2 50 20 10 5).2._cmd_queue = [f]
        ∧ byteAt f 5 = 76 ∧ byteAt f 7 = 69 :=
  have h := (random_button_lights (HubInterface 0) [4, 1, 2] 2 50 20 10 5 (by decide)
    (by decide) (by decide) rfl (by decide) (by decide) (by decide) (by decide) (by decide)).1 rfl
  ⟨h.1, h.2.2.2.2.2.2.2⟩

/-! ## C23: the touchpad window queries -/

/-- C23, the code at the failing input.  The left pad was last read above its
threshold at `millis() = 5000`.  At `millis() = 10000` the queries are asked
about the time since 9000, after that reading: both report the left pad.  Asked
about the time since 4000, before that reading, both report nothing.  (The
argument is subtracted from `millis()`, so it acts as a look-back length.) -/
theorem window_query_at_failing_input :
    (store_button_times (HubInterface 0) 5000 1 0 0)._time_left_button_pressed = 5000
    ∧ WasButtonSupraThresholdInWindow (store_button_times (HubInterface 0) 5000 1 0 0)
        10000 BUTTON_LEFT 9000 = true
    ∧ AnyButtonSupraThresholdInWindow (store_button_times (HubInterface 0) 5000 1 0 0)
        10000 9000 = BUTTON_LEFT
    ∧ WasButtonSupraThresholdInWindow (store_button_times (HubInterface 0) 5000 1 0 0)
        10000 BUTTON_LEFT 4000 = false
    ∧ AnyButtonSupraThresholdInWindow (store_button_times (HubInterface 0) 5000 1 0 0)
        10000 4000 = 0 := by
  decide

/-! ## C24: one exchange that succeeds -/

/-- The step that transmits the head command with success, whatever the retry
counter below the maximum. -/
theorem step_send_any (s : Hub) (c : dlimsg_t) (rest : List dlimsg_t) (now : Nat)
    (hstate : s._run_loop_state = STATE_BEFORE_SEND)
    (hretry : s._num_send_retries < s._max_num_send_retries)
    (hq : s._cmd_queue = c :: rest) (hc : strlen c < 65536) :
    _process_DL s now (strlen (front s._cmd_queue)) =
      { s with serial_tx := s.serial_tx ++ [cstr c],
               _run_loop_state := STATE_AFTER_SEND_BEFORE_RCV, _start_listen := now,
               _len_reply_buffer := 0 } := by
  have hm : strlen c % 65536 = strlen c := Nat.mod_eq_of_lt hc
  have ht : List.take (strlen c) (cstr c) = cstr c := by
    unfold strlen; exact List.take_length _
  have hn : ¬ (s._num_send_retries ≥ s._max_num_send_retries) := by omega
  simp only [_process_DL, hstate, if_true, _send_top_cmd, hq, List.length_cons, Nat.zero_lt_succ,
    gt_iff_lt, _transmit_cmd, front, List.headD_cons, hm, decide_True, ht, hn, if_false]

/-- C24. Successful cycle with unconditional dequeue: from state BeforeSend with
a non-empty queue (nothing left over in the reply queue or in `Serial1`, the
retry counter below its maximum), if the transmit succeeds (`Serial1.write`
reports the whole frame) and a complete reply arrives, three consecutive
`_process_DL` steps go BeforeSend, AfterSendBeforeReceive,
AfterReceiveBeforeProcess, BeforeSend; the head command stays in the queue
during the first two; the third step removes it, empties the reply queue and
sets the retry counter to 0, for every reply whatsoever; the commands behind the
head keep their order (what the reply processing enqueues comes after them). -/
theorem successful_cycle (s : Hub) (c : dlimsg_t) (rest : List dlimsg_t) (reply : List Nat)
    (t : Nat × Nat × Nat)
    (hstate : s._run_loop_state = STATE_BEFORE_SEND) (hq : s._cmd_queue = c :: rest)
    (hc : strlen c < 65536) (hretry : s._num_send_retries < s._max_num_send_retries)
    (hrq : s._dl_reply_queue = []) (hrx : s.serial_rx = [])
    (hbuf : s._reply_buffer.length = MAX_LEN_REPLY_BUFFER) (hr : complete_reply reply) :
    ((link_cycle s reply t).1._run_loop_state = STATE_AFTER_SEND_BEFORE_RCV
      ∧ (link_cycle s reply t).1._cmd_queue = c :: rest)
    ∧ ((link_cycle s reply t).2.1._run_loop_state = STATE_AFTER_RCV_BEFORE_PROCESS
      ∧ (link_cycle s reply t).2.1._cmd_queue = c :: rest
      ∧ (link_cycle s reply t).2.1._dl_reply_queue = [cstr reply ++ [0]])
    ∧ ((link_cycle s reply t).2.2._run_loop_state = STATE_BEFORE_SEND
      ∧ (link_cycle s reply t).2.2._dl_reply_queue = []
      ∧ (link_cycle s reply t).2.2._num_send_retries = 0
      ∧ ∃ extra, (link_cycle s reply t).2.2._cmd_queue = rest ++ extra) := by
  obtain ⟨body, rfl, hno, hn⟩ := hr
  have ea := step_send_any s c rest t.1 hstate hretry hq hc
  obtain ⟨B, _, eb⟩ := step_receive
    (serial_arrive (_process_DL s t.1 (strlen (front s._cmd_queue))) (body ++ [46])) body t.2.1 0
    (by rw [ea]; rfl) (by rw [ea]; exact hretry)
    (by rw [ea]; show s.serial_rx ++ (body ++ [46]) = body ++ [46]; rw [hrx]; rfl)
    (by rw [ea]; rfl) (by rw [ea]; exact hbuf) hno hn
  have ec := step_process
    (_process_DL (serial_arrive (_process_DL s t.1 (strlen (front s._cmd_queue))) (body ++ [46]))
      t.2.1 0) (cstr (body ++ [46]) ++ [0]) t.2.2 0
    (by rw [eb]) (by rw [eb, ea]; show 0 < s._max_num_send_retries; omega)
    (by rw [eb, ea]; show s._dl_reply_queue ++ [cstr (body ++ [46]) ++ [0]] = _; rw [hrq]; rfl)
  have el : link_cycle s (body ++ [46]) t =
      (_process_DL s t.1 (strlen (front s._cmd_queue)),
       _process_DL (serial_arrive (_process_DL s t.1 (strlen (front s._cmd_queue))) (body ++ [46]))
         t.2.1 0,
       _process_DL (_process_DL (serial_arrive (_process_DL s t.1 (strlen (front s._cmd_queue)))
         (body ++ [46])) t.2.1 0) t.2.2 0) := rfl
  rw [el]
  obtain ⟨c1, c2, _, c4, _, _, _, extra, c8⟩ := ec
  refine ⟨⟨?_, ?_⟩, ⟨?_, ?_, ?_⟩, c1, c4, c2, extra, ?_⟩
  · rw [ea]
  · rw [ea]; exact hq
  · rw [eb]
  · rw [eb, ea]; exact hq
  · rw [eb, ea]; show s._dl_reply_queue ++ _ = _; rw [hrq]; rfl
  · rw [c8, eb, ea]
    show (s._cmd_queue ++ extra).tail = _
    rw [hq]; rfl

theorem successful_cycle_witness :
    ((link_cycle (RetractTray (HubInterface 0)).2 (ascii "?.") (1, 2, 3)).1._run_loop_state
        = STATE_AFTER_SEND_BEFORE_RCV
      ∧ (link_cycle (RetractTray (HubInterface 0)).2 (ascii "?.") (1, 2, 3)).1._cmd_queue
          = [ascii "$0020X100." ++ [0]])
    ∧ ((link_cycle (RetractTray (HubInterface 0)).2 (ascii "?.") (1, 2, 3)).2.1._run_loop_state
        = STATE_AFTER_RCV_BEFORE_PROCESS
      ∧ (link_cycle (RetractTray (HubInterface 0)).2 (ascii "?.") (1, 2, 3)).2.1._cmd_queue
          = [ascii "$0020X100." ++ [0]]
      ∧ (link_cycle (RetractTray (HubInterface 0)).2 (ascii "?.") (1, 2, 3)).2.1._dl_reply_queue
          = [cstr (ascii "?.") ++ [0]])
    ∧ ((link_cycle (RetractTray (HubInterface 0)).2 (ascii "?.") (1, 2, 3)).2.2._run_loop_state
        = STATE_BEFORE_SEND
      ∧ (link_cycle (RetractTray (HubInterface 0)).2 (ascii "?.") (1, 2, 3)).2.2._dl_reply_queue
          = []
      ∧ (link_cycle (RetractTray (HubInterface 0)).2 (ascii "?.") (1, 2, 3)).2.2._num_send_retries
          = 0
      ∧ ∃ extra,
          (link_cycle (RetractTray (HubInterface 0)).2 (ascii "?.") (1, 2, 3)).2.2._cmd_queue
            = [] ++ extra) :=
  successful_cycle (RetractTray (HubInterface 0)).2 (ascii "$0020X100." ++ [0]) [] (ascii "?.")
    (1, 2, 3) (by decide) (by decide) (by decide) (by decide) (by decide) (by decide) (by decide)
    ⟨ascii "?", by decide, by decide, by decide⟩

/-! ## C25: the listen timeout -/

/-- The receive loop writes the inbound buffer, its length, the bytes waiting in
`Serial1` and the error code, and nothing else. -/
theorem receive_loop_writes : ∀ (rx : List Nat) (s : Hub),
    ∃ B n rx2 e, (_receive_cmd_loop rx s).1
      = { s with _reply_buffer := B, _len_reply_buffer := n, serial_rx := rx2, _error_code := e }
  | [], s => ⟨s._reply_buffer, s._len_reply_buffer, [], s._error_code, rfl⟩
  | b :: rest, s => by
    unfold _receive_cmd_loop
    by_cases h1 : s._len_reply_buffer ≥ MAX_LEN_REPLY_BUFFER - 1
    · rw [if_pos h1]
      exact ⟨s._reply_buffer, s._len_reply_buffer, b :: rest, ERROR_CMD_RECEIVED_TOO_LONG, rfl⟩
    · rw [if_neg h1]
      dsimp only
      split_ifs
      · exact ⟨_, _, _, s._error_code, rfl⟩
      · obtain ⟨B, n, rx2, e, h⟩ := receive_loop_writes rest
          { s with _reply_buffer := s._reply_buffer.set s._len_reply_buffer b,
                   _len_reply_buffer := s._len_reply_buffer + 1, serial_rx := rest }
        exact ⟨B, n, rx2, e, h⟩

/-- So does `_receive_cmd`. -/
theorem receive_cmd_writes (s : Hub) :
    ∃ B n rx2 e, (_receive_cmd s).2
      = { s with _reply_buffer := B, _len_reply_buffer := n, serial_rx := rx2, _error_code := e } := by
  obtain ⟨B, n, rx2, e, h⟩ := receive_loop_writes s.serial_rx s
  unfold _receive_cmd
  generalize _receive_cmd_loop s.serial_rx s = r at h ⊢
  obtain ⟨t, fl⟩ := r
  dsimp only at h ⊢
  subst h
  split_ifs
  · exact ⟨_, _, _, _, rfl⟩
  · exact ⟨_, _, _, _, rfl⟩
  · exact ⟨_, _, _, _, rfl⟩

/-- With no byte waiting, a `_receive_cmd` that returns `false` changes nothing. -/
theorem receive_cmd_idle (s : Hub) (hrx : s.serial_rx = []) (hnone : (_receive_cmd s).1 = none) :
    (_receive_cmd s).2 = s := by
  have e0 : ({ s with serial_rx := [] } : Hub) = s :=
    (congrArg (fun x => ({ s with serial_rx := x } : Hub)) hrx).symm
  have el : _receive_cmd_loop s.serial_rx s = (s, false) := by
    rw [hrx]
    unfold _receive_cmd_loop
    rw [e0]
  unfold _receive_cmd at hnone ⊢
  rw [el] at hnone ⊢
  dsimp only at hnone ⊢
  by_cases hc : s._len_reply_buffer > 0 ∧ byteAt s._reply_buffer (s._len_reply_buffer - 1) = 46
  · rw [if_neg (by decide), if_pos hc] at hnone
    exact absurd hnone (by simp)
  · rw [if_neg (by decide), if_neg hc]

/-- C25 (amended). Listen timeout: in state AfterSendBeforeReceive, a
`_process_DL` step whose `_receive_cmd` finds no complete reply, while
`now - listen-start` is at most the maximum listen time, does what that
`_receive_cmd` does and no more: it writes only the inbound buffer, its length,
the bytes waiting in `Serial1` and the error code (the bytes that have arrived
are moved into the buffer), so the state, the retry counter, the queues and the
listen-start time stay; with no byte waiting nothing changes at all.  Once
`now - listen-start` exceeds the maximum listen time, the step increments the
retry counter (an `unsigned char`), sets the inbound buffer length to 0 and
returns to BeforeSend; the head command stays in the queue unless the counter
thereby reaches the maximum, in which case it is removed and the counter is set
to 0. -/
theorem listen_timeout (s : Hub) (now written : Nat)
    (hstate : s._run_loop_state = STATE_AFTER_SEND_BEFORE_RCV)
    (hnone : (_receive_cmd s).1 = none)
    (hretry : s._num_send_retries < s._max_num_send_retries) :
    ((now + ULONG - s._start_listen) % ULONG ≤ s._max_listen_time →
        _process_DL s now written = (_receive_cmd s).2
        ∧ (∃ B n rx2 e, _process_DL s now written
            = { s with _reply_buffer := B, _len_reply_buffer := n, serial_rx := rx2,
                       _error_code := e })
        ∧ (s.serial_rx = [] → _process_DL s now written = s))
    ∧ ((now + ULONG - s._start_listen) % ULONG > s._max_listen_time →
        (_process_DL s now written)._run_loop_state = STATE_BEFORE_SEND
        ∧ (_process_DL s now written)._len_reply_buffer = 0
        ∧ ((s._num_send_retries + 1) % 256 < s._max_num_send_retries →
            (_process_DL s now written)._num_send_retries = (s._num_send_retries + 1) % 256
            ∧ (_process_DL s now written)._cmd_queue = s._cmd_queue)
        ∧ ((s._num_send_retries + 1) % 256 ≥ s._max_num_send_retries →
            (_process_DL s now written)._num_send_retries = 0
            ∧ (_process_DL s now written)._cmd_queue = s._cmd_queue.tail)) := by
  have h1 : ¬ (s._run_loop_state = STATE_BEFORE_SEND) := by rw [hstate]; decide
  obtain ⟨B, n, rx2, e, hw⟩ := receive_cmd_writes s
  have hidle := receive_cmd_idle s
  have hsw : process_DL_switch s now written
      = if (now + ULONG - s._start_listen) % ULONG > s._max_listen_time then
          { (_receive_cmd s).2 with
              _num_send_retries := (s._num_send_retries + 1) % 256,
              _run_loop_state := STATE_BEFORE_SEND, _len_reply_buffer := 0 }
        else (_receive_cmd s).2 := by
    unfold process_DL_switch
    rw [if_neg h1, if_pos hstate]
    generalize _receive_cmd s = r at hnone hw ⊢
    obtain ⟨o, s1⟩ := r
    dsimp only at hnone hw ⊢
    subst hnone
    subst hw
    rfl
  rw [process_DL_eq, hsw]
  generalize _receive_cmd s = r at hw hidle hnone ⊢
  obtain ⟨o, s1⟩ := r
  dsimp only at hw hidle hnone ⊢
  subst hw
  constructor
  · intro hle
    have hn : ¬ ((now + ULONG - s._start_listen) % ULONG > s._max_listen_time) := by omega
    rw [if_neg hn]
    have hk : ¬ (s._num_send_retries ≥ s._max_num_send_retries) := by omega
    rw [if_neg hk]
    exact ⟨rfl, ⟨B, n, rx2, e, rfl⟩, fun hrx => hidle hrx hnone⟩
  · intro hgt
    rw [if_pos hgt]
    by_cases hk : (s._num_send_retries + 1) % 256 ≥ s._max_num_send_retries
    · rw [if_pos hk]
      exact ⟨rfl, rfl, fun h => absurd hk (by omega), fun _ => ⟨rfl, rfl⟩⟩
    · rw [if_neg hk]
      exact ⟨rfl, rfl, fun _ => ⟨rfl, rfl⟩, fun h => absurd h hk⟩

theorem listen_timeout_witness :
    _process_DL listening_hub 120 0 = listening_hub
    ∧ (_process_DL listening_hub 121 0)._run_loop_state = STATE_BEFORE_SEND
    ∧ (_process_DL listening_hub 121 0)._len_reply_buffer = 0
    ∧ (_process_DL listening_hub 121 0)._num_send_retries = (0 + 1) % 256
    ∧ (_process_DL listening_hub 121 0)._cmd_queue = listening_hub._cmd_queue :=
  have h := (listen_timeout listening_hub 120 0 (by decide) (by decide) (by decide)).1 (by decide)
  have k := (listen_timeout listening_hub 121 0 (by decide) (by decide) (by decide)).2 (by decide)
  ⟨h.2.2 (by decide), k.1, k.2.1, (k.2.2.1 (by decide)).1, (k.2.2.1 (by decide)).2⟩

/-- C25, where the claim fails: a step taken 5 ms after the transmit, with the
first byte of the reply waiting in `Serial1`, finds no complete reply and is
within the listen time, yet it moves the byte into the inbound buffer: the
buffer length goes from 0 to 1 and `Serial1` is emptied. -/
theorem incomplete_reply_is_buffered :
    (serial_arrive listening_hub [36])._run_loop_state = STATE_AFTER_SEND_BEFORE_RCV
    ∧ (_receive_cmd (serial_arrive listening_hub [36])).1 = none
    ∧ (105 + ULONG - (serial_arrive listening_hub [36])._start_listen) % ULONG
        ≤ (serial_arrive listening_hub [36])._max_listen_time
    ∧ (serial_arrive listening_hub [36])._len_reply_buffer = 0
    ∧ (serial_arrive listening_hub [36]).serial_rx = [36]
    ∧ (_process_DL (serial_arrive listening_hub [36]) 105 0)._len_reply_buffer = 1
    ∧ (_process_DL (serial_arrive listening_hub [36]) 105 0).serial_rx = []
    ∧ _process_DL (serial_arrive listening_hub [36]) 105 0 ≠ serial_arrive listening_hub [36] :=
  ⟨by decide, by decide, by decide, by decide, by decide, by decide, by decide,
    fun e => absurd (congrArg Hub._len_reply_buffer e) (by decide)⟩

/-! ## C26: a reply received in pieces -/

theorem buffered_nil (s : Hub) (rest : List Nat) :
    buffered s [] rest = { s with serial_rx := rest } := by
  have e : s._reply_buffer.take s._len_reply_buffer ++ []
      ++ s._reply_buffer.drop (s._len_reply_buffer + ([] : List Nat).length) = s._reply_buffer := by
    simp
  unfold buffered
  rw [e]
  rfl

theorem buffered_cons (s : Hub) (b : Nat) (bytes rest x : List Nat)
    (h2 : s._len_reply_buffer < s._reply_buffer.length) :
    buffered { s with _reply_buffer := s._reply_buffer.set s._len_reply_buffer b,
                      _len_reply_buffer := s._len_reply_buffer + 1, serial_rx := x } bytes rest
      = buffered s (b :: bytes) rest := by
  have e1 : s._len_reply_buffer + 1 + bytes.length = s._len_reply_buffer + (b :: bytes).length := by
    simp only [List.length_cons]; omega
  have e2 : List.take (s._len_reply_buffer + 1) (s._reply_buffer.set s._len_reply_buffer b)
      = List.take s._len_reply_buffer s._reply_buffer ++ [b] := by
    rw [List.set_eq_take_append_cons_drop, if_pos h2, List.take_append_eq_append_take]
    simp [List.take_take, Nat.min_eq_left (Nat.le_of_lt h2)]
  have e3 : List.drop (s._len_reply_buffer + (b :: bytes).length)
        (s._reply_buffer.set s._len_reply_buffer b)
      = List.drop (s._len_reply_buffer + (b :: bytes).length) s._reply_buffer := by
    rw [List.drop_set_of_lt _ _ (by simp only [List.length_cons]; omega)]
  unfold buffered
  dsimp only
  rw [e1, e2, e3]
  simp only [List.append_assoc, List.singleton_append]

/-- What the receive loop does with the bytes waiting: it stops at a full
buffer (flag set), or reads them all, none being the `.`, or reads up to and
including the first `.`. -/
theorem receive_loop_cases : ∀ (rx : List Nat) (s : Hub),
    s._reply_buffer.length = 64 → s._len_reply_buffer ≤ 63 →
    (∃ pre rest2, rx = pre ++ rest2 ∧ rest2 ≠ [] ∧ 46 ∉ pre
        ∧ s._len_reply_buffer + pre.length = 63
        ∧ _receive_cmd_loop rx s
            = ({ buffered s pre rest2 with _error_code := ERROR_CMD_RECEIVED_TOO_LONG }, true))
    ∨ (46 ∉ rx ∧ s._len_reply_buffer + rx.length ≤ 63
        ∧ _receive_cmd_loop rx s = (buffered s rx [], false))
    ∨ (∃ pre post, rx = pre ++ 46 :: post ∧ 46 ∉ pre
        ∧ s._len_reply_buffer + pre.length + 1 ≤ 63
        ∧ _receive_cmd_loop rx s = (buffered s (pre ++ [46]) post, false))
  | [], s, _, hlen => by
    refine Or.inr (Or.inl ⟨by simp, by simpa using hlen, ?_⟩)
    rw [buffered_nil]
    rfl
  | b :: rest, s, hbuf, hlen => by
    by_cases h1 : s._len_reply_buffer ≥ MAX_LEN_REPLY_BUFFER - 1
    · left
      refine ⟨[], b :: rest, rfl, by simp, by simp, ?_, ?_⟩
      · unfold MAX_LEN_REPLY_BUFFER at h1
        simp only [List.length_nil]
        omega
      · unfold _receive_cmd_loop
        rw [if_pos h1, buffered_nil]
    · have hlt : s._len_reply_buffer < 63 := by unfold MAX_LEN_REPLY_BUFFER at h1; omega
      have h2 : s._len_reply_buffer < s._reply_buffer.length := by omega
      have hstep : _receive_cmd_loop (b :: rest) s
          = if b = 46 then
              ({ s with _reply_buffer := s._reply_buffer.set s._len_reply_buffer b,
                        _len_reply_buffer := s._len_reply_buffer + 1, serial_rx := rest }, false)
            else _receive_cmd_loop rest
              { s with _reply_buffer := s._reply_buffer.set s._len_reply_buffer b,
                       _len_reply_buffer := s._len_reply_buffer + 1, serial_rx := rest } := by
        rw [_receive_cmd_loop, if_neg h1]
        simp only [Nat.add_sub_cancel, byteAt, getD_set_self _ _ _ h2]
      rw [hstep]
      by_cases hb : b = 46
      · rw [if_pos hb]
        subst hb
        refine Or.inr (Or.inr ⟨[], rest, rfl, by simp, by simp only [List.length_nil]; omega, ?_⟩)
        rw [List.nil_append, ← buffered_cons s 46 [] rest rest h2, buffered_nil]
      · rw [if_neg hb]
        rcases receive_loop_cases rest
            { s with _reply_buffer := s._reply_buffer.set s._len_reply_buffer b,
                     _len_reply_buffer := s._len_reply_buffer + 1, serial_rx := rest }
            (by simp [hbuf]) (by show s._len_reply_buffer + 1 ≤ 63; omega)
          with ⟨pre, rest2, o1, o2, o3, o4, o5⟩ | ⟨n1, n2, n3⟩ | ⟨pre, post, p1, p2, p3, p4⟩
        · refine Or.inl ⟨b :: pre, rest2, by rw [o1]; rfl, o2, ?_, ?_, ?_⟩
          · simp only [List.mem_cons, not_or]
            exact ⟨fun h => hb h.symm, o3⟩
          · have : s._len_reply_buffer + 1 + pre.length = 63 := o4
            simp only [List.length_cons]
            omega
          · rw [o5, buffered_cons s b pre rest2 rest h2]
        · refine Or.inr (Or.inl ⟨?_, ?_, ?_⟩)
          · simp only [List.mem_cons, not_or]
            exact ⟨fun h => hb h.symm, n1⟩
          · have : s._len_reply_buffer + 1 + rest.length ≤ 63 := n2
            simp only [List.length_cons]
            omega
          · rw [n3, buffered_cons s b rest [] rest h2]
        · refine Or.inr (Or.inr ⟨b :: pre, post, by rw [p1]; rfl, ?_, ?_, ?_⟩)
          · simp only [List.mem_cons, not_or]
            exact ⟨fun h => hb h.symm, p2⟩
          · have : s._len_reply_buffer + 1 + pre.length + 1 ≤ 63 := p3
            simp only [List.length_cons]
            omega
          · rw [p4, buffered_cons s b (pre ++ [46]) post rest h2]
            rfl

theorem receive_cmd_eq (s t : Hub) (hl : _receive_cmd_loop s.serial_rx s = (t, false)) :
    _receive_cmd s
      = if t._len_reply_buffer > 0 ∧ byteAt t._reply_buffer (t._len_reply_buffer - 1) = 46 then
          (some (cstr (t._reply_buffer.set t._len_reply_buffer 0) ++ [0]),
           { t with _reply_buffer := t._reply_buffer.set t._len_reply_buffer 0,
                    _len_reply_buffer := 0 })
        else (none, t) := by
  unfold _receive_cmd
  rw [hl]
  rfl

theorem mid_getD (A M C : List Nat) (k : Nat) (hk : k < M.length) :
    (A ++ M ++ C).getD (A.length + k) 0 = M.getD k 0 := by
  rw [List.append_assoc, List.getD_eq_getElem?_getD, List.getD_eq_getElem?_getD,
    List.getElem?_append_right (Nat.le_add_right _ _), Nat.add_sub_cancel_left,
    List.getElem?_append_left hk]

/-- The last byte of the inbound buffer after bytes have been read into it. -/
theorem buffered_last (s : Hub) (init rest : List Nat) (z : Nat)
    (hlen : s._len_reply_buffer ≤ s._reply_buffer.length) :
    byteAt (buffered s (init ++ [z]) rest)._reply_buffer
      ((buffered s (init ++ [z]) rest)._len_reply_buffer - 1) = z := by
  have hA : (s._reply_buffer.take s._len_reply_buffer).length = s._len_reply_buffer := by
    rw [List.length_take]; omega
  have hi : s._len_reply_buffer + (init ++ [z]).length - 1
      = (s._reply_buffer.take s._len_reply_buffer).length + init.length := by
    rw [hA]; simp only [List.length_append, List.length_singleton]; omega
  show byteAt (s._reply_buffer.take s._len_reply_buffer ++ (init ++ [z])
      ++ s._reply_buffer.drop (s._len_reply_buffer + (init ++ [z]).length))
      (s._len_reply_buffer + (init ++ [z]).length - 1) = z
  unfold byteAt
  rw [hi, mid_getD _ _ _ _ (by simp)]
  simp [List.getD_eq_getElem?_getD]

/-- Reading bytes other than `.` leaves the buffer without a closing `.`. -/
theorem buffered_open (s : Hub) (rx rest : List Nat)
    (hlen : s._len_reply_buffer ≤ s._reply_buffer.length) (hno : 46 ∉ rx)
    (hopen : s._len_reply_buffer = 0 ∨ byteAt s._reply_buffer (s._len_reply_buffer - 1) ≠ 46) :
    ¬ ((buffered s rx rest)._len_reply_buffer > 0
        ∧ byteAt (buffered s rx rest)._reply_buffer ((buffered s rx rest)._len_reply_buffer - 1)
            = 46) := by
  rcases List.eq_nil_or_concat rx with rfl | ⟨init, z, rfl⟩
  · rw [buffered_nil]
    intro h
    have h1 : s._len_reply_buffer > 0 := h.1
    have h2 : byteAt s._reply_buffer (s._len_reply_buffer - 1) = 46 := h.2
    rcases hopen with h0 | h0
    · omega
    · exact h0 h2
  · rw [List.concat_eq_append] at hno ⊢
    rw [buffered_last s init rest z hlen]
    intro h
    exact hno (by rw [← h.2]; simp)

/-- The string `strcpy` finds in the buffer once the closing NUL is stored. -/
theorem buffered_string (s : Hub) (bytes rest : List Nat)
    (hbuf : s._reply_buffer.length = 64) (hfit : s._len_reply_buffer + bytes.length ≤ 63) :
    cstr ((buffered s bytes rest)._reply_buffer.set (buffered s bytes rest)._len_reply_buffer 0)
      = cstr (s._reply_buffer.take s._len_reply_buffer ++ bytes) := by
  have hA : (s._reply_buffer.take s._len_reply_buffer).length = s._len_reply_buffer := by
    rw [List.length_take]; omega
  have hl : (s._reply_buffer.take s._len_reply_buffer ++ bytes).length
      = s._len_reply_buffer + bytes.length := by
    rw [List.length_append, hA]
  have hd : s._reply_buffer.drop (s._len_reply_buffer + bytes.length)
      = s._reply_buffer.getD (s._len_reply_buffer + bytes.length) 0
        :: s._reply_buffer.drop (s._len_reply_buffer + bytes.length + 1) := by
    have hlt : s._len_reply_buffer + bytes.length < s._reply_buffer.length := by omega
    rw [List.getD_eq_getElem?_getD, List.getElem?_eq_getElem hlt]
    exact List.drop_eq_getElem_cons hlt
  show cstr ((s._reply_buffer.take s._len_reply_buffer ++ bytes
      ++ s._reply_buffer.drop (s._len_reply_buffer + bytes.length)).set
        (s._len_reply_buffer + bytes.length) 0) = _
  rw [List.set_append_right _ _ (by rw [hl]), hl, Nat.sub_self, hd, List.set_cons_zero,
    cstr_append_nul_any]

theorem buffered_length (s : Hub) (bytes rest : List Nat)
    (hbuf : s._reply_buffer.length = 64) (hfit : s._len_reply_buffer + bytes.length ≤ 64) :
    (buffered s bytes rest)._reply_buffer.length = 64 := by
  show (s._reply_buffer.take s._len_reply_buffer ++ bytes
      ++ s._reply_buffer.drop (s._len_reply_buffer + bytes.length)).length = 64
  simp only [List.length_append, List.length_take, List.length_drop, hbuf]
  omega

/-- A `_receive_cmd` that finds no `.` among the bytes waiting, all of which fit
in the buffer: it returns `false` and has stored them. -/
theorem receive_cmd_more (s : Hub) (hbuf : s._reply_buffer.length = 64)
    (hno : 46 ∉ s.serial_rx) (hfit : s._len_reply_buffer + s.serial_rx.length ≤ 63)
    (hopen : s._len_reply_buffer = 0 ∨ byteAt s._reply_buffer (s._len_reply_buffer - 1) ≠ 46) :
    _receive_cmd s = (none, buffered s s.serial_rx []) := by
  rcases receive_loop_cases s.serial_rx s hbuf (by omega)
    with ⟨pre, rest2, o1, o2, _, o4, _⟩ | ⟨_, _, n3⟩ | ⟨pre, post, p1, _, _, _⟩
  · have hl : s.serial_rx.length = pre.length + rest2.length := by rw [o1, List.length_append]
    have : 0 < rest2.length := List.length_pos.mpr o2
    omega
  · rw [receive_cmd_eq s _ n3, if_neg (buffered_open s _ [] (by omega) hno hopen)]
  · exact absurd (by rw [p1]; simp) hno

/-- A `_receive_cmd` that finds the `.` closing the bytes waiting: it returns the
string accumulated in the buffer, the `.` included. -/
theorem receive_cmd_final (s : Hub) (body : List Nat) (hrx : s.serial_rx = body ++ [46])
    (hbuf : s._reply_buffer.length = 64) (hno : 46 ∉ body)
    (hfit : s._len_reply_buffer + body.length + 1 ≤ 63) :
    (_receive_cmd s).1
        = some (cstr (s._reply_buffer.take s._len_reply_buffer ++ (body ++ [46])) ++ [0])
    ∧ (_receive_cmd s).2._len_reply_buffer = 0 ∧ (_receive_cmd s).2.serial_rx = [] := by
  have hl : _receive_cmd_loop s.serial_rx s = (buffered s (body ++ [46]) [], false) := by
    have e : (body ++ [46]).length = body.length + 1 := by simp
    rw [hrx, receive_loop_spec body s hfit hbuf hno]
    unfold buffered
    rw [e]
    rfl
  have hc : (buffered s (body ++ [46]) [])._len_reply_buffer > 0
      ∧ byteAt (buffered s (body ++ [46]) [])._reply_buffer
          ((buffered s (body ++ [46]) [])._len_reply_buffer - 1) = 46 := by
    refine ⟨?_, buffered_last s body [] 46 (by omega)⟩
    show s._len_reply_buffer + (body ++ [46]).length > 0
    simp
  have hf : s._len_reply_buffer + (body ++ [46]).length ≤ 63 := by
    simp only [List.length_append, List.length_singleton]
    omega
  rw [receive_cmd_eq s _ hl, if_pos hc, buffered_string s (body ++ [46]) [] hbuf hf]
  exact ⟨rfl, rfl, rfl⟩

/-- A `_receive_cmd` that returns `true` has read a `.` in this call. -/
theorem receive_cmd_some (s : Hub) (m : dlimsg_t) (hbuf : s._reply_buffer.length = 64)
    (hlen : s._len_reply_buffer ≤ 63)
    (hopen : s._len_reply_buffer = 0 ∨ byteAt s._reply_buffer (s._len_reply_buffer - 1) ≠ 46)
    (hm : (_receive_cmd s).1 = some m) :
    ∃ pre post, s.serial_rx = pre ++ 46 :: post ∧ 46 ∉ pre
      ∧ m = cstr (s._reply_buffer.take s._len_reply_buffer ++ (pre ++ [46])) ++ [0]
      ∧ (_receive_cmd s).2._len_reply_buffer = 0 ∧ (_receive_cmd s).2.serial_rx = post := by
  rcases receive_loop_cases s.serial_rx s hbuf hlen
    with ⟨pre, rest2, _, _, _, _, o5⟩ | ⟨n1, _, n3⟩ | ⟨pre, post, p1, p2, p3, p4⟩
  · have e : _receive_cmd s
        = (none, { buffered s pre rest2 with _error_code := ERROR_CMD_RECEIVED_TOO_LONG }) := by
      unfold _receive_cmd
      rw [o5]
      rfl
    rw [e] at hm
    exact absurd hm (by simp)
  · rw [receive_cmd_eq s _ n3, if_neg (buffered_open s _ [] (by omega) n1 hopen)] at hm
    exact absurd hm (by simp)
  · have hc : (buffered s (pre ++ [46]) post)._len_reply_buffer > 0
        ∧ byteAt (buffered s (pre ++ [46]) post)._reply_buffer
            ((buffered s (pre ++ [46]) post)._len_reply_buffer - 1) = 46 := by
      refine ⟨?_, buffered_last s pre post 46 (by omega)⟩
      show s._len_reply_buffer + (pre ++ [46]).length > 0
      simp
    have hf : s._len_reply_buffer + (pre ++ [46]).length ≤ 63 := by
      simp only [List.length_append, List.length_singleton]
      omega
    rw [receive_cmd_eq s _ p4, if_pos hc, buffered_string s (pre ++ [46]) post hbuf hf] at hm ⊢
    refine ⟨pre, post, p1, p2, ?_, rfl, rfl⟩
    exact (Option.some.inj hm).symm

/-- Between calls the inbound buffer holds at most 63 bytes and does not end in
a `.`: `_receive_cmd` keeps it so. -/
theorem receive_cmd_open (s : Hub) (hbuf : s._reply_buffer.length = 64)
    (hlen : s._len_reply_buffer ≤ 63)
    (hopen : s._len_reply_buffer = 0 ∨ byteAt s._reply_buffer (s._len_reply_buffer - 1) ≠ 46) :
    (_receive_cmd s).2._reply_buffer.length = 64
    ∧ (_receive_cmd s).2._len_reply_buffer ≤ 63
    ∧ ((_receive_cmd s).2._len_reply_buffer = 0
        ∨ byteAt (_receive_cmd s).2._reply_buffer ((_receive_cmd s).2._len_reply_buffer - 1)
            ≠ 46) := by
  rcases receive_loop_cases s.serial_rx s hbuf hlen
    with ⟨pre, rest2, _, _, o3, o4, o5⟩ | ⟨n1, n2, n3⟩ | ⟨pre, post, p1, p2, p3, p4⟩
  · have e : _receive_cmd s
        = (none, { buffered s pre rest2 with _error_code := ERROR_CMD_RECEIVED_TOO_LONG }) := by
      unfold _receive_cmd
      rw [o5]
      rfl
    rw [e]
    have ho := buffered_open s pre rest2 (by omega) o3 hopen
    refine ⟨buffered_length s pre rest2 hbuf (by omega), ?_, ?_⟩
    · show s._len_reply_buffer + pre.length ≤ 63
      omega
    · by_cases h0 : (buffered s pre rest2)._len_reply_buffer = 0
      · exact Or.inl h0
      · exact Or.inr fun h => ho ⟨Nat.pos_of_ne_zero h0, h⟩
  · have ho := buffered_open s s.serial_rx [] (by omega) n1 hopen
    rw [receive_cmd_eq s _ n3, if_neg ho]
    refine ⟨buffered_length s _ [] hbuf (by omega), n2, ?_⟩
    by_cases h0 : (buffered s s.serial_rx [])._len_reply_buffer = 0
    · exact Or.inl h0
    · exact Or.inr fun h => ho ⟨Nat.pos_of_ne_zero h0, h⟩
  · have hc : (buffered s (pre ++ [46]) post)._len_reply_buffer > 0
        ∧ byteAt (buffered s (pre ++ [46]) post)._reply_buffer
            ((buffered s (pre ++ [46]) post)._len_reply_buffer - 1) = 46 := by
      refine ⟨?_, buffered_last s pre post 46 (by omega)⟩
      show s._len_reply_buffer + (pre ++ [46]).length > 0
      simp
    have hf : s._len_reply_buffer + (pre ++ [46]).length ≤ 64 := by
      simp only [List.length_append, List.length_singleton]
      omega
    rw [receive_cmd_eq s _ p4, if_pos hc]
    refine ⟨?_, Nat.zero_le _, Or.inl rfl⟩
    show ((buffered s (pre ++ [46]) post)._reply_buffer.set _ 0).length = 64
    rw [List.length_set]
    exact buffered_length s _ post hbuf hf

theorem take_open (buf : List Nat) (n : Nat) (hn : n ≤ buf.length) (h : 46 ∉ buf.take n) :
    n = 0 ∨ byteAt buf (n - 1) ≠ 46 := by
  rcases Nat.eq_zero_or_pos n with h0 | h0
  · exact Or.inl h0
  · refine Or.inr fun e => h ?_
    have hlt : n - 1 < buf.length := by omega
    have hg : byteAt buf (n - 1) = buf[n - 1] := by
      unfold byteAt
      rw [List.getD_eq_getElem?_getD, List.getElem?_eq_getElem hlt]
      rfl
    rw [← e, hg]
    exact List.mem_take_iff_getElem.mpr ⟨n - 1, by omega, rfl⟩

/-- A reply fed to successive `_receive_cmd` calls in pieces: `false` for every
piece before the one that ends in the `.`, then the whole string. -/
theorem receive_chunks_spec : ∀ (init : List (List Nat)) (s : Hub) (last : List Nat),
    s.serial_rx = [] → s._reply_buffer.length = 64 →
    46 ∉ s._reply_buffer.take s._len_reply_buffer → 46 ∉ init.flatten → 46 ∉ last →
    s._len_reply_buffer + init.flatten.length + last.length + 1 ≤ 63 →
    (receive_chunks s (init ++ [last ++ [46]])).1
        = List.replicate init.length none
          ++ [some (cstr (s._reply_buffer.take s._len_reply_buffer
                ++ (init.flatten ++ last ++ [46])) ++ [0])]
    ∧ (receive_chunks s (init ++ [last ++ [46]])).2._len_reply_buffer = 0
    ∧ (receive_chunks s (init ++ [last ++ [46]])).2.serial_rx = []
  | [], s, last, hrx, hbuf, _, _, hlast, hfit => by
    have hr : (serial_arrive s (last ++ [46])).serial_rx = last ++ [46] := by
      show s.serial_rx ++ (last ++ [46]) = _
      rw [hrx]; rfl
    obtain ⟨a, b, c⟩ := receive_cmd_final (serial_arrive s (last ++ [46])) last hr hbuf hlast
      (by
        show s._len_reply_buffer + last.length + 1 ≤ 63
        simp only [List.flatten_nil, List.length_nil] at hfit
        omega)
    have e : receive_chunks s ([] ++ [last ++ [46]])
        = ([(_receive_cmd (serial_arrive s (last ++ [46]))).1],
           (_receive_cmd (serial_arrive s (last ++ [46]))).2) := rfl
    rw [e]
    refine ⟨?_, b, c⟩
    rw [a]
    simp only [List.flatten_nil, List.nil_append, List.length_nil, List.replicate_zero]
    rfl
  | c :: init, s, last, hrx, hbuf, hacc, hinit, hlast, hfit => by
    have hj : (c :: init).flatten = c ++ init.flatten := rfl
    rw [hj] at hinit hfit
    have hc : 46 ∉ c := fun h => hinit (List.mem_append_left _ h)
    have hi : 46 ∉ init.flatten := fun h => hinit (List.mem_append_right _ h)
    rw [List.length_append] at hfit
    have hr : (serial_arrive s c).serial_rx = c := by
      show s.serial_rx ++ c = _
      rw [hrx]; rfl
    have hp := receive_cmd_more (serial_arrive s c) hbuf (by rw [hr]; exact hc)
      (by rw [hr]; show s._len_reply_buffer + c.length ≤ 63; omega)
      (take_open _ _ (by show s._len_reply_buffer ≤ s._reply_buffer.length; omega) hacc)
    rw [hr] at hp
    have hA : (s._reply_buffer.take s._len_reply_buffer).length = s._len_reply_buffer := by
      rw [List.length_take]; omega
    have ht : (buffered (serial_arrive s c) c [])._reply_buffer.take
          (buffered (serial_arrive s c) c [])._len_reply_buffer
        = s._reply_buffer.take s._len_reply_buffer ++ c := by
      show (s._reply_buffer.take s._len_reply_buffer ++ c
          ++ s._reply_buffer.drop (s._len_reply_buffer + c.length)).take
            (s._len_reply_buffer + c.length) = _
      rw [List.take_append_eq_append_take, List.take_of_length_le (by
        rw [List.length_append, hA])]
      simp [List.length_append, hA]
    obtain ⟨a, b, d⟩ := receive_chunks_spec init (buffered (serial_arrive s c) c []) last rfl
      (buffered_length _ c [] hbuf (by show s._len_reply_buffer + c.length ≤ 64; omega))
      (by
        rw [ht]
        intro h
        rcases List.mem_append.mp h with h | h
        · exact hacc h
        · exact hc h)
      hi hlast
      (by show s._len_reply_buffer + c.length + init.flatten.length + last.length + 1 ≤ 63; omega)
    have e : receive_chunks s (c :: init ++ [last ++ [46]])
        = ((_receive_cmd (serial_arrive s c)).1
            :: (receive_chunks (_receive_cmd (serial_arrive s c)).2 (init ++ [last ++ [46]])).1,
           (receive_chunks (_receive_cmd (serial_arrive s c)).2 (init ++ [last ++ [46]])).2) := rfl
    rw [e, hp]
    dsimp only
    refine ⟨?_, b, d⟩
    rw [a, ht]
    simp only [List.length_cons, List.replicate_succ, List.cons_append, List.append_assoc, hj]

/-- C26, amended.  Receive completeness and chunking invariance, for replies
without a NUL byte.  The state is one between calls: the inbound buffer has its
64 bytes, holds fewer than 64 and does not end in a `.` (`_receive_cmd` keeps it
so).  Then `_receive_cmd` returns `true` only on a call in which a `.` has been
read from `Serial1`; what it returns is the C string that `strcpy` copies out of
the bytes accumulated in the buffer since the last reset followed by the bytes
read up to and including the first `.`, which is exactly these bytes when none
of them is NUL; and it sets the buffer length to 0.  For a reply of at most 63
bytes with no NUL byte (a text with no `.` before its last byte), every way of
splitting its bytes across successive `_receive_cmd` calls, from an empty
buffer, yields `false` on every call before the piece that ends in the `.` and
the same message, the whole reply, on the call that reads it. -/
theorem receive_completeness (s : Hub) (body : List Nat) (init : List (List Nat))
    (last : List Nat)
    (hbuf : s._reply_buffer.length = MAX_LEN_REPLY_BUFFER)
    (hlen : s._len_reply_buffer < MAX_LEN_REPLY_BUFFER)
    (hopen : s._len_reply_buffer = 0 ∨ byteAt s._reply_buffer (s._len_reply_buffer - 1) ≠ 46) :
    (∀ m, (_receive_cmd s).1 = some m →
        ∃ pre post, s.serial_rx = pre ++ 46 :: post ∧ 46 ∉ pre
          ∧ m = cstr (s._reply_buffer.take s._len_reply_buffer ++ (pre ++ [46])) ++ [0]
          ∧ (0 ∉ s._reply_buffer.take s._len_reply_buffer ++ pre →
              m = s._reply_buffer.take s._len_reply_buffer ++ (pre ++ [46]) ++ [0])
          ∧ (_receive_cmd s).2._len_reply_buffer = 0 ∧ (_receive_cmd s).2.serial_rx = post)
    ∧ ((_receive_cmd s).2._reply_buffer.length = MAX_LEN_REPLY_BUFFER
        ∧ (_receive_cmd s).2._len_reply_buffer < MAX_LEN_REPLY_BUFFER
        ∧ ((_receive_cmd s).2._len_reply_buffer = 0
          ∨ byteAt (_receive_cmd s).2._reply_buffer ((_receive_cmd s).2._len_reply_buffer - 1)
              ≠ 46))
    ∧ (s._len_reply_buffer = 0 → s.serial_rx = [] → init.flatten ++ last = body →
        46 ∉ body → 0 ∉ body → body.length ≤ 62 →
        (receive_chunks s (init ++ [last ++ [46]])).1
            = List.replicate init.length none ++ [some (body ++ [46] ++ [0])]
        ∧ (receive_chunks s (init ++ [last ++ [46]])).2._len_reply_buffer = 0) := by
  have hlen2 : s._len_reply_buffer ≤ 63 := by unfold MAX_LEN_REPLY_BUFFER at hlen; omega
  refine ⟨?_, ?_, ?_⟩
  · intro m hm
    obtain ⟨pre, post, a, b, c, d, e⟩ := receive_cmd_some s m hbuf hlen2 hopen hm
    refine ⟨pre, post, a, b, c, ?_, d, e⟩
    intro h0
    rw [c, cstr_of_no_nul]
    intro x hx
    rw [← List.append_assoc] at hx
    rcases List.mem_append.mp hx with hx | hx
    · exact fun e0 => h0 (e0 ▸ hx)
    · rw [List.mem_singleton] at hx
      omega
  · obtain ⟨a, b, c⟩ := receive_cmd_open s hbuf hlen2 hopen
    exact ⟨a, by unfold MAX_LEN_REPLY_BUFFER; omega, c⟩
  · intro h0 hrx hsplit hdot hnul hn
    subst hsplit
    have hi : 46 ∉ init.flatten := fun h => hdot (List.mem_append_left _ h)
    have hl : 46 ∉ last := fun h => hdot (List.mem_append_right _ h)
    rw [List.length_append] at hn
    obtain ⟨a, b, _⟩ := receive_chunks_spec init s last hrx hbuf (by rw [h0]; simp) hi hl
      (by rw [h0]; omega)
    refine ⟨?_, b⟩
    rw [a, h0, List.take_zero, List.nil_append, cstr_of_no_nul]
    intro x hx
    rcases List.mem_append.mp hx with hx | hx
    · exact fun e0 => hnul (e0 ▸ hx)
    · rw [List.mem_singleton] at hx
      omega

/-- C26 fails as stated.  The bytes `$0010Z1`, NUL, `.` arrive in one piece on
an empty buffer: `_receive_cmd` returns `true`, and the message it returns is
`$0010Z1`, the `strcpy` of the buffer, which stops at the NUL: not the bytes
accumulated up to and including the `.`.  Split after the NUL, the same bytes
give `false` and then the same cut message. -/
theorem nul_byte_cuts_the_returned_message :
    (_receive_cmd (serial_arrive (HubInterface 0) (ascii "$0010Z1" ++ [0] ++ [46]))).1
        = some (ascii "$0010Z1" ++ [0])
    ∧ ascii "$0010Z1" ++ [0] ≠ (ascii "$0010Z1" ++ [0] ++ [46]) ++ [0]
    ∧ (_receive_cmd (serial_arrive (HubInterface 0)
        (ascii "$0010Z1" ++ [0] ++ [46]))).2._len_reply_buffer = 0
    ∧ (receive_chunks (HubInterface 0) [ascii "$0010Z1" ++ [0], [46]]).1
        = [none, some (ascii "$0010Z1" ++ [0])] := by
  decide

theorem receive_completeness_witness :
    (receive_chunks (HubInterface 0) ([ascii "$00", [], ascii "01X"] ++ [ascii "1" ++ [46]])).1
        = List.replicate 3 none ++ [some (ascii "$0001X1" ++ [46] ++ [0])]
    ∧ (receive_chunks (HubInterface 0)
        ([ascii "$00", [], ascii "01X"] ++ [ascii "1" ++ [46]])).2._len_reply_buffer = 0 :=
  (receive_completeness (HubInterface 0) (ascii "$0001X1") [ascii "$00", [], ascii "01X"]
    (ascii "1") (by decide) (by decide) (by decide)).2.2 (by decide) (by decide) (by decide)
    (by decide) (by decide) (by decide)

/-! ## C27: the touch event on a rising edge -/

theorem touch_events_added (a b : Nat) (q added : List dlimsg_t)
    (h : ∀ f ∈ added, byteAt f 5 = 80 ∧ byteAt f 7 = 48 + b) :
    touch_events a (q ++ added) = touch_events a q + if a = b then added.length else 0 := by
  unfold touch_events
  rw [List.countP_append]
  by_cases hab : a = b
  · rw [if_pos hab]
    subst hab
    have : List.countP (is_audio_cmd a) added = added.length := by
      rw [List.countP_eq_length]
      intro f hf
      simp [is_audio_cmd, (h f hf).1, (h f hf).2]
    omega
  · rw [if_neg hab]
    have : List.countP (is_audio_cmd a) added = 0 := by
      rw [List.countP_eq_zero]
      intro f hf
      have := (h f hf).2
      simp [is_audio_cmd, this]
      omega
    omega

/-- The left block of `_update_button_pressed_state`, with the touch sounds on. -/
theorem update_left_button_edge (s : Hub) (now l : Nat) (hseq : s._packet_number < 9)
    (haud : s._audio_enabled = true) (hbtn : s._button_audio_enabled = true)
    (hamp : s._button_audio_amplitude < 256) (hmax : s._audio_amplitude_max < 256) :
    (touch_env (update_left_button s now l) = touch_env s
      ∧ (update_left_button s now l)._packet_number < 9)
    ∧ ((update_left_button s now l)._m_button_state, (update_left_button s now l)._m_button_timeout,
        (update_left_button s now l)._r_button_state, (update_left_button s now l)._r_button_timeout)
        = (s._m_button_state, s._m_button_timeout, s._r_button_state, s._r_button_timeout)
    ∧ (∃ added, (update_left_button s now l)._cmd_queue = s._cmd_queue ++ added
        ∧ (∀ f ∈ added, byteAt f 5 = 80 ∧ byteAt f 7 = 48 + AUDIO_L)
        ∧ added.length = if l ≠ 0 ∧ s._l_button_state = false then 1 else 0)
    ∧ (l ≠ 0 → (update_left_button s now l)._l_button_state = true
        ∧ (update_left_button s now l)._l_button_timeout = (now + s._button_liftoff_ms) % ULONG)
    ∧ (l = 0 →
        (update_left_button s now l)._l_button_state
            = (if now > s._l_button_timeout then false else s._l_button_state)
        ∧ (update_left_button s now l)._l_button_timeout = s._l_button_timeout) := by
  unfold update_left_button
  dsimp only
  by_cases h1 : l ≠ 0
  · rw [if_pos h1]
    by_cases h2 : (s._l_button_state == false) = true
    · have hs : s._l_button_state = false := by simpa using h2
      rw [if_pos h2, if_pos (by rw [hbtn]; rfl)]
      obtain ⟨f, hf⟩ := (audio_push
        { s with _l_button_timeout := (now + s._button_liftoff_ms) % ULONG, _l_button_state := true }
        AUDIO_L s._button_audio_amplitude 0 haud hmax (by decide) hamp (by decide)).1
      obtain ⟨_, _, added, p3, p4⟩ := PlayAudio_spec
        { s with _l_button_timeout := (now + s._button_liftoff_ms) % ULONG, _l_button_state := true }
        AUDIO_L s._button_audio_amplitude (by decide) hseq
      rw [hf] at p3 ⊢
      have ha : added = [f] := (List.append_cancel_left p3).symm
      subst ha
      refine ⟨⟨rfl, Nat.mod_lt _ (by decide)⟩, rfl, ⟨[f], rfl, p4, ?_⟩, fun _ => ⟨rfl, rfl⟩,
        fun h => absurd h h1⟩
      rw [if_pos ⟨h1, hs⟩]
      rfl
    · have hs : ¬ (s._l_button_state = false) := by simpa using h2
      rw [if_neg h2]
      refine ⟨⟨rfl, hseq⟩, rfl, ⟨[], by simp, by simp, ?_⟩, fun _ => ⟨by simpa using hs, rfl⟩,
        fun h => absurd h h1⟩
      rw [if_neg (fun h => hs h.2)]
      rfl
  · rw [if_neg h1]
    have hl : l = 0 := not_not.mp h1
    by_cases h4 : now > s._l_button_timeout
    · rw [if_pos h4]
      refine ⟨⟨rfl, hseq⟩, rfl, ⟨[], by simp, by simp, ?_⟩, fun h => absurd hl h,
        fun _ => ⟨by rw [if_pos h4], rfl⟩⟩
      rw [if_neg (fun h => h.1 hl)]
      rfl
    · rw [if_neg h4]
      refine ⟨⟨rfl, hseq⟩, rfl, ⟨[], by simp, by simp, ?_⟩, fun h => absurd hl h,
        fun _ => ⟨by rw [if_neg h4], rfl⟩⟩
      rw [if_neg (fun h => h.1 hl)]
      rfl

/-- The middle block of `_update_button_pressed_state`, with the touch sounds on. -/
theorem update_middle_button_edge (s : Hub) (now l : Nat) (hseq : s._packet_number < 9)
    (haud : s._audio_enabled = true) (hbtn : s._button_audio_enabled = true)
    (hamp : s._button_audio_amplitude < 256) (hmax : s._audio_amplitude_max < 256) :
    (touch_env (update_middle_button s now l) = touch_env s
      ∧ (update_middle_button s now l)._packet_number < 9)
    ∧ ((update_middle_button s now l)._l_button_state, (update_middle_button s now l)._l_button_timeout,
        (update_middle_button s now l)._r_button_state, (update_middle_button s now l)._r_button_timeout)
        = (s._l_button_state, s._l_button_timeout, s._r_button_state, s._r_button_timeout)
    ∧ (∃ added, (update_middle_button s now l)._cmd_queue = s._cmd_queue ++ added
        ∧ (∀ f ∈ added, byteAt f 5 = 80 ∧ byteAt f 7 = 48 + AUDIO_M)
        ∧ added.length = if l ≠ 0 ∧ s._m_button_state = false then 1 else 0)
    ∧ (l ≠ 0 → (update_middle_button s now l)._m_button_state = true
        ∧ (update_middle_button s now l)._m_button_timeout = (now + s._button_liftoff_ms) % ULONG)
    ∧ (l = 0 →
        (update_middle_button s now l)._m_button_state
            = (if now > s._m_button_timeout then false else s._m_button_state)
        ∧ (update_middle_button s now l)._m_button_timeout = s._m_button_timeout) := by
  unfold update_middle_button
  dsimp only
  by_cases h1 : l ≠ 0
  · rw [if_pos h1]
    by_cases h2 : (s._m_button_state == false) = true
    · have hs : s._m_button_state = false := by simpa using h2
      rw [if_pos h2, if_pos (by rw [hbtn]; rfl)]
      obtain ⟨f, hf⟩ := (audio_push
        { s with _m_button_timeout := (now + s._button_liftoff_ms) % ULONG, _m_button_state := true }
        AUDIO_M s._button_audio_amplitude 0 haud hmax (by decide) hamp (by decide)).1
      obtain ⟨_, _, added, p3, p4⟩ := PlayAudio_spec
        { s with _m_button_timeout := (now + s._button_liftoff_ms) % ULONG, _m_button_state := true }
        AUDIO_M s._button_audio_amplitude (by decide) hseq
      rw [hf] at p3 ⊢
      have ha : added = [f] := (List.append_cancel_left p3).symm
      subst ha
      refine ⟨⟨rfl, Nat.mod_lt _ (by decide)⟩, rfl, ⟨[f], rfl, p4, ?_⟩, fun _ => ⟨rfl, rfl⟩,
        fun h => absurd h h1⟩
      rw [if_pos ⟨h1, hs⟩]
      rfl
    · have hs : ¬ (s._m_button_state = false) := by simpa using h2
      rw [if_neg h2]
      refine ⟨⟨rfl, hseq⟩, rfl, ⟨[], by simp, by simp, ?_⟩, fun _ => ⟨by simpa using hs, rfl⟩,
        fun h => absurd h h1⟩
      rw [if_neg (fun h => hs h.2)]
      rfl
  · rw [if_neg h1]
    have hl : l = 0 := not_not.mp h1
    by_cases h4 : now > s._m_button_timeout
    · rw [if_pos h4]
      refine ⟨⟨rfl, hseq⟩, rfl, ⟨[], by simp, by simp, ?_⟩, fun h => absurd hl h,
        fun _ => ⟨by rw [if_pos h4], rfl⟩⟩
      rw [if_neg (fun h => h.1 hl)]
      rfl
    · rw [if_neg h4]
      refine ⟨⟨rfl, hseq⟩, rfl, ⟨[], by simp, by simp, ?_⟩, fun h => absurd hl h,
        fun _ => ⟨by rw [if_neg h4], rfl⟩⟩
      rw [if_neg (fun h => h.1 hl)]
      rfl

/-- The right block of `_update_button_pressed_state`, with the touch sounds on. -/
theorem update_right_button_edge (s : Hub) (now l : Nat) (hseq : s._packet_number < 9)
    (haud : s._audio_enabled = true) (hbtn : s._button_audio_enabled = true)
    (hamp : s._button_audio_amplitude < 256) (hmax : s._audio_amplitude_max < 256) :
    (touch_env (update_right_button s now l) = touch_env s
      ∧ (update_right_button s now l)._packet_number < 9)
    ∧ ((update_right_button s now l)._l_button_state, (update_right_button s now l)._l_button_timeout,
        (update_right_button s now l)._m_button_state, (update_right_button s now l)._m_button_timeout)
        = (s._l_button_state, s._l_button_timeout, s._m_button_state, s._m_button_timeout)
    ∧ (∃ added, (update_right_button s now l)._cmd_queue = s._cmd_queue ++ added
        ∧ (∀ f ∈ added, byteAt f 5 = 80 ∧ byteAt f 7 = 48 + AUDIO_R)
        ∧ added.length = if l ≠ 0 ∧ s._r_button_state = false then 1 else 0)
    ∧ (l ≠ 0 → (update_right_button s now l)._r_button_state = true
        ∧ (update_right_button s now l)._r_button_timeout = (now + s._button_liftoff_ms) % ULONG)
    ∧ (l = 0 →
        (update_right_button s now l)._r_button_state
            = (if now > s._r_button_timeout then false else s._r_button_state)
        ∧ (update_right_button s now l)._r_button_timeout = s._r_button_timeout) := by
  unfold update_right_button
  dsimp only
  by_cases h1 : l ≠ 0
  · rw [if_pos h1]
    by_cases h2 : (s._r_button_state == false) = true
    · have hs : s._r_button_state = false := by simpa using h2
      rw [if_pos h2, if_pos (by rw [hbtn]; rfl)]
      obtain ⟨f, hf⟩ := (audio_push
        { s with _r_button_timeout := (now + s._button_liftoff_ms) % ULONG, _r_button_state := true }
        AUDIO_R s._button_audio_amplitude 0 haud hmax (by decide) hamp (by decide)).1
      obtain ⟨_, _, added, p3, p4⟩ := PlayAudio_spec
        { s with _r_button_timeout := (now + s._button_liftoff_ms) % ULONG, _r_button_state := true }
        AUDIO_R s._button_audio_amplitude (by decide) hseq
      rw [hf] at p3 ⊢
      have ha : added = [f] := (List.append_cancel_left p3).symm
      subst ha
      refine ⟨⟨rfl, Nat.mod_lt _ (by decide)⟩, rfl, ⟨[f], rfl, p4, ?_⟩, fun _ => ⟨rfl, rfl⟩,
        fun h => absurd h h1⟩
      rw [if_pos ⟨h1, hs⟩]
      rfl
    · have hs : ¬ (s._r_button_state = false) := by simpa using h2
      rw [if_neg h2]
      refine ⟨⟨rfl, hseq⟩, rfl, ⟨[], by simp, by simp, ?_⟩, fun _ => ⟨by simpa using hs, rfl⟩,
        fun h => absurd h h1⟩
      rw [if_neg (fun h => hs h.2)]
      rfl
  · rw [if_neg h1]
    have hl : l = 0 := not_not.mp h1
    by_cases h4 : now > s._r_button_timeout
    · rw [if_pos h4]
      refine ⟨⟨rfl, hseq⟩, rfl, ⟨[], by simp, by simp, ?_⟩, fun h => absurd hl h,
        fun _ => ⟨by rw [if_pos h4], rfl⟩⟩
      rw [if_neg (fun h => h.1 hl)]
      rfl
    · rw [if_neg h4]
      refine ⟨⟨rfl, hseq⟩, rfl, ⟨[], by simp, by simp, ?_⟩, fun h => absurd hl h,
        fun _ => ⟨by rw [if_neg h4], rfl⟩⟩
      rw [if_neg (fun h => h.1 hl)]
      rfl

theorem IsButtonPressed_left (s : Hub) : IsButtonPressed s BUTTON_LEFT = s._l_button_state := by
  have a : BUTTON_LEFT &&& BUTTON_LEFT = BUTTON_LEFT := by decide
  have b : ¬ (BUTTON_LEFT &&& BUTTON_MIDDLE = BUTTON_MIDDLE) := by decide
  have c : ¬ (BUTTON_LEFT &&& BUTTON_RIGHT = BUTTON_RIGHT) := by decide
  unfold IsButtonPressed
  simp only [a, b, c, if_true, if_false, Bool.false_or]

theorem IsButtonPressed_middle (s : Hub) :
    IsButtonPressed s BUTTON_MIDDLE = s._m_button_state := by
  have a : ¬ (BUTTON_MIDDLE &&& BUTTON_LEFT = BUTTON_LEFT) := by decide
  have b : BUTTON_MIDDLE &&& BUTTON_MIDDLE = BUTTON_MIDDLE := by decide
  have c : ¬ (BUTTON_MIDDLE &&& BUTTON_RIGHT = BUTTON_RIGHT) := by decide
  unfold IsButtonPressed
  simp only [a, b, c, if_true, if_false, Bool.false_or]

theorem IsButtonPressed_right (s : Hub) : IsButtonPressed s BUTTON_RIGHT = s._r_button_state := by
  have a : ¬ (BUTTON_RIGHT &&& BUTTON_LEFT = BUTTON_LEFT) := by decide
  have b : ¬ (BUTTON_RIGHT &&& BUTTON_MIDDLE = BUTTON_MIDDLE) := by decide
  have c : BUTTON_RIGHT &&& BUTTON_RIGHT = BUTTON_RIGHT := by decide
  unfold IsButtonPressed
  simp only [a, b, c, if_true, if_false, Bool.false_or]

/-- C27. Rising-edge touch event: when a touchpad poll reply is processed
(`_update_button_pressed_state` at time `p.1` with the raw readings `p.2`) with
audio and button audio enabled, then for each pad: one touch sound command of
the pad (`PlayAudio` with `AUDIO_L`, `AUDIO_M` or `AUDIO_R`) is enqueued if the
raw reading is pressed and the debounced state before the reply was not
pressed, and none otherwise; a pressed reading sets the debounced state to
pressed and the liftoff deadline to `now + 100` ms (as an `unsigned long`); an
unpressed reading sets the state to released when `now` exceeds the deadline
recorded before, leaves it as it was otherwise, and leaves the deadline.  (The
sequence number is below 9, the amplitudes are `unsigned char`, the liftoff
time is the 100 ms of the constructor.) -/
theorem rising_edge_touch (h : Hub) (p : Nat × Nat × Nat × Nat) (which : Nat)
    (hw : which = BUTTON_LEFT ∨ which = BUTTON_MIDDLE ∨ which = BUTTON_RIGHT)
    (hseq : h._packet_number < 9) (haud : h._audio_enabled = true)
    (hbtn : h._button_audio_enabled = true) (hamp : h._button_audio_amplitude < 256)
    (hmax : h._audio_amplitude_max < 256) (hlift : h._button_liftoff_ms = 100) :
    touch_events (touch_sound which) (poll_reply h p)._cmd_queue
        = touch_events (touch_sound which) h._cmd_queue
          + (if pad_reading which p ≠ 0 ∧ IsButtonPressed h which = false then 1 else 0)
    ∧ (pad_reading which p ≠ 0 →
        IsButtonPressed (poll_reply h p) which = true
        ∧ pad_deadline (poll_reply h p) which = (p.1 + 100) % ULONG)
    ∧ (pad_reading which p = 0 →
        IsButtonPressed (poll_reply h p) which
            = (if p.1 > pad_deadline h which then false else IsButtonPressed h which)
        ∧ pad_deadline (poll_reply h p) which = pad_deadline h which) := by
  obtain ⟨⟨ae, aseq⟩, ao, ⟨ad1, a3, a4, a5⟩, a6, a7⟩ :=
    update_left_button_edge h p.1 p.2.1 hseq haud hbtn hamp hmax
  simp only [touch_env, Prod.mk.injEq] at ae
  obtain ⟨ae1, ae2, ae3, ae4, ae5⟩ := ae
  obtain ⟨⟨be, bseq⟩, bo, ⟨ad2, b3, b4, b5⟩, b6, b7⟩ :=
    update_middle_button_edge (update_left_button h p.1 p.2.1) p.1 p.2.2.1 aseq
      (by rw [ae1]; exact haud) (by rw [ae2]; exact hbtn) (by rw [ae3]; exact hamp)
      (by rw [ae4]; exact hmax)
  simp only [touch_env, Prod.mk.injEq] at be
  obtain ⟨be1, be2, be3, be4, be5⟩ := be
  obtain ⟨_, co, ⟨ad3, c3, c4, c5⟩, c6, c7⟩ :=
    update_right_button_edge (update_middle_button (update_left_button h p.1 p.2.1) p.1 p.2.2.1)
      p.1 p.2.2.2 bseq
      (by rw [be1, ae1]; exact haud) (by rw [be2, ae2]; exact hbtn)
      (by rw [be3, ae3]; exact hamp) (by rw [be4, ae4]; exact hmax)
  simp only [Prod.mk.injEq] at ao bo co
  have e : poll_reply h p = update_right_button (update_middle_button
      (update_left_button h p.1 p.2.1) p.1 p.2.2.1) p.1 p.2.2.2 := rfl
  rw [e]
  generalize update_left_button h p.1 p.2.1 = A at *
  generalize update_middle_button A p.1 p.2.2.1 = B at *
  generalize update_right_button B p.1 p.2.2.2 = C at *
  have nLM : ¬ (AUDIO_L = AUDIO_M) := by decide
  have nLR : ¬ (AUDIO_L = AUDIO_R) := by decide
  have nML : ¬ (AUDIO_M = AUDIO_L) := by decide
  have nMR : ¬ (AUDIO_M = AUDIO_R) := by decide
  have nRL : ¬ (AUDIO_R = AUDIO_L) := by decide
  have nRM : ¬ (AUDIO_R = AUDIO_M) := by decide
  rcases hw with rfl | rfl | rfl
  · have hr : pad_reading BUTTON_LEFT p = p.2.1 := rfl
    have hd : ∀ s, pad_deadline s BUTTON_LEFT = s._l_button_timeout := fun _ => rfl
    have hs : touch_sound BUTTON_LEFT = AUDIO_L := rfl
    rw [hr, hs, hd, hd, IsButtonPressed_left, IsButtonPressed_left, c3, b3, a3,
      touch_events_added AUDIO_L AUDIO_R _ _ c4, touch_events_added AUDIO_L AUDIO_M _ _ b4,
      touch_events_added AUDIO_L AUDIO_L _ _ a4, a5, co.1, co.2.1, bo.1, bo.2.1,
      if_neg nLR, if_neg nLM, if_pos rfl]
    refine ⟨rfl, ?_, a7⟩
    intro hp
    rw [← hlift]
    exact a6 hp
  · have hr : pad_reading BUTTON_MIDDLE p = p.2.2.1 := rfl
    have hd : ∀ s, pad_deadline s BUTTON_MIDDLE = s._m_button_timeout := fun _ => rfl
    have hs : touch_sound BUTTON_MIDDLE = AUDIO_M := rfl
    rw [hr, hs, hd, hd, IsButtonPressed_middle, IsButtonPressed_middle, c3, b3, a3,
      touch_events_added AUDIO_M AUDIO_R _ _ c4, touch_events_added AUDIO_M AUDIO_M _ _ b4,
      touch_events_added AUDIO_M AUDIO_L _ _ a4, b5, co.2.2.1, co.2.2.2, ← ao.1, ← ao.2.1,
      if_neg nMR, if_neg nML, if_pos rfl]
    refine ⟨rfl, ?_, b7⟩
    intro hp
    rw [← hlift, ← ae5]
    exact b6 hp
  · have hr : pad_reading BUTTON_RIGHT p = p.2.2.2 := rfl
    have hd : ∀ s, pad_deadline s BUTTON_RIGHT = s._r_button_timeout := fun _ => rfl
    have hs : touch_sound BUTTON_RIGHT = AUDIO_R := rfl
    rw [hr, hs, hd, hd, IsButtonPressed_right, IsButtonPressed_right, c3, b3, a3,
      touch_events_added AUDIO_R AUDIO_R _ _ c4, touch_events_added AUDIO_R AUDIO_M _ _ b4,
      touch_events_added AUDIO_R AUDIO_L _ _ a4, c5, ← ao.2.2.1, ← ao.2.2.2, ← bo.2.2.1,
      ← bo.2.2.2, if_neg nRM, if_neg nRL, if_pos rfl]
    refine ⟨rfl, ?_, c7⟩
    intro hp
    rw [← hlift, ← ae5, ← be5]
    exact c6 hp

theorem rising_edge_touch_witness :
    touch_events (touch_sound BUTTON_LEFT) (poll_reply (HubInterface 0) (1000, 1, 0, 0))._cmd_queue
        = touch_events (touch_sound BUTTON_LEFT) (HubInterface 0)._cmd_queue
          + (if pad_reading BUTTON_LEFT (1000, 1, 0, 0) ≠ 0
                ∧ IsButtonPressed (HubInterface 0) BUTTON_LEFT = false then 1 else 0)
    ∧ IsButtonPressed (poll_reply (HubInterface 0) (1000, 1, 0, 0)) BUTTON_LEFT = true
    ∧ pad_deadline (poll_reply (HubInterface 0) (1000, 1, 0, 0)) BUTTON_LEFT
        = (1000 + 100) % ULONG :=
  have h := rising_edge_touch (HubInterface 0) (1000, 1, 0, 0) BUTTON_LEFT (Or.inl rfl)
    (by decide) (by decide) (by decide) (by decide) (by decide) (by decide)
  ⟨h.1, h.2.1 (by decide)⟩

/-! ## C28: the tray error and the food-machine reset -/

/-- C28, the code at the failing input.  A fresh engine receives a diagnostic
reply that reports the lid open (state 0); no food-machine reset has been
requested, and the flag `_need_foodtreat_reset` is `false` as the constructor
left it.  `PresentAndCheckFoodtreat` returns the sentinel 99 and enqueues
nothing: the command queue stays empty and the state is the one before the
call. -/
theorem tray_error_enqueues_no_reset :
    (diag_update (HubInterface 0) 500 (ascii "00000000000"))._foodmachine_state
        = FOODMACHINE_LID_OPEN
    ∧ (diag_update (HubInterface 0) 500 (ascii "00000000000"))._need_foodtreat_reset = false
    ∧ (diag_update (HubInterface 0) 500 (ascii "00000000000"))._cmd_queue = []
    ∧ (PresentAndCheckFoodtreat (diag_update (HubInterface 0) 500 (ascii "00000000000"))
        600 1000).1 = 99
    ∧ (PresentAndCheckFoodtreat (diag_update (HubInterface 0) 500 (ascii "00000000000"))
        600 1000).2._cmd_queue = [] := by
  decide

/-! ## C29: no stale tray result -/

/-- The value a call returns when the session does not resolve: the sentinel or
one of the four phases. -/
theorem pact_nonterminal (s : Hub) (now d : Nat)
    (hphase : s._pact_foodtreat_state = PACT_BEFORE_PRESENT
      ∨ s._pact_foodtreat_state = PACT_PLATTER_OUT
      ∨ s._pact_foodtreat_state = PACT_WAIT_TIL_BACK
      ∨ s._pact_foodtreat_state = PACT_WAIT_DIAG)
    (hcase : ¬ (fm_ok s ∧ s._pact_foodtreat_state = PACT_WAIT_DIAG
      ∧ s._pact_platter_return_time < s._last_diag_update_ms)) :
    (PresentAndCheckFoodtreat s now d).1 ∈ [10, 11, 12, 13, 99] := by
  by_cases hok : fm_ok s
  · rcases hphase with hp | hp | hp | hp
    · by_cases hfm : s._foodmachine_state = FOODMACHINE_IDLE
      · rw [(pact_before_present s now d hp hfm).1]
        decide
      · have e : PresentAndCheckFoodtreat s now d = (s._pact_foodtreat_state, s) := by
          unfold PresentAndCheckFoodtreat
          rw [if_neg hok, if_pos hp]
          dsimp only
          rw [if_neg hfm]
        rw [e, hp]
        dsimp only
        decide
    · by_cases hfm : s._foodmachine_state = FOODMACHINE_MOVING_HOME
          ∨ s._foodmachine_state = FOODMACHINE_CHECK
          ∨ s._foodmachine_state = FOODMACHINE_MOVING_PRESENT
          ∨ s._foodmachine_state = FOODMACHINE_WAIT
      · rw [(pact_platter_out_go s now d hp hfm).1]
        decide
      · have e : PresentAndCheckFoodtreat s now d = (s._pact_foodtreat_state, s) := by
          unfold PresentAndCheckFoodtreat
          rw [if_neg hok, if_neg (by rw [hp]; decide), if_pos hp, if_neg hfm]
        rw [e, hp]
        dsimp only
        decide
    · by_cases hfm : s._foodmachine_state = FOODMACHINE_DISPENSING
          ∨ s._foodmachine_state = FOODMACHINE_IDLE
      · rw [(pact_wait_go s now d hp hfm).1]
        decide
      · rw [(pact_wait_stay s now d hp hok hfm).1]
        decide
    · have hnot : ¬ (s._pact_platter_return_time < s._last_diag_update_ms) :=
        fun h => hcase ⟨hok, hp, h⟩
      rw [pact_diag_stay s now d hp hok hnot]
      dsimp only
      decide
  · have herr : s._foodmachine_state = FOODMACHINE_LID_OPEN
        ∨ s._foodmachine_state > FOODMACHINE_WAIT := by
      unfold fm_ok at hok
      exact not_not.mp hok
    have e : (PresentAndCheckFoodtreat s now d).1 = 99 := by
      simp only [PresentAndCheckFoodtreat, herr, if_true]
    rw [e]
    decide

/-- The resolution of a tray session as the code tests it: with the session in
one of its four phases, `PresentAndCheckFoodtreat` returns a terminal code (0 or
1) exactly when the food machine reports neither lid-open nor an error, the
phase is WaitDiag and the stored time of the last diagnostic update is greater
than the recorded platter-return time (the two `millis()` values compared as
they are); then the code is Taken exactly when the flag stored by the most
recent diagnostic says the foodtreat was taken, and the phase is BeforePresent
afterwards; in every other case the call returns 10, 11, 12, 13 or 99. A
diagnostic reply stores its time as the time of the last update and sets the
flag exactly when it reports no foodtreat in the bowl; it leaves the
platter-return time alone. -/
theorem no_stale_tray_result (s : Hub) (now d : Nat)
    (hphase : s._pact_foodtreat_state = PACT_BEFORE_PRESENT
      ∨ s._pact_foodtreat_state = PACT_PLATTER_OUT
      ∨ s._pact_foodtreat_state = PACT_WAIT_TIL_BACK
      ∨ s._pact_foodtreat_state = PACT_WAIT_DIAG) :
    (((PresentAndCheckFoodtreat s now d).1 = PACT_RESPONSE_FOODTREAT_NOT_TAKEN
        ∨ (PresentAndCheckFoodtreat s now d).1 = PACT_RESPONSE_FOODTREAT_TAKEN)
      ↔ (fm_ok s ∧ s._pact_foodtreat_state = PACT_WAIT_DIAG
          ∧ s._pact_platter_return_time < s._last_diag_update_ms))
    ∧ (fm_ok s → s._pact_foodtreat_state = PACT_WAIT_DIAG →
        s._pact_platter_return_time < s._last_diag_update_ms →
        ((PresentAndCheckFoodtreat s now d).1 = PACT_RESPONSE_FOODTREAT_TAKEN
            ↔ s._previous_foodtreat_taken = true)
        ∧ (PresentAndCheckFoodtreat s now d).2._pact_foodtreat_state = PACT_BEFORE_PRESENT)
    ∧ (¬ (fm_ok s ∧ s._pact_foodtreat_state = PACT_WAIT_DIAG
          ∧ s._pact_platter_return_time < s._last_diag_update_ms) →
        (PresentAndCheckFoodtreat s now d).1 ∈ [10, 11, 12, 13, 99])
    ∧ (∀ (h : Hub) (td : Nat) (payload : List Nat), 11 ≤ strlen payload →
        (diag_update h td payload)._last_diag_update_ms = td
        ∧ (diag_update h td payload)._previous_foodtreat_taken
            = (diag_still_in_bowl payload == 0)
        ∧ (diag_update h td payload)._pact_platter_return_time
            = h._pact_platter_return_time) := by
  have hterm : fm_ok s → s._pact_foodtreat_state = PACT_WAIT_DIAG →
      s._pact_platter_return_time < s._last_diag_update_ms →
      (PresentAndCheckFoodtreat s now d).1
          = (if s._previous_foodtreat_taken then PACT_RESPONSE_FOODTREAT_TAKEN
              else PACT_RESPONSE_FOODTREAT_NOT_TAKEN)
      ∧ (PresentAndCheckFoodtreat s now d).2._pact_foodtreat_state = PACT_BEFORE_PRESENT :=
    fun hok hp hlt => pact_diag_go s now d hp hok hlt
  refine ⟨⟨?_, ?_⟩, ?_, pact_nonterminal s now d hphase, ?_⟩
  · intro hv
    by_contra hcase
    have hm := pact_nonterminal s now d hphase hcase
    rcases hv with hv | hv <;> rw [hv] at hm <;> exact absurd hm (by decide)
  · rintro ⟨hok, hp, hlt⟩
    rw [(hterm hok hp hlt).1]
    cases s._previous_foodtreat_taken
    · exact Or.inl rfl
    · exact Or.inr rfl
  · intro hok hp hlt
    refine ⟨?_, (hterm hok hp hlt).2⟩
    rw [(hterm hok hp hlt).1]
    cases s._previous_foodtreat_taken
    · simp only [Bool.false_eq_true, if_false, iff_false]
      decide
    · simp only [if_true]
  · intro h td payload hlen
    obtain ⟨hu, _, ht, hl⟩ := diag_update_spec h td payload hlen
    refine ⟨hl, ht, ?_⟩
    exact congrArg (fun v => v.2.1.2.2.2.1) hu

theorem no_stale_tray_result_witness :
    ((PresentAndCheckFoodtreat
        (diag_update { HubInterface 0 with _pact_foodtreat_state := PACT_WAIT_DIAG,
                                           _pact_platter_return_time := 400 }
          500 (ascii "00000000040")) 600 1000).1 = PACT_RESPONSE_FOODTREAT_TAKEN
      ↔ (diag_update { HubInterface 0 with _pact_foodtreat_state := PACT_WAIT_DIAG,
                                           _pact_platter_return_time := 400 }
          500 (ascii "00000000040"))._previous_foodtreat_taken = true)
    ∧ (PresentAndCheckFoodtreat
        (diag_update { HubInterface 0 with _pact_foodtreat_state := PACT_WAIT_DIAG,
                                           _pact_platter_return_time := 400 }
          500 (ascii "00000000040")) 600 1000).2._pact_foodtreat_state = PACT_BEFORE_PRESENT :=
  (no_stale_tray_result
    (diag_update { HubInterface 0 with _pact_foodtreat_state := PACT_WAIT_DIAG,
                                       _pact_platter_return_time := 400 }
      500 (ascii "00000000040")) 600 1000 (by decide)).2.1
    (by unfold fm_ok; decide) (by decide) (by decide)

/-- C29, the code at the failing input.  A tray session is under way: the treat
was presented and the tray seen out.  At `millis()` = 4294967000 a diagnostic
reply reports the food machine idle with no foodtreat in the bowl.  The clock
wraps; the call at `millis()` = 5 sees the machine idle, records 5 as the
platter-return time and moves to WaitDiag.  No diagnostic reply arrives.  The
call at `millis()` = 6 returns Taken: the test `5 < 4294967000` passes on a
diagnostic received before the return.  The same events away from the wrap
(diagnostic at 1967000, calls at 1967005 and 1967006) leave the session
waiting in WaitDiag. -/
theorem stale_tray_result_after_clock_wrap :
    (PresentAndCheckFoodtreat (diag_update (PresentAndCheckFoodtreat (diag_update
        (PresentAndCheckFoodtreat (diag_update (HubInterface 0) 4294960000
          (ascii "00000000040")) 4294960100 2000).2 4294965000 (ascii "00000000160"))
            4294965100 2000).2 4294967000 (ascii "00000000040")) 5 2000).1 = PACT_WAIT_DIAG
    ∧ (PresentAndCheckFoodtreat (diag_update (PresentAndCheckFoodtreat (diag_update
        (PresentAndCheckFoodtreat (diag_update (HubInterface 0) 4294960000
          (ascii "00000000040")) 4294960100 2000).2 4294965000 (ascii "00000000160"))
            4294965100 2000).2 4294967000 (ascii "00000000040")) 5
              2000).2._pact_platter_return_time = 5
    ∧ (PresentAndCheckFoodtreat (diag_update (PresentAndCheckFoodtreat (diag_update
        (PresentAndCheckFoodtreat (diag_update (HubInterface 0) 4294960000
          (ascii "00000000040")) 4294960100 2000).2 4294965000 (ascii "00000000160"))
            4294965100 2000).2 4294967000 (ascii "00000000040")) 5
              2000).2._last_diag_update_ms = 4294967000
    ∧ (PresentAndCheckFoodtreat (PresentAndCheckFoodtreat (diag_update
        (PresentAndCheckFoodtreat (diag_update
          (PresentAndCheckFoodtreat (diag_update (HubInterface 0) 4294960000
            (ascii "00000000040")) 4294960100 2000).2 4294965000 (ascii "00000000160"))
              4294965100 2000).2 4294967000 (ascii "00000000040")) 5 2000).2 6 2000).1
        = PACT_RESPONSE_FOODTREAT_TAKEN
    ∧ (PresentAndCheckFoodtreat (PresentAndCheckFoodtreat (diag_update
        (PresentAndCheckFoodtreat (diag_update
          (PresentAndCheckFoodtreat (diag_update (HubInterface 0) 1960000
            (ascii "00000000040")) 1960100 2000).2 1965000 (ascii "00000000160"))
              1965100 2000).2 1967000 (ascii "00000000040")) 1967005 2000).2 1967006 2000).1
        = PACT_WAIT_DIAG := by
  decide

/-! ## C30: the capacitive monitor, pad by pad -/

/-- Block left of `_update_cap_reset` reads the settings, the clock, the pad's
reading and the pad's own counter and timer, and nothing else. -/
theorem cap_reset_left_det (s1 s2 : Hub) (now : Nat) (v : Int)
    (hset : csf_settings s1 = csf_settings s2) (hl : csf_left s1 = csf_left s2) :
    (cap_reset_left s1 now v).2 = (cap_reset_left s2 now v).2
    ∧ csf_left (cap_reset_left s1 now v).1 = csf_left (cap_reset_left s2 now v).1 := by
  have hh := hysteresis_threshold_settings hset LEFT_THRESHOLD
  simp only [csf_settings, csf_left, Prod.mk.injEq] at hset hl
  obtain ⟨e1, e2, _⟩ := hset
  obtain ⟨e3, e4⟩ := hl
  unfold cap_reset_left
  by_cases c1 : s1._csf_detect_integration_left ≥ s1._csf_integration_thresh
  · have c1' : s2._csf_detect_integration_left ≥ s2._csf_integration_thresh := by
      rw [← e3, ← e1]; exact c1
    rw [if_pos c1, if_pos c1']
    by_cases c2 : v > hysteresis_threshold s1 LEFT_THRESHOLD
    · have c2' : v > hysteresis_threshold s2 LEFT_THRESHOLD := by rw [← hh]; exact c2
      rw [if_pos c2, if_pos c2']
      by_cases c3 : (now + ULONG - s1._csf_timer_max_left) % ULONG > s1._csf_max_on_duration
      · have c3' : (now + ULONG - s2._csf_timer_max_left) % ULONG > s2._csf_max_on_duration := by
          rw [← e4, ← e2]; exact c3
        rw [if_pos c3, if_pos c3']
        exact ⟨rfl, rfl⟩
      · have c3' : ¬ ((now + ULONG - s2._csf_timer_max_left) % ULONG
            > s2._csf_max_on_duration) := by
          rw [← e4, ← e2]; exact c3
        rw [if_neg c3, if_neg c3']
        refine ⟨rfl, ?_⟩
        show (s1._csf_detect_integration_left, s1._csf_timer_max_left)
          = (s2._csf_detect_integration_left, s2._csf_timer_max_left)
        rw [e3, e4]
    · have c2' : ¬ (v > hysteresis_threshold s2 LEFT_THRESHOLD) := by rw [← hh]; exact c2
      rw [if_neg c2, if_neg c2']
      exact ⟨rfl, rfl⟩
  · have c1' : ¬ (s2._csf_detect_integration_left ≥ s2._csf_integration_thresh) := by
      rw [← e3, ← e1]; exact c1
    rw [if_neg c1, if_neg c1']
    by_cases c4 : v > LEFT_THRESHOLD
    · rw [if_pos c4, if_pos c4]
      refine ⟨rfl, ?_⟩
      show ((s1._csf_detect_integration_left + 1) % 256, s1._csf_timer_max_left)
        = ((s2._csf_detect_integration_left + 1) % 256, s2._csf_timer_max_left)
      rw [e3, e4]
    · rw [if_neg c4, if_neg c4]
      exact ⟨rfl, rfl⟩

/-- Block middle of `_update_cap_reset` reads the settings, the clock, the pad's
reading and the pad's own counter and timer, and nothing else. -/
theorem cap_reset_middle_det (s1 s2 : Hub) (now : Nat) (v : Int)
    (hset : csf_settings s1 = csf_settings s2) (hl : csf_middle s1 = csf_middle s2) :
    (cap_reset_middle s1 now v).2 = (cap_reset_middle s2 now v).2
    ∧ csf_middle (cap_reset_middle s1 now v).1 = csf_middle (cap_reset_middle s2 now v).1 := by
  have hh := hysteresis_threshold_settings hset MIDDLE_THRESHOLD
  simp only [csf_settings, csf_middle, Prod.mk.injEq] at hset hl
  obtain ⟨e1, e2, _⟩ := hset
  obtain ⟨e3, e4⟩ := hl
  unfold cap_reset_middle
  by_cases c1 : s1._csf_detect_integration_middle ≥ s1._csf_integration_thresh
  · have c1' : s2._csf_detect_integration_middle ≥ s2._csf_integration_thresh := by
      rw [← e3, ← e1]; exact c1
    rw [if_pos c1, if_pos c1']
    by_cases c2 : v > hysteresis_threshold s1 MIDDLE_THRESHOLD
    · have c2' : v > hysteresis_threshold s2 MIDDLE_THRESHOLD := by rw [← hh]; exact c2
      rw [if_pos c2, if_pos c2']
      by_cases c3 : (now + ULONG - s1._csf_timer_max_middle) % ULONG > s1._csf_max_on_duration
      · have c3' : (now + ULONG - s2._csf_timer_max_middle) % ULONG > s2._csf_max_on_duration := by
          rw [← e4, ← e2]; exact c3
        rw [if_pos c3, if_pos c3']
        exact ⟨rfl, rfl⟩
      · have c3' : ¬ ((now + ULONG - s2._csf_timer_max_middle) % ULONG
            > s2._csf_max_on_duration) := by
          rw [← e4, ← e2]; exact c3
        rw [if_neg c3, if_neg c3']
        refine ⟨rfl, ?_⟩
        show (s1._csf_detect_integration_middle, s1._csf_timer_max_middle)
          = (s2._csf_detect_integration_middle, s2._csf_timer_max_middle)
        rw [e3, e4]
    · have c2' : ¬ (v > hysteresis_threshold s2 MIDDLE_THRESHOLD) := by rw [← hh]; exact c2
      rw [if_neg c2, if_neg c2']
      exact ⟨rfl, rfl⟩
  · have c1' : ¬ (s2._csf_detect_integration_middle ≥ s2._csf_integration_thresh) := by
      rw [← e3, ← e1]; exact c1
    rw [if_neg c1, if_neg c1']
    by_cases c4 : v > MIDDLE_THRESHOLD
    · rw [if_pos c4, if_pos c4]
      refine ⟨rfl, ?_⟩
      show ((s1._csf_detect_integration_middle + 1) % 256, s1._csf_timer_max_middle)
        = ((s2._csf_detect_integration_middle + 1) % 256, s2._csf_timer_max_middle)
      rw [e3, e4]
    · rw [if_neg c4, if_neg c4]
      exact ⟨rfl, rfl⟩

/-- Block right of `_update_cap_reset` reads the settings, the clock, the pad's
reading and the pad's own counter and timer, and nothing else. -/
theorem cap_reset_right_det (s1 s2 : Hub) (now : Nat) (v : Int)
    (hset : csf_settings s1 = csf_settings s2) (hl : csf_right s1 = csf_right s2) :
    (cap_reset_right s1 now v).2 = (cap_reset_right s2 now v).2
    ∧ csf_right (cap_reset_right s1 now v).1 = csf_right (cap_reset_right s2 now v).1 := by
  have hh := hysteresis_threshold_settings hset RIGHT_THRESHOLD
  simp only [csf_settings, csf_right, Prod.mk.injEq] at hset hl
  obtain ⟨e1, e2, _⟩ := hset
  obtain ⟨e3, e4⟩ := hl
  unfold cap_reset_right
  by_cases c1 : s1._csf_detect_integration_right ≥ s1._csf_integration_thresh
  · have c1' : s2._csf_detect_integration_right ≥ s2._csf_integration_thresh := by
      rw [← e3, ← e1]; exact c1
    rw [if_pos c1, if_pos c1']
    by_cases c2 : v > hysteresis_threshold s1 RIGHT_THRESHOLD
    · have c2' : v > hysteresis_threshold s2 RIGHT_THRESHOLD := by rw [← hh]; exact c2
      rw [if_pos c2, if_pos c2']
      by_cases c3 : (now + ULONG - s1._csf_timer_max_right) % ULONG > s1._csf_max_on_duration
      · have c3' : (now + ULONG - s2._csf_timer_max_right) % ULONG > s2._csf_max_on_duration := by
          rw [← e4, ← e2]; exact c3
        rw [if_pos c3, if_pos c3']
        exact ⟨rfl, rfl⟩
      · have c3' : ¬ ((now + ULONG - s2._csf_timer_max_right) % ULONG
            > s2._csf_max_on_duration) := by
          rw [← e4, ← e2]; exact c3
        rw [if_neg c3, if_neg c3']
        refine ⟨rfl, ?_⟩
        show (s1._csf_detect_integration_right, s1._csf_timer_max_right)
          = (s2._csf_detect_integration_right, s2._csf_timer_max_right)
        rw [e3, e4]
    · have c2' : ¬ (v > hysteresis_threshold s2 RIGHT_THRESHOLD) := by rw [← hh]; exact c2
      rw [if_neg c2, if_neg c2']
      exact ⟨rfl, rfl⟩
  · have c1' : ¬ (s2._csf_detect_integration_right ≥ s2._csf_integration_thresh) := by
      rw [← e3, ← e1]; exact c1
    rw [if_neg c1, if_neg c1']
    by_cases c4 : v > RIGHT_THRESHOLD
    · rw [if_pos c4, if_pos c4]
      refine ⟨rfl, ?_⟩
      show ((s1._csf_detect_integration_right + 1) % 256, s1._csf_timer_max_right)
        = ((s2._csf_detect_integration_right + 1) % 256, s2._csf_timer_max_right)
      rw [e3, e4]
    · rw [if_neg c4, if_neg c4]
      exact ⟨rfl, rfl⟩

theorem update_cap_reset_pending (s : Hub) (now : Nat) (l m r : Int)
    (hf : s._csf_needs_DI_reset = true) : _update_cap_reset s now l m r = s := by
  unfold _update_cap_reset
  rw [if_pos (by rw [hf]; rfl)]

theorem update_cap_reset_eq (s : Hub) (now : Nat) (l m r : Int)
    (hf : s._csf_needs_DI_reset = false) :
    _update_cap_reset s now l m r
      = if (cap_reset_left s now l).2 = true then (cap_reset_left s now l).1
        else if (cap_reset_middle (cap_reset_left s now l).1 now m).2 = true then
          (cap_reset_middle (cap_reset_left s now l).1 now m).1
        else (cap_reset_right (cap_reset_middle (cap_reset_left s now l).1 now m).1 now r).1 := by
  unfold _update_cap_reset
  rw [if_neg (by rw [hf]; decide)]

/-- The left pad's counter and timer after a call are those its own block
leaves. -/
theorem update_left_part (s : Hub) (now : Nat) (l m r : Int)
    (hf : s._csf_needs_DI_reset = false) :
    csf_left (_update_cap_reset s now l m r) = csf_left (cap_reset_left s now l).1 := by
  rw [update_cap_reset_eq s now l m r hf]
  obtain ⟨_, b2, _⟩ := cap_reset_middle_spec (cap_reset_left s now l).1 now m
  obtain ⟨_, c2, _⟩ :=
    cap_reset_right_spec (cap_reset_middle (cap_reset_left s now l).1 now m).1 now r
  split_ifs
  · rfl
  · exact b2
  · exact c2.trans b2

/-- The middle pad's, when the left block does not end the call. -/
theorem update_middle_part (s : Hub) (now : Nat) (l m r : Int)
    (hf : s._csf_needs_DI_reset = false) (hA : (cap_reset_left s now l).2 = false) :
    csf_middle (_update_cap_reset s now l m r)
      = csf_middle (cap_reset_middle (cap_reset_left s now l).1 now m).1 := by
  rw [update_cap_reset_eq s now l m r hf, if_neg (by rw [hA]; decide)]
  obtain ⟨_, _, c3, _⟩ :=
    cap_reset_right_spec (cap_reset_middle (cap_reset_left s now l).1 now m).1 now r
  split_ifs
  · rfl
  · exact c3

/-- The right pad's, when neither the left nor the middle block ends the call. -/
theorem update_right_part (s : Hub) (now : Nat) (l m r : Int)
    (hf : s._csf_needs_DI_reset = false) (hA : (cap_reset_left s now l).2 = false)
    (hB : (cap_reset_middle (cap_reset_left s now l).1 now m).2 = false) :
    csf_right (_update_cap_reset s now l m r)
      = csf_right (cap_reset_right (cap_reset_middle (cap_reset_left s now l).1 now m).1
          now r).1 := by
  rw [update_cap_reset_eq s now l m r hf, if_neg (by rw [hA]; decide),
    if_neg (by rw [hB]; decide)]

/-- C30 (amended). Per-pad independence of the capacitive monitor.  Take two
`_update_cap_reset` calls at the same clock with the same settings and the same
pending-reset flag.  The left pad's new counter and timer depend only on the
left pad's reading and previous counter and timer: they agree when these agree.
The middle pad's depend only on the middle pad's reading, counter and timer as
long as the left block does not end the call (the left pad is not judged stuck)
in either call; the right pad's likewise as long as neither the left nor the
middle block ends the call.  So two calls that differ only in the left pad's
reading and monitor state leave the middle and right pads' counters and timers
identical when the left pad is judged stuck in neither.  When the left pad is
judged stuck the call returns at once: the middle and right pads keep their
counters and timers, whatever their readings. -/
theorem cap_monitor_independence (s1 s2 : Hub) (now : Nat) (l1 m1 r1 l2 m2 r2 : Int)
    (hset : csf_settings s1 = csf_settings s2)
    (hflag : s1._csf_needs_DI_reset = s2._csf_needs_DI_reset) :
    (csf_left s1 = csf_left s2 → l1 = l2 →
        csf_left (_update_cap_reset s1 now l1 m1 r1)
          = csf_left (_update_cap_reset s2 now l2 m2 r2))
    ∧ (csf_middle s1 = csf_middle s2 → m1 = m2 →
        (cap_reset_left s1 now l1).2 = false → (cap_reset_left s2 now l2).2 = false →
        csf_middle (_update_cap_reset s1 now l1 m1 r1)
          = csf_middle (_update_cap_reset s2 now l2 m2 r2))
    ∧ (csf_right s1 = csf_right s2 → r1 = r2 →
        (cap_reset_left s1 now l1).2 = false → (cap_reset_left s2 now l2).2 = false →
        (cap_reset_middle (cap_reset_left s1 now l1).1 now m1).2 = false →
        (cap_reset_middle (cap_reset_left s2 now l2).1 now m2).2 = false →
        csf_right (_update_cap_reset s1 now l1 m1 r1)
          = csf_right (_update_cap_reset s2 now l2 m2 r2))
    ∧ (s1._csf_needs_DI_reset = false → (cap_reset_left s1 now l1).2 = true →
        csf_middle (_update_cap_reset s1 now l1 m1 r1) = csf_middle s1
        ∧ csf_right (_update_cap_reset s1 now l1 m1 r1) = csf_right s1) := by
  obtain ⟨a1, a2, a3, _⟩ := cap_reset_left_spec s1 now l1
  obtain ⟨a1', a2', a3', _⟩ := cap_reset_left_spec s2 now l2
  obtain ⟨b1, _, b3, _⟩ := cap_reset_middle_spec (cap_reset_left s1 now l1).1 now m1
  obtain ⟨b1', _, b3', _⟩ := cap_reset_middle_spec (cap_reset_left s2 now l2).1 now m2
  cases hf : s1._csf_needs_DI_reset
  · have hf2 : s2._csf_needs_DI_reset = false := by rw [← hflag]; exact hf
    refine ⟨?_, ?_, ?_, ?_⟩
    · intro hl hv
      subst hv
      rw [update_left_part s1 now l1 m1 r1 hf, update_left_part s2 now l1 m2 r2 hf2]
      exact (cap_reset_left_det s1 s2 now l1 hset hl).2
    · intro hm hv hA1 hA2
      subst hv
      rw [update_middle_part s1 now l1 m1 r1 hf hA1, update_middle_part s2 now l2 m1 r2 hf2 hA2]
      exact (cap_reset_middle_det _ _ now m1 (a1.trans (hset.trans a1'.symm))
        (a2.trans (hm.trans a2'.symm))).2
    · intro hr hv hA1 hA2 hB1 hB2
      subst hv
      rw [update_right_part s1 now l1 m1 r1 hf hA1 hB1,
        update_right_part s2 now l2 m2 r1 hf2 hA2 hB2]
      exact (cap_reset_right_det _ _ now r1
        (b1.trans (a1.trans (hset.trans (a1'.symm.trans b1'.symm))))
        (b3.trans (a3.trans (hr.trans (a3'.symm.trans b3'.symm))))).2
    · intro _ hA
      rw [update_cap_reset_eq s1 now l1 m1 r1 hf, if_pos hA]
      exact ⟨a2, a3⟩
  · have hf2 : s2._csf_needs_DI_reset = true := by rw [← hflag]; exact hf
    rw [update_cap_reset_pending s1 now l1 m1 r1 hf, update_cap_reset_pending s2 now l2 m2 r2 hf2]
    exact ⟨fun h _ => h, fun h _ _ _ => h, fun h _ _ _ _ _ => h, fun h => absurd h (by simp)⟩

theorem cap_monitor_independence_witness :
    csf_middle (_update_cap_reset (HubInterface 0) 20000 0 100 0)
        = csf_middle (_update_cap_reset
            { HubInterface 0 with _csf_detect_integration_left := 2 } 20000 100 100 0)
    ∧ csf_right (_update_cap_reset (HubInterface 0) 20000 0 100 0)
        = csf_right (_update_cap_reset
            { HubInterface 0 with _csf_detect_integration_left := 2 } 20000 100 100 0) :=
  have h := cap_monitor_independence (HubInterface 0)
    { HubInterface 0 with _csf_detect_integration_left := 2 } 20000 0 100 0 100 100 0
    (by decide) (by decide)
  ⟨h.2.1 (by decide) (by decide) (by decide) (by decide),
   h.2.2.1 (by decide) (by decide) (by decide) (by decide) (by decide) (by decide)⟩

/-- C30, where the claim fails.  Two calls at the same clock that differ only
in the left pad's reading (0 and 100) and the left pad's counter (0 and 3, the
integration threshold), with the middle pad read at 100 in both.  In the first
the middle pad's counter goes from 0 to 1.  In the second the left pad is judged
stuck, the call returns at once, and the middle pad's counter stays 0. -/
theorem stuck_left_pad_stops_the_call :
    (_update_cap_reset (HubInterface 0) 20000 0 100 0)._csf_detect_integration_middle = 1
    ∧ (_update_cap_reset { HubInterface 0 with _csf_detect_integration_left := 3 }
        20000 100 100 0)._csf_detect_integration_middle = 0
    ∧ (_update_cap_reset { HubInterface 0 with _csf_detect_integration_left := 3 }
        20000 100 100 0)._csf_needs_DI_reset = true := by
  decide

/-! ## C31: jam escalation -/

theorem track_food_errors_jam (s : Hub)
    (hst : s._foodmachine_state = FOODMACHINE_PLATTER_ERROR_CODE) :
    track_food_errors s = s := by
  unfold track_food_errors
  rw [hst, if_neg (by decide)]
  by_cases h : (s._hub_out_of_food == true) = true
  · rw [if_pos h, if_neg (by decide)]
  · rw [if_neg h]

theorem track_singulator_errors_jam (s : Hub)
    (hst : s._foodmachine_state = FOODMACHINE_PLATTER_ERROR_CODE)
    (hs : s._singulator_error = false) :
    track_singulator_errors s = s := by
  unfold track_singulator_errors
  rw [hst, if_neg (by decide), if_neg (by rw [hs]; decide)]

theorem track_platter_first (s : Hub) (now : Nat)
    (hst : s._foodmachine_state = FOODMACHINE_PLATTER_ERROR_CODE)
    (hp : s._platter_error = false) :
    track_platter_errors s now
      = { s with _platter_error := true, _platter_error_start_ms := now,
                 IndicatorState := IL_DLI_JAM } := by
  unfold track_platter_errors
  rw [if_pos hst, if_pos (by rw [hp]; rfl)]

theorem track_platter_early (s : Hub) (now : Nat)
    (hst : s._foodmachine_state = FOODMACHINE_PLATTER_ERROR_CODE)
    (hp : s._platter_error = true)
    (hq : s._platter_stuck = true
      ∨ ¬ now > (s._platter_error_start_ms + s._platter_error_reset_wait) % ULONG) :
    track_platter_errors s now = s := by
  unfold track_platter_errors
  rw [if_pos hst, if_neg (by rw [hp]; decide), if_neg]
  rcases hq with h | h
  · rw [h]; simp
  · simp [h]

theorem track_platter_reset (s : Hub) (now : Nat)
    (hst : s._foodmachine_state = FOODMACHINE_PLATTER_ERROR_CODE)
    (hp : s._platter_error = true) (hstuck : s._platter_stuck = false)
    (hlate : now > (s._platter_error_start_ms + s._platter_error_reset_wait) % ULONG)
    (hc : ¬ s._platter_error_count + 1 > s._max_platter_error_count - 1)
    (hpn : s._packet_number < 10) :
    track_platter_errors s now
      = { s with _platter_error_count := s._platter_error_count + 1,
                 _packet_number := (s._packet_number + 1) % 9,
                 _cmd_queue := s._cmd_queue ++ [[36, 48, 48, 48, 48 + s._packet_number, 70, 49,
                   46, 0]],
                 _need_foodtreat_reset := false } := by
  unfold track_platter_errors
  rw [if_pos hst, if_neg (by rw [hp]; decide), if_pos (by rw [hstuck]; simpa using hlate)]
  dsimp only
  rw [if_neg hc]
  unfold ResetFoodMachine
  rw [create_dl_cmd_eq { s with _platter_error_count := s._platter_error_count + 1 } 70 [0]
    (by decide) hpn]
  rfl

theorem track_platter_stuck (s : Hub) (now : Nat)
    (hst : s._foodmachine_state = FOODMACHINE_PLATTER_ERROR_CODE)
    (hp : s._platter_error = true) (hstuck : s._platter_stuck = false)
    (hlate : now > (s._platter_error_start_ms + s._platter_error_reset_wait) % ULONG)
    (hc : s._platter_error_count + 1 > s._max_platter_error_count - 1) :
    track_platter_errors s now
      = { s with _platter_error_count := s._platter_error_count + 1,
                 _platter_stuck := true,
                 _button_audio_enabled := false,
                 IndicatorState := IL_DLI_JAM_ERROR } := by
  unfold track_platter_errors
  rw [if_pos hst, if_neg (by rw [hp]; decide), if_pos (by rw [hstuck]; simpa using hlate)]
  dsimp only
  rw [if_pos hc]
  unfold UpdateButtonAudioEnabled
  rw [if_neg (by simp)]

theorem track_platter_errors_sing (s : Hub) (now : Nat) :
    (track_platter_errors s now)._singulator_error = s._singulator_error := by
  unfold track_platter_errors ResetFoodMachine UpdateButtonAudioEnabled _create_dl_cmd_with
  dsimp only
  split_ifs <;> rfl

/-- A jam reply on an engine with no singulator error flagged is the store of
the diagnostics followed by the platter block. -/
theorem jam_reply_eq (s : Hub) (now : Nat) (p : List Nat) (hlen : 11 ≤ strlen p)
    (hj : diag_state p = FOODMACHINE_PLATTER_ERROR_CODE) (hs : s._singulator_error = false) :
    diag_update s now p
      = track_platter_errors (store_diag s now (sub48 (byteAt (cstr p) 8))
          FOODMACHINE_PLATTER_ERROR_CODE (sub48 (byteAt (cstr p) 10))) now := by
  have e : diag_update s now p = (_parse_msg_Z s now p).1 := by
    unfold diag_update _parse_msg
    dsimp only
    rw [parse_msg_switch_Z]
    split_ifs <;> rfl
  have hl : ¬ ((cstr p).length < 11) := by unfold strlen at hlen; omega
  unfold diag_state at hj
  rw [e]
  unfold _parse_msg_Z
  dsimp only
  rw [if_neg hl, hj, track_food_errors_jam _ rfl]
  apply track_singulator_errors_jam
  · exact ((congrArg (fun v => v.1) (track_platter_errors_diag _ now)).trans rfl)
  · rw [track_platter_errors_sing]
    exact hs

theorem jam_platter_step (t : Hub) (q0 : List dlimsg_t) (t0 c now : Nat)
    (hst : t._foodmachine_state = FOODMACHINE_PLATTER_ERROR_CODE)
    (hrun : JamRun q0 t0 c t) (ht0 : t0 + 10000 < ULONG) :
    JamRun q0 t0 (c + if now > t0 + 10000 then 1 else 0) (track_platter_errors t now) := by
  obtain ⟨hpe, hstart, hcount, hstk, ⟨fs, hq, hfl, hff⟩, hind, hsing, hmax, hwait, hpn⟩ := hrun
  by_cases hlate : now > t0 + 10000
  · rw [if_pos hlate]
    have hlate2 : now > (t._platter_error_start_ms + t._platter_error_reset_wait) % ULONG := by
      rw [hstart, hwait, Nat.mod_eq_of_lt ht0]
      exact hlate
    by_cases h5 : 5 ≤ c
    · have hs : t._platter_stuck = true := by rw [hstk]; exact decide_eq_true h5
      rw [track_platter_early t now hst hpe (Or.inl hs)]
      have h6 : 5 ≤ c + 1 := by omega
      refine ⟨hpe, hstart, ?_, ?_, ⟨fs, hq, ?_, hff⟩, ?_, hsing, hmax, hwait, hpn⟩
      · rw [hcount, Nat.min_eq_right h5, Nat.min_eq_right h6]
      · rw [hs]; exact (decide_eq_true h6).symm
      · rw [hfl, Nat.min_eq_right (by omega), Nat.min_eq_right (by omega)]
      · rw [hind, if_pos h5, if_pos h6]
    · have hs : t._platter_stuck = false := by rw [hstk]; exact decide_eq_false h5
      have hcl : c ≤ 5 := by omega
      rw [Nat.min_eq_left hcl] at hcount
      rw [if_neg h5] at hind
      by_cases h4 : c = 4
      · have hc : t._platter_error_count + 1 > t._max_platter_error_count - 1 := by
          rw [hcount, hmax, h4]; decide
        rw [track_platter_stuck t now hst hpe hs hlate2 hc]
        have h6 : 5 ≤ c + 1 := by omega
        refine ⟨hpe, hstart, ?_, ?_, ⟨fs, hq, ?_, hff⟩, ?_, hsing, hmax, hwait, hpn⟩
        · show t._platter_error_count + 1 = _
          rw [hcount, Nat.min_eq_right h6, h4]
          rfl
        · exact (decide_eq_true h6).symm
        · rw [hfl, Nat.min_eq_right (by omega), Nat.min_eq_right (by omega)]
        · show IL_DLI_JAM_ERROR = _
          rw [if_pos h6]
      · have hc4 : c < 4 := by omega
        have hc : ¬ t._platter_error_count + 1 > t._max_platter_error_count - 1 := by
          rw [hcount, hmax]; omega
        rw [track_platter_reset t now hst hpe hs hlate2 hc hpn]
        have h6 : ¬ 5 ≤ c + 1 := by omega
        refine ⟨hpe, hstart, ?_, ?_,
          ⟨fs ++ [[36, 48, 48, 48, 48 + t._packet_number, 70, 49, 46, 0]], ?_, ?_, ?_⟩, ?_,
          hsing, hmax, hwait, ?_⟩
        · show t._platter_error_count + 1 = _
          rw [hcount, Nat.min_eq_left (by omega)]
          push_cast
          rfl
        · show t._platter_stuck = _
          rw [hs]; exact (decide_eq_false h6).symm
        · show t._cmd_queue ++ _ = _
          rw [hq, List.append_assoc]
        · rw [List.length_append, hfl, Nat.min_eq_left (by omega), Nat.min_eq_left (by omega)]
          rfl
        · intro f hf
          rcases List.mem_append.1 hf with h | h
          · exact hff f h
          · rw [List.mem_singleton.1 h]
            rfl
        · show t.IndicatorState = _
          rw [hind, if_neg h6]
        · show (t._packet_number + 1) % 9 < 10
          have := Nat.mod_lt (t._packet_number + 1) (by decide : 9 > 0)
          omega
  · rw [if_neg hlate]
    have hq2 : ¬ now > (t._platter_error_start_ms + t._platter_error_reset_wait) % ULONG := by
      rw [hstart, hwait, Nat.mod_eq_of_lt ht0]
      exact hlate
    rw [track_platter_early t now hst hpe (Or.inr hq2)]
    exact ⟨hpe, hstart, hcount, hstk, ⟨fs, hq, hfl, hff⟩, hind, hsing, hmax, hwait, hpn⟩

theorem jam_step (s : Hub) (q0 : List dlimsg_t) (t0 c now : Nat) (p : List Nat)
    (hlen : 11 ≤ strlen p) (hj : diag_state p = FOODMACHINE_PLATTER_ERROR_CODE)
    (hrun : JamRun q0 t0 c s) (ht0 : t0 + 10000 < ULONG) :
    JamRun q0 t0 (c + if now > t0 + 10000 then 1 else 0) (diag_update s now p) := by
  rw [jam_reply_eq s now p hlen hj hrun.2.2.2.2.2.2.1]
  exact jam_platter_step _ q0 t0 c now rfl hrun ht0

theorem jam_steps (t0 : Nat) (q0 : List dlimsg_t) (ht0 : t0 + 10000 < ULONG)
    (ds : List (Nat × List Nat)) :
    ∀ (s : Hub) (c : Nat), JamRun q0 t0 c s →
      (∀ d ∈ ds, 11 ≤ strlen d.2 ∧ diag_state d.2 = FOODMACHINE_PLATTER_ERROR_CODE) →
      JamRun q0 t0 (c + ds.countP (fun d => decide (d.1 > t0 + 10000))) (diag_updates s ds) := by
  induction ds with
  | nil =>
    intro s c h _
    exact h
  | cons d rest ih =>
    intro s c h hds
    have h1 := jam_step s q0 t0 c d.1 d.2 (hds d (List.mem_cons_self _ _)).1
      (hds d (List.mem_cons_self _ _)).2 h ht0
    have h2 := ih _ _ h1 (fun e he => hds e (List.mem_cons_of_mem _ he))
    have e : diag_updates s (d :: rest) = diag_updates (diag_update s d.1 d.2) rest := rfl
    rw [e]
    have ec : c + (d :: rest).countP (fun d => decide (d.1 > t0 + 10000))
        = c + (if d.1 > t0 + 10000 then 1 else 0)
          + rest.countP (fun d => decide (d.1 > t0 + 10000)) := by
      rw [List.countP_cons]
      by_cases hd : d.1 > t0 + 10000
      · simp [hd]; omega
      · simp [hd]
    rw [ec]
    exact h2

/-- Jam escalation away from its two failures: on an engine with no jam and no singulator error flagged, the
jam counter at 0 and the clock not wrapping within the recovery wait, the first
diagnostic reply with the platter-jam code, processed at `t0`, sets the
indicator state to Jam and records `t0` as the jam start without enqueuing
anything.  After any further jam replies, of which `late` were processed more
than 10000 ms after `t0`, the jam counter is `min late 5`, the queue has grown
by `min late 4` food-machine resets (token `F`) and nothing else, JamStuck is
set exactly when `late` has reached 5, and the indicator state is Jam before
that and JamStuck from then on: the first four late replies count and reset,
the fifth counts and sets JamStuck without a reset, later ones do neither. -/
theorem jam_escalation (s : Hub) (t0 : Nat) (p0 : List Nat) (ds : List (Nat × List Nat))
    (hp0 : 11 ≤ strlen p0) (hj0 : diag_state p0 = FOODMACHINE_PLATTER_ERROR_CODE)
    (hds : ∀ d ∈ ds, 11 ≤ strlen d.2 ∧ diag_state d.2 = FOODMACHINE_PLATTER_ERROR_CODE)
    (hpe : s._platter_error = false) (hcount : s._platter_error_count = 0)
    (hstuck : s._platter_stuck = false) (hsing : s._singulator_error = false)
    (hmax : s._max_platter_error_count = 5) (hwait : s._platter_error_reset_wait = 10000)
    (hpn : s._packet_number < 10) (ht0 : t0 + 10000 < ULONG) :
    ((diag_update s t0 p0).IndicatorState = IL_DLI_JAM
      ∧ (diag_update s t0 p0)._platter_error = true
      ∧ (diag_update s t0 p0)._platter_error_start_ms = t0
      ∧ (diag_update s t0 p0)._platter_error_count = 0
      ∧ (diag_update s t0 p0)._cmd_queue = s._cmd_queue)
    ∧ (diag_updates (diag_update s t0 p0) ds)._platter_error_count
        = ((min (ds.countP (fun d => decide (d.1 > t0 + 10000))) 5 : Nat) : Int)
    ∧ (∃ fs : List dlimsg_t,
        (diag_updates (diag_update s t0 p0) ds)._cmd_queue = s._cmd_queue ++ fs
        ∧ fs.length = min (ds.countP (fun d => decide (d.1 > t0 + 10000))) 4
        ∧ ∀ f ∈ fs, byteAt f 5 = 70)
    ∧ (diag_updates (diag_update s t0 p0) ds)._platter_stuck
        = decide (5 ≤ ds.countP (fun d => decide (d.1 > t0 + 10000)))
    ∧ (diag_updates (diag_update s t0 p0) ds).IndicatorState
        = (if 5 ≤ ds.countP (fun d => decide (d.1 > t0 + 10000)) then IL_DLI_JAM_ERROR
           else IL_DLI_JAM)
    ∧ (diag_updates (diag_update s t0 p0) ds)._platter_error_start_ms = t0 := by
  have e1 := jam_reply_eq s t0 p0 hp0 hj0 hsing
  rw [track_platter_first (store_diag s t0 (sub48 (byteAt (cstr p0) 8))
    FOODMACHINE_PLATTER_ERROR_CODE (sub48 (byteAt (cstr p0) 10))) t0 rfl hpe] at e1
  have h1 : JamRun s._cmd_queue t0 0 (diag_update s t0 p0) := by
    rw [e1]
    exact ⟨rfl, rfl, hcount, hstuck, ⟨[], (List.append_nil _).symm, rfl, fun f hf => by cases hf⟩,
      rfl, hsing, hmax, hwait, hpn⟩
  have h2 := jam_steps t0 s._cmd_queue ht0 ds _ 0 h1 hds
  rw [Nat.zero_add] at h2
  obtain ⟨_, a2, a3, a4, a5, a6, _⟩ := h2
  refine ⟨?_, a3, a5, a4, a6, a2⟩
  rw [e1]
  exact ⟨rfl, rfl, rfl, hcount, rfl⟩

theorem jam_escalation_witness :
    (diag_updates (diag_update (HubInterface 0) 500 (ascii "00000000080"))
        [(9000, ascii "00000000080"), (10501, ascii "00000000080"),
          (10502, ascii "00000000080"), (10503, ascii "00000000080"),
          (10504, ascii "00000000080"), (10505, ascii "00000000080"),
          (10506, ascii "00000000080")])._platter_stuck
      = decide (5 ≤ [(9000, ascii "00000000080"), (10501, ascii "00000000080"),
          (10502, ascii "00000000080"), (10503, ascii "00000000080"),
          (10504, ascii "00000000080"), (10505, ascii "00000000080"),
          (10506, ascii "00000000080")].countP (fun d => decide (d.1 > 500 + 10000)))
    ∧ 5 ≤ [(9000, ascii "00000000080"), (10501, ascii "00000000080"),
          (10502, ascii "00000000080"), (10503, ascii "00000000080"),
          (10504, ascii "00000000080"), (10505, ascii "00000000080"),
          (10506, ascii "00000000080")].countP (fun d => decide (d.1 > 500 + 10000)) :=
  ⟨(jam_escalation (HubInterface 0) 500 (ascii "00000000080")
      [(9000, ascii "00000000080"), (10501, ascii "00000000080"),
        (10502, ascii "00000000080"), (10503, ascii "00000000080"),
        (10504, ascii "00000000080"), (10505, ascii "00000000080"),
        (10506, ascii "00000000080")] (by decide) (by decide) (by decide) (by decide)
      (by decide) (by decide) (by decide) (by decide) (by decide) (by decide)
      (by decide)).2.2.2.1, by decide⟩

/-- C31, the code at two failing inputs.  First: a diagnostic reply reports the
singulator error (state 9), the next one the platter jam (state 8).  The
platter block of the second reply flags the jam, records its start and sets the
indicator state to Jam; the singulator block of the same reply, seeing the
singulator error gone, stores Normal over it, so the first jam reply does not
leave the indicator state Jam.  Second: the jam starts at `millis()` =
4294960000, 7296 ms before the clock wraps.  The sum of the start and the
recovery wait wraps to 2704, so the jam reply processed 1 ms after the start
already counts: the jam counter goes to 1 and a food-machine reset (`F`) is
enqueued, 9999 ms early. -/
theorem jam_escalation_at_failing_inputs :
    (diag_update (diag_update (HubInterface 0) 500 (ascii "00000000090")) 1000
        (ascii "00000000080"))._platter_error = true
    ∧ (diag_update (diag_update (HubInterface 0) 500 (ascii "00000000090")) 1000
        (ascii "00000000080"))._platter_error_start_ms = 1000
    ∧ (diag_update (diag_update (HubInterface 0) 500 (ascii "00000000090")) 1000
        (ascii "00000000080")).IndicatorState = IL_DLI_NULL
    ∧ (diag_update (HubInterface 0) 4294960000 (ascii "00000000080")).IndicatorState
        = IL_DLI_JAM
    ∧ (diag_update (HubInterface 0) 4294960000 (ascii "00000000080"))._platter_error_count = 0
    ∧ (diag_update (HubInterface 0) 4294960000 (ascii "00000000080"))._cmd_queue = []
    ∧ ¬ (4294960001 > 4294960000 + (HubInterface 0)._platter_error_reset_wait)
    ∧ (diag_update (diag_update (HubInterface 0) 4294960000 (ascii "00000000080")) 4294960001
        (ascii "00000000080"))._platter_error_count = 1
    ∧ (diag_update (diag_update (HubInterface 0) 4294960000 (ascii "00000000080")) 4294960001
        (ascii "00000000080"))._cmd_queue = [ascii "$0000F1." ++ [0]] := by
  decide

/-! ## C32: the out-of-food indication -/

/-- C32, the code at the failing input.  A diagnostic reply reports the
platter-jam code 8, the next one the out-of-food code 17 (the character `A`).
Before the second reply the hub is not flagged out of food.  After it
`IsHubOutOfFood()` is true, but the indicator state is Normal (`IL_DLI_NULL`),
not OutOfFood: the platter block of the same reply, seeing the jam gone, has
stored Normal over it.  A further out-of-food reply leaves it so. -/
theorem out_of_food_indicator_overwritten :
    IsHubOutOfFood (diag_update (HubInterface 0) 500 (ascii "00000000080")) = false
    ∧ IsHubOutOfFood (diag_update (diag_update (HubInterface 0) 500 (ascii "00000000080"))
        1000 (ascii "000000000A0")) = true
    ∧ (diag_update (diag_update (HubInterface 0) 500 (ascii "00000000080"))
        1000 (ascii "000000000A0"))._foodmachine_state = FOODMACHINE_FOODTREAT_ERROR_CODE
    ∧ (diag_update (diag_update (HubInterface 0) 500 (ascii "00000000080"))
        1000 (ascii "000000000A0")).IndicatorState = IL_DLI_NULL
    ∧ (diag_update (diag_update (diag_update (HubInterface 0) 500 (ascii "00000000080"))
        1000 (ascii "000000000A0")) 1500 (ascii "000000000A0")).IndicatorState = IL_DLI_NULL := by
  decide

/-! ## C33: the configuration sync counts replies -/

theorem parse_msg_switch_U (s : Hub) (now rplystatus : Nat) (payload : List Nat) :
    _parse_msg_switch s now 85 rplystatus payload = _parse_msg_U s payload := by
  unfold _parse_msg_switch
  rw [if_neg (by decide), if_neg (by decide), if_neg (by decide), if_neg (by decide),
    if_neg (by decide), if_neg (by decide), if_neg (by decide), if_neg (by decide),
    if_neg (by decide), if_neg (by decide), if_neg (by decide), if_neg (by decide),
    if_neg (by decide), if_pos rfl]

theorem config_update_eq (s : Hub) (payload : List Nat) :
    config_update s payload = (_parse_msg_U s payload).1 := by
  unfold config_update _parse_msg
  dsimp only
  rw [parse_msg_switch_U]
  split_ifs <;> rfl

theorem store_config_value_count (s : Hub) (i v : Int) :
    (store_config_value s i v)._num_config_values_recvd = s._num_config_values_recvd
    ∧ (store_config_value s i v)._get_config_done = s._get_config_done := by
  unfold store_config_value
  split_ifs <;> exact ⟨rfl, rfl⟩

/-- What a get-config reply does: a malformed one only records the error; a
well-formed one stores the value at the member of the id it carries, counts the
reply, and sets the done flag once seven replies have been counted. -/
theorem config_update_cases (s : Hub) (payload : List Nat) :
    config_update s payload = { s with _error_code := ERROR_CMD_RECEIVED_BAD_NUM_ARGS }
    ∨ ∃ i v : Int,
        config_update s payload
          = { store_config_value s i v with
              _num_config_values_recvd := s._num_config_values_recvd + 1,
              _get_config_done :=
                if s._num_config_values_recvd + 1 ≥ 7 then true else s._get_config_done } := by
  rw [config_update_eq]
  unfold _parse_msg_U
  rcases scan_int 2 (cstr payload) with _ | ⟨neg, v, rest⟩
  · exact Or.inl rfl
  · dsimp only
    rcases scan_int 5 rest with _ | ⟨neg2, v2, rest2⟩
    · exact Or.inl rfl
    · refine Or.inr ⟨to_int neg v, to_int neg2 v2, ?_⟩
      dsimp only
      rw [(store_config_value_count s (to_int neg v) (to_int neg2 v2)).1]
      by_cases hc : s._num_config_values_recvd + 1 ≥ 7
      · rw [if_pos hc, if_pos hc]
      · rw [if_neg hc, if_neg hc, ← (store_config_value_count s (to_int neg v) (to_int neg2 v2)).2]

theorem config_update_count (s : Hub) (payload : List Nat) :
    (config_update s payload)._num_config_values_recvd ≤ s._num_config_values_recvd + 1
    ∧ ((config_update s payload)._get_config_done = true →
        s._get_config_done = true ∨ 7 ≤ (config_update s payload)._num_config_values_recvd) := by
  rcases config_update_cases s payload with e | ⟨i, v, e⟩
  · rw [e]
    exact ⟨by dsimp only; omega, fun h => Or.inl h⟩
  · rw [e]
    dsimp only
    refine ⟨le_refl _, ?_⟩
    by_cases hc : s._num_config_values_recvd + 1 ≥ 7
    · intro _
      exact Or.inr hc
    · rw [if_neg hc]
      exact fun h => Or.inl h

theorem config_updates_count (ps : List (List Nat)) :
    ∀ (s : Hub) (c : Int), s._num_config_values_recvd ≤ c →
      (s._get_config_done = true → 7 ≤ c) →
      (config_updates s ps)._num_config_values_recvd ≤ c + ps.length
      ∧ ((config_updates s ps)._get_config_done = true → 7 ≤ c + ps.length) := by
  induction ps with
  | nil =>
    intro s c h1 h2
    exact ⟨by simpa [config_updates] using h1, by simpa [config_updates] using h2⟩
  | cons p rest ih =>
    intro s c h1 h2
    have hstep := config_update_count s p
    have hrec := ih (config_update s p) (c + 1) (by omega) (by
      intro hd
      rcases hstep.2 hd with h | h
      · have := h2 h
        omega
      · omega)
    have e : config_updates s (p :: rest) = config_updates (config_update s p) rest := rfl
    rw [e]
    have el : ((p :: rest).length : Int) = 1 + rest.length := by
      rw [List.length_cons]; push_cast; ring
    rw [el]
    refine ⟨by omega, fun hd => ?_⟩
    have := hrec.2 hd
    omega

/-- C33 fails as stated. Seven get-config replies that all carry id 21 set the get-done
flag, and the sync machine then leaves WaitGet, although no reply for the ids
22, 23, 11, 8, 18 and 20 was received: their members still hold the
constructor's 0. -/
theorem seven_replies_for_one_id_end_the_wait :
    (config_updates (_process_config_init { HubInterface 0 with
        _config_init_state := CONFIG_INIT_GET } 0)
      (List.replicate 7 (ascii "2100029")))._get_config_done = true
    ∧ (_process_config_init (config_updates (_process_config_init { HubInterface 0 with
          _config_init_state := CONFIG_INIT_GET } 0)
        (List.replicate 7 (ascii "2100029"))) 0)._config_init_state = CONFIG_INIT_SET
    ∧ (config_updates (_process_config_init { HubInterface 0 with
          _config_init_state := CONFIG_INIT_GET } 0)
        (List.replicate 7 (ascii "2100029")))._left_from_dl = 29
    ∧ (config_updates (_process_config_init { HubInterface 0 with
          _config_init_state := CONFIG_INIT_GET } 0)
        (List.replicate 7 (ascii "2100029")))._middle_from_dl = 0
    ∧ (config_updates (_process_config_init { HubInterface 0 with
          _config_init_state := CONFIG_INIT_GET } 0)
        (List.replicate 6 (ascii "2100029")))._get_config_done = false := by
  decide

/-- C33, amended. Config sync waits for seven replies: from a state with no reply counted
and the get-done flag false, the flag becomes true only after at least seven
get-config replies have been processed, whatever ids they carry; the sync
machine stays in WaitGet while the flag is false; and each reply either is
malformed and only records the error, or stores its value at the member of the
id it carries, counts the reply, and sets the flag once seven are counted. -/
theorem config_sync_waits_for_seven_replies (h : Hub) (ps : List (List Nat))
    (hc : h._num_config_values_recvd = 0) (hd : h._get_config_done = false) :
    ((config_updates h ps)._get_config_done = true → 7 ≤ ps.length)
    ∧ (∀ (s : Hub) (now : Nat), s._config_init_state = CONFIG_INIT_WAIT_GET →
        s._get_config_done = false → _process_config_init s now = s)
    ∧ (∀ (s : Hub) (payload : List Nat),
        config_update s payload = { s with _error_code := ERROR_CMD_RECEIVED_BAD_NUM_ARGS }
        ∨ ∃ i v : Int,
            config_update s payload
              = { store_config_value s i v with
                  _num_config_values_recvd := s._num_config_values_recvd + 1,
                  _get_config_done :=
                    if s._num_config_values_recvd + 1 ≥ 7 then true
                    else s._get_config_done }) := by
  refine ⟨fun hdone => ?_, fun s now hs hg => ?_, config_update_cases⟩
  · have := (config_updates_count ps h 0 (by omega) (by rw [hd]; intro x; cases x)).2 hdone
    omega
  · unfold _process_config_init
    rw [hs, if_neg (by decide), if_neg (by decide), if_pos rfl, hg]
    rfl

theorem config_sync_waits_for_seven_replies_witness :
    ((config_updates (_process_config_init { HubInterface 0 with
          _config_init_state := CONFIG_INIT_GET } 0)
        [ascii "2100029", ascii "2200031", ascii "2300029", ascii "1100040", ascii "0800050",
          ascii "1800002", ascii "2000010"])._get_config_done = true
      → 7 ≤ [ascii "2100029", ascii "2200031", ascii "2300029", ascii "1100040",
          ascii "0800050", ascii "1800002", ascii "2000010"].length)
    ∧ (config_updates (_process_config_init { HubInterface 0 with
          _config_init_state := CONFIG_INIT_GET } 0)
        [ascii "2100029", ascii "2200031", ascii "2300029", ascii "1100040", ascii "0800050",
          ascii "1800002", ascii "2000010"])._get_config_done = true
    ∧ (config_updates (_process_config_init { HubInterface 0 with
          _config_init_state := CONFIG_INIT_GET } 0)
        [ascii "2100029", ascii "2200031", ascii "2300029", ascii "1100040", ascii "0800050",
          ascii "1800002", ascii "2000010"])._tray_current_threshold_from_dl = 50 :=
  ⟨(config_sync_waits_for_seven_replies (_process_config_init { HubInterface 0 with
        _config_init_state := CONFIG_INIT_GET } 0)
      [ascii "2100029", ascii "2200031", ascii "2300029", ascii "1100040", ascii "0800050",
        ascii "1800002", ascii "2000010"] (by decide) (by decide)).1,
    by decide, by decide⟩

/-! ## C34: the audio replay window -/

theorem parse_msg_switch_P (s : Hub) (now rplystatus : Nat) (payload : List Nat) :
    _parse_msg_switch s now 80 rplystatus payload = _parse_msg_P s now rplystatus := by
  unfold _parse_msg_switch
  rw [if_neg (by decide), if_neg (by decide), if_neg (by decide), if_neg (by decide),
    if_neg (by decide), if_neg (by decide), if_neg (by decide), if_neg (by decide), if_pos rfl]

theorem parse_msg_P_state (s : Hub) (now rplystatus : Nat) (payload : List Nat) (len : Nat) :
    (_parse_msg s now 80 rplystatus payload len).2 = (_parse_msg_P s now (sub48 rplystatus)).1 := by
  unfold _parse_msg
  dsimp only
  rw [parse_msg_switch_P]
  split_ifs <;> rfl

/-- What `PlayAudio` leaves: the state as it was, or one more frame with token
`P` at the back of the queue and the next sequence number. -/
theorem PlayAudio_cases (s : Hub) (a v : Nat) (hseq : s._packet_number < 10) :
    (PlayAudio s a v).2 = s
    ∨ ∃ f, byteAt f 5 = 80
        ∧ (PlayAudio s a v).2 = { s with _packet_number := (s._packet_number + 1) % 9,
                                         _cmd_queue := s._cmd_queue ++ [f] } := by
  unfold PlayAudio
  by_cases hg : (!s._audio_enabled) = true
  · rw [if_pos hg]
    exact Or.inl rfl
  · rw [if_neg hg]
    unfold enqueue_cmd
    rcases Nat.lt_or_ge (strlen (fmt_d a ++ fmt_0d 2 (map0 v 99 s._audio_amplitude_max) ++ [0])) 999
      with hl | hl
    · rw [create_dl_cmd_take s 80 _ hl hseq]
      exact Or.inr ⟨_, by simp [byteAt], rfl⟩
    · have e : _create_dl_cmd_with s 80
          (fmt_d a ++ fmt_0d 2 (map0 v 99 s._audio_amplitude_max) ++ [0]) = (none, s) := by
        unfold _create_dl_cmd_with
        rw [if_pos hl]
      rw [e]
      exact Or.inl rfl

/-- C34. Bounded audio replay: when the reply to an audio (`P`) command is
processed with status 0, at most one command is enqueued, an audio command, and
only if the reply is processed within the replay window (280 ms) of the first
failure of the episode, whose time is the replay-window start after the call
(the time of this reply in state BeforeReplay, the stored one otherwise); a
failed reply processed in state DuringReplay later than the window enqueues
nothing and returns the replay state to BeforeReplay; a reply with any other
status, ok included, enqueues nothing and returns it to BeforeReplay. -/
theorem bounded_audio_replay (s : Hub) (now rplystatus : Nat) (payload : List Nat) (len : Nat)
    (hseq : s._packet_number < 10) (hwin : s._audio_replay_window = 280) :
    (sub48 rplystatus = 0 →
      ((_parse_msg s now 80 rplystatus payload len).2._cmd_queue = s._cmd_queue
        ∨ ∃ f, byteAt f 5 = 80
            ∧ (_parse_msg s now 80 rplystatus payload len).2._cmd_queue = s._cmd_queue ++ [f])
      ∧ ((_parse_msg s now 80 rplystatus payload len).2._cmd_queue ≠ s._cmd_queue →
          (now + ULONG - (_parse_msg s now 80 rplystatus payload len).2._audio_replay_window_start)
            % ULONG ≤ 280)
      ∧ (_parse_msg s now 80 rplystatus payload len).2._audio_replay_window_start
          = (if s._ars_state = ARS_BEFORE_REPLAY then now else s._audio_replay_window_start)
      ∧ (s._ars_state = ARS_DURING_REPLAY →
          (now + ULONG - s._audio_replay_window_start) % ULONG > 280 →
          (_parse_msg s now 80 rplystatus payload len).2._cmd_queue = s._cmd_queue
          ∧ (_parse_msg s now 80 rplystatus payload len).2._ars_state = ARS_BEFORE_REPLAY))
    ∧ (sub48 rplystatus ≠ 0 →
        (_parse_msg s now 80 rplystatus payload len).2._cmd_queue = s._cmd_queue
        ∧ (_parse_msg s now 80 rplystatus payload len).2._ars_state = ARS_BEFORE_REPLAY) := by
  rw [parse_msg_P_state]
  have h0 : (now + ULONG - now) % ULONG = 0 := by
    rw [Nat.add_sub_cancel_left, Nat.mod_self]
  constructor
  · intro hst
    unfold _parse_msg_P
    rw [if_pos hst]
    by_cases hb : s._ars_state = ARS_BEFORE_REPLAY
    · have hnd : ¬ (s._ars_state = ARS_DURING_REPLAY) := by rw [hb]; decide
      rw [if_pos hb, if_pos hb]
      dsimp only
      rw [if_pos (by rw [h0]; exact Nat.zero_le _)]
      rcases PlayAudio_cases { s with _audio_replay_window_start := now }
          (scan_replay (front s._cmd_queue)).1 (scan_replay (front s._cmd_queue)).2 hseq
        with e | ⟨f, hf, e⟩
      · rw [e]
        exact ⟨Or.inl rfl, fun h => absurd rfl h, rfl, fun h => absurd h hnd⟩
      · rw [e]
        refine ⟨Or.inr ⟨f, hf, rfl⟩, fun _ => ?_, rfl, fun h => absurd h hnd⟩
        show (now + ULONG - now) % ULONG ≤ 280
        rw [h0]
        exact Nat.zero_le _
    · rw [if_neg hb, if_neg hb]
      by_cases hd : s._ars_state = ARS_DURING_REPLAY
      · rw [if_pos hd]
        by_cases hw : (now + ULONG - s._audio_replay_window_start) % ULONG ≤ s._audio_replay_window
        · rw [if_pos hw]
          dsimp only
          rcases PlayAudio_cases s (scan_replay (front s._cmd_queue)).1
              (scan_replay (front s._cmd_queue)).2 hseq with e | ⟨f, hf, e⟩
          · rw [e]
            exact ⟨Or.inl rfl, fun h => absurd rfl h, rfl, fun _ h => absurd hw (by omega)⟩
          · rw [e]
            refine ⟨Or.inr ⟨f, hf, rfl⟩, fun _ => ?_, rfl, fun _ h => absurd hw (by omega)⟩
            show (now + ULONG - s._audio_replay_window_start) % ULONG ≤ 280
            omega
        · rw [if_neg hw]
          exact ⟨Or.inl rfl, fun h => absurd rfl h, rfl, fun _ _ => ⟨rfl, rfl⟩⟩
      · rw [if_neg hd]
        exact ⟨Or.inl rfl, fun h => absurd rfl h, rfl, fun h => absurd h hd⟩
  · intro hst
    unfold _parse_msg_P
    rw [if_neg hst]
    exact ⟨rfl, rfl⟩

theorem bounded_audio_replay_witness :
    (_parse_msg { (PlayAudio (HubInterface 0) AUDIO_POSITIVE 60).2 with
          _ars_state := ARS_DURING_REPLAY, _audio_replay_window_start := 1000 }
        1300 80 48 [46, 0] 0).2._cmd_queue
      = (PlayAudio (HubInterface 0) AUDIO_POSITIVE 60).2._cmd_queue
    ∧ (_parse_msg { (PlayAudio (HubInterface 0) AUDIO_POSITIVE 60).2 with
          _ars_state := ARS_DURING_REPLAY, _audio_replay_window_start := 1000 }
        1300 80 48 [46, 0] 0).2._ars_state = ARS_BEFORE_REPLAY :=
  ((bounded_audio_replay { (PlayAudio (HubInterface 0) AUDIO_POSITIVE 60).2 with
      _ars_state := ARS_DURING_REPLAY, _audio_replay_window_start := 1000 }
    1300 48 [46, 0] 0 (by decide) (by decide)).1 (by decide)).2.2.2 (by decide) (by decide)

/-! ## C35: a reply that does not start with the start marker -/

/-- C35, the code at the failing input.  The engine has sent a diagnostics poll
and receives a reply whose first byte is `#`, not `$`.  `_process_reply_from_dl`
returns `true`, the error slot stays 0 (it does not take
`ERROR_CMD_RECEIVED_BAD_START`), and the reply is folded into the state: the
food-machine state and the time of the last diagnostic update are those of the
reply. -/
theorem bad_start_reply_is_processed :
    byteAt (ascii "#0110Z100000000040." ++ [0]) 0 ≠ 36
    ∧ (_process_reply_from_dl (_poll_diag (HubInterface 0)).2 700
        (ascii "#0110Z100000000040." ++ [0])).1 = true
    ∧ (_process_reply_from_dl (_poll_diag (HubInterface 0)).2 700
        (ascii "#0110Z100000000040." ++ [0])).2._error_code = 0
    ∧ (_process_reply_from_dl (_poll_diag (HubInterface 0)).2 700
        (ascii "#0110Z100000000040." ++ [0])).2._foodmachine_state = FOODMACHINE_IDLE
    ∧ (_process_reply_from_dl (_poll_diag (HubInterface 0)).2 700
        (ascii "#0110Z100000000040." ++ [0])).2._last_diag_update_ms = 700
    ∧ (_poll_diag (HubInterface 0)).2._last_diag_update_ms = 0 := by
  decide

/-! ## C36: the window of the performance history -/

theorem reset_loop_length (l : List Nat) :
    ∀ p : List Bool, (l.foldl (fun p i => p.set i false) p).length = p.length := by
  induction l with
  | nil => intro p; rfl
  | cons i rest ih =>
    intro p
    rw [List.foldl_cons, ih, List.length_set]

theorem reset_inv (H : Nat) (h : History) (hH0 : 0 < H) (hlen : h.performance.length = H) :
    HistInv H [] (resetPerformanceHistory H h) := by
  refine Or.inl ⟨hH0, rfl, rfl, _, (List.nil_append _).symm, ?_⟩
  rw [List.nil_append]
  show ((List.range H).foldl (fun p i => p.set i false) h.performance).length = H
  rw [reset_loop_length, hlen]

theorem set_at_length (A B : List Bool) (b e : Bool) :
    (A ++ b :: B).set A.length e = A ++ e :: B := by
  induction A with
  | nil => rfl
  | cons a A ih =>
    simp only [List.cons_append, List.length_cons, List.set_cons_succ, ih]

theorem add_inv (H : Nat) (all : List Bool) (h : History) (e : Bool) (hH : H < 256)
    (hi : HistInv H all h) : HistInv H (all ++ [e]) (addResultToPerformanceHistory H h e) := by
  rcases hi with ⟨hn, hp, hd, junk, hperf, hl⟩ | ⟨hd, old, A, B, hall, hperf, hA, hl, hp⟩
  · -- the array is not full yet
    cases junk with
    | nil =>
      rw [List.append_nil] at hl
      omega
    | cons j junk =>
      have e1 : (h.perfPos + 1) % 256 = all.length + 1 := by
        rw [hp]
        exact Nat.mod_eq_of_lt (by omega)
      have e2 : (h.perfDepth + 1) % 256 = all.length + 1 := by
        rw [hd]
        exact Nat.mod_eq_of_lt (by omega)
      have e3 : h.performance.set h.perfPos e = all ++ e :: junk := by
        rw [hperf, hp, set_at_length]
      have hlj : all.length + (junk.length + 1) = H := by
        rw [List.length_append, List.length_cons] at hl
        exact hl
      unfold addResultToPerformanceHistory
      dsimp only
      have hdlt : h.perfDepth < H := by rw [hd]; exact hn
      rw [e1, e3, if_pos hdlt, e2]
      by_cases hw : ((all.length + 1 : Nat) : Int) > (H : Int) - 1
      · rw [if_pos hw]
        have hj : junk = [] := by
          apply List.eq_nil_of_length_eq_zero
          omega
        refine Or.inr ⟨?_, [], [], all ++ [e], ?_, ?_, rfl, ?_, ?_⟩
        · show all.length + 1 = H
          omega
        · simp
        · show all ++ e :: junk = [] ++ (all ++ [e])
          rw [hj, List.nil_append]
        · show ([] ++ (all ++ [e])).length = H
          rw [List.nil_append, List.length_append, List.length_singleton]
          omega
        · show 0 < H
          omega
      · rw [if_neg hw]
        refine Or.inl ⟨?_, ?_, ?_, junk, ?_, ?_⟩
        · rw [List.length_append, List.length_singleton]
          omega
        · show all.length + 1 = (all ++ [e]).length
          rw [List.length_append, List.length_singleton]
        · show all.length + 1 = (all ++ [e]).length
          rw [List.length_append, List.length_singleton]
        · show all ++ e :: junk = all ++ [e] ++ junk
          simp
        · simp only [List.length_append, List.length_singleton]
          omega
  · -- the array is full
    have hlAB : A.length + B.length = H := by
      rw [List.length_append] at hl
      exact hl
    cases B with
    | nil =>
      rw [List.length_nil] at hlAB
      omega
    | cons b B =>
      have e1 : (h.perfPos + 1) % 256 = A.length + 1 := by
        rw [← hA]
        exact Nat.mod_eq_of_lt (by omega)
      have e3 : h.performance.set h.perfPos e = A ++ e :: B := by
        rw [hperf, ← hA, set_at_length]
      rw [List.length_cons] at hlAB
      unfold addResultToPerformanceHistory
      dsimp only
      have hdlt : ¬ h.perfDepth < H := by rw [hd]; exact Nat.lt_irrefl _
      rw [e1, e3, if_neg hdlt]
      by_cases hw : ((A.length + 1 : Nat) : Int) > (H : Int) - 1
      · rw [if_pos hw]
        have hB : B = [] := by
          apply List.eq_nil_of_length_eq_zero
          omega
        refine Or.inr ⟨hd, old ++ [b], [], A ++ [e], ?_, ?_, rfl, ?_, ?_⟩
        · rw [hall, hB]
          simp
        · show A ++ e :: B = [] ++ (A ++ [e])
          rw [hB, List.nil_append]
        · show ([] ++ (A ++ [e])).length = H
          rw [List.nil_append, List.length_append, List.length_singleton]
          omega
        · show 0 < H
          omega
      · rw [if_neg hw]
        refine Or.inr ⟨hd, old ++ [b], A ++ [e], B, ?_, ?_, ?_, ?_, ?_⟩
        · rw [hall]
          simp
        · show A ++ e :: B = A ++ [e] ++ B
          simp
        · show (A ++ [e]).length = A.length + 1
          rw [List.length_append, List.length_singleton]
        · simp only [List.length_append, List.length_singleton]
          omega
        · show A.length + 1 < H
          omega

theorem addResults_inv (H : Nat) (hH : H < 256) (rs : List Bool) :
    ∀ (all : List Bool) (h : History), HistInv H all h →
      HistInv H (all ++ rs) (addResults H h rs) := by
  induction rs with
  | nil =>
    intro all h hi
    rw [List.append_nil]
    exact hi
  | cons e rest ih =>
    intro all h hi
    have h2 := ih (all ++ [e]) _ (add_inv H all h e hH hi)
    rw [List.append_assoc, List.singleton_append] at h2
    exact h2

/-- The counting loop with enough fuel, while the array holds `perfDepth`
entries and `perfDepth` is at most 255: it returns, and what it adds to `total`
is the number of entries equal to `want` among those from `i` up to
`perfDepth`. -/
theorem count_loop_spec (h : History) (want : Bool) (hd : h.perfDepth ≤ 255)
    (hl : h.perfDepth ≤ h.performance.length) :
    ∀ (k fuel i total : Nat), i + k = h.perfDepth → k + 1 ≤ fuel →
      count_loop h want fuel i total
        = some (total + ((h.performance.take h.perfDepth).drop i).count want) := by
  intro k
  induction k with
  | zero =>
    intro fuel i total hik hf
    obtain ⟨f, rfl⟩ : ∃ f, fuel = f + 1 := ⟨fuel - 1, by omega⟩
    have hc : ¬ ((i : Int) ≤ (h.perfDepth : Int) - 1) := by omega
    unfold count_loop
    rw [if_neg hc, List.drop_eq_nil_of_le (by rw [List.length_take]; omega)]
    rfl
  | succ k ih =>
    intro fuel i total hik hf
    obtain ⟨f, rfl⟩ : ∃ f, fuel = f + 1 := ⟨fuel - 1, by omega⟩
    have hc : (i : Int) ≤ (h.perfDepth : Int) - 1 := by omega
    have hi : i < h.performance.length := by omega
    have hit : i < (h.performance.take h.perfDepth).length := by
      rw [List.length_take]
      omega
    have hm : (i + 1) % 256 = i + 1 := Nat.mod_eq_of_lt (by omega)
    unfold count_loop
    rw [if_pos hc, hm, ih f (i + 1) _ (by omega) (by omega), List.drop_eq_getElem_cons hit,
      List.count_cons, List.getElem_take, List.getD_eq_getElem _ _ hi]
    by_cases hw : (h.performance[i] == want) = true
    · rw [if_pos hw, if_pos hw]
      congr 1
      omega
    · rw [if_neg hw, if_neg hw]
      rfl

theorem count_true_false (l : List Bool) : l.count true + l.count false = l.length := by
  induction l with
  | nil => rfl
  | cons b l ih =>
    cases b <;> simp [List.count_cons] <;> omega

/-- What the invariant says of the window: `perfDepth` entries are held, as many
as results have been added up to `HISTORY_LENGTH`, and they are the most
recent results, in some order. -/
theorem hist_window (H : Nat) (all : List Bool) (h : History) (hi : HistInv H all h) :
    h.perfDepth = min all.length H ∧ h.performance.length = H ∧ h.perfPos < H
    ∧ ∀ w, (h.performance.take h.perfDepth).count w
        = (all.drop (all.length - min all.length H)).count w := by
  rcases hi with ⟨hn, hp, hd, junk, hperf, hl⟩ | ⟨hd, old, A, B, hall, hperf, hA, hl, hp⟩
  · have hmin : min all.length H = all.length := Nat.min_eq_left (Nat.le_of_lt hn)
    refine ⟨by rw [hd, hmin], by rw [hperf, hl], by rw [hp]; exact hn, fun w => ?_⟩
    rw [hmin, Nat.sub_self, List.drop_zero, hd, hperf, List.take_left]
  · have hlen : all.length = old.length + H := by
      rw [hall, List.length_append, List.length_append, ← hl, List.length_append]
      omega
    have hmin : min all.length H = H := Nat.min_eq_right (by omega)
    refine ⟨by rw [hd, hmin], by rw [hperf, hl], hp, fun w => ?_⟩
    have e1 : all.length - H = old.length := by omega
    rw [hmin, e1, hd, hperf, List.take_of_length_le (by rw [hl]), hall, List.drop_left,
      List.count_append, List.count_append, Nat.add_comm]

/-- C36. Performance history window: with a `HISTORY_LENGTH` between 1 and 255 (50 and 20
in the two challenges), after `resetPerformanceHistory` followed by any
sequence of `n` calls of `addResultToPerformanceHistory`, `countSuccesses()`
returns the number of successes among the most recent `min(n, HISTORY_LENGTH)`
results added, `countMisses()` the number of misses among them, the two add up
to `min(n, HISTORY_LENGTH)`, and after every one of the calls
`perfPos < HISTORY_LENGTH` and `perfDepth <= HISTORY_LENGTH` hold. -/
theorem performance_history_window (H : Nat) (h : History) (rs : List Bool) (fuel : Nat)
    (hH0 : 0 < H) (hH : H < 256) (hlen : h.performance.length = H) (hfuel : H < fuel) :
    countSuccesses (addResults H (resetPerformanceHistory H h) rs) fuel
        = some ((rs.drop (rs.length - min rs.length H)).count true)
    ∧ countMisses (addResults H (resetPerformanceHistory H h) rs) fuel
        = some ((rs.drop (rs.length - min rs.length H)).count false)
    ∧ (rs.drop (rs.length - min rs.length H)).count true
        + (rs.drop (rs.length - min rs.length H)).count false = min rs.length H
    ∧ ∀ k, (addResults H (resetPerformanceHistory H h) (rs.take k)).perfPos < H
        ∧ (addResults H (resetPerformanceHistory H h) (rs.take k)).perfDepth ≤ H := by
  have hinv : ∀ l : List Bool, HistInv H l (addResults H (resetPerformanceHistory H h) l) := by
    intro l
    have := addResults_inv H hH l [] _ (reset_inv H h hH0 hlen)
    rw [List.nil_append] at this
    exact this
  obtain ⟨hd, hpl, _, hcount⟩ := hist_window H rs _ (hinv rs)
  have hdH : (addResults H (resetPerformanceHistory H h) rs).perfDepth ≤ H := by
    rw [hd]
    exact Nat.min_le_right _ _
  have hspec := fun w => count_loop_spec (addResults H (resetPerformanceHistory H h) rs) w
    (by omega) (by rw [hpl]; exact hdH) _ fuel 0 0 (Nat.zero_add _) (by omega)
  refine ⟨?_, ?_, ?_, fun k => ?_⟩
  · unfold countSuccesses
    rw [hspec true, List.drop_zero, Nat.zero_add, hcount]
  · unfold countMisses
    rw [hspec false, List.drop_zero, Nat.zero_add, hcount]
  · rw [count_true_false, List.length_drop]
    omega
  · obtain ⟨hd2, _, hp2, _⟩ := hist_window H (rs.take k) _ (hinv (rs.take k))
    refine ⟨hp2, ?_⟩
    rw [hd2]
    exact Nat.min_le_right _ _

theorem performance_history_window_witness :
    countSuccesses (addResults 20 (resetPerformanceHistory 20
        { performance := List.replicate 20 true, perfPos := 7, perfDepth := 9 })
        (List.replicate 23 false ++ [true, true])) 21
      = some (((List.replicate 23 false ++ [true, true]).drop
          ((List.replicate 23 false ++ [true, true]).length
            - min (List.replicate 23 false ++ [true, true]).length 20)).count true)
    ∧ countSuccesses (addResults 20 (resetPerformanceHistory 20
        { performance := List.replicate 20 true, perfPos := 7, perfDepth := 9 })
        (List.replicate 23 false ++ [true, true])) 21 = some 2 :=
  ⟨(performance_history_window 20
      { performance := List.replicate 20 true, perfPos := 7, perfDepth := 9 }
      (List.replicate 23 false ++ [true, true]) 21 (by decide) (by decide) (by decide)
      (by decide)).1, by decide⟩

/-! ## C37: no dequeue from an empty queue -/

theorem Push.idle (s : Hub) : Push s s := ⟨rfl, rfl, rfl, rfl, rfl, rfl, [], by simp⟩

theorem Push.after {s t u : Hub} (h1 : Push s t) (h2 : Push t u) : Push s u := by
  obtain ⟨a1, b1, c1, d1, f1, g1, e1, q1⟩ := h1
  obtain ⟨a2, b2, c2, d2, f2, g2, e2, q2⟩ := h2
  exact ⟨a2.trans a1, b2.trans b1, c2.trans c1, d2.trans d1, f2.trans f1, g2.trans g1, e1 ++ e2,
    by rw [q2, q1, List.append_assoc]⟩

theorem Push.field {s t : Hub} (h1 : t._run_loop_state = s._run_loop_state)
    (h2 : t._num_send_retries = s._num_send_retries)
    (h3 : t._max_num_send_retries = s._max_num_send_retries)
    (h4 : t._dl_reply_queue = s._dl_reply_queue)
    (h5 : t._reply_buffer = s._reply_buffer)
    (h6 : t._len_reply_buffer = s._len_reply_buffer) (h7 : t._cmd_queue = s._cmd_queue) :
    Push s t := ⟨h1, h2, h3, h4, h5, h6, [], by simp [h7]⟩

theorem Push.of_untouched {s t : Hub} (h : untouched t = untouched s)
    (hq : ∃ extra, t._cmd_queue = s._cmd_queue ++ extra) : Push s t :=
  ⟨congrArg (fun x => x.1.1) h, congrArg (fun x => x.1.2.2.1) h,
    congrArg (fun x => x.1.2.2.2.1) h, congrArg (fun x => x.1.2.1) h,
    congrArg (fun x => x.1.2.2.2.2.2.2.1) h, congrArg (fun x => x.1.2.2.2.2.2.2.2.1) h, hq⟩

theorem Push.of_frame {s t : Hub} (h : ReplyFrame s t) : Push s t :=
  Push.of_untouched h.1 h.2.1

theorem Push.keeps {s t : Hub} (h : Push s t) (hi : LinkInv s) : LinkInv t := by
  obtain ⟨a, b, c, _, _, _, e, q⟩ := h
  refine ⟨by rw [b, c]; exact hi.1, fun hs => ?_⟩
  rw [a] at hs
  have := hi.2 hs
  rw [q]
  intro hn
  exact this (List.append_eq_nil.1 hn).1

theorem Push.skip {s : Hub} (c : Bool) {r : Bool × Hub} (h : Push s r.2) :
    Push s (if c then (false, s) else r).2 := by
  cases c
  · exact h
  · exact Push.idle s

theorem enqueue_cmd_push (s : Hub) (tok : Nat) (payload : List Nat) :
    Push s (enqueue_cmd s tok payload).2 :=
  Push.of_frame (enqueue_cmd_frame s tok payload)

theorem ResetFoodMachine_push (s : Hub) : Push s (ResetFoodMachine s).2 :=
  Push.of_frame (ResetFoodMachine_frame s)

theorem ResetDI_push (s : Hub) : Push s (ResetDI s).2 := by
  unfold ResetDI _create_dl_cmd_with
  split_ifs
  · exact Push.idle s
  · exact ⟨rfl, rfl, rfl, rfl, rfl, rfl, _, rfl⟩
  · exact Push.idle s

theorem SetLights_push (s : Hub) (a b c d : Nat) : Push s (SetLights s a b c d).2 :=
  Push.skip _ (enqueue_cmd_push s _ _)

theorem SetLightsRGB_push (s : Hub) (a b c d e : Nat) : Push s (SetLightsRGB s a b c d e).2 :=
  Push.skip _ (enqueue_cmd_push s _ _)

theorem SetLights_flash_push (s : Hub) (a b c d e : Nat) :
    Push s (SetLights_flash s a b c d e).2 :=
  Push.skip _ (enqueue_cmd_push s _ _)

theorem SetLightsRGB_flash_push (s : Hub) (a b c d e f : Nat) :
    Push s (SetLightsRGB_flash s a b c d e f).2 :=
  Push.skip _ (enqueue_cmd_push s _ _)

theorem PlayTone_push (s : Hub) (a b c : Nat) : Push s (PlayTone s a b c).2 :=
  Push.skip _ (enqueue_cmd_push s _ _)

theorem PresentFoodtreat_push (s : Hub) (d : Nat) : Push s (PresentFoodtreat s d).2 :=
  enqueue_cmd_push s _ _

theorem RetractTray_push (s : Hub) : Push s (RetractTray s).2 :=
  enqueue_cmd_push s _ _

theorem SetConfigValue_push (s : Hub) (a : Nat) (v : Int) : Push s (SetConfigValue s a v).2 :=
  enqueue_cmd_push s _ _

theorem GetConfigValue_push (s : Hub) (a : Nat) : Push s (GetConfigValue s a).2 :=
  enqueue_cmd_push s _ _

theorem SetDLInitValues_push (s : Hub) (a b c d e f g : Int) :
    Push s (SetDLInitValues s a b c d e f g).2 := by
  unfold SetDLInitValues
  split_ifs
  · exact Push.idle s
  · exact Push.idle s
  · dsimp only
    refine Push.after ?_ (ResetDI_push _)
    iterate 6 refine Push.after ?_ (enqueue_cmd_push _ _ _)
    exact enqueue_cmd_push _ _ _

theorem GetDLInitValues_push (s : Hub) : Push s (GetDLInitValues s) := by
  unfold GetDLInitValues
  dsimp only
  iterate 6 refine Push.after ?_ (enqueue_cmd_push _ _ _)
  exact enqueue_cmd_push _ _ _

theorem apply_indicator_push (s : Hub) (ilstate : Nat) :
    Push s ( _apply_desired_indicator_light s ilstate).2 := by
  unfold _apply_desired_indicator_light
  by_cases h : ilstate = s._current_ilstate
  · rw [if_pos h]
    exact Push.idle s
  · rw [if_neg h]
    dsimp only
    refine Push.after ?_ (Push.field rfl rfl rfl rfl rfl rfl rfl)
    split_ifs
    · exact SetLights_push s _ _ _ _
    · exact SetLightsRGB_flash_push s _ _ _ _ _ _
    · exact SetLightsRGB_flash_push s _ _ _ _ _ _
    · exact SetLightsRGB_push s _ _ _ _ _
    · exact Push.idle s

theorem process_config_init_push (s : Hub) (now : Nat) : Push s ( _process_config_init s now) := by
  unfold _process_config_init
  split_ifs
  · exact Push.field rfl rfl rfl rfl rfl rfl rfl
  · exact Push.idle s
  · exact (GetDLInitValues_push s).after (Push.field rfl rfl rfl rfl rfl rfl rfl)
  · exact Push.field rfl rfl rfl rfl rfl rfl rfl
  · exact Push.field rfl rfl rfl rfl rfl rfl rfl
  · exact Push.idle s
  · exact (SetDLInitValues_push s _ _ _ _ _ _ _).after (Push.field rfl rfl rfl rfl rfl rfl rfl)
  · exact Push.idle s

theorem run_reset_check_push (s : Hub) (now : Nat) : Push s (run_reset_check s now) := by
  unfold run_reset_check
  have h := ResetDI_push s
  generalize ResetDI s = r at h ⊢
  dsimp only
  split_ifs
  · exact h.after (Push.field rfl rfl rfl rfl rfl rfl rfl)
  · exact h
  · exact Push.idle s
  · exact Push.field rfl rfl rfl rfl rfl rfl rfl
  · exact Push.idle s

theorem run_config_init_push (s : Hub) (now : Nat) : Push s (run_config_init s now) := by
  unfold run_config_init
  split_ifs
  · exact process_config_init_push s now
  · exact Push.idle s

theorem run_poll_diag_push (s : Hub) (now : Nat) : Push s (run_poll_diag s now) := by
  unfold run_poll_diag
  have h : Push s ( _poll_diag s).2 := enqueue_cmd_push s _ _
  generalize ( _poll_diag s).2 = t at h ⊢
  dsimp only
  split_ifs
  · exact h.after (Push.field rfl rfl rfl rfl rfl rfl rfl)
  · exact Push.idle s
  · exact Push.idle s

theorem run_poll_buttons_push (s : Hub) (now : Nat) : Push s (run_poll_buttons s now) := by
  unfold run_poll_buttons
  have h : Push s ( _poll_buttons s).2 := enqueue_cmd_push s _ _
  generalize ( _poll_buttons s).2 = t at h ⊢
  dsimp only
  split_ifs
  · exact h.after (Push.field rfl rfl rfl rfl rfl rfl rfl)
  · exact Push.idle s
  · exact Push.idle s

theorem run_poll_indlight_push (s : Hub) (now : Nat) : Push s (run_poll_indlight s now) := by
  unfold run_poll_indlight
  have h : Push s ( _poll_indlight s) := apply_indicator_push s _
  generalize _poll_indlight s = t at h ⊢
  dsimp only
  split_ifs
  · exact h.after (Push.field rfl rfl rfl rfl rfl rfl rfl)
  · exact Push.idle s
  · exact Push.idle s

theorem PresentAndCheckFoodtreat_push (s : Hub) (now d : Nat) :
    Push s (PresentAndCheckFoodtreat s now d).2 := by
  unfold PresentAndCheckFoodtreat
  by_cases h1 : s._foodmachine_state = FOODMACHINE_LID_OPEN ∨ s._foodmachine_state > FOODMACHINE_WAIT
  · rw [if_pos h1]
    dsimp only
    have h := ResetFoodMachine_push s
    generalize (ResetFoodMachine s).2 = t at h ⊢
    split_ifs
    · exact h.after (Push.field rfl rfl rfl rfl rfl rfl rfl)
    · exact Push.idle s
  · rw [if_neg h1]
    by_cases h2 : s._pact_foodtreat_state = PACT_BEFORE_PRESENT
    · rw [if_pos h2]
      dsimp only
      by_cases h3 : s._foodmachine_state = FOODMACHINE_IDLE
      · rw [if_pos h3]
        have ha := PresentFoodtreat_push s 0
        have hb := PresentFoodtreat_push s ( _milliseconds_to_deciseconds_for_DL_T d)
        generalize PresentFoodtreat s 0 = ra at ha ⊢
        generalize PresentFoodtreat s ( _milliseconds_to_deciseconds_for_DL_T d) = rb at hb ⊢
        split_ifs
        · exact ha.after (Push.field rfl rfl rfl rfl rfl rfl rfl)
        · exact ha
        · exact hb.after (Push.field rfl rfl rfl rfl rfl rfl rfl)
        · exact hb
      · rw [if_neg h3]
        exact Push.idle s
    · rw [if_neg h2]
      by_cases h4 : s._pact_foodtreat_state = PACT_PLATTER_OUT
      · rw [if_pos h4]
        split_ifs
        · exact Push.field rfl rfl rfl rfl rfl rfl rfl
        · exact Push.idle s
      · rw [if_neg h4]
        by_cases h5 : s._pact_foodtreat_state = PACT_WAIT_TIL_BACK
        · rw [if_pos h5]
          have h := RetractTray_push s
          generalize RetractTray s = r at h ⊢
          dsimp only
          split_ifs
          · exact Push.field rfl rfl rfl rfl rfl rfl rfl
          · exact h.after (Push.field rfl rfl rfl rfl rfl rfl rfl)
          · exact h
          · exact Push.idle s
          · exact Push.idle s
        · rw [if_neg h5]
          dsimp only
          split_ifs
          · exact Push.field rfl rfl rfl rfl rfl rfl rfl
          · exact Push.field rfl rfl rfl rfl rfl rfl rfl
          · exact Push.idle s
          · exact Push.idle s

theorem Initialize_push (s : Hub) : Push s (Initialize s).2 := by
  unfold Initialize
  dsimp only
  refine Push.after ?_ (SetLights_push _ _ _ _ _)
  refine Push.after ?_ (PlayTone_push _ _ _ _)
  refine Push.after (ResetDI_push s) ?_
  generalize (ResetDI s).2 = t
  exact Push.field rfl rfl rfl rfl rfl rfl rfl

theorem SetRandomButtonLights_push (s : Hub) (v : List Nat) (a b c d e : Nat) :
    Push s (SetRandomButtonLights s v a b c d e).2 := by
  unfold SetRandomButtonLights
  dsimp only
  have h := SetLights_flash_push s
    ((List.range a).foldl (fun t cntr => t ||| v.getD cntr 0) 0) b c d e
  generalize SetLights_flash s ((List.range a).foldl (fun t cntr => t ||| v.getD cntr 0) 0)
    b c d e = r at h ⊢
  split_ifs <;> exact h

theorem handle_dl_errors_push (s : Hub) : Push s ( _handle_dl_errors s).2 :=
  Push.field rfl rfl rfl rfl rfl rfl rfl

theorem receive_cmd_link (s : Hub) :
    ( _receive_cmd s).2._run_loop_state = s._run_loop_state
    ∧ ( _receive_cmd s).2._num_send_retries = s._num_send_retries
    ∧ ( _receive_cmd s).2._max_num_send_retries = s._max_num_send_retries
    ∧ ( _receive_cmd s).2._dl_reply_queue = s._dl_reply_queue
    ∧ ( _receive_cmd s).2._cmd_queue = s._cmd_queue := by
  obtain ⟨B, n, rx2, e, h⟩ := receive_cmd_writes s
  rw [h]
  exact ⟨rfl, rfl, rfl, rfl, rfl⟩

theorem process_next_msg_queue (s : Hub) (now : Nat) :
    ( _process_next_msg s now).2._max_num_send_retries = s._max_num_send_retries
    ∧ ∃ extra, ( _process_next_msg s now).2._cmd_queue = s._cmd_queue ++ extra := by
  unfold _process_next_msg
  dsimp only
  by_cases hq : s._dl_reply_queue.length > 0
  · rw [if_pos hq]
    obtain ⟨hu, hx⟩ := process_reply_link s now (front s._dl_reply_queue)
    have hp := Push.of_untouched hu hx
    generalize _process_reply_from_dl s now (front s._dl_reply_queue) = r at hp ⊢
    obtain ⟨ok, t⟩ := r
    cases ok
    · exact ⟨hp.2.2.1, hp.2.2.2.2.2.2⟩
    · exact ⟨hp.2.2.1, hp.2.2.2.2.2.2⟩
  · rw [if_neg hq]
    exact ⟨rfl, [], by simp⟩

theorem append_ne_nil_left {α : Type} (a b : List α) (h : a ≠ []) : a ++ b ≠ [] :=
  fun hn => h (List.append_eq_nil.1 hn).1

/-- The `switch` of `_process_DL` from a state that satisfies the invariant:
the maximum is kept; outside state BeforeSend the queue is not empty and the
retry counter is below the maximum; and when the retry counter has reached the
maximum the queue is not empty. -/
theorem process_DL_switch_inv (s : Hub) (now written : Nat) (hi : LinkInv s) :
    (process_DL_switch s now written)._max_num_send_retries = s._max_num_send_retries
    ∧ ((process_DL_switch s now written)._run_loop_state ≠ STATE_BEFORE_SEND →
        (process_DL_switch s now written)._cmd_queue ≠ []
        ∧ (process_DL_switch s now written)._num_send_retries
            < (process_DL_switch s now written)._max_num_send_retries)
    ∧ ((process_DL_switch s now written)._num_send_retries
          ≥ (process_DL_switch s now written)._max_num_send_retries →
        (process_DL_switch s now written)._cmd_queue ≠ []) := by
  obtain ⟨hlt, hne⟩ := hi
  unfold process_DL_switch
  by_cases h1 : s._run_loop_state = STATE_BEFORE_SEND
  · rw [if_pos h1]
    unfold _send_top_cmd _transmit_cmd
    dsimp only
    by_cases hq : s._cmd_queue.length > 0
    · have hq2 : s._cmd_queue ≠ [] := fun h => by rw [h] at hq; exact absurd hq (by decide)
      rw [if_pos hq]
      by_cases ht : decide (strlen (front s._cmd_queue) = written % 65536) = true
      · rw [if_pos ht, if_pos rfl]
        exact ⟨rfl, fun _ => ⟨hq2, hlt⟩, fun _ => hq2⟩
      · rw [if_neg ht]
        dsimp only
        rw [if_neg Bool.false_ne_true]
        exact ⟨rfl, fun h => absurd h1 h, fun _ => hq2⟩
    · rw [if_neg hq]
      dsimp only
      rw [if_neg Bool.false_ne_true]
      exact ⟨rfl, fun h => absurd h1 h, fun h => absurd hlt (Nat.not_lt.2 h)⟩
  · rw [if_neg h1]
    have hq2 := hne h1
    by_cases h2 : s._run_loop_state = STATE_AFTER_SEND_BEFORE_RCV
    · rw [if_pos h2]
      have hp := receive_cmd_link s
      generalize _receive_cmd s = r at hp ⊢
      obtain ⟨o, t⟩ := r
      obtain ⟨_, pb, pc, _, pq⟩ := hp
      dsimp only at pb pc pq
      have hqt : t._cmd_queue ≠ [] := by rw [pq]; exact hq2
      have hlt2 : t._num_send_retries < t._max_num_send_retries := by rw [pb, pc]; exact hlt
      cases o with
      | some reply =>
        exact ⟨pc, fun _ => ⟨hqt, hlt2⟩, fun _ => hqt⟩
      | none =>
        dsimp only
        by_cases hto : (now + ULONG - t._start_listen) % ULONG > t._max_listen_time
        · rw [if_pos hto]
          exact ⟨pc, fun h => absurd rfl h, fun _ => hqt⟩
        · rw [if_neg hto]
          exact ⟨pc, fun _ => ⟨hqt, hlt2⟩, fun _ => hqt⟩
    · rw [if_neg h2]
      by_cases h3 : s._run_loop_state = STATE_AFTER_RCV_BEFORE_PROCESS
      · rw [if_pos h3]
        obtain ⟨hm, _⟩ := process_next_msg_queue s now
        generalize ( _process_next_msg s now).2 = t at hm ⊢
        refine ⟨hm, fun h => absurd rfl h, fun h => ?_⟩
        have h0 : 0 ≥ t._max_num_send_retries := h
        rw [hm] at h0
        exact absurd hlt (by omega)
      · rw [if_neg h3]
        exact ⟨rfl, fun _ => ⟨hq2, hlt⟩, fun _ => hq2⟩

theorem process_DL_inv (s : Hub) (now written : Nat) (hi : LinkInv s) :
    LinkInv ( _process_DL s now written) := by
  obtain ⟨a, b, _⟩ := process_DL_switch_inv s now written hi
  rw [process_DL_eq]
  generalize process_DL_switch s now written = t at a b ⊢
  by_cases hr : t._num_send_retries ≥ t._max_num_send_retries
  · rw [if_pos hr]
    have hpos : 0 < t._max_num_send_retries := by
      rw [a]
      exact Nat.lt_of_le_of_lt (Nat.zero_le _) hi.1
    refine ⟨hpos, fun hs => ?_⟩
    exact absurd (b hs).2 (Nat.not_lt.2 hr)
  · rw [if_neg hr]
    exact ⟨Nat.lt_of_not_ge hr, fun hs => (b hs).1⟩

theorem pops_safe_of_inv (s : Hub) (hi : LinkInv s) : PopsSafe s := by
  intro now written
  refine ⟨fun hs => ?_, (process_DL_switch_inv s now written hi).2.2, fun _ hq => ?_⟩
  · obtain ⟨_, ex, hq⟩ := process_next_msg_queue s now
    rw [hq]
    exact append_ne_nil_left _ _ (hi.2 (by rw [hs]; decide))
  · have h := (process_reply_link s now (front s._dl_reply_queue)).1
    have e : ( _process_reply_from_dl s now (front s._dl_reply_queue)).2._dl_reply_queue
        = s._dl_reply_queue := congrArg (fun x => x.1.2.1) h
    rw [e]
    intro hn
    rw [hn] at hq
    exact absurd hq (by decide)

theorem initialize_before_process_DL_push (s : Hub) (now : Nat) :
    Push s (initialize_before_process_DL s now) := by
  unfold initialize_before_process_DL
  split_ifs
  · exact Push.field rfl rfl rfl rfl rfl rfl rfl
  · exact Push.idle s

theorem pass_before_process_DL_push (s : Hub) (e : Pass) :
    Push s (pass_before_process_DL s e) :=
  (run_reset_check_push s _).after (run_config_init_push _ _)

/-- A property that every `Push` keeps and every step `_process_DL` keeps is
kept by `_initialize`. -/
theorem initialize_keeps (I : Hub → Prop) (hpush : ∀ s t, Push s t → I s → I t)
    (hproc : ∀ s now written, I s → I ( _process_DL s now written))
    (s : Hub) (now written : Nat) (hi : I s) : I ( _initialize s now written).2 := by
  unfold _initialize
  dsimp only
  by_cases h1 : s._init_dl_state = DLINIT_WAIT_BOOT
  · rw [if_pos h1]
    split_ifs
    · exact hpush s _ (Push.field rfl rfl rfl rfl rfl rfl rfl) hi
    · exact hpush s _ (Push.field rfl rfl rfl rfl rfl rfl rfl) hi
  · rw [if_neg h1]
    by_cases h2 : s._init_dl_state = DLINIT_SEND
    · rw [if_pos h2]
      refine hpush s _ ?_ hi
      refine Push.after ?_ (Push.field rfl rfl rfl rfl rfl rfl rfl)
      refine Push.after ?_ (enqueue_cmd_push _ _ _)
      refine Push.after ?_ (PlayTone_push _ _ _ _)
      exact SetLights_push s _ _ _ _
    · rw [if_neg h2]
      by_cases h3 : s._init_dl_state = DLINIT_PROCESS
      · rw [if_pos h3]
        exact hproc _ _ _ (hpush s _ (initialize_before_process_DL_push s now) hi)
      · rw [if_neg h3]
        exact hi

theorem Run_pass_keeps (I : Hub → Prop) (hpush : ∀ s t, Push s t → I s → I t)
    (hproc : ∀ s now written, I s → I ( _process_DL s now written))
    (s : Hub) (e : Pass) (hi : I s) : I (Run_pass s e) := by
  unfold Run_pass
  by_cases hr : (!s._dl_is_ready) = true
  · rw [if_pos hr]
    exact initialize_keeps I hpush hproc s _ _ hi
  · rw [if_neg hr]
    dsimp only
    have h1 := hproc _ e.t_link e.written (hpush s _ (pass_before_process_DL_push s e) hi)
    unfold pass_before_process_DL at h1
    generalize _process_DL (run_config_init (run_reset_check s e.t_reset) e.t_config) e.t_link
      e.written = x at h1 ⊢
    have p1 := run_poll_diag_push x e.t_diag
    have p2 := run_poll_buttons_push (run_poll_diag x e.t_diag) e.t_btn
    have p3 := run_poll_indlight_push (run_poll_buttons (run_poll_diag x e.t_diag) e.t_btn) e.t_ind
    have p4 := handle_dl_errors_push
      (run_poll_indlight (run_poll_buttons (run_poll_diag x e.t_diag) e.t_btn) e.t_ind)
    exact hpush _ _ (((p1.after p2).after p3).after p4) h1

/-- Every operation of a script other than a pass of `Run` is a `Push`. -/
theorem call_push (s : Hub) (c : Call) (hc : ∀ e, c ≠ Call.Run_pass e) : Push s (call s c) := by
  cases c with
  | Run_pass e => exact absurd rfl (hc e)
  | serial_arrive bytes => exact Push.field rfl rfl rfl rfl rfl rfl rfl
  | Initialize_ => exact Initialize_push s
  | SetLights a b c d => exact SetLights_push s a b c d
  | SetLightsRGB a b c d e => exact SetLightsRGB_push s a b c d e
  | SetLights_flash a b c d e => exact SetLights_flash_push s a b c d e
  | SetLightsRGB_flash a b c d e f => exact SetLightsRGB_flash_push s a b c d e f
  | SetRandomButtonLights v a b c d e => exact SetRandomButtonLights_push s v a b c d e
  | PlayAudio a b => exact Push.of_frame (PlayAudio_frame s a b)
  | PlayTone a b c => exact PlayTone_push s a b c
  | PresentFoodtreat d => exact PresentFoodtreat_push s d
  | PresentAndCheckFoodtreat now d => exact PresentAndCheckFoodtreat_push s now d
  | RetractTray => exact RetractTray_push s
  | SetConfigValue a v => exact SetConfigValue_push s a v
  | GetConfigValue a => exact GetConfigValue_push s a
  | GetDLInitValues => exact GetDLInitValues_push s
  | SetDLInitValues a b c d e f g => exact SetDLInitValues_push s a b c d e f g
  | SetDIResetLock b => exact Push.field rfl rfl rfl rfl rfl rfl rfl
  | ResetDI => exact ResetDI_push s
  | ResetFoodMachine => exact ResetFoodMachine_push s
  | UpdateButtonAudioEnabled => exact Push.of_frame (UpdateButtonAudioEnabled_frame s)
  | SetAudioEnabled b => exact Push.field rfl rfl rfl rfl rfl rfl rfl
  | SetButtonAudioEnabled b => exact Push.field rfl rfl rfl rfl rfl rfl rfl
  | SetMaxAudioAmplitude a => exact Push.field rfl rfl rfl rfl rfl rfl rfl
  | SetLightEnabled b => exact Push.field rfl rfl rfl rfl rfl rfl rfl
  | SetMaxLightAmplitude a => exact Push.field rfl rfl rfl rfl rfl rfl rfl
  | SetDoPollButtons b => exact Push.field rfl rfl rfl rfl rfl rfl rfl
  | SetDoPollDiagnostics b => exact Push.field rfl rfl rfl rfl rfl rfl rfl
  | SetDoPollIndLight b => exact Push.field rfl rfl rfl rfl rfl rfl rfl

theorem call_keeps (I : Hub → Prop) (hpush : ∀ s t, Push s t → I s → I t)
    (hproc : ∀ s now written, I s → I ( _process_DL s now written))
    (s : Hub) (c : Call) (hi : I s) : I (call s c) := by
  by_cases hc : ∃ e, c = Call.Run_pass e
  · obtain ⟨e, rfl⟩ := hc
    exact Run_pass_keeps I hpush hproc s e hi
  · exact hpush s _ (call_push s c (fun e h => hc ⟨e, h⟩)) hi

/-- A property that holds of a state, that every `Push` keeps and that every
step `_process_DL` keeps holds after any interleaving from that state. -/
theorem link_steps_keeps (I : Hub → Prop) (hpush : ∀ s t, Push s t → I s → I t)
    (hproc : ∀ s now written, I s → I ( _process_DL s now written)) (l : List LinkStep) :
    ∀ s : Hub, I s → I (link_steps s l) := by
  induction l with
  | nil => intro s h; exact h
  | cons x rest ih =>
    intro s h
    refine ih _ ?_
    cases x with
    | op c => exact call_keeps I hpush hproc s c h
    | process_DL now written => exact hproc s now written h

/-- C37. No dequeue from an empty queue: in every state reached from a freshly constructed
engine by an interleaving of operations (bytes arriving and passes of `Run`
among them) and `_process_DL` steps, with any transmit outcomes, inbound bytes
and clock values, the retry counter is below its maximum and the command queue
is not empty unless the session is in state BeforeSend; and in such a state, in
the state `_initialize` calls `_process_DL` on and in the state a pass of `Run`
calls it on, a step `_process_DL` finds the command queue not empty at each of
its two `_cmd_queue.pop()` calls and the reply queue not empty at the
`_dl_reply_queue.pop()` of `_process_next_msg`. -/
theorem no_dequeue_from_an_empty_queue (bootup : Nat) (l : List LinkStep) :
    LinkInv (link_steps (HubInterface bootup) l)
    ∧ PopsSafe (link_steps (HubInterface bootup) l)
    ∧ (∀ now, PopsSafe (initialize_before_process_DL (link_steps (HubInterface bootup) l) now))
    ∧ (∀ e, PopsSafe (pass_before_process_DL (link_steps (HubInterface bootup) l) e)) := by
  have h0 : LinkInv (HubInterface bootup) :=
    ⟨(by decide : (0 : Nat) < 3), fun h => absurd rfl h⟩
  have h := link_steps_keeps LinkInv (fun _ _ hp hi => hp.keeps hi) process_DL_inv l _ h0
  exact ⟨h, pops_safe_of_inv _ h,
    fun now => pops_safe_of_inv _ ((initialize_before_process_DL_push _ now).keeps h),
    fun e => pops_safe_of_inv _ ((pass_before_process_DL_push _ e).keeps h)⟩

/-! ## C38: the bounds of the reply buffer -/

theorem receive_loop_stores_lt : ∀ (rx : List Nat) (s : Hub),
    ∀ i ∈ receive_loop_stores rx s, i < MAX_LEN_REPLY_BUFFER - 1
  | [], s => by
    intro i hi
    simp [receive_loop_stores] at hi
  | b :: rest, s => by
    intro i hi
    unfold receive_loop_stores at hi
    by_cases h1 : s._len_reply_buffer ≥ MAX_LEN_REPLY_BUFFER - 1
    · rw [if_pos h1] at hi
      cases hi
    · rw [if_neg h1] at hi
      dsimp only at hi
      rcases List.mem_cons.1 hi with e | hm
      · rw [e]
        exact Nat.lt_of_not_ge h1
      · by_cases h2 : byteAt (s._reply_buffer.set s._len_reply_buffer b)
            (s._len_reply_buffer + 1 - 1) = 46
        · rw [if_pos h2] at hm
          cases hm
        · rw [if_neg h2] at hm
          exact receive_loop_stores_lt rest _ i hm

theorem receive_loop_len : ∀ (rx : List Nat) (s : Hub),
    s._len_reply_buffer ≤ MAX_LEN_REPLY_BUFFER - 1 →
    ( _receive_cmd_loop rx s).1._len_reply_buffer ≤ MAX_LEN_REPLY_BUFFER - 1
  | [], s => fun h => h
  | b :: rest, s => by
    intro h
    unfold _receive_cmd_loop
    by_cases h1 : s._len_reply_buffer ≥ MAX_LEN_REPLY_BUFFER - 1
    · rw [if_pos h1]
      exact h
    · rw [if_neg h1]
      dsimp only
      have h3 : s._len_reply_buffer + 1 ≤ MAX_LEN_REPLY_BUFFER - 1 := Nat.lt_of_not_ge h1
      by_cases h2 : byteAt (s._reply_buffer.set s._len_reply_buffer b)
          (s._len_reply_buffer + 1 - 1) = 46
      · rw [if_pos h2]
        exact h3
      · rw [if_neg h2]
        exact receive_loop_len rest _ h3

/-- Every store of a call of `_receive_cmd` is at an index below the size of the
buffer. -/
theorem receive_cmd_stores_lt (s : Hub)
    (hlen : s._len_reply_buffer ≤ MAX_LEN_REPLY_BUFFER - 1) :
    ∀ i ∈ receive_cmd_stores s, i < MAX_LEN_REPLY_BUFFER := by
  intro i hi
  unfold receive_cmd_stores at hi
  dsimp only at hi
  rcases List.mem_append.1 hi with h | h
  · exact Nat.lt_of_lt_of_le (receive_loop_stores_lt _ _ i h) (by decide)
  · have hl := receive_loop_len s.serial_rx s hlen
    generalize _receive_cmd_loop s.serial_rx s = r at h hl
    split_ifs at h
    · cases h
    · rw [List.mem_singleton.1 h]
      exact Nat.lt_of_le_of_lt hl (by decide)
    · cases h

theorem byteAt_set_ne (l : List Nat) (i b : Nat) (hb : b ≠ 46) : byteAt (l.set i b) i ≠ 46 := by
  unfold byteAt
  rcases Nat.lt_or_ge i l.length with h | h
  · rw [getD_set_self l i b h]
    exact hb
  · rw [List.getD_eq_default _ _ (by rw [List.length_set]; exact h)]
    decide

/-- The receive loop on bytes that fill the buffer without a `.` and are
followed by at least one more byte: it ends in `return false` with the error
recorded, the buffer full and the further bytes still waiting. -/
theorem receive_loop_overflow : ∀ (pre : List Nat) (s : Hub) (b : Nat) (rest : List Nat),
    46 ∉ pre → s._len_reply_buffer + pre.length = 63 →
    ( _receive_cmd_loop (pre ++ b :: rest) s).2 = true
    ∧ ( _receive_cmd_loop (pre ++ b :: rest) s).1._error_code = ERROR_CMD_RECEIVED_TOO_LONG
    ∧ ( _receive_cmd_loop (pre ++ b :: rest) s).1._len_reply_buffer = 63
    ∧ ( _receive_cmd_loop (pre ++ b :: rest) s).1.serial_rx ≠ []
  | [], s, b, rest => by
    intro _ h
    have h63 : s._len_reply_buffer ≥ MAX_LEN_REPLY_BUFFER - 1 := by
      show 63 ≤ s._len_reply_buffer
      simp only [List.length_nil, Nat.add_zero] at h
      omega
    rw [List.nil_append]
    unfold _receive_cmd_loop
    rw [if_pos h63]
    exact ⟨rfl, rfl, by simpa using h, fun hn => by cases hn⟩
  | x :: pre, s, b, rest => by
    intro hno h
    have hx : x ≠ 46 := fun e => hno (by rw [e]; exact List.mem_cons_self _ _)
    have hno2 : 46 ∉ pre := fun hm => hno (List.mem_cons_of_mem _ hm)
    have h63 : ¬ s._len_reply_buffer ≥ MAX_LEN_REPLY_BUFFER - 1 := by
      show ¬ 63 ≤ s._len_reply_buffer
      simp only [List.length_cons] at h
      omega
    rw [List.cons_append]
    unfold _receive_cmd_loop
    rw [if_neg h63]
    dsimp only
    rw [Nat.add_sub_cancel, if_neg (byteAt_set_ne _ _ _ hx)]
    refine receive_loop_overflow pre _ b rest hno2 ?_
    show s._len_reply_buffer + 1 + pre.length = 63
    simp only [List.length_cons] at h
    omega

/-- A call of `_receive_cmd` with such bytes waiting returns `false` and records
the error. -/
theorem receive_cmd_too_long (s : Hub) (pre : List Nat) (b : Nat) (rest : List Nat)
    (hrx : s.serial_rx = pre ++ b :: rest) (hno : 46 ∉ pre)
    (hfull : s._len_reply_buffer + pre.length = 63) :
    ( _receive_cmd s).1 = none
    ∧ ( _receive_cmd s).2._error_code = ERROR_CMD_RECEIVED_TOO_LONG
    ∧ ( _receive_cmd s).2._len_reply_buffer = 63
    ∧ ( _receive_cmd s).2.serial_rx ≠ [] := by
  obtain ⟨a, b2, c, d⟩ := receive_loop_overflow pre s b rest hno hfull
  unfold _receive_cmd
  rw [hrx]
  generalize _receive_cmd_loop (pre ++ b :: rest) s = r at a b2 c d ⊢
  dsimp only
  rw [if_pos a]
  exact ⟨rfl, b2, c, d⟩

theorem BufInv.of_push {s t : Hub} (h : Push s t) (hi : BufInv s) : BufInv t := by
  obtain ⟨_, _, _, _, f, g, _⟩ := h
  unfold BufInv
  rw [f, g]
  exact hi

theorem BufInv.of_receive (s : Hub) (hi : BufInv s) : BufInv ( _receive_cmd s).2 :=
  receive_cmd_open s hi.1 hi.2.1 hi.2.2

theorem process_next_msg_buffer (s : Hub) (now : Nat) :
    ( _process_next_msg s now).2._reply_buffer = s._reply_buffer
    ∧ ( _process_next_msg s now).2._len_reply_buffer = s._len_reply_buffer := by
  unfold _process_next_msg
  dsimp only
  by_cases hq : s._dl_reply_queue.length > 0
  · rw [if_pos hq]
    obtain ⟨hu, hx⟩ := process_reply_link s now (front s._dl_reply_queue)
    have hp := Push.of_untouched hu hx
    generalize _process_reply_from_dl s now (front s._dl_reply_queue) = r at hp ⊢
    obtain ⟨ok, t⟩ := r
    cases ok
    · exact ⟨hp.2.2.2.2.1, hp.2.2.2.2.2.1⟩
    · exact ⟨hp.2.2.2.2.1, hp.2.2.2.2.2.1⟩
  · rw [if_neg hq]
    exact ⟨rfl, rfl⟩

theorem process_DL_switch_buffer (s : Hub) (now written : Nat) (hi : BufInv s) :
    BufInv (process_DL_switch s now written) := by
  unfold process_DL_switch
  by_cases h1 : s._run_loop_state = STATE_BEFORE_SEND
  · rw [if_pos h1]
    unfold _send_top_cmd _transmit_cmd
    dsimp only
    by_cases hq : s._cmd_queue.length > 0
    · rw [if_pos hq]
      by_cases ht : decide (strlen (front s._cmd_queue) = written % 65536) = true
      · rw [if_pos ht, if_pos rfl]
        exact ⟨hi.1, Nat.zero_le _, Or.inl rfl⟩
      · rw [if_neg ht]
        dsimp only
        rw [if_neg Bool.false_ne_true]
        exact hi
    · rw [if_neg hq]
      dsimp only
      rw [if_neg Bool.false_ne_true]
      exact hi
  · rw [if_neg h1]
    by_cases h2 : s._run_loop_state = STATE_AFTER_SEND_BEFORE_RCV
    · rw [if_pos h2]
      have hp := BufInv.of_receive s hi
      generalize _receive_cmd s = r at hp ⊢
      obtain ⟨o, t⟩ := r
      cases o with
      | some reply => exact hp
      | none =>
        dsimp only
        by_cases hto : (now + ULONG - t._start_listen) % ULONG > t._max_listen_time
        · rw [if_pos hto]
          exact ⟨hp.1, Nat.zero_le _, Or.inl rfl⟩
        · rw [if_neg hto]
          exact hp
    · rw [if_neg h2]
      by_cases h3 : s._run_loop_state = STATE_AFTER_RCV_BEFORE_PROCESS
      · rw [if_pos h3]
        obtain ⟨hb, hl⟩ := process_next_msg_buffer s now
        generalize ( _process_next_msg s now).2 = t at hb hl ⊢
        unfold BufInv
        dsimp only
        rw [hb, hl]
        exact hi
      · rw [if_neg h3]
        exact hi

theorem process_DL_buffer (s : Hub) (now written : Nat) (hi : BufInv s) :
    BufInv ( _process_DL s now written) := by
  have h := process_DL_switch_buffer s now written hi
  rw [process_DL_eq]
  generalize process_DL_switch s now written = t at h ⊢
  split_ifs
  · exact h
  · exact h

/-- Bytes arriving in pieces, the first bytes that fit in the buffer holding no
`.`: every call of `_receive_cmd` returns `false`, and once more bytes have
arrived than fit, the error is recorded. -/
theorem receive_chunks_too_long : ∀ (chunks : List (List Nat)) (s : Hub), BufInv s →
    46 ∉ (s.serial_rx ++ chunks.flatten).take (63 - s._len_reply_buffer) →
    (∀ r ∈ (receive_chunks s chunks).1, r = none)
    ∧ (chunks ≠ [] → s._len_reply_buffer + (s.serial_rx ++ chunks.flatten).length > 63 →
        (receive_chunks s chunks).2._error_code = ERROR_CMD_RECEIVED_TOO_LONG)
  | [], s => by
    intro _ _
    exact ⟨fun r hr => (by cases hr), fun h => absurd rfl h⟩
  | c :: cs, s => by
    intro hi hno
    have hlen : s._len_reply_buffer ≤ 63 := hi.2.1
    have hi2 : BufInv (serial_arrive s c) := hi
    have hrx : (serial_arrive s c).serial_rx = s.serial_rx ++ c := rfl
    have hl2 : (serial_arrive s c)._len_reply_buffer = s._len_reply_buffer := rfl
    have e : receive_chunks s (c :: cs)
        = (( _receive_cmd (serial_arrive s c)).1
            :: (receive_chunks ( _receive_cmd (serial_arrive s c)).2 cs).1,
           (receive_chunks ( _receive_cmd (serial_arrive s c)).2 cs).2) := rfl
    rw [e]
    rw [List.flatten_cons, ← List.append_assoc] at hno ⊢
    have hi3 := BufInv.of_receive _ hi2
    generalize serial_arrive s c = s1 at hi2 hrx hl2 hi3 ⊢
    rw [← hrx] at hno ⊢
    rw [← hl2] at hno hlen ⊢
    rcases Nat.lt_or_ge (63 - s1._len_reply_buffer) s1.serial_rx.length with hA | hB
    · -- more bytes are waiting than fit
      have hne : s1.serial_rx.drop (63 - s1._len_reply_buffer) ≠ [] := by
        intro hn
        have := congrArg List.length hn
        rw [List.length_drop, List.length_nil] at this
        omega
      obtain ⟨b, rest, hbr⟩ := List.exists_cons_of_ne_nil hne
      have hsplit : s1.serial_rx = s1.serial_rx.take (63 - s1._len_reply_buffer) ++ b :: rest := by
        rw [← hbr, List.take_append_drop]
      have hpre : 46 ∉ s1.serial_rx.take (63 - s1._len_reply_buffer) := by
        rw [List.take_append_of_le_length (Nat.le_of_lt hA)] at hno
        exact hno
      have hfull : s1._len_reply_buffer
          + (s1.serial_rx.take (63 - s1._len_reply_buffer)).length = 63 := by
        rw [List.length_take, Nat.min_eq_left (Nat.le_of_lt hA)]
        omega
      obtain ⟨r1, r2, r3, r4⟩ := receive_cmd_too_long s1 _ b rest hsplit hpre hfull
      generalize _receive_cmd s1 = r at hi3 r1 r2 r3 r4 ⊢
      obtain ⟨o, t⟩ := r
      dsimp only at hi3 r1 r2 r3 r4 ⊢
      have ih := receive_chunks_too_long cs t hi3 (by rw [r3]; simp)
      refine ⟨fun x hx => ?_, fun _ _ => ?_⟩
      · rcases List.mem_cons.1 hx with h | h
        · rw [h]; exact r1
        · exact ih.1 x h
      · cases cs with
        | nil => exact r2
        | cons c2 cs2 =>
          refine ih.2 (fun h => by cases h) ?_
          have : 0 < t.serial_rx.length := List.length_pos.mpr r4
          rw [r3, List.length_append]
          omega
    · -- all the bytes waiting fit
      have hsplit : (s1.serial_rx ++ cs.flatten).take (63 - s1._len_reply_buffer)
          = s1.serial_rx
            ++ cs.flatten.take (63 - s1._len_reply_buffer - s1.serial_rx.length) := by
        rw [List.take_append_eq_append_take, List.take_of_length_le hB]
      rw [hsplit] at hno
      have hno1 : 46 ∉ s1.serial_rx := fun h => hno (List.mem_append_left _ h)
      have hno2 : 46 ∉ cs.flatten.take (63 - s1._len_reply_buffer - s1.serial_rx.length) :=
        fun h => hno (List.mem_append_right _ h)
      have hm := receive_cmd_more s1 hi2.1 hno1 (by omega) hi2.2.2
      rw [hm] at hi3 ⊢
      dsimp only at hi3 ⊢
      have hbl : (buffered s1 s1.serial_rx [])._len_reply_buffer
          = s1._len_reply_buffer + s1.serial_rx.length := rfl
      have hbr : (buffered s1 s1.serial_rx []).serial_rx = [] := rfl
      have ih := receive_chunks_too_long cs (buffered s1 s1.serial_rx []) hi3 (by
        rw [hbl, hbr, List.nil_append, ← Nat.sub_sub]
        exact hno2)
      refine ⟨fun x hx => ?_, fun _ hgt => ?_⟩
      · rcases List.mem_cons.1 hx with h | h
        · exact h
        · exact ih.1 x h
      · rw [List.length_append] at hgt
        have hcs : cs ≠ [] := by
          intro h
          rw [h, List.flatten_nil, List.length_nil] at hgt
          omega
        refine ih.2 hcs ?_
        rw [hbl, hbr, List.nil_append]
        omega

/-- C38. Reply buffer bounds: in every state reached from a freshly constructed engine by
an interleaving of operations and `_process_DL` steps, and in the states
`_initialize` and a pass of `Run` call `_process_DL` on, the inbound buffer has
its 64 elements, holds at most 63 bytes and does not end in a `.`.  In a
state `s` of that kind, every store of a call of `_receive_cmd`, the terminator
after the `.` included, is at an index below `MAX_LEN_REPLY_BUFFER` (64); a
call that finds the buffer filled by bytes without a `.` and a further byte
waiting returns `false` and records `ERROR_CMD_RECEIVED_TOO_LONG`; and when
bytes arrive in pieces and the first bytes that fit hold no `.`, every call
returns `false` (no reply is returned as complete), the error being recorded
once more bytes have arrived than fit. -/
theorem reply_buffer_bounds (bootup : Nat) (l : List LinkStep) (s : Hub) (hs : BufInv s) :
    (BufInv (link_steps (HubInterface bootup) l)
      ∧ (∀ now, BufInv (initialize_before_process_DL (link_steps (HubInterface bootup) l) now))
      ∧ (∀ e, BufInv (pass_before_process_DL (link_steps (HubInterface bootup) l) e)))
    ∧ (∀ i ∈ receive_cmd_stores s, i < MAX_LEN_REPLY_BUFFER)
    ∧ (∀ (pre : List Nat) (b : Nat) (rest : List Nat), s.serial_rx = pre ++ b :: rest →
        46 ∉ pre → s._len_reply_buffer + pre.length = 63 →
        ( _receive_cmd s).1 = none
        ∧ ( _receive_cmd s).2._error_code = ERROR_CMD_RECEIVED_TOO_LONG)
    ∧ (∀ chunks : List (List Nat), s.serial_rx = [] →
        46 ∉ chunks.flatten.take (63 - s._len_reply_buffer) →
        (∀ r ∈ (receive_chunks s chunks).1, r = none)
        ∧ (s._len_reply_buffer + chunks.flatten.length > 63 →
            (receive_chunks s chunks).2._error_code = ERROR_CMD_RECEIVED_TOO_LONG)) := by
  have h0 : BufInv (HubInterface bootup) :=
    ⟨List.length_replicate _ _, Nat.zero_le _, Or.inl rfl⟩
  have h := link_steps_keeps BufInv (fun _ _ hp hi => BufInv.of_push hp hi) process_DL_buffer l
    _ h0
  refine ⟨⟨h, fun now => BufInv.of_push (initialize_before_process_DL_push _ now) h,
    fun e => BufInv.of_push (pass_before_process_DL_push _ e) h⟩,
    receive_cmd_stores_lt s hs.2.1, ?_, ?_⟩
  · intro pre b rest hrx hno hfull
    obtain ⟨a, b2, _, _⟩ := receive_cmd_too_long s pre b rest hrx hno hfull
    exact ⟨a, b2⟩
  · intro chunks hrx hno
    have hc := receive_chunks_too_long chunks s hs (by rw [hrx, List.nil_append]; exact hno)
    refine ⟨hc.1, fun hgt => ?_⟩
    have hne : chunks ≠ [] := by
      intro hn
      rw [hn, List.flatten_nil, List.length_nil] at hgt
      have := hs.2.1
      have e63 : MAX_LEN_REPLY_BUFFER - 1 = 63 := rfl
      omega
    exact hc.2 hne (by rw [hrx, List.nil_append]; exact hgt)

theorem reply_buffer_bounds_witness :
    BufInv (serial_arrive (HubInterface 0) (List.replicate 64 65))
    ∧ (∀ i ∈ receive_cmd_stores (serial_arrive (HubInterface 0) (List.replicate 64 65)),
        i < MAX_LEN_REPLY_BUFFER)
    ∧ ( _receive_cmd (serial_arrive (HubInterface 0) (List.replicate 64 65))).1 = none
    ∧ ( _receive_cmd (serial_arrive (HubInterface 0) (List.replicate 64 65))).2._error_code
        = ERROR_CMD_RECEIVED_TOO_LONG :=
  ⟨⟨by decide, by decide, Or.inl rfl⟩,
    (reply_buffer_bounds 0 [] (serial_arrive (HubInterface 0) (List.replicate 64 65))
      ⟨by decide, by decide, Or.inl rfl⟩).2.1,
    by decide, by decide⟩

/-! ## C39: presentations the device takes as indefinite -/

/-- C39, the code at the failing input.  The food machine is idle and a script
calls `PresentAndCheckFoodtreat(50)`.  The call enqueues the present command
with the duration field `00` (the frame `$0020T100.`) and moves to PlatterOut,
but leaves the indefinite-presentation flag `false`.  With the tray seen out
(state 6) the session is in WaitTilBack, and a call long after the 50 ms
enqueues no retract: the queue stays as it was. -/
theorem short_duration_presents_forever :
    (PresentAndCheckFoodtreat (diag_update (HubInterface 0) 500 (ascii "00000000040"))
        600 50).2._cmd_queue = [ascii "$0020T100." ++ [0]]
    ∧ (PresentAndCheckFoodtreat (diag_update (HubInterface 0) 500 (ascii "00000000040"))
        600 50).2._indefinite_tray_presentation = false
    ∧ (PresentAndCheckFoodtreat (diag_update (HubInterface 0) 500 (ascii "00000000040"))
        600 50).2._pact_foodtreat_state = PACT_PLATTER_OUT
    ∧ (PresentAndCheckFoodtreat (diag_update (PresentAndCheckFoodtreat
          (diag_update (HubInterface 0) 500 (ascii "00000000040")) 600 50).2
            1000 (ascii "00000000060")) 1100 50).2._pact_foodtreat_state = PACT_WAIT_TIL_BACK
    ∧ (PresentAndCheckFoodtreat (PresentAndCheckFoodtreat (diag_update (PresentAndCheckFoodtreat
          (diag_update (HubInterface 0) 500 (ascii "00000000040")) 600 50).2
            1000 (ascii "00000000060")) 1100 50).2 900000 50).2._cmd_queue
        = [ascii "$0020T100." ++ [0]] := by
  decide

/-! ## C40: the boot wait after a reset -/

theorem Boot.rest (s : Hub) : Boot s s := rfl

theorem Boot.chain {s t u : Hub} (h1 : Boot s t) (h2 : Boot t u) : Boot s u :=
  Eq.trans h2 h1

theorem Boot.put {s t : Hub} (h : boot_view t = boot_view s) : Boot s t := h

theorem enqueue_cmd_boot (s : Hub) (token : Nat) (payload : List Nat) :
    Boot s (enqueue_cmd s token payload).2 := by
  unfold enqueue_cmd _create_dl_cmd_with
  split_ifs
  · exact Boot.rest s
  · exact Boot.put rfl

theorem PlayAudio_boot (s : Hub) (a v : Nat) : Boot s (PlayAudio s a v).2 := by
  unfold PlayAudio
  split_ifs
  · exact Boot.rest s
  · exact enqueue_cmd_boot _ _ _

theorem ResetFoodMachine_boot (s : Hub) : Boot s (ResetFoodMachine s).2 := by
  unfold ResetFoodMachine _create_dl_cmd_with
  split_ifs
  · exact Boot.rest s
  · exact Boot.put rfl

theorem UpdateButtonAudioEnabled_boot (s : Hub) : Boot s (UpdateButtonAudioEnabled s) := by
  unfold UpdateButtonAudioEnabled
  split_ifs <;> exact Boot.put rfl

theorem update_left_button_boot (s : Hub) (now l : Nat) :
    Boot s (update_left_button s now l) := by
  unfold update_left_button
  dsimp only
  split_ifs
  · refine Boot.chain ?_ (PlayAudio_boot _ _ _)
    exact Boot.put rfl
  · exact Boot.put rfl
  · exact Boot.put rfl
  · exact Boot.put rfl
  · exact Boot.rest s

theorem update_middle_button_boot (s : Hub) (now m : Nat) :
    Boot s (update_middle_button s now m) := by
  unfold update_middle_button
  dsimp only
  split_ifs
  · refine Boot.chain ?_ (PlayAudio_boot _ _ _)
    exact Boot.put rfl
  · exact Boot.put rfl
  · exact Boot.put rfl
  · exact Boot.put rfl
  · exact Boot.rest s

theorem update_right_button_boot (s : Hub) (now r : Nat) :
    Boot s (update_right_button s now r) := by
  unfold update_right_button
  dsimp only
  split_ifs
  · refine Boot.chain ?_ (PlayAudio_boot _ _ _)
    exact Boot.put rfl
  · exact Boot.put rfl
  · exact Boot.put rfl
  · exact Boot.put rfl
  · exact Boot.rest s

theorem update_button_boot (s : Hub) (now l m r : Nat) :
    Boot s (_update_button_pressed_state s now l m r) :=
  ((update_left_button_boot s now l).chain (update_middle_button_boot _ now m)).chain
    (update_right_button_boot _ now r)

theorem cap_reset_left_boot (s : Hub) (now : Nat) (v : Int) :
    Boot s (cap_reset_left s now v).1 := by
  unfold cap_reset_left
  split_ifs <;> first | exact Boot.rest s | exact Boot.put rfl

theorem cap_reset_middle_boot (s : Hub) (now : Nat) (v : Int) :
    Boot s (cap_reset_middle s now v).1 := by
  unfold cap_reset_middle
  split_ifs <;> first | exact Boot.rest s | exact Boot.put rfl

theorem cap_reset_right_boot (s : Hub) (now : Nat) (v : Int) :
    Boot s (cap_reset_right s now v).1 := by
  unfold cap_reset_right
  split_ifs <;> first | exact Boot.rest s | exact Boot.put rfl

theorem update_cap_reset_boot (s : Hub) (now : Nat) (l m r : Int) :
    Boot s (_update_cap_reset s now l m r) := by
  unfold _update_cap_reset
  dsimp only
  split_ifs
  · exact Boot.rest s
  · exact cap_reset_left_boot s now l
  · exact (cap_reset_left_boot s now l).chain (cap_reset_middle_boot _ now m)
  · exact ((cap_reset_left_boot s now l).chain (cap_reset_middle_boot _ now m)).chain
      (cap_reset_right_boot _ now r)

theorem bad_num_args_boot (s : Hub) : Boot s (bad_num_args s).1 :=
  Boot.put rfl

theorem scan_hu_into_boot (s0 : Hub) (st : Hub × List Nat × Bool) (set : Hub → Nat → Hub)
    (h0 : Boot s0 st.1) (hset : ∀ h v, Boot h (set h v)) :
    Boot s0 (scan_hu_into st set).1 := by
  unfold scan_hu_into
  split_ifs
  · split
    · exact h0.chain (hset _ _)
    · exact h0
  · exact h0

theorem parse_msg_B_boot (s : Hub) (now : Nat) (payload : List Nat) :
    Boot s (_parse_msg_B s now payload).1 := by
  unfold _parse_msg_B
  split
  · exact bad_num_args_boot s
  · split
    · exact bad_num_args_boot s
    · split
      · exact bad_num_args_boot s
      · rename_i p3 _
        dsimp only
        have h6 : Boot s
            (scan_hu_into (scan_hu_into (scan_hu_into (scan_hu_into (scan_hu_into (scan_hu_into
              (s, p3, true) (fun h v => { h with _left_baseline := v }))
              (fun h v => { h with _midd_baseline := v }))
              (fun h v => { h with _right_baseline := v }))
              (fun h v => { h with _left_read := v }))
              (fun h v => { h with _midd_read := v }))
              (fun h v => { h with _right_read := v })).1 := by
          iterate 6
            refine scan_hu_into_boot _ _ _ ?_ ?_
            swap
            · intro h v; exact Boot.put rfl
          exact Boot.rest s
        split_ifs
        · exact h6.chain (bad_num_args_boot _)
        · refine h6.chain ?_
          refine Boot.chain ?_ (update_cap_reset_boot _ _ _ _ _)
          refine Boot.chain ?_ (update_button_boot _ _ _ _ _)
          exact Boot.put rfl

theorem parse_msg_G_boot (s : Hub) (now : Nat) (payload : List Nat) :
    Boot s (_parse_msg_G s now payload).1 := by
  unfold _parse_msg_G
  split
  · exact bad_num_args_boot s
  · split
    · exact bad_num_args_boot s
    · split
      · exact bad_num_args_boot s
      · dsimp only
        refine Boot.chain ?_ (update_button_boot _ _ _ _ _)
        exact Boot.put rfl

theorem track_food_errors_boot (s : Hub) : Boot s (track_food_errors s) := by
  unfold track_food_errors
  dsimp only
  split_ifs
  · refine Boot.chain ?_ (Boot.put rfl)
    refine Boot.chain ?_ (UpdateButtonAudioEnabled_boot _)
    exact Boot.put rfl
  · exact Boot.rest s
  · refine Boot.chain ?_ (Boot.put rfl)
    refine Boot.chain ?_ (UpdateButtonAudioEnabled_boot _)
    exact Boot.put rfl
  · exact Boot.rest s
  · exact Boot.rest s

theorem track_platter_errors_boot (s : Hub) (now : Nat) :
    Boot s (track_platter_errors s now) := by
  unfold track_platter_errors
  dsimp only
  split_ifs
  · exact Boot.put rfl
  · refine Boot.chain ?_ (Boot.put rfl)
    refine Boot.chain ?_ (UpdateButtonAudioEnabled_boot _)
    exact Boot.put rfl
  · refine Boot.chain ?_ (ResetFoodMachine_boot _)
    exact Boot.put rfl
  · exact Boot.rest s
  · exact Boot.put rfl
  · refine Boot.chain ?_ (UpdateButtonAudioEnabled_boot _)
    exact Boot.put rfl
  · exact Boot.rest s

theorem track_singulator_errors_boot (s : Hub) : Boot s (track_singulator_errors s) := by
  unfold track_singulator_errors
  dsimp only
  split_ifs
  · refine Boot.chain ?_ (Boot.put rfl)
    refine Boot.chain ?_ (UpdateButtonAudioEnabled_boot _)
    exact Boot.put rfl
  · exact Boot.rest s
  · refine Boot.chain ?_ (Boot.put rfl)
    refine Boot.chain ?_ (UpdateButtonAudioEnabled_boot _)
    exact Boot.put rfl
  · exact Boot.rest s

theorem parse_msg_Z_boot (s : Hub) (now : Nat) (payload : List Nat) :
    Boot s (_parse_msg_Z s now payload).1 := by
  unfold _parse_msg_Z
  dsimp only
  split_ifs
  · exact bad_num_args_boot s
  · dsimp only
    refine Boot.chain ?_ (track_singulator_errors_boot _)
    refine Boot.chain ?_ (track_platter_errors_boot _ _)
    refine Boot.chain ?_ (track_food_errors_boot _)
    exact Boot.put rfl

theorem parse_msg_P_boot (s : Hub) (now rplystatus : Nat) :
    Boot s (_parse_msg_P s now rplystatus).1 := by
  unfold _parse_msg_P
  dsimp only
  split_ifs
  · dsimp only
    refine Boot.chain ?_ (Boot.put rfl)
    refine Boot.chain ?_ (PlayAudio_boot _ _ _)
    exact Boot.put rfl
  · exact Boot.put rfl
  · dsimp only
    exact PlayAudio_boot _ _ _
  · exact Boot.put rfl
  · exact Boot.rest s
  · exact Boot.put rfl

theorem store_config_value_boot (s : Hub) (config_id config_value : Int) :
    Boot s (store_config_value s config_id config_value) := by
  unfold store_config_value
  split_ifs <;> exact Boot.put rfl

theorem parse_msg_U_boot (s : Hub) (payload : List Nat) :
    Boot s (_parse_msg_U s payload).1 := by
  unfold _parse_msg_U
  split
  · exact bad_num_args_boot s
  · split
    · exact bad_num_args_boot s
    · dsimp only
      split_ifs
      · exact (store_config_value_boot s _ _).chain (Boot.put rfl)
      · exact (store_config_value_boot s _ _).chain (Boot.put rfl)

theorem parse_msg_K_boot (s : Hub) (now : Nat) : Boot s (_parse_msg_K s now).1 :=
  Boot.put rfl

theorem Boot.pick (s : Hub) (c : Prop) [Decidable c] (a b : Hub × Bool)
    (ha : Boot s a.1) (hb : Boot s b.1) : Boot s (if c then a else b).1 := by
  by_cases h : c
  · rw [if_pos h]; exact ha
  · rw [if_neg h]; exact hb

theorem parse_msg_switch_boot (s : Hub) (now token rplystatus : Nat) (payload : List Nat) :
    Boot s (_parse_msg_switch s now token rplystatus payload).1 := by
  unfold _parse_msg_switch
  refine Boot.pick s _ _ _ (Boot.rest s) ?_
  refine Boot.pick s _ _ _ (Boot.rest s) ?_
  refine Boot.pick s _ _ _ (parse_msg_B_boot _ _ _) ?_
  refine Boot.pick s _ _ _ (parse_msg_G_boot _ _ _) ?_
  refine Boot.pick s _ _ _ (parse_msg_Z_boot _ _ _) ?_
  refine Boot.pick s _ _ _ (Boot.rest s) ?_
  refine Boot.pick s _ _ _ (Boot.rest s) ?_
  refine Boot.pick s _ _ _ (Boot.rest s) ?_
  refine Boot.pick s _ _ _ (parse_msg_P_boot _ _ _) ?_
  refine Boot.pick s _ _ _ (Boot.rest s) ?_
  refine Boot.pick s _ _ _ (Boot.rest s) ?_
  refine Boot.pick s _ _ _ (Boot.rest s) ?_
  refine Boot.pick s _ _ _ (parse_msg_K_boot _ _) ?_
  refine Boot.pick s _ _ _ (parse_msg_U_boot _ _) ?_
  exact Boot.rest s

theorem parse_msg_boot (s : Hub) (now token rplystatus : Nat) (payload : List Nat)
    (len : Nat) : Boot s (_parse_msg s now token rplystatus payload len).2 := by
  have h := parse_msg_switch_boot s now token (sub48 rplystatus) payload
  have e : _parse_msg s now token rplystatus payload len
      = if (!(_parse_msg_switch s now token (sub48 rplystatus) payload).2) = true then
          (false, (_parse_msg_switch s now token (sub48 rplystatus) payload).1)
        else (byteAt (front (_parse_msg_switch s now token (sub48 rplystatus) payload).1._cmd_queue) 5
                == token, (_parse_msg_switch s now token (sub48 rplystatus) payload).1) := rfl
  rw [e]
  generalize _parse_msg_switch s now token (sub48 rplystatus) payload = r at h ⊢
  by_cases hc : (!r.2) = true
  · rw [if_pos hc]; exact h
  · rw [if_neg hc]; exact h

theorem process_reply_boot (s : Hub) (now : Nat) (cmd : dlimsg_t) (h7 : 7 ≤ strlen cmd) :
    Boot s (_process_reply_from_dl s now cmd).2 := by
  have hlt : ¬ (strlen cmd < 7) := by omega
  simp only [_process_reply_from_dl, reply_header, hlt, if_false]
  exact parse_msg_boot _ _ _ _ _ _

theorem process_reply_any_boot (s : Hub) (now : Nat) (cmd : dlimsg_t) :
    Boot s ( _process_reply_from_dl s now cmd).2 := by
  rcases Nat.lt_or_ge (strlen cmd) 7 with h | h
  · have e : _process_reply_from_dl s now cmd
        = (false, { s with _error_code := ERROR_CMD_RECEIVED_TOO_SHORT }) := by
      simp only [_process_reply_from_dl, reply_header, h, if_true]
    rw [e]
    exact Boot.put rfl
  · exact process_reply_boot s now cmd h

theorem process_next_msg_boot (s : Hub) (now : Nat) : Boot s ( _process_next_msg s now).2 := by
  unfold _process_next_msg
  dsimp only
  by_cases hq : s._dl_reply_queue.length > 0
  · rw [if_pos hq]
    have hp := process_reply_any_boot s now (front s._dl_reply_queue)
    generalize _process_reply_from_dl s now (front s._dl_reply_queue) = r at hp ⊢
    obtain ⟨ok, t⟩ := r
    cases ok
    · exact hp.chain (Boot.put rfl)
    · exact hp.chain (Boot.put rfl)
  · rw [if_neg hq]
    exact Boot.rest s

theorem receive_cmd_boot (s : Hub) : Boot s ( _receive_cmd s).2 := by
  obtain ⟨B, n, rx2, e, h⟩ := receive_cmd_writes s
  rw [h]
  exact Boot.put rfl

theorem send_top_cmd_boot (s : Hub) (written : Nat) : Boot s ( _send_top_cmd s written).2 := by
  unfold _send_top_cmd _transmit_cmd
  dsimp only
  split_ifs
  · exact Boot.put rfl
  · exact Boot.put rfl
  · exact Boot.rest s

theorem process_DL_switch_boot (s : Hub) (now written : Nat) :
    Boot s (process_DL_switch s now written) := by
  unfold process_DL_switch
  by_cases h1 : s._run_loop_state = STATE_BEFORE_SEND
  · rw [if_pos h1]
    have h := send_top_cmd_boot s written
    generalize _send_top_cmd s written = r at h ⊢
    dsimp only
    split_ifs
    · exact h.chain (Boot.put rfl)
    · exact h
  · rw [if_neg h1]
    by_cases h2 : s._run_loop_state = STATE_AFTER_SEND_BEFORE_RCV
    · rw [if_pos h2]
      have h := receive_cmd_boot s
      generalize _receive_cmd s = r at h ⊢
      obtain ⟨o, s1⟩ := r
      cases o with
      | none =>
        dsimp only at h ⊢
        split_ifs
        · exact h.chain (Boot.put rfl)
        · exact h
      | some reply =>
        dsimp only at h ⊢
        exact h.chain (Boot.put rfl)
    · rw [if_neg h2]
      by_cases h3 : s._run_loop_state = STATE_AFTER_RCV_BEFORE_PROCESS
      · rw [if_pos h3]
        have h := process_next_msg_boot s now
        generalize ( _process_next_msg s now).2 = t at h ⊢
        dsimp only
        exact h.chain (Boot.put rfl)
      · rw [if_neg h3]
        exact Boot.rest s

/-- A step `_process_DL` leaves the members of the bring-up as they are. -/
theorem process_DL_boot (s : Hub) (now written : Nat) : Boot s ( _process_DL s now written) := by
  have h := process_DL_switch_boot s now written
  rw [process_DL_eq]
  generalize process_DL_switch s now written = t at h ⊢
  split_ifs
  · exact h.chain (Boot.put rfl)
  · exact h

theorem Resets.of_boot {s t : Hub} (h : Boot s t) : Resets s t :=
  ⟨congrArg (fun x => x.2.1) h, congrArg (fun x => x.2.2.2.1) h,
    congrArg (fun x => x.2.2.2.2) h, Or.inl (congrArg (fun x => x.1) h)⟩

theorem Resets.nothing (s : Hub) : Resets s s := ⟨rfl, rfl, rfl, Or.inl rfl⟩

theorem Resets.both {s t u : Hub} (h1 : Resets s t) (h2 : Resets t u) : Resets s u := by
  obtain ⟨a1, b1, c1, d1⟩ := h1
  obtain ⟨a2, b2, c2, d2⟩ := h2
  refine ⟨a2.trans a1, b2.trans b1, c2.trans c1, ?_⟩
  rcases d2 with d2 | d2
  · rw [d2]
    exact d1
  · exact Or.inr d2

theorem Resets.guarded {s : Hub} (c : Bool) {r : Bool × Hub} (h : Resets s r.2) :
    Resets s (if c then (false, s) else r).2 := by
  cases c
  · exact h
  · exact Resets.nothing s

theorem Resets.inv {s t : Hub} (h : Resets s t) (hi : BootInv s) : BootInv t := by
  obtain ⟨a, b, c, d⟩ := h
  obtain ⟨i1, i2, i3⟩ := hi
  refine ⟨c.trans i1, b.trans i2, fun hr => ?_⟩
  rcases d with d | d
  · rw [a]
    exact i3 (d ▸ hr)
  · rw [d] at hr
    exact absurd hr Bool.false_ne_true

theorem enqueue_cmd_resets (s : Hub) (tok : Nat) (payload : List Nat) :
    Resets s (enqueue_cmd s tok payload).2 :=
  Resets.of_boot (enqueue_cmd_boot s tok payload)

theorem ResetDI_resets (s : Hub) : Resets s (ResetDI s).2 := by
  unfold ResetDI _create_dl_cmd_with
  split_ifs
  · exact Resets.nothing s
  · exact ⟨rfl, rfl, rfl, Or.inr rfl⟩
  · exact Resets.nothing s

theorem SetLights_resets (s : Hub) (a b c d : Nat) : Resets s (SetLights s a b c d).2 :=
  Resets.guarded _ (enqueue_cmd_resets s _ _)

theorem SetLightsRGB_resets (s : Hub) (a b c d e : Nat) :
    Resets s (SetLightsRGB s a b c d e).2 :=
  Resets.guarded _ (enqueue_cmd_resets s _ _)

theorem SetLights_flash_resets (s : Hub) (a b c d e : Nat) :
    Resets s (SetLights_flash s a b c d e).2 :=
  Resets.guarded _ (enqueue_cmd_resets s _ _)

theorem SetLightsRGB_flash_resets (s : Hub) (a b c d e f : Nat) :
    Resets s (SetLightsRGB_flash s a b c d e f).2 :=
  Resets.guarded _ (enqueue_cmd_resets s _ _)

theorem PlayTone_resets (s : Hub) (a b c : Nat) : Resets s (PlayTone s a b c).2 :=
  Resets.guarded _ (enqueue_cmd_resets s _ _)

theorem SetDLInitValues_resets (s : Hub) (a b c d e f g : Int) :
    Resets s (SetDLInitValues s a b c d e f g).2 := by
  unfold SetDLInitValues
  split_ifs
  · exact Resets.nothing s
  · exact Resets.nothing s
  · dsimp only
    refine Resets.both ?_ (ResetDI_resets _)
    iterate 6 refine Resets.both ?_ (enqueue_cmd_resets _ _ _)
    exact enqueue_cmd_resets _ _ _

theorem GetDLInitValues_resets (s : Hub) : Resets s (GetDLInitValues s) := by
  unfold GetDLInitValues
  dsimp only
  iterate 6 refine Resets.both ?_ (enqueue_cmd_resets _ _ _)
  exact enqueue_cmd_resets _ _ _

theorem apply_indicator_resets (s : Hub) (ilstate : Nat) :
    Resets s ( _apply_desired_indicator_light s ilstate).2 := by
  unfold _apply_desired_indicator_light
  by_cases h : ilstate = s._current_ilstate
  · rw [if_pos h]
    exact Resets.nothing s
  · rw [if_neg h]
    dsimp only
    refine Resets.both ?_ (Resets.of_boot (Boot.put rfl))
    split_ifs
    · exact SetLights_resets s _ _ _ _
    · exact SetLightsRGB_flash_resets s _ _ _ _ _ _
    · exact SetLightsRGB_flash_resets s _ _ _ _ _ _
    · exact SetLightsRGB_resets s _ _ _ _ _
    · exact Resets.nothing s

theorem process_config_init_resets (s : Hub) (now : Nat) :
    Resets s ( _process_config_init s now) := by
  unfold _process_config_init
  split_ifs
  · exact Resets.of_boot (Boot.put rfl)
  · exact Resets.nothing s
  · exact (GetDLInitValues_resets s).both (Resets.of_boot (Boot.put rfl))
  · exact Resets.of_boot (Boot.put rfl)
  · exact Resets.of_boot (Boot.put rfl)
  · exact Resets.nothing s
  · exact (SetDLInitValues_resets s _ _ _ _ _ _ _).both (Resets.of_boot (Boot.put rfl))
  · exact Resets.nothing s

theorem run_reset_check_resets (s : Hub) (now : Nat) : Resets s (run_reset_check s now) := by
  unfold run_reset_check
  have h := ResetDI_resets s
  generalize ResetDI s = r at h ⊢
  dsimp only
  split_ifs
  · exact h.both (Resets.of_boot (Boot.put rfl))
  · exact h
  · exact Resets.nothing s
  · exact Resets.of_boot (Boot.put rfl)
  · exact Resets.nothing s

theorem run_config_init_resets (s : Hub) (now : Nat) : Resets s (run_config_init s now) := by
  unfold run_config_init
  split_ifs
  · exact process_config_init_resets s now
  · exact Resets.nothing s

theorem run_poll_diag_resets (s : Hub) (now : Nat) : Resets s (run_poll_diag s now) := by
  unfold run_poll_diag
  have h : Resets s ( _poll_diag s).2 := enqueue_cmd_resets s _ _
  generalize ( _poll_diag s).2 = t at h ⊢
  dsimp only
  split_ifs
  · exact h.both (Resets.of_boot (Boot.put rfl))
  · exact Resets.nothing s
  · exact Resets.nothing s

theorem run_poll_buttons_resets (s : Hub) (now : Nat) : Resets s (run_poll_buttons s now) := by
  unfold run_poll_buttons
  have h : Resets s ( _poll_buttons s).2 := enqueue_cmd_resets s _ _
  generalize ( _poll_buttons s).2 = t at h ⊢
  dsimp only
  split_ifs
  · exact h.both (Resets.of_boot (Boot.put rfl))
  · exact Resets.nothing s
  · exact Resets.nothing s

theorem run_poll_indlight_resets (s : Hub) (now : Nat) :
    Resets s (run_poll_indlight s now) := by
  unfold run_poll_indlight
  have h : Resets s ( _poll_indlight s) := apply_indicator_resets s _
  generalize _poll_indlight s = t at h ⊢
  dsimp only
  split_ifs
  · exact h.both (Resets.of_boot (Boot.put rfl))
  · exact Resets.nothing s
  · exact Resets.nothing s

theorem PresentAndCheckFoodtreat_resets (s : Hub) (now d : Nat) :
    Resets s (PresentAndCheckFoodtreat s now d).2 := by
  unfold PresentAndCheckFoodtreat
  by_cases h1 : s._foodmachine_state = FOODMACHINE_LID_OPEN ∨ s._foodmachine_state > FOODMACHINE_WAIT
  · rw [if_pos h1]
    dsimp only
    have h := Resets.of_boot (ResetFoodMachine_boot s)
    generalize (ResetFoodMachine s).2 = t at h ⊢
    split_ifs
    · exact h.both (Resets.of_boot (Boot.put rfl))
    · exact Resets.nothing s
  · rw [if_neg h1]
    by_cases h2 : s._pact_foodtreat_state = PACT_BEFORE_PRESENT
    · rw [if_pos h2]
      dsimp only
      by_cases h3 : s._foodmachine_state = FOODMACHINE_IDLE
      · rw [if_pos h3]
        have ha : Resets s (PresentFoodtreat s 0).2 := enqueue_cmd_resets s _ _
        have hb : Resets s (PresentFoodtreat s ( _milliseconds_to_deciseconds_for_DL_T d)).2 :=
          enqueue_cmd_resets s _ _
        generalize PresentFoodtreat s 0 = ra at ha ⊢
        generalize PresentFoodtreat s ( _milliseconds_to_deciseconds_for_DL_T d) = rb at hb ⊢
        split_ifs
        · exact ha.both (Resets.of_boot (Boot.put rfl))
        · exact ha
        · exact hb.both (Resets.of_boot (Boot.put rfl))
        · exact hb
      · rw [if_neg h3]
        exact Resets.nothing s
    · rw [if_neg h2]
      by_cases h4 : s._pact_foodtreat_state = PACT_PLATTER_OUT
      · rw [if_pos h4]
        split_ifs
        · exact Resets.of_boot (Boot.put rfl)
        · exact Resets.nothing s
      · rw [if_neg h4]
        by_cases h5 : s._pact_foodtreat_state = PACT_WAIT_TIL_BACK
        · rw [if_pos h5]
          have h : Resets s (RetractTray s).2 := enqueue_cmd_resets s _ _
          generalize RetractTray s = r at h ⊢
          dsimp only
          split_ifs
          · exact Resets.of_boot (Boot.put rfl)
          · exact h.both (Resets.of_boot (Boot.put rfl))
          · exact h
          · exact Resets.nothing s
          · exact Resets.nothing s
        · rw [if_neg h5]
          dsimp only
          split_ifs
          · exact Resets.of_boot (Boot.put rfl)
          · exact Resets.of_boot (Boot.put rfl)
          · exact Resets.nothing s
          · exact Resets.nothing s

theorem Initialize_resets (s : Hub) : Resets s (Initialize s).2 := by
  unfold Initialize
  dsimp only
  refine Resets.both ?_ (SetLights_resets _ _ _ _ _)
  refine Resets.both ?_ (PlayTone_resets _ _ _ _)
  refine Resets.both (ResetDI_resets s) ?_
  generalize (ResetDI s).2 = t
  exact Resets.of_boot (Boot.put rfl)

theorem SetRandomButtonLights_resets (s : Hub) (v : List Nat) (a b c d e : Nat) :
    Resets s (SetRandomButtonLights s v a b c d e).2 := by
  unfold SetRandomButtonLights
  dsimp only
  have h := SetLights_flash_resets s
    ((List.range a).foldl (fun t cntr => t ||| v.getD cntr 0) 0) b c d e
  generalize SetLights_flash s ((List.range a).foldl (fun t cntr => t ||| v.getD cntr 0) 0)
    b c d e = r at h ⊢
  split_ifs <;> exact h

/-- Every operation of a script other than a pass of `Run` leaves the bring-up
as it is, or clears the readiness flag. -/
theorem call_resets (s : Hub) (c : Call) (hc : ∀ e, c ≠ Call.Run_pass e) :
    Resets s (call s c) := by
  cases c with
  | Run_pass e => exact absurd rfl (hc e)
  | serial_arrive bytes => exact Resets.of_boot (Boot.put rfl)
  | Initialize_ => exact Initialize_resets s
  | SetLights a b c d => exact SetLights_resets s a b c d
  | SetLightsRGB a b c d e => exact SetLightsRGB_resets s a b c d e
  | SetLights_flash a b c d e => exact SetLights_flash_resets s a b c d e
  | SetLightsRGB_flash a b c d e f => exact SetLightsRGB_flash_resets s a b c d e f
  | SetRandomButtonLights v a b c d e => exact SetRandomButtonLights_resets s v a b c d e
  | PlayAudio a b => exact Resets.of_boot (PlayAudio_boot s a b)
  | PlayTone a b c => exact PlayTone_resets s a b c
  | PresentFoodtreat d => exact enqueue_cmd_resets s _ _
  | PresentAndCheckFoodtreat now d => exact PresentAndCheckFoodtreat_resets s now d
  | RetractTray => exact enqueue_cmd_resets s _ _
  | SetConfigValue a v => exact enqueue_cmd_resets s _ _
  | GetConfigValue a => exact enqueue_cmd_resets s _ _
  | GetDLInitValues => exact GetDLInitValues_resets s
  | SetDLInitValues a b c d e f g => exact SetDLInitValues_resets s a b c d e f g
  | SetDIResetLock b => exact Resets.of_boot (Boot.put rfl)
  | ResetDI => exact ResetDI_resets s
  | ResetFoodMachine => exact Resets.of_boot (ResetFoodMachine_boot s)
  | UpdateButtonAudioEnabled => exact Resets.of_boot (UpdateButtonAudioEnabled_boot s)
  | SetAudioEnabled b => exact Resets.of_boot (Boot.put rfl)
  | SetButtonAudioEnabled b => exact Resets.of_boot (Boot.put rfl)
  | SetMaxAudioAmplitude a => exact Resets.of_boot (Boot.put rfl)
  | SetLightEnabled b => exact Resets.of_boot (Boot.put rfl)
  | SetMaxLightAmplitude a => exact Resets.of_boot (Boot.put rfl)
  | SetDoPollButtons b => exact Resets.of_boot (Boot.put rfl)
  | SetDoPollDiagnostics b => exact Resets.of_boot (Boot.put rfl)
  | SetDoPollIndLight b => exact Resets.of_boot (Boot.put rfl)

theorem BootInv.kept {s t : Hub} (h : Boot s t) (hi : BootInv s) : BootInv t :=
  (Resets.of_boot h).inv hi

theorem initialize_inv (s : Hub) (now written : Nat) (hi : BootInv s) :
    BootInv ( _initialize s now written).2 := by
  obtain ⟨i1, i2, i3⟩ := hi
  unfold _initialize
  dsimp only
  by_cases h1 : s._init_dl_state = DLINIT_WAIT_BOOT
  · rw [if_pos h1]
    split_ifs
    · exact ⟨i1, i2, fun h => absurd h Bool.false_ne_true⟩
    · exact ⟨i1, i2, fun h => absurd h Bool.false_ne_true⟩
  · rw [if_neg h1]
    by_cases h2 : s._init_dl_state = DLINIT_SEND
    · rw [if_pos h2]
      have h : Resets s (RetractTray (PlayTone (SetLights s LIGHT_ALL 0 0 0).2 1000 0 2).2).2 :=
        ((SetLights_resets s _ _ _ _).both (PlayTone_resets _ _ _ _)).both
          (enqueue_cmd_resets _ _ _)
      generalize (RetractTray (PlayTone (SetLights s LIGHT_ALL 0 0 0).2 1000 0 2).2).2 = t at h ⊢
      obtain ⟨a, b, c, d⟩ := h
      refine ⟨c.trans i1, b.trans i2, fun hr => ?_⟩
      have hr2 : t._dl_is_ready = true := hr
      rcases d with d | d
      · exact absurd (i3 (d ▸ hr2)) h1
      · rw [d] at hr2
        exact absurd hr2 Bool.false_ne_true
    · rw [if_neg h2]
      by_cases h3 : s._init_dl_state = DLINIT_PROCESS
      · rw [if_pos h3]
        refine BootInv.kept (process_DL_boot _ _ _) ?_
        split_ifs
        · exact ⟨i1, i2, fun _ => rfl⟩
        · exact ⟨i1, i2, i3⟩
      · rw [if_neg h3]
        exact ⟨i1, i2, i3⟩

theorem Run_pass_ready_resets (s : Hub) (e : Pass) :
    Resets s (( _handle_dl_errors (run_poll_indlight (run_poll_buttons (run_poll_diag
      ( _process_DL (run_config_init (run_reset_check s e.t_reset) e.t_config) e.t_link
        e.written) e.t_diag) e.t_btn) e.t_ind)).2) := by
  have h0 := (run_reset_check_resets s e.t_reset).both (run_config_init_resets _ e.t_config)
  have h1 := h0.both (Resets.of_boot (process_DL_boot _ e.t_link e.written))
  generalize _process_DL (run_config_init (run_reset_check s e.t_reset) e.t_config) e.t_link
    e.written = x at h1 ⊢
  have p1 := run_poll_diag_resets x e.t_diag
  have p2 := run_poll_buttons_resets (run_poll_diag x e.t_diag) e.t_btn
  have p3 := run_poll_indlight_resets (run_poll_buttons (run_poll_diag x e.t_diag) e.t_btn) e.t_ind
  have p4 : Resets (run_poll_indlight (run_poll_buttons (run_poll_diag x e.t_diag) e.t_btn) e.t_ind)
      ( _handle_dl_errors
        (run_poll_indlight (run_poll_buttons (run_poll_diag x e.t_diag) e.t_btn) e.t_ind)).2 :=
    Resets.of_boot (Boot.put rfl)
  exact (((h1.both p1).both p2).both p3).both p4

theorem Run_pass_inv (s : Hub) (e : Pass) (hi : BootInv s) : BootInv (Run_pass s e) := by
  unfold Run_pass
  by_cases hr : (!s._dl_is_ready) = true
  · rw [if_pos hr]
    exact initialize_inv s _ _ hi
  · rw [if_neg hr]
    exact (Run_pass_ready_resets s e).inv hi

theorem call_inv (s : Hub) (c : Call) (hi : BootInv s) : BootInv (call s c) := by
  by_cases hc : ∃ e, c = Call.Run_pass e
  · obtain ⟨e, rfl⟩ := hc
    exact Run_pass_inv s e hi
  · exact (call_resets s c (fun e h => hc ⟨e, h⟩)).inv hi

/-- After any script from a freshly constructed engine the two waits have their
values of the constructor, and a ready engine is in state `DLINIT_WAIT_BOOT`. -/
theorem calls_inv (bootup : Nat) (cs : List Call) : BootInv (calls (HubInterface bootup) cs) := by
  have h : ∀ (l : List Call) (s : Hub), BootInv s → BootInv (calls s l) := by
    intro l
    induction l with
    | nil => intro s hs; exact hs
    | cons c rest ih => intro s hs; exact ih _ (call_inv s c hs)
  exact h cs _ ⟨rfl, rfl, fun hr => rfl⟩

theorem ResetDI_waiting (s : Hub) (hi : BootInv s) (hready : s._dl_is_ready = true)
    (hlock : s._csf_DI_reset_locked = false) :
    (ResetDI s).1 = true ∧ Waiting (ResetDI s).2 := by
  have hg : (s._csf_DI_reset_locked == false) = true := by rw [hlock]; rfl
  have hl : ¬ (strlen [0] ≥ 999) := by decide
  unfold ResetDI _create_dl_cmd_with
  rw [if_pos hg, if_neg hl]
  exact ⟨rfl, rfl, hi.2.2 hready, hi.1, hi.2.1⟩

theorem pass_waiting_early (s : Hub) (e : Pass) (hw : Waiting s) (he : e.t_init ≤ 3050) :
    Waiting (Run_pass s e) := by
  obtain ⟨w1, w2, w3, w4⟩ := hw
  have hr : (!s._dl_is_ready) = true := by rw [w1]; rfl
  have hn : ¬ (e.t_init > s._wait_dl_boot_ms) := by rw [w3]; omega
  unfold Run_pass
  rw [if_pos hr]
  unfold _initialize
  dsimp only
  rw [if_pos w2, if_neg hn]
  exact ⟨rfl, w2, w3, w4⟩

theorem pass_waiting_late (s : Hub) (e : Pass) (hw : Waiting s) (he : 3050 < e.t_init) :
    (Run_pass s e)._dl_is_ready = false ∧ (Run_pass s e)._init_dl_state = DLINIT_SEND
    ∧ (Run_pass s e)._init_dl_process_ms = 300 := by
  obtain ⟨w1, w2, w3, w4⟩ := hw
  have hr : (!s._dl_is_ready) = true := by rw [w1]; rfl
  have hn : e.t_init > s._wait_dl_boot_ms := by rw [w3]; omega
  unfold Run_pass
  rw [if_pos hr]
  unfold _initialize
  dsimp only
  rw [if_pos w2, if_pos hn]
  exact ⟨rfl, rfl, w4⟩

theorem pass_send (s : Hub) (e : Pass) (h1 : s._dl_is_ready = false)
    (h2 : s._init_dl_state = DLINIT_SEND) (h3 : s._init_dl_process_ms = 300) :
    (Run_pass s e)._dl_is_ready = false ∧ (Run_pass s e)._init_dl_state = DLINIT_PROCESS
    ∧ (Run_pass s e)._init_dl_process_ms = 300 ∧ (Run_pass s e)._init_dl_start = e.t_init := by
  have hr : (!s._dl_is_ready) = true := by rw [h1]; rfl
  have hn : ¬ (s._init_dl_state = DLINIT_WAIT_BOOT) := by rw [h2]; decide
  have h : Resets s (RetractTray (PlayTone (SetLights s LIGHT_ALL 0 0 0).2 1000 0 2).2).2 :=
    ((SetLights_resets s _ _ _ _).both (PlayTone_resets _ _ _ _)).both
      (enqueue_cmd_resets _ _ _)
  unfold Run_pass
  rw [if_pos hr]
  unfold _initialize
  dsimp only
  rw [if_neg hn, if_pos h2]
  generalize (RetractTray (PlayTone (SetLights s LIGHT_ALL 0 0 0).2 1000 0 2).2).2 = t at h ⊢
  obtain ⟨_, b, _, d⟩ := h
  refine ⟨?_, rfl, b.trans h3, rfl⟩
  rcases d with d | d
  · exact d.trans h1
  · exact d

theorem pass_process (s : Hub) (e : Pass) (h1 : s._dl_is_ready = false)
    (h2 : s._init_dl_state = DLINIT_PROCESS)
    (he : (s._init_dl_start + s._init_dl_process_ms) % ULONG < e.t_init) :
    (Run_pass s e)._dl_is_ready = true := by
  have hr : (!s._dl_is_ready) = true := by rw [h1]; rfl
  have hn : ¬ (s._init_dl_state = DLINIT_WAIT_BOOT) := by rw [h2]; decide
  have hm : ¬ (s._init_dl_state = DLINIT_SEND) := by rw [h2]; decide
  have hg : e.t_init > (s._init_dl_start + s._init_dl_process_ms) % ULONG := he
  unfold Run_pass
  rw [if_pos hr]
  unfold _initialize
  dsimp only
  rw [if_neg hn, if_neg hm, if_pos h2, if_pos hg]
  exact congrArg (fun x => x.1) (process_DL_boot _ e.t_init e.written)

theorem passes_waiting_early (es : List Pass) :
    ∀ s : Hub, Waiting s → (∀ e ∈ es, e.t_init ≤ 3050) → Waiting (es.foldl Run_pass s) := by
  induction es with
  | nil => intro s hs _; exact hs
  | cons e rest ih =>
    intro s hs he
    exact ih _ (pass_waiting_early s e hs (he e (List.mem_cons_self _ _)))
      (fun x hx => he x (List.mem_cons_of_mem _ hx))

theorem two_passes_not_ready (s : Hub) (p q : Pass) (hw : Waiting s) :
    (Run_pass s p)._dl_is_ready = false ∧ (Run_pass (Run_pass s p) q)._dl_is_ready = false := by
  rcases Nat.lt_or_ge 3050 p.t_init with hp | hp
  · obtain ⟨a, b, c⟩ := pass_waiting_late s p hw hp
    exact ⟨a, (pass_send _ q a b c).1⟩
  · have h := pass_waiting_early s p hw hp
    refine ⟨h.1, ?_⟩
    rcases Nat.lt_or_ge 3050 q.t_init with hq | hq
    · exact (pass_waiting_late _ q h hq).1
    · exact (pass_waiting_early _ q h hq).1

/-- C40, amended.  The boot wait is measured from power-on.  In a state that a
script has reached from a freshly constructed engine and in which the engine
is ready, with the reset lock not held, `ResetDI` succeeds and makes the engine
not ready.  After it `IsReady()` is not true again after any passes of `Run`
made while `millis()` is at most 3050 ms, nor after one or two passes made at
any times.  It is true again after three passes (that may follow such early
ones) of which the first is made when `millis()` is above 3050 ms, the wait
that gives the device board time to load from its bootloader, and the third
when `millis()` is above the time of the second plus 300 ms (as `unsigned long`):
no time of the reset enters, so after a reset later than 3050 ms after power-on
nothing waits for 3050 ms. -/
theorem boot_wait_is_measured_from_power_on (bootup : Nat) (cs : List Call) (s : Hub)
    (es : List Pass) (e1 e2 e3 : Pass)
    (hs : s = calls (HubInterface bootup) cs)
    (hready : IsReady s = true)
    (hlock : s._csf_DI_reset_locked = false)
    (hearly : ∀ e ∈ es, e.t_init ≤ 3050)
    (h1 : 3050 < e1.t_init)
    (h3 : (e2.t_init + 300) % ULONG < e3.t_init) :
    (ResetDI s).1 = true
    ∧ IsReady (ResetDI s).2 = false
    ∧ IsReady (Run (ResetDI s).2 es).2 = false
    ∧ (∀ p q : Pass, IsReady (Run (ResetDI s).2 [p]).2 = false
        ∧ IsReady (Run (ResetDI s).2 [p, q]).2 = false)
    ∧ IsReady (Run (ResetDI s).2 (es ++ [e1, e2])).2 = false
    ∧ IsReady (Run (ResetDI s).2 (es ++ [e1, e2, e3])).2 = true := by
  have hi : BootInv s := hs ▸ calls_inv bootup cs
  obtain ⟨r1, hw⟩ := ResetDI_waiting s hi hready hlock
  have hes := passes_waiting_early es _ hw hearly
  obtain ⟨a1, b1, c1⟩ := pass_waiting_late _ e1 hes h1
  obtain ⟨a2, b2, c2, d2⟩ := pass_send _ e2 a1 b1 c1
  have h3b : ((Run_pass (Run_pass (es.foldl Run_pass (ResetDI s).2) e1) e2)._init_dl_start
      + (Run_pass (Run_pass (es.foldl Run_pass (ResetDI s).2) e1) e2)._init_dl_process_ms)
        % ULONG < e3.t_init := by
    rw [d2, c2]
    exact h3
  have a3 := pass_process _ e3 a2 b2 h3b
  refine ⟨r1, hw.1, hes.1, fun p q => two_passes_not_ready _ p q hw, ?_, ?_⟩
  · unfold IsReady Run
    rw [List.foldl_append]
    exact a2
  · unfold IsReady Run
    rw [List.foldl_append]
    exact a3

/-- C40 fails as stated.  The engine is brought up after power-on (ready at
3353 ms).  At 10000 ms a script calls `ResetDI`, which succeeds and makes the
engine not ready.  Three passes of `Run` at 10001, 10002 and 10303 ms make
`IsReady()` true again, 303 ms after the reset and long before
10000 + 3050 ms: the wait compares `millis()` itself with 3050. -/
theorem ready_again_303_ms_after_reset :
    IsReady (calls (HubInterface 0)
        [Call.Run_pass (pass_at 3051 0), Call.Run_pass (pass_at 3052 0),
          Call.Run_pass (pass_at 3353 0)]) = true
    ∧ (ResetDI (calls (HubInterface 0)
        [Call.Run_pass (pass_at 3051 0), Call.Run_pass (pass_at 3052 0),
          Call.Run_pass (pass_at 3353 0)])).1 = true
    ∧ IsReady (calls (HubInterface 0)
        [Call.Run_pass (pass_at 3051 0), Call.Run_pass (pass_at 3052 0),
          Call.Run_pass (pass_at 3353 0), Call.ResetDI]) = false
    ∧ IsReady (calls (HubInterface 0)
        [Call.Run_pass (pass_at 3051 0), Call.Run_pass (pass_at 3052 0),
          Call.Run_pass (pass_at 3353 0), Call.ResetDI,
          Call.Run_pass (pass_at 10001 0), Call.Run_pass (pass_at 10002 0),
          Call.Run_pass (pass_at 10303 0)]) = true := by
  decide

theorem boot_wait_is_measured_from_power_on_witness :
    (ResetDI (calls (HubInterface 0)
        [Call.Run_pass (pass_at 3051 0), Call.Run_pass (pass_at 3052 0),
          Call.Run_pass (pass_at 3353 0)])).1 = true
    ∧ IsReady (Run (ResetDI (calls (HubInterface 0)
        [Call.Run_pass (pass_at 3051 0), Call.Run_pass (pass_at 3052 0),
          Call.Run_pass (pass_at 3353 0)])).2
        ([] ++ [pass_at 10001 0, pass_at 10002 0, pass_at 10303 0])).2 = true :=
  have h := boot_wait_is_measured_from_power_on 0
    [Call.Run_pass (pass_at 3051 0), Call.Run_pass (pass_at 3052 0),
      Call.Run_pass (pass_at 3353 0)] _ [] (pass_at 10001 0) (pass_at 10002 0) (pass_at 10303 0)
    rfl (by decide) (by decide) (by decide) (by decide) (by decide)
  ⟨h.1, h.2.2.2.2.2⟩

/-! ## C18: the token of every command -/

theorem enqueue_cmd_queued (s : Hub) (tok : Nat) (payload : List Nat)
    (hlen : payload.length < 999) (hseq : s._packet_number < 10) :
    Queued tok s (enqueue_cmd s tok payload) := by
  have hl : strlen payload < 999 := Nat.lt_of_le_of_lt (strlen_le payload) hlen
  unfold Queued enqueue_cmd
  rw [create_dl_cmd_take s tok payload hl hseq]
  exact ⟨rfl, _, rfl, by simp [byteAt], by simp [byteAt]⟩

theorem fmt_0d_int_length (v : Int) (hlo : -2147483648 ≤ v) (hhi : v < 2147483648) :
    (fmt_0d_int 5 v).length ≤ 15 := by
  unfold fmt_0d_int
  split_ifs with h
  · have hn : v.natAbs < 10 ^ 10 := by
      have : (10 : Nat) ^ 10 = 10000000000 := by norm_num
      omega
    have := fmt_d_length v.natAbs 10 (by decide) hn
    simp only [List.length_append, List.length_singleton, List.length_replicate]
    omega
  · have hn : v.toNat < 10 ^ 10 := by
      have : (10 : Nat) ^ 10 = 10000000000 := by norm_num
      omega
    have := fmt_0d_length 5 v.toNat 10 (by decide) hn
    have m : max 5 10 = 10 := rfl
    rw [m] at this
    omega

theorem ResetDI_queued (s : Hub) (hseq : s._packet_number < 10)
    (hlock : s._csf_DI_reset_locked = false) : Queued 75 s (ResetDI s) := by
  have hg : (s._csf_DI_reset_locked == false) = true := by rw [hlock]; rfl
  unfold Queued ResetDI
  rw [if_pos hg, create_dl_cmd_eq s 75 [0] (by decide) hseq]
  exact ⟨rfl, _, rfl, by simp [byteAt], by simp [byteAt]⟩

theorem ResetFoodMachine_queued (s : Hub) (hseq : s._packet_number < 10) :
    Queued 70 s (ResetFoodMachine s) := by
  unfold Queued
  rw [ResetFoodMachine_eq s hseq]
  exact ⟨rfl, _, rfl, by simp [byteAt], by simp [byteAt]⟩

/-- C18. Token vocabulary.  With arguments of their C++ types (`unsigned char`,
`unsigned int` for the frequency, `int` for the configuration value; the
amplitude limits are `unsigned char` members), every operation that enqueues a
command returns `true` and appends one frame to the back of the queue, a frame
that starts with `$` and has the documented token at byte 5: `M` and `I` for
the lights with slew, `L` and `H` for the flashing lights (with the lights
enabled), `P` audio and `Q` tone (with the audio enabled), `T` present, `X`
retract, `B` touchpad poll, `Z` diagnostics poll, `K` device reset (with the
reset lock not held), `N` set and `U` get a configuration value, `F`
food-machine reset.  The seven operations behind a setting either do this or,
when the setting blocks them, return `false` and leave the queue as it is: none
of them ever enqueues a frame with another token. -/
theorem token_vocabulary (s : Hub) (which a b c period on_ freq dur id : Nat) (v : Int)
    (hseq : s._packet_number < 10)
    (hla : s._light_amplitude_max < 256) (haa : s._audio_amplitude_max < 256)
    (ha : a < 256) (hb : b < 256) (hc : c < 256) (hp : period < 256) (ho : on_ < 256)
    (hf : freq < 4294967296) (hd : dur < 256) (hid : id < 256)
    (hlo : -2147483648 ≤ v) (hhi : v < 2147483648) :
    (s._light_enabled = true →
        Queued 77 s (SetLights s which a b c)
        ∧ Queued 73 s (SetLightsRGB s which a b c period)
        ∧ Queued 76 s (SetLights_flash s which a b period on_)
        ∧ Queued 72 s (SetLightsRGB_flash s which a b c period on_))
    ∧ (s._audio_enabled = true →
        Queued 80 s (PlayAudio s a b) ∧ Queued 81 s (PlayTone s freq a b))
    ∧ Queued 84 s (PresentFoodtreat s dur)
    ∧ Queued 88 s (RetractTray s)
    ∧ Queued 66 s ( _poll_buttons s)
    ∧ Queued 90 s ( _poll_diag s)
    ∧ (s._csf_DI_reset_locked = false → Queued 75 s (ResetDI s))
    ∧ Queued 78 s (SetConfigValue s id v)
    ∧ Queued 85 s (GetConfigValue s id)
    ∧ Queued 70 s (ResetFoodMachine s)
    ∧ (Enqueues 77 s (SetLights s which a b c)
        ∧ Enqueues 73 s (SetLightsRGB s which a b c period)
        ∧ Enqueues 76 s (SetLights_flash s which a b period on_)
        ∧ Enqueues 72 s (SetLightsRGB_flash s which a b c period on_)
        ∧ Enqueues 80 s (PlayAudio s a b)
        ∧ Enqueues 81 s (PlayTone s freq a b)
        ∧ Enqueues 75 s (ResetDI s)) := by
  have ma := fmt_0d_length 2 _ 3 (by decide) (map0_lt a _ ha hla)
  have mb := fmt_0d_length 2 _ 3 (by decide) (map0_lt b _ hb hla)
  have mc := fmt_0d_length 2 _ 3 (by decide) (map0_lt c _ hc hla)
  have fc := fmt_0d_length 2 c 3 (by decide) (byte_lt_pow c hc)
  have fp := fmt_0d_length 2 period 3 (by decide) (byte_lt_pow period hp)
  have fo := fmt_0d_length 2 on_ 3 (by decide) (byte_lt_pow on_ ho)
  have va := fmt_0d_length 2 _ 3 (by decide) (map0_lt a _ ha haa)
  have vb := fmt_0d_length 2 _ 3 (by decide) (map0_lt b _ hb haa)
  have fa := fmt_d_length a 3 (by decide) (byte_lt_pow a ha)
  have fb := fmt_0d_length 1 b 3 (by decide) (byte_lt_pow b hb)
  have ff := fmt_0d_length 5 freq 10 (by decide) (Nat.lt_trans hf (by decide))
  have fd := fmt_0d_length 2 dur 3 (by decide) (byte_lt_pow dur hd)
  have fi := fmt_0d_length 2 id 3 (by decide) (byte_lt_pow id hid)
  have fv := fmt_0d_int_length v hlo hhi
  have m23 : max 2 3 = 3 := rfl
  have m13 : max 1 3 = 3 := rfl
  have m510 : max 5 10 = 10 := rfl
  rw [m23] at ma mb mc fc fp fo va vb fd fi
  rw [m13] at fb
  rw [m510] at ff
  refine ⟨?_, ?_, ?_, ?_, ?_, ?_, ResetDI_queued s hseq, ?_, ?_, ResetFoodMachine_queued s hseq,
    Enqueues.of_guard _ (enqueue_cmd_token s _ _ hseq),
    Enqueues.of_guard _ (enqueue_cmd_token s _ _ hseq),
    Enqueues.of_guard _ (enqueue_cmd_token s _ _ hseq),
    Enqueues.of_guard _ (enqueue_cmd_token s _ _ hseq),
    Enqueues.of_guard _ (enqueue_cmd_token s _ _ hseq),
    Enqueues.of_guard _ (enqueue_cmd_token s _ _ hseq), ResetDI_token s hseq⟩
  · intro hen
    have hg : (!s._light_enabled) = false := by rw [hen]; rfl
    unfold SetLights SetLightsRGB SetLights_flash SetLightsRGB_flash
    simp only [hg, Bool.false_eq_true, if_false]
    refine ⟨?_, ?_, ?_, ?_⟩
    · exact enqueue_cmd_queued _ 77 _
        (by simp only [List.length_append, List.length_singleton]; omega) hseq
    · exact enqueue_cmd_queued _ 73 _
        (by simp only [List.length_append, List.length_singleton]; omega) hseq
    · exact enqueue_cmd_queued _ 76 _
        (by simp only [List.length_append, List.length_singleton]; omega) hseq
    · exact enqueue_cmd_queued _ 72 _
        (by simp only [List.length_append, List.length_singleton]; omega) hseq
  · intro hen
    have hg : (!s._audio_enabled) = false := by rw [hen]; rfl
    unfold PlayAudio PlayTone
    simp only [hg, Bool.false_eq_true, if_false]
    refine ⟨?_, ?_⟩
    · exact enqueue_cmd_queued _ 80 _
        (by simp only [List.length_append, List.length_singleton]; omega) hseq
    · exact enqueue_cmd_queued _ 81 _
        (by simp only [List.length_append, List.length_singleton]; omega) hseq
  · exact enqueue_cmd_queued _ 84 _
      (by simp only [List.length_append, List.length_singleton]; omega) hseq
  · exact enqueue_cmd_queued _ 88 _ (by decide) hseq
  · exact enqueue_cmd_queued _ 66 _ (by decide) hseq
  · exact enqueue_cmd_queued _ 90 _ (by decide) hseq
  · exact enqueue_cmd_queued _ 78 _
      (by simp only [List.length_append, List.length_singleton]; omega) hseq
  · exact enqueue_cmd_queued _ 85 _
      (by simp only [List.length_append, List.length_singleton]; omega) hseq

theorem token_vocabulary_witness :
    (Queued 77 (HubInterface 0) (SetLights (HubInterface 0) LIGHT_LEFT 50 20 0)
      ∧ Queued 73 (HubInterface 0) (SetLightsRGB (HubInterface 0) LIGHT_LEFT 50 20 0 5)
      ∧ Queued 76 (HubInterface 0) (SetLights_flash (HubInterface 0) LIGHT_LEFT 50 20 5 7)
      ∧ Queued 72 (HubInterface 0) (SetLightsRGB_flash (HubInterface 0) LIGHT_LEFT 50 20 0 5 7))
    ∧ Queued 75 (HubInterface 0) (ResetDI (HubInterface 0))
    ∧ Queued 78 (HubInterface 0) (SetConfigValue (HubInterface 0) 3 (-12))
    ∧ (SetLights (HubInterface 0) LIGHT_LEFT 50 20 0).2._cmd_queue
        = [ascii "$0070M1A502000." ++ [0]]
    ∧ (SetConfigValue (HubInterface 0) 3 (-12)).2._cmd_queue = [ascii "$0070N103-0012." ++ [0]] :=
  have h := token_vocabulary (HubInterface 0) LIGHT_LEFT 50 20 0 5 7 440 30 3 (-12) (by decide)
    (by decide) (by decide) (by decide) (by decide) (by decide) (by decide) (by decide)
    (by decide) (by decide) (by decide) (by decide) (by decide)
  ⟨h.1 (by decide), h.2.2.2.2.2.2.1 (by decide), h.2.2.2.2.2.2.2.1, by decide, by decide⟩

end HackerPet
